import Mathlib

/-!
# GnuTLS public-key back end (`lib/nettle/pk.c`): a shallow embedding

The definitions below follow `lib/nettle/pk.c` function by function and keep
its names.  Conventions of the embedding:

* C `int` results are `Int`; negative values are errors, as in the source.
* `bigint_t` is `Option Nat`: `none` is the `NULL` pointer, `some v` an
  allocated non-negative integer (the values the scanning routines produce).
* A `gnutls_datum_t` keeps its `data` pointer (`none` is `NULL`) and its
  `size` field separately, because the source frees the one without touching
  the other.
* The process-wide library state and the compliance (FIPS operation) state
  are fields of `World`, threaded through every entry point; `World` also
  records every write of the compliance state and every arithmetic or
  cryptographic primitive that was invoked, in order.
* Everything that lives outside `pk.c` (the nettle and leancrypto primitives,
  the random generator, look-up tables and configuration switches) is a field
  of `Env`; theorems quantify over it.
* Memory allocation is taken to succeed, so the `GNUTLS_E_MEMORY_ERROR`
  branches that only guard `malloc` or `mpz` initialisation are not modelled.
* The build modelled is the one with `ENABLE_FIPS140`, `ENABLE_DSA`,
  `ENABLE_GOST`, `ENABLE_NON_SUITEB_CURVES` and `HAVE_LEANCRYPTO` defined.
-/

namespace GnutlsPk

/-! ## Error codes -/

/-- Modelled from the spec: the error codes come from `gnutls.h`, which is not
among the sources; the spec gives error kinds only.  The numeric values are
the ones of the public header; all that the development relies on is that they
are negative and pairwise distinct. -/
abbrev GNUTLS_E_RECEIVED_ILLEGAL_PARAMETER : Int := -6

/-- Modelled from the spec: see `GNUTLS_E_RECEIVED_ILLEGAL_PARAMETER`. -/
abbrev GNUTLS_E_MPI_SCAN_FAILED : Int := -23

/-- Modelled from the spec: see `GNUTLS_E_RECEIVED_ILLEGAL_PARAMETER`. -/
abbrev GNUTLS_E_DECRYPTION_FAILED : Int := -24

/-- Modelled from the spec: see `GNUTLS_E_RECEIVED_ILLEGAL_PARAMETER`. -/
abbrev GNUTLS_E_MEMORY_ERROR : Int := -25

/-- Modelled from the spec: see `GNUTLS_E_RECEIVED_ILLEGAL_PARAMETER`. -/
abbrev GNUTLS_E_ENCRYPTION_FAILED : Int := -40

/-- Modelled from the spec: see `GNUTLS_E_RECEIVED_ILLEGAL_PARAMETER`. -/
abbrev GNUTLS_E_PK_ENCRYPTION_FAILED : Int := -44

/-- Modelled from the spec: see `GNUTLS_E_RECEIVED_ILLEGAL_PARAMETER`. -/
abbrev GNUTLS_E_PK_DECRYPTION_FAILED : Int := -45

/-- Modelled from the spec: see `GNUTLS_E_RECEIVED_ILLEGAL_PARAMETER`. -/
abbrev GNUTLS_E_PK_SIGN_FAILED : Int := -46

/-- Modelled from the spec: see `GNUTLS_E_RECEIVED_ILLEGAL_PARAMETER`. -/
abbrev GNUTLS_E_INVALID_REQUEST : Int := -50

/-- Modelled from the spec: see `GNUTLS_E_RECEIVED_ILLEGAL_PARAMETER`. -/
abbrev GNUTLS_E_ILLEGAL_PARAMETER : Int := -55

/-- Modelled from the spec: see `GNUTLS_E_RECEIVED_ILLEGAL_PARAMETER`. -/
abbrev GNUTLS_E_INTERNAL_ERROR : Int := -59

/-- Modelled from the spec: see `GNUTLS_E_RECEIVED_ILLEGAL_PARAMETER`. -/
abbrev GNUTLS_E_UNKNOWN_PK_ALGORITHM : Int := -80

/-- Modelled from the spec: see `GNUTLS_E_RECEIVED_ILLEGAL_PARAMETER`. -/
abbrev GNUTLS_E_PK_SIG_VERIFY_FAILED : Int := -89

/-- Modelled from the spec: see `GNUTLS_E_RECEIVED_ILLEGAL_PARAMETER`. -/
abbrev GNUTLS_E_UNKNOWN_ALGORITHM : Int := -105

/-- Modelled from the spec: see `GNUTLS_E_RECEIVED_ILLEGAL_PARAMETER`. -/
abbrev GNUTLS_E_UNSUPPORTED_SIGNATURE_ALGORITHM : Int := -106

/-- Modelled from the spec: see `GNUTLS_E_RECEIVED_ILLEGAL_PARAMETER`. -/
abbrev GNUTLS_E_RANDOM_FAILED : Int := -206

/-- Modelled from the spec: see `GNUTLS_E_RECEIVED_ILLEGAL_PARAMETER`. -/
abbrev GNUTLS_E_ECC_UNSUPPORTED_CURVE : Int := -322

/-- Modelled from the spec: see `GNUTLS_E_RECEIVED_ILLEGAL_PARAMETER`. -/
abbrev GNUTLS_E_LIB_IN_ERROR_STATE : Int := -402

/-- Modelled from the spec: see `GNUTLS_E_RECEIVED_ILLEGAL_PARAMETER`. -/
abbrev GNUTLS_E_PK_GENERATION_ERROR : Int := -403

/-- Modelled from the spec: see `GNUTLS_E_RECEIVED_ILLEGAL_PARAMETER`. -/
abbrev GNUTLS_E_PK_INVALID_PUBKEY : Int := -409

/-- Modelled from the spec: see `GNUTLS_E_RECEIVED_ILLEGAL_PARAMETER`. -/
abbrev GNUTLS_E_PK_INVALID_PRIVKEY : Int := -410

/-- Modelled from the spec: see `GNUTLS_E_RECEIVED_ILLEGAL_PARAMETER`. -/
abbrev GNUTLS_E_PK_INVALID_PUBKEY_PARAMS : Int := -412

/-- Modelled from the spec: see `GNUTLS_E_RECEIVED_ILLEGAL_PARAMETER`. -/
abbrev GNUTLS_E_UNSUPPORTED_ENCRYPTION_ALGORITHM : Int := -421

/-! ## Enumerations of the public headers -/

/-- The algorithm identifiers that `pk.c` switches over.  `GNUTLS_PK_EC` is an
alias of `GNUTLS_PK_ECDSA` in the header; `other n` stands for any identifier
the file has no case for. -/
inductive gnutls_pk_algorithm_t where
  | GNUTLS_PK_UNKNOWN
  | GNUTLS_PK_RSA
  | GNUTLS_PK_DSA
  | GNUTLS_PK_DH
  | GNUTLS_PK_ECDSA
  | GNUTLS_PK_ECDH_X25519
  | GNUTLS_PK_RSA_PSS
  | GNUTLS_PK_EDDSA_ED25519
  | GNUTLS_PK_GOST_01
  | GNUTLS_PK_GOST_12_256
  | GNUTLS_PK_GOST_12_512
  | GNUTLS_PK_ECDH_X448
  | GNUTLS_PK_EDDSA_ED448
  | GNUTLS_PK_RSA_OAEP
  | GNUTLS_PK_MLKEM768
  | GNUTLS_PK_MLKEM1024
  | GNUTLS_PK_MLDSA44
  | GNUTLS_PK_MLDSA65
  | GNUTLS_PK_MLDSA87
  | other (n : Nat)
deriving DecidableEq, Repr

open gnutls_pk_algorithm_t

/-- The header alias `#define GNUTLS_PK_EC GNUTLS_PK_ECDSA`. -/
abbrev GNUTLS_PK_EC : gnutls_pk_algorithm_t := GNUTLS_PK_ECDSA

/-- Curve identifiers used by `pk.c`. -/
inductive gnutls_ecc_curve_t where
  | GNUTLS_ECC_CURVE_INVALID
  | GNUTLS_ECC_CURVE_SECP192R1
  | GNUTLS_ECC_CURVE_SECP224R1
  | GNUTLS_ECC_CURVE_SECP256R1
  | GNUTLS_ECC_CURVE_SECP384R1
  | GNUTLS_ECC_CURVE_SECP521R1
  | GNUTLS_ECC_CURVE_X25519
  | GNUTLS_ECC_CURVE_ED25519
  | GNUTLS_ECC_CURVE_GOST256CPA
  | GNUTLS_ECC_CURVE_GOST256CPXA
  | GNUTLS_ECC_CURVE_GOST256B
  | GNUTLS_ECC_CURVE_GOST512A
  | GNUTLS_ECC_CURVE_X448
  | GNUTLS_ECC_CURVE_ED448
  | other (n : Nat)
deriving DecidableEq, Repr

open gnutls_ecc_curve_t

/-- Digest identifiers; `DIG_TO_MAC` and `MAC_TO_DIG` are casts between two
enumerations with the same numbering, so one type serves for both. -/
inductive gnutls_digest_algorithm_t where
  | GNUTLS_DIG_UNKNOWN
  | GNUTLS_DIG_MD5
  | GNUTLS_DIG_SHA1
  | GNUTLS_DIG_SHA224
  | GNUTLS_DIG_SHA256
  | GNUTLS_DIG_SHA384
  | GNUTLS_DIG_SHA512
  | GNUTLS_DIG_GOSTR_94
  | GNUTLS_DIG_STREEBOG_256
  | GNUTLS_DIG_STREEBOG_512
  | other (n : Nat)
deriving DecidableEq, Repr

open gnutls_digest_algorithm_t

/-- The library state of `global.h`. -/
inductive gnutls_lib_state_t where
  | LIB_STATE_POWERON
  | LIB_STATE_INIT
  | LIB_STATE_SELFTEST
  | LIB_STATE_OPERATIONAL
  | LIB_STATE_ERROR
  | LIB_STATE_SHUTDOWN
deriving DecidableEq, Repr

open gnutls_lib_state_t

/-- The compliance state: the argument of `_gnutls_switch_fips_state`. -/
inductive gnutls_fips140_operation_state_t where
  | GNUTLS_FIPS140_OP_INITIAL
  | GNUTLS_FIPS140_OP_APPROVED
  | GNUTLS_FIPS140_OP_NOT_APPROVED
  | GNUTLS_FIPS140_OP_ERROR
deriving DecidableEq, Repr

open gnutls_fips140_operation_state_t

/-- The curve objects nettle hands out (`nettle_get_secp_256r1()` and so on). -/
inductive ecc_curve where
  | secp_192r1
  | secp_224r1
  | secp_256r1
  | secp_384r1
  | secp_521r1
  | gost_gc256b
  | gost_gc512a
deriving DecidableEq, Repr

/-! ## Data model -/

/-- A `bigint_t` slot: `none` is `NULL`. -/
abbrev bigint_t := Option Nat

/-- The cast `TOMPZ`.  Reading a `NULL` slot is undefined in C; the embedding
reads it as zero. -/
def TOMPZ (b : bigint_t) : Nat := b.getD 0

/-- A `gnutls_datum_t`: the `data` pointer (`none` is `NULL`) and `size`. -/
structure gnutls_datum_t where
  data : Option (List Nat) := none
  size : Nat := 0
deriving DecidableEq, Repr

/-- The fields of `gnutls_x509_spki_st` that `pk.c` reads. -/
structure gnutls_x509_spki_st where
  pk : gnutls_pk_algorithm_t := GNUTLS_PK_UNKNOWN
  rsa_pss_dig : gnutls_digest_algorithm_t := GNUTLS_DIG_UNKNOWN
  salt_size : Nat := 0
  dsa_dig : gnutls_digest_algorithm_t := GNUTLS_DIG_UNKNOWN
  rsa_oaep_dig : gnutls_digest_algorithm_t := GNUTLS_DIG_UNKNOWN
  rsa_oaep_label : gnutls_datum_t := {}
  flags : Nat := 0
deriving DecidableEq, Repr

/-- The parameter set `gnutls_pk_params_st`.  `params` is the array of
big-integer slots; an index past the end of the list reads as `NULL`, like a
slot of the zero-initialised array. -/
structure gnutls_pk_params_st where
  params : List bigint_t := []
  params_nr : Nat := 0
  curve : gnutls_ecc_curve_t := GNUTLS_ECC_CURVE_INVALID
  algo : gnutls_pk_algorithm_t := GNUTLS_PK_UNKNOWN
  pkflags : Nat := 0
  palgo : gnutls_digest_algorithm_t := GNUTLS_DIG_UNKNOWN
  seed : List Nat := []
  seed_size : Nat := 0
  raw_priv : gnutls_datum_t := {}
  raw_pub : gnutls_datum_t := {}
  raw_seed : gnutls_datum_t := {}
  spki : gnutls_x509_spki_st := {}
deriving DecidableEq, Repr

/-- Reads `params->params[i]`. -/
def gnutls_pk_params_st.get (p : gnutls_pk_params_st) (i : Nat) : bigint_t :=
  (p.params.getD i none)

/-- Writes slot `i` of a slot array, growing the list with `NULL` slots when
the index is past its end. -/
def set_slot (l : List bigint_t) (i : Nat) (v : bigint_t) : List bigint_t :=
  (l ++ List.replicate (i + 1 - l.length) none).set i v

/-- Writes `params->params[i] = v`. -/
def gnutls_pk_params_st.put (p : gnutls_pk_params_st) (i : Nat) (v : bigint_t) :
    gnutls_pk_params_st :=
  { p with params := set_slot p.params i v }

/-- Slot indices of `gnutls_int.h`. -/
abbrev DH_P : Nat := 0
abbrev DH_Q : Nat := 1
abbrev DH_G : Nat := 2
abbrev DH_Y : Nat := 3
abbrev DH_X : Nat := 4
abbrev DSA_P : Nat := 0
abbrev DSA_Q : Nat := 1
abbrev DSA_G : Nat := 2
abbrev DSA_Y : Nat := 3
abbrev DSA_X : Nat := 4
abbrev RSA_MODULUS : Nat := 0
abbrev RSA_PUB : Nat := 1
abbrev RSA_PRIV : Nat := 2
abbrev RSA_PRIME1 : Nat := 3
abbrev RSA_PRIME2 : Nat := 4
abbrev RSA_COEF : Nat := 5
abbrev RSA_E1 : Nat := 6
abbrev RSA_E2 : Nat := 7
abbrev ECC_X : Nat := 0
abbrev ECC_Y : Nat := 1
abbrev ECC_K : Nat := 2
abbrev GOST_X : Nat := 0
abbrev GOST_Y : Nat := 1
abbrev GOST_K : Nat := 2
abbrev RSA_PRIVATE_PARAMS : Nat := 8
abbrev ECC_PRIVATE_PARAMS : Nat := 3
abbrev GOST_PRIVATE_PARAMS : Nat := 3

/-- Flag bits of the public headers (`gnutls_pk_flag_t`) and of `pk.h`. -/
abbrev GNUTLS_PK_FLAG_PROVABLE : Nat := 1
abbrev GNUTLS_PK_FLAG_REPRODUCIBLE : Nat := 2
abbrev GNUTLS_PK_FLAG_RSA_PSS_FIXED_SALT_LENGTH : Nat := 4
abbrev GNUTLS_PK_FLAG_EXPAND_KEYS_FROM_SEED : Nat := 8
abbrev PK_DERIVE_TLS13 : Nat := 1

/-- The C test `flags & mask`. -/
def has_flag (flags mask : Nat) : Bool := (flags &&& mask) != 0

/-! ## The process-wide state -/

/-- Arithmetic and cryptographic primitives whose invocation is recorded. -/
inductive Prim where
  | mpi_powm (base exp modulus : Nat)
  | ecc_point_mul
  | curve25519_mul
  | curve448_mul
  | gostdsa_vko
  | lc_kyber_enc
  | lc_kyber_dec
  | lc_kyber_keypair
  | rsa_encrypt
  | rsa_oaep_encrypt
  | rsa_decrypt_tr
  | rsa_oaep_decrypt
  | rsa_sec_decrypt
  | eddsa_sign
  | gostdsa_sign
  | dsa_compute_k
  | ecdsa_sign
  | dsa_sign
  | rsa_pkcs1_sign_tr
  | rnd_salt
  | rsa_pss_sign_digest_tr
  | lc_dilithium_sign
  | eddsa_verify
  | gostdsa_verify
  | ecdsa_verify
  | dsa_verify
  | rsa_pkcs1_verify
  | rsa_pss_verify_digest
  | lc_dilithium_verify
  | dsa_generate_dss_pqg
  | dsa_validate_dss_pqg
  | dsa_generate_params
  | dsa_generate_dss_keypair
  | mpz_random
  | rsa_generate_fips186_4_keypair
  | rsa_generate_keypair
  | gnutls_rnd
  | eddsa_public_key
  | ecdsa_generate_keypair
  | gostdsa_generate_keypair
  | edwards_curve_mul_g
  | lc_dilithium_keypair_from_seed
deriving DecidableEq, Repr

/-- The mutable process-wide state `pk.c` reads and writes: the library state
(the poison flag), the compliance state, the list of values passed to
`_gnutls_switch_fips_state` so far (oldest first) and the primitives invoked
so far (oldest first). -/
structure World where
  lib_state : gnutls_lib_state_t := LIB_STATE_OPERATIONAL
  fips_state : gnutls_fips140_operation_state_t := GNUTLS_FIPS140_OP_INITIAL
  fips_writes : List gnutls_fips140_operation_state_t := []
  calls : List Prim := []
deriving DecidableEq, Repr

/-- Records the invocation of a primitive. -/
def World.call (w : World) (p : Prim) : World :=
  { w with calls := w.calls ++ [p] }

/-- The accessor `_gnutls_get_lib_state()`. -/
def _gnutls_get_lib_state (w : World) : gnutls_lib_state_t := w.lib_state

/-- Modelled from the spec: `_gnutls_switch_lib_state` of `fips.h` (not among
the sources) sets the shared poison flag. -/
def _gnutls_switch_lib_state (s : gnutls_lib_state_t) (w : World) : World :=
  { w with lib_state := s }

/-- Modelled from the spec: `_gnutls_switch_fips_state` of `fips.c` (not among
the sources); the spec has the compliance state overwritten by each write.
The write is also appended to `fips_writes`. -/
def _gnutls_switch_fips_state (s : gnutls_fips140_operation_state_t) (w : World) : World :=
  { w with fips_state := s, fips_writes := w.fips_writes ++ [s] }

/-- Modelled from the spec: the macro `HAVE_LIB_ERROR()` of `global.h` (not
among the sources): the library is neither operational nor in self-test. -/
def HAVE_LIB_ERROR (w : World) : Bool :=
  _gnutls_get_lib_state w != LIB_STATE_OPERATIONAL &&
    _gnutls_get_lib_state w != LIB_STATE_SELFTEST

/-- The three-way classification every `cleanup:` label of `pk.c` performs
(`_wrap_nettle_pk_derive` lines 682-689, and verbatim in `encrypt`, `decrypt`,
`sign`, `verify`, `generate_keys`). -/
def cleanup_fips_state (ret : Int) (not_approved : Bool) (w : World) : World :=
  if ret < 0 then _gnutls_switch_fips_state GNUTLS_FIPS140_OP_ERROR w
  else if not_approved then _gnutls_switch_fips_state GNUTLS_FIPS140_OP_NOT_APPROVED w
  else _gnutls_switch_fips_state GNUTLS_FIPS140_OP_APPROVED w

/-- What the body of an entry point hands to its `cleanup:` label: the value
of `ret`, the `not_approved` flag, the output object and the world. -/
structure Branch (α : Type) where
  ret : Int
  not_approved : Bool
  out : α
  world : World

/-! ## Random callbacks and primitive results -/

/-- The random levels of `gnutls_rnd`. -/
inductive gnutls_rnd_level_t where
  | GNUTLS_RND_NONCE
  | GNUTLS_RND_RANDOM
  | GNUTLS_RND_KEY
deriving DecidableEq, Repr

open gnutls_rnd_level_t

/-- The `nettle_random_func` callbacks defined in `pk.c` (lines 84-129), as
handed to a primitive; `rnd_datum_func` carries its context datum. -/
inductive RndFunc where
  | rnd_key_func
  | rnd_tmpkey_func
  | rnd_nonce_func
  | rnd_datum_func (d : List Nat)
  | rnd_nonce_func_fallback
deriving DecidableEq, Repr

/-- What a primitive did with the random callback it was given: it did not
call it, it called it and every `gnutls_rnd` behind it succeeded, or it called
it and some `gnutls_rnd` behind it returned a negative value. -/
inductive RndUse where
  | unused
  | ok
  | failed
deriving DecidableEq, Repr

/-- The outcome of one call of an external primitive: its return value (for
nettle, `1` is success and `0` failure), the object it produced, and its use of
the random callback. -/
structure PrimOut (α : Type) where
  ret : Int
  out : α
  rnd : RndUse

/-- The key types of leancrypto (`enum lc_kyber_type`). -/
inductive lc_kyber_type where
  | LC_KYBER_UNKNOWN
  | LC_KYBER_512
  | LC_KYBER_768
  | LC_KYBER_1024
deriving DecidableEq, Repr

/-- The key types of leancrypto (`enum lc_dilithium_type`). -/
inductive lc_dilithium_type where
  | LC_DILITHIUM_UNKNOWN
  | LC_DILITHIUM_44
  | LC_DILITHIUM_65
  | LC_DILITHIUM_87
deriving DecidableEq, Repr

/-- A nettle `struct dsa_params`. -/
structure dsa_params where
  p : Nat
  q : Nat
  g : Nat
deriving DecidableEq, Repr

/-- The seed part of a nettle `struct dss_params_validation_seeds`. -/
structure dss_params_validation_seeds where
  seed : List Nat
  seed_length : Nat
deriving DecidableEq, Repr

/-- A freshly generated RSA key pair: the fields of nettle's
`rsa_public_key` and `rsa_private_key`. -/
structure rsa_keypair where
  n : Nat
  e : Nat
  d : Nat
  p : Nat
  q : Nat
  c : Nat
  a : Nat
  b : Nat
deriving DecidableEq, Repr

/-- A nettle `struct rsa_public_key` after `rsa_public_key_prepare`. -/
structure rsa_public_key where
  n : Nat
  e : Nat
  size : Nat
deriving DecidableEq, Repr

/-- A nettle `struct rsa_private_key`: `d`, the primes `p` and `q`, the CRT
exponents `a = d mod (p-1)` and `b = d mod (q-1)`, the coefficient `c`, and
the size. -/
structure rsa_private_key where
  size : Nat
  d : Nat
  p : Nat
  q : Nat
  a : Nat
  b : Nat
  c : Nat
deriving DecidableEq, Repr

/-! ## The environment: everything outside `pk.c` -/

/-- The external functions, tables and switches `pk.c` depends on.  Each field
is named after the C function it stands for and maps the inputs the call
receives to what the call returns. -/
structure Env where
  /-- `_gnutls_fips_mode_enabled() != 0`. -/
  fips_mode_enabled : Bool
  /-- The constant `DEFAULT_MAX_VERIFY_BITS` of `gnutls_int.h`. -/
  DEFAULT_MAX_VERIFY_BITS : Nat
  /-- Byte size of a curve, `0` for an unknown one. -/
  gnutls_ecc_curve_get_size : gnutls_ecc_curve_t → Nat
  /-- Nettle: does `(x, y)` pass the range and on-curve checks? -/
  ecc_point_set : ecc_curve → Nat → Nat → Bool
  /-- Nettle: is the scalar in range for the curve? -/
  ecc_scalar_set : ecc_curve → Nat → Bool
  /-- Nettle: scalar multiplication, on affine coordinates. -/
  ecc_point_mul : ecc_curve → Nat → Nat × Nat → Nat × Nat
  /-- The GOST variant of `ecc_point_set`. -/
  gost_point_set : ecc_curve → Nat → Nat → Bool
  /-- Nettle: X25519 scalar multiplication (scalar, point). -/
  curve25519_mul : List Nat → List Nat → List Nat
  /-- Nettle: X448 scalar multiplication (scalar, point). -/
  curve448_mul : List Nat → List Nat → List Nat
  /-- GOST VKO key agreement (curve, scalar, point, UKM). -/
  gostdsa_vko : ecc_curve → Nat → Nat × Nat → List Nat → List Nat
  /-- The random generator `gnutls_rnd (level, data, len)`: return value and
  bytes.  The first argument is the number of primitives invoked so far, so
  that successive calls may differ. -/
  gnutls_rnd : Nat → gnutls_rnd_level_t → Nat → Int × List Nat
  /-- Build switch `LC_KYBER_768_ENABLED`. -/
  LC_KYBER_768_ENABLED : Bool
  /-- Build switch `LC_KYBER_1024_ENABLED`. -/
  LC_KYBER_1024_ENABLED : Bool
  /-- Leancrypto: load a public key; return value and the type it has. -/
  lc_kyber_pk_load : List Nat → Int × lc_kyber_type
  /-- Leancrypto: load a secret key. -/
  lc_kyber_sk_load : List Nat → Int × lc_kyber_type
  /-- Leancrypto: load a ciphertext. -/
  lc_kyber_ct_load : List Nat → Int × lc_kyber_type
  /-- Leancrypto: encapsulate; return value, ciphertext, shared secret. -/
  lc_kyber_enc : Nat → List Nat → Int × List Nat × List Nat
  /-- Leancrypto: decapsulate (ciphertext, secret key). -/
  lc_kyber_dec : List Nat → List Nat → Int × List Nat
  /-- Leancrypto: return value of `lc_kyber_ct_ptr`. -/
  lc_kyber_ct_ptr : List Nat → Int
  /-- Leancrypto: return value of `lc_kyber_ss_ptr`. -/
  lc_kyber_ss_ptr : List Nat → Int
  /-- The macro `IS_EC` of `gnutls_int.h`. -/
  IS_EC : gnutls_pk_algorithm_t → Bool
  /-- The table look-up `gnutls_ecc_curve_get_pk`. -/
  gnutls_ecc_curve_get_pk : gnutls_ecc_curve_t → gnutls_pk_algorithm_t
  /-- The table look-up `_gnutls_ecc_curve_get_params`: the entry's `size` and
  `sig_size`, or `none` for `NULL`. -/
  _gnutls_ecc_curve_get_params : gnutls_ecc_curve_t → Option (Nat × Nat)
  /-- Nettle `ed25519_sha512_sign` (public key, private key, message). -/
  ed25519_sha512_sign : List Nat → List Nat → List Nat → List Nat
  /-- Nettle `ed448_shake256_sign`. -/
  ed448_shake256_sign : List Nat → List Nat → List Nat → List Nat
  /-- The look-up `_gnutls_gost_digest`. -/
  _gnutls_gost_digest : gnutls_pk_algorithm_t → gnutls_digest_algorithm_t
  /-- `_gnutls_mac_get_algo_len (hash_to_entry (dig))`. -/
  _gnutls_mac_get_algo_len : gnutls_digest_algorithm_t → Nat
  /-- Nettle `ecc_bit_size`. -/
  ecc_bit_size : ecc_curve → Nat
  /-- `gostdsa_sign` (tick, curve, key, callback, digest): `(r, s)`. -/
  gostdsa_sign : Nat → ecc_curve → Nat → RndFunc → List Nat → PrimOut (Nat × Nat)
  /-- `_gnutls_encode_gost_rs (r, s, size)`: return value and encoding. -/
  _gnutls_encode_gost_rs : Nat → Nat → Nat → Int × List Nat
  /-- `_gnutls_encode_ber_rs (r, s)`: return value and encoding. -/
  _gnutls_encode_ber_rs : Nat → Nat → Int × List Nat
  /-- `_gnutls_dsa_q_to_hash (params, &hash_len)`: the digest and `hash_len`. -/
  _gnutls_dsa_q_to_hash : gnutls_pk_params_st → gnutls_digest_algorithm_t × Nat
  /-- `_gnutls_ecc_curve_to_dsa_q (q, curve)`: return value and `q`. -/
  _gnutls_ecc_curve_to_dsa_q : gnutls_ecc_curve_t → Int × Nat
  /-- `_gnutls_dsa_compute_k (h, q, x, q_bits, mac, digest)`: return value and
  the limbs `h`. -/
  _gnutls_dsa_compute_k : Nat → Nat → Nat → gnutls_digest_algorithm_t → List Nat → Int × Nat
  /-- `_gnutls_ecdsa_compute_k_finish (k, size, h)`: the bytes of `k`. -/
  _gnutls_ecdsa_compute_k_finish : Nat → Nat → List Nat
  /-- `_gnutls_dsa_compute_k_finish (k, size, h)`: the bytes of `k`. -/
  _gnutls_dsa_compute_k_finish : Nat → Nat → List Nat
  /-- Nettle `ecdsa_sign` (tick, curve, key, callback, digest): `(r, s)`. -/
  ecdsa_sign : Nat → ecc_curve → Nat → RndFunc → List Nat → PrimOut (Nat × Nat)
  /-- Nettle `dsa_sign` (tick, p, q, g, x, callback, digest): `(r, s)`. -/
  dsa_sign : Nat → Nat → Nat → Nat → Nat → RndFunc → List Nat → PrimOut (Nat × Nat)
  /-- Nettle `rsa_pkcs1_sign_tr` (tick, public key, private key, callback,
  DigestInfo): the signature integer. -/
  rsa_pkcs1_sign_tr : Nat → rsa_public_key → gnutls_pk_params_st → RndFunc → List Nat →
    PrimOut Nat
  /-- Nettle `rsa_pss_sha*_sign_digest_tr` (tick, digest, public key, private
  key, callback, salt, digest bytes): the signature integer. -/
  rsa_pss_sign_digest_tr : Nat → gnutls_digest_algorithm_t → rsa_public_key →
    gnutls_pk_params_st → RndFunc → List Nat → List Nat → PrimOut Nat
  /-- Build switches `LC_DILITHIUM_44_ENABLED`, `_65_`, `_87_`. -/
  LC_DILITHIUM_44_ENABLED : Bool
  LC_DILITHIUM_65_ENABLED : Bool
  LC_DILITHIUM_87_ENABLED : Bool
  /-- Leancrypto: load a secret key; return value and its type. -/
  lc_dilithium_sk_load : List Nat → Int × lc_dilithium_type
  /-- Leancrypto: sign (tick, message, secret key): return value, signature. -/
  lc_dilithium_sign : Nat → List Nat → List Nat → Int × List Nat
  /-- Leancrypto: return value of `lc_dilithium_sig_ptr`. -/
  lc_dilithium_sig_ptr : List Nat → Int
  /-- Nettle `ed25519_sha512_verify` (public key, message, signature). -/
  ed25519_sha512_verify : List Nat → List Nat → List Nat → Int
  /-- Nettle `ed448_shake256_verify`. -/
  ed448_shake256_verify : List Nat → List Nat → List Nat → Int
  /-- `_gnutls_decode_gost_rs (signature)`: return value and `(r, s)`. -/
  _gnutls_decode_gost_rs : List Nat → Int × Nat × Nat
  /-- `_gnutls_decode_ber_rs (signature)`: return value and `(r, s)`. -/
  _gnutls_decode_ber_rs : List Nat → Int × Nat × Nat
  /-- `gostdsa_verify` (curve, public point, digest, r, s). -/
  gostdsa_verify : ecc_curve → Nat × Nat → List Nat → Nat × Nat → Int
  /-- Nettle `ecdsa_verify` (curve, public point, digest, r, s). -/
  ecdsa_verify : ecc_curve → Nat × Nat → List Nat → Nat × Nat → Int
  /-- Nettle `dsa_verify` (p, q, g, y, digest, r, s). -/
  dsa_verify : Nat → Nat → Nat → Nat → List Nat → Nat × Nat → Int
  /-- Nettle `rsa_pkcs1_verify` (key, DigestInfo, signature integer). -/
  rsa_pkcs1_verify : rsa_public_key → List Nat → Nat → Int
  /-- Nettle `rsa_pss_sha*_verify_digest` (digest, key, salt size, digest
  bytes, signature integer). -/
  rsa_pss_verify_digest : gnutls_digest_algorithm_t → rsa_public_key → Nat → List Nat → Nat → Int
  /-- Leancrypto: load a public key; return value and its type. -/
  lc_dilithium_pk_load : List Nat → Int × lc_dilithium_type
  /-- Leancrypto: load a signature; return value and its type. -/
  lc_dilithium_sig_load : List Nat → Int × lc_dilithium_type
  /-- Leancrypto: verify (signature, message, public key). -/
  lc_dilithium_verify : List Nat → List Nat → List Nat → Int
  /-- The look-up `_gnutls_pk_bits_to_subgroup_bits`. -/
  _gnutls_pk_bits_to_subgroup_bits : Nat → Nat
  /-- The constant `MAX_PVP_SEED_SIZE`, the size of `params->seed`. -/
  MAX_PVP_SEED_SIZE : Nat
  /-- `_dsa_generate_dss_pqg` (index, seed, p bits, q bits): return value,
  parameters, certificate. -/
  _dsa_generate_dss_pqg : Nat → List Nat → Nat → Nat →
    Int × dsa_params × dss_params_validation_seeds
  /-- `dsa_generate_dss_pqg` (tick, index, callback, p bits, q bits). -/
  dsa_generate_dss_pqg : Nat → Nat → RndFunc → Nat → Nat →
    PrimOut (dsa_params × dss_params_validation_seeds)
  /-- `dsa_validate_dss_pqg` (parameters, certificate, index). -/
  dsa_validate_dss_pqg : dsa_params → dss_params_validation_seeds → Nat → Int
  /-- Nettle `dsa_generate_params` (tick, callback, p bits, q bits). -/
  dsa_generate_params : Nat → RndFunc → Nat → Nat → PrimOut dsa_params
  /-- `dsa_generate_dss_keypair` (tick, parameters, callback): `(y, x)`. -/
  dsa_generate_dss_keypair : Nat → dsa_params → RndFunc → PrimOut (Nat × Nat)
  /-- Nettle `nettle_mpz_random` (tick, callback, bound `n`): a value the
  library documents as uniform in `0 ≤ x < n`. -/
  nettle_mpz_random : Nat → RndFunc → Nat → PrimOut Nat
  /-- Nettle `nettle_mpz_random_size` (tick, callback, bits). -/
  nettle_mpz_random_size : Nat → RndFunc → Nat → PrimOut Nat
  /-- `_gnutls_dh_prime_match_fips_approved` (prime, generator): the bytes of
  `q` for an approved group, `none` when the call returns zero. -/
  _gnutls_dh_prime_match_fips_approved : List Nat → List Nat → Option (List Nat)
  /-- `_rsa_generate_fips186_4_keypair` (e, seed, bits): return value, key. -/
  _rsa_generate_fips186_4_keypair : Nat → List Nat → Nat → Int × rsa_keypair
  /-- `rsa_generate_fips186_4_keypair` (tick, e, callback, seed buffer size,
  bits): key pair and the seed it drew. -/
  rsa_generate_fips186_4_keypair : Nat → Nat → RndFunc → Nat → Nat →
    PrimOut (rsa_keypair × List Nat)
  /-- Nettle `rsa_generate_keypair` (tick, e, callback, bits). -/
  rsa_generate_keypair : Nat → Nat → RndFunc → Nat → PrimOut rsa_keypair
  /-- Nettle `ed25519_sha512_public_key` (private key). -/
  ed25519_sha512_public_key : List Nat → List Nat
  /-- Nettle `ed448_shake256_public_key`. -/
  ed448_shake256_public_key : List Nat → List Nat
  /-- Nettle `ecdsa_generate_keypair` (tick, curve, callback): the public
  point and the scalar. -/
  ecdsa_generate_keypair : Nat → ecc_curve → RndFunc → PrimOut ((Nat × Nat) × Nat)
  /-- `gostdsa_generate_keypair` (tick, curve, callback). -/
  gostdsa_generate_keypair : Nat → ecc_curve → RndFunc → PrimOut ((Nat × Nat) × Nat)
  /-- Nettle `curve25519_mul_g` (scalar). -/
  curve25519_mul_g : List Nat → List Nat
  /-- Nettle `curve448_mul_g` (scalar). -/
  curve448_mul_g : List Nat → List Nat
  /-- Leancrypto `lc_kyber_keypair` (tick, type): return value, public key,
  secret key. -/
  lc_kyber_keypair : Nat → lc_kyber_type → Int × List Nat × List Nat
  /-- Leancrypto: return value of `lc_kyber_sk_ptr`. -/
  lc_kyber_sk_ptr : List Nat → Int
  /-- Leancrypto: return value of `lc_kyber_pk_ptr`. -/
  lc_kyber_pk_ptr : List Nat → Int
  /-- Leancrypto `lc_dilithium_keypair_from_seed` (seed, type): return value,
  public key, secret key. -/
  lc_dilithium_keypair_from_seed : List Nat → lc_dilithium_type → Int × List Nat × List Nat
  /-- Leancrypto: return value of `lc_dilithium_sk_ptr`. -/
  lc_dilithium_sk_ptr : List Nat → Int
  /-- Leancrypto: return value of `lc_dilithium_pk_ptr`. -/
  lc_dilithium_pk_ptr : List Nat → Int
  /-- The conversion of the `level` argument (`bits or curve`) to a curve
  identifier. -/
  curve_of_level : Nat → gnutls_ecc_curve_t
  /-- `hash_to_entry (dig)->output_size`, `none` when the entry is `NULL`. -/
  hash_output_size : gnutls_digest_algorithm_t → Option Nat
  /-- Nettle `ecc_point_mul_g` (curve, scalar): the coordinates of the
  product with the generator. -/
  ecc_point_mul_g : ecc_curve → Nat → Nat × Nat
  /-- The GOST variant of `ecc_point_mul_g`. -/
  gost_point_mul_g : ecc_curve → Nat → Nat × Nat
  /-- What GMP's `mpz_invert (rop, a, m)` leaves in `rop` when `a` has no
  inverse modulo `m` (old `rop`, `a`, `m`). -/
  mpz_invert_undefined : Nat → Nat → Nat → Nat
  /-- Nettle `rsa_private_key_prepare`: its return value, `0` when the key is
  refused. -/
  rsa_private_key_prepare : rsa_private_key → Int
  /-- Nettle `gostdsa_unmask_key (curve, key)`: the new value of `key`. -/
  gostdsa_unmask_key : ecc_curve → Nat → Nat
  /-- The bytes found in a fresh `gnutls_malloc (size)` block. -/
  gnutls_malloc : Nat → List Nat
  /-- `_gnutls_config_is_rsa_pkcs1_encrypt_allowed()`. -/
  rsa_pkcs1_encrypt_allowed : Bool
  /-- Nettle `rsa_public_key_prepare (n, e)`: the key size in bytes it stores
  in `pub->size`, which is `0` exactly when the call returns `0`. -/
  rsa_public_key_prepare : Nat → Nat → Nat
  /-- Nettle `rsa_encrypt` (tick, key, callback, message). -/
  rsa_encrypt : Nat → rsa_public_key → RndFunc → List Nat → PrimOut Nat
  /-- Nettle `rsa_oaep_sha*_encrypt` (tick, digest, key, callback, label,
  message): the ciphertext bytes. -/
  rsa_oaep_encrypt : Nat → gnutls_digest_algorithm_t → rsa_public_key → RndFunc → List Nat →
    List Nat → PrimOut (List Nat)
  /-- Nettle `rsa_decrypt_tr` (tick, key, callback, buffer length, ciphertext
  integer): the message bytes; their number is the new `length`. -/
  rsa_decrypt_tr : Nat → gnutls_pk_params_st → RndFunc → Nat → Nat → PrimOut (List Nat)
  /-- Nettle `rsa_oaep_sha*_decrypt` (tick, digest, key, callback, label,
  buffer length, ciphertext bytes). -/
  rsa_oaep_decrypt : Nat → gnutls_digest_algorithm_t → gnutls_pk_params_st → RndFunc →
    List Nat → Nat → List Nat → PrimOut (List Nat)
  /-- Nettle `rsa_sec_decrypt` (tick, key, callback, message length,
  ciphertext integer): the bytes written to the caller's buffer. -/
  rsa_sec_decrypt : Nat → gnutls_pk_params_st → RndFunc → Nat → Nat → PrimOut (List Nat)

/-! ## Big-integer helpers -/

/-- The number of binary digits of `a`, counted by halving at most `fuel`
times. -/
def bit_length : (fuel : Nat) → (a : Nat) → Nat
  | 0, _ => 0
  | fuel + 1, a => if a = 0 then 0 else bit_length fuel (a / 2) + 1

/-- GMP's `mpz_sizeinbase (a, 2)`: the bit length of `a`, and `1` for zero. -/
def mpz_sizeinbase_2 (a : Nat) : Nat := if a = 0 then 1 else bit_length a a

/-- Modelled from the spec: `_gnutls_mpi_get_nbits` of `mpi.c` (not among the
sources) is `mpz_sizeinbase (a, 2)`. -/
def _gnutls_mpi_get_nbits (a : Nat) : Nat := mpz_sizeinbase_2 a

/-- Nettle's `nettle_mpz_sizeinbase_256_u`: the byte length of `a`. -/
def nettle_mpz_sizeinbase_256_u (a : Nat) : Nat := (_gnutls_mpi_get_nbits a + 7) / 8

/-- Nettle's `nettle_mpz_get_str_256`: the `size` low-order bytes of `a`,
most significant first. -/
def nettle_mpz_get_str_256 (size : Nat) (a : Nat) : List Nat :=
  (List.range size).map (fun i => a / 256 ^ (size - 1 - i) % 256)

/-- Modelled from the spec: `_gnutls_mpi_dprint` of `mpi.c` (not among the
sources) allocates a datum holding the unsigned big-endian bytes of `a`. -/
def _gnutls_mpi_dprint (a : Nat) : gnutls_datum_t :=
  { data := some (nettle_mpz_get_str_256 (nettle_mpz_sizeinbase_256_u a) a),
    size := nettle_mpz_sizeinbase_256_u a }

/-- Modelled from the spec: `_gnutls_mpi_dprint_size` of `mpi.c` (not among
the sources) does the same, left-padded with zero bytes to `size` bytes. -/
def _gnutls_mpi_dprint_size (a : Nat) (size : Nat) : gnutls_datum_t :=
  { data := some (nettle_mpz_get_str_256 (max size (nettle_mpz_sizeinbase_256_u a)) a),
    size := max size (nettle_mpz_sizeinbase_256_u a) }

/-- Modelled from the spec: `_gnutls_mpi_powm` of `mpi.c` (not among the
sources) is modular exponentiation. -/
def _gnutls_mpi_powm (b e m : Nat) : Nat := b ^ e % m

/-- Modelled from the spec: `_gnutls_mem_is_zero` (not among the sources):
are the first `size` bytes all zero? -/
def _gnutls_mem_is_zero (data : List Nat) (size : Nat) : Bool :=
  (data.take size).all (fun b => b == 0)

/-- The macro `MAX_DH_BITS`. -/
def MAX_DH_BITS (E : Env) : Nat := E.DEFAULT_MAX_VERIFY_BITS

/-! ## Curve tables (`pk.c` lines 2590-2693) -/

/-- The function `get_supported_nist_curve`. -/
def get_supported_nist_curve (curve : gnutls_ecc_curve_t) : Option ecc_curve :=
  match curve with
  | GNUTLS_ECC_CURVE_SECP192R1 => some ecc_curve.secp_192r1
  | GNUTLS_ECC_CURVE_SECP224R1 => some ecc_curve.secp_224r1
  | GNUTLS_ECC_CURVE_SECP256R1 => some ecc_curve.secp_256r1
  | GNUTLS_ECC_CURVE_SECP384R1 => some ecc_curve.secp_384r1
  | GNUTLS_ECC_CURVE_SECP521R1 => some ecc_curve.secp_521r1
  | _ => none

/-- The function `get_supported_nist_curve_order`, with the hexadecimal
strings of the table already parsed (`mpz_set_str (nn, order, 16)`). -/
def get_supported_nist_curve_order (curve : gnutls_ecc_curve_t) : Option Nat :=
  match curve with
  | GNUTLS_ECC_CURVE_SECP192R1 => some 0xffffffffffffffffffffffff99def836146bc9b1b4d22831
  | GNUTLS_ECC_CURVE_SECP224R1 => some 0xffffffffffffffffffffffffffff16a2e0b8f03e13dd29455c5c2a3d
  | GNUTLS_ECC_CURVE_SECP256R1 =>
    some 0xffffffff00000000ffffffffffffffffbce6faada7179e84f3b9cac2fc632551
  | GNUTLS_ECC_CURVE_SECP384R1 =>
    some 0xffffffffffffffffffffffffffffffffffffffffffffffffc7634d81f4372ddf581a0db248b0a77aecec196accc52973
  | GNUTLS_ECC_CURVE_SECP521R1 =>
    some 0x1fffffffffffffffffffffffffffffffffffffffffffffffffffffffffffffffffa51868783bf2f966b7fcc0148f709a5d03bb5c9b8899c47aebb6fb71e91386409
  | _ => none

/-- The function `get_supported_nist_curve_modulus`, parsed likewise. -/
def get_supported_nist_curve_modulus (curve : gnutls_ecc_curve_t) : Option Nat :=
  match curve with
  | GNUTLS_ECC_CURVE_SECP192R1 => some 0xfffffffffffffffffffffffffffffffeffffffffffffffff
  | GNUTLS_ECC_CURVE_SECP224R1 => some 0xffffffffffffffffffffffffffffffff000000000000000000000001
  | GNUTLS_ECC_CURVE_SECP256R1 =>
    some 0xffffffff00000001000000000000000000000000ffffffffffffffffffffffff
  | GNUTLS_ECC_CURVE_SECP384R1 =>
    some 0xfffffffffffffffffffffffffffffffffffffffffffffffffffffffffffffffeffffffff0000000000000000ffffffff
  | GNUTLS_ECC_CURVE_SECP521R1 =>
    some 0x1ffffffffffffffffffffffffffffffffffffffffffffffffffffffffffffffffffffffffffffffffffffffffffffffffffffffffffffffffffffffffffffffffffff
  | _ => none

/-- The function `get_supported_gost_curve`. -/
def get_supported_gost_curve (curve : gnutls_ecc_curve_t) : Option ecc_curve :=
  match curve with
  | GNUTLS_ECC_CURVE_GOST256CPA => some ecc_curve.gost_gc256b
  | GNUTLS_ECC_CURVE_GOST256CPXA => some ecc_curve.gost_gc256b
  | GNUTLS_ECC_CURVE_GOST256B => some ecc_curve.gost_gc256b
  | GNUTLS_ECC_CURVE_GOST512A => some ecc_curve.gost_gc512a
  | _ => none

/-! ## Key derivation (`pk.c` lines 236-692) -/

/-- The function `_ecc_params_to_pubkey`: `0`, or `GNUTLS_E_PK_INVALID_PUBKEY`
when nettle rejects the point. -/
def _ecc_params_to_pubkey (E : Env) (pk_params : gnutls_pk_params_st) (curve : ecc_curve) : Int :=
  if E.ecc_point_set curve (TOMPZ (pk_params.get ECC_X)) (TOMPZ (pk_params.get ECC_Y)) == false
  then GNUTLS_E_PK_INVALID_PUBKEY else 0

/-- The function `_ecc_params_to_privkey`. -/
def _ecc_params_to_privkey (E : Env) (pk_params : gnutls_pk_params_st) (curve : ecc_curve) : Int :=
  if E.ecc_scalar_set curve (TOMPZ (pk_params.get ECC_K)) == false
  then GNUTLS_E_PK_INVALID_PRIVKEY else 0

/-- The function `_gost_params_to_privkey`. -/
def _gost_params_to_privkey (E : Env) (pk_params : gnutls_pk_params_st) (curve : ecc_curve) : Int :=
  if E.ecc_scalar_set curve (TOMPZ (pk_params.get GOST_K)) == false
  then GNUTLS_E_PK_INVALID_PRIVKEY else 0

/-- The function `_gost_params_to_pubkey`. -/
def _gost_params_to_pubkey (E : Env) (pk_params : gnutls_pk_params_st) (curve : ecc_curve) : Int :=
  if E.gost_point_set curve (TOMPZ (pk_params.get GOST_X)) (TOMPZ (pk_params.get GOST_Y)) == false
  then GNUTLS_E_INVALID_REQUEST else 0

/-- The function `ecc_shared_secret`: the result code and, on success, the
`size` bytes written to `out`. -/
def ecc_shared_secret (E : Env) (curve : ecc_curve) (private_key : Nat) (public_key : Nat × Nat)
    (size : Nat) : Int × Option (List Nat) :=
  let r := E.ecc_point_mul curve private_key public_key
  if r.1 == 0 && r.2 == 0 then (GNUTLS_E_ILLEGAL_PARAMETER, none)
  else (0, some (nettle_mpz_get_str_256 size r.1))

/-- The function `edwards_curve_mul`: result code and the product. -/
def edwards_curve_mul (E : Env) (algo : gnutls_pk_algorithm_t) (n p : List Nat) :
    Int × Option (List Nat) :=
  match algo with
  | GNUTLS_PK_ECDH_X25519 => (0, some (E.curve25519_mul n p))
  | GNUTLS_PK_ECDH_X448 => (0, some (E.curve448_mul n p))
  | _ => (GNUTLS_E_ECC_UNSUPPORTED_CURVE, none)

/-- The primitive `edwards_curve_mul` ends up calling. -/
def edwards_curve_mul_prim (algo : gnutls_pk_algorithm_t) : List Prim :=
  match algo with
  | GNUTLS_PK_ECDH_X25519 => [Prim.curve25519_mul]
  | GNUTLS_PK_ECDH_X448 => [Prim.curve448_mul]
  | _ => []

/-- The `GNUTLS_PK_DH` case of `_wrap_nettle_pk_derive` (lines 306-410). -/
def derive_dh (E : Env) (out : gnutls_datum_t) (priv pub : gnutls_pk_params_st)
    (nonce : Option gnutls_datum_t) (flags : Nat) (w : World) : Branch gnutls_datum_t :=
  if nonce.isSome then ⟨GNUTLS_E_INVALID_REQUEST, false, out, w⟩ else
  let f := TOMPZ (pub.get DH_Y)
  let x := TOMPZ (priv.get DH_X)
  let q := priv.get DH_Q
  let prime := TOMPZ (priv.get DH_P)
  let primesub1 : Int := (prime : Int) - 1
  /- check if f==0,1, or f >= p-1 -/
  if f == 1 || f == 0 || decide ((f : Int) ≥ primesub1) then
    ⟨GNUTLS_E_RECEIVED_ILLEGAL_PARAMETER, false, out, w⟩ else
  /- if we have Q check that y ^ q mod p == 1 -/
  let w1 : World :=
    match q with
    | some qv => w.call (Prim.mpi_powm f qv prime)
    | none => w
  let q_ok : Bool :=
    match q with
    | some qv => _gnutls_mpi_powm f qv prime == 1
    | none => !(has_flag flags PK_DERIVE_TLS13 && E.fips_mode_enabled)
  if q_ok == false then ⟨GNUTLS_E_RECEIVED_ILLEGAL_PARAMETER, false, out, w1⟩ else
  /- prevent denial of service -/
  let bits := _gnutls_mpi_get_nbits prime
  if bits == 0 || decide (bits > MAX_DH_BITS E) then
    ⟨GNUTLS_E_RECEIVED_ILLEGAL_PARAMETER, false, out, w1⟩ else
  let not_approved := decide (bits < 2048)
  let k := _gnutls_mpi_powm f x prime
  let w2 := w1.call (Prim.mpi_powm f x prime)
  /- check if k==0,1, or k = p-1 -/
  if k == 1 || k == 0 || decide ((k : Int) = primesub1) then
    ⟨GNUTLS_E_RECEIVED_ILLEGAL_PARAMETER, not_approved, out, w2⟩ else
  if has_flag flags PK_DERIVE_TLS13 then
    ⟨0, not_approved, _gnutls_mpi_dprint_size k ((bits + 7) / 8), w2⟩
  else
    ⟨0, not_approved, _gnutls_mpi_dprint k, w2⟩

/-- The full public-key validation block of the `GNUTLS_PK_EC` case (lines
486-557), run when `_gnutls_fips_mode_enabled()`: the result code and the
world. -/
def derive_ec_fips_checks (E : Env) (priv : gnutls_pk_params_st) (curve : ecc_curve)
    (ecc_priv : Nat) (ecc_pub : Nat × Nat) (w : World) : Int × World :=
  let r := E.ecc_point_mul curve ecc_priv ecc_pub
  let w1 := w.call Prim.ecc_point_mul
  let x := r.1
  let y := r.2
  if E.ecc_point_set curve x y == false then (GNUTLS_E_ILLEGAL_PARAMETER, w1) else
  match get_supported_nist_curve_order priv.curve with
  | none => (GNUTLS_E_INTERNAL_ERROR, w1)
  | some nn =>
  match get_supported_nist_curve_modulus priv.curve with
  | none => (GNUTLS_E_INTERNAL_ERROR, w1)
  | some mm =>
  /- (n - 1) * Q = -Q -/
  let r2 := E.ecc_point_mul curve (nn - 1) (x, y)
  let w2 := w1.call Prim.ecc_point_mul
  let xx := r2.1
  let yy := r2.2
  if xx != x || decide ((yy : Int) ≠ (mm : Int) - (y : Int)) then
    (GNUTLS_E_ILLEGAL_PARAMETER, w2)
  else (0, w2)

/-- The `GNUTLS_PK_EC` case of `_wrap_nettle_pk_derive` (lines 411-576). -/
def derive_ec (E : Env) (out : gnutls_datum_t) (priv pub : gnutls_pk_params_st)
    (nonce : Option gnutls_datum_t) (w : World) : Branch gnutls_datum_t :=
  let out0 : gnutls_datum_t := { out with data := none }
  if nonce.isSome then ⟨GNUTLS_E_INVALID_REQUEST, false, out0, w⟩ else
  match get_supported_nist_curve priv.curve with
  | none => ⟨GNUTLS_E_ECC_UNSUPPORTED_CURVE, false, out0, w⟩
  | some curve =>
  /- P-192 is not supported in FIPS 140-3 -/
  let not_approved := decide (priv.curve = GNUTLS_ECC_CURVE_SECP192R1)
  if _ecc_params_to_pubkey E pub curve < 0 then
    ⟨_ecc_params_to_pubkey E pub curve, not_approved, out0, w⟩ else
  if _ecc_params_to_privkey E priv curve < 0 then
    ⟨_ecc_params_to_privkey E priv curve, not_approved, out0, w⟩ else
  let ecc_pub : Nat × Nat := (TOMPZ (pub.get ECC_X), TOMPZ (pub.get ECC_Y))
  let ecc_priv : Nat := TOMPZ (priv.get ECC_K)
  let size := E.gnutls_ecc_curve_get_size priv.curve
  let ss := ecc_shared_secret E curve ecc_priv ecc_pub size
  let w1 := w.call Prim.ecc_point_mul
  if ss.1 < 0 then
    /- gnutls_free (out->data) -/
    ⟨ss.1, not_approved, { data := none, size := size }, w1⟩ else
  let out1 : gnutls_datum_t := { data := ss.2, size := size }
  if E.fips_mode_enabled then
    let c := derive_ec_fips_checks E priv curve ecc_priv ecc_pub w1
    ⟨c.1, not_approved, out1, c.2⟩
  else
    ⟨0, true, out1, w1⟩

/-- The `GNUTLS_PK_ECDH_X25519` / `GNUTLS_PK_ECDH_X448` case (lines 577-616). -/
def derive_ecdh_x (E : Env) (algo : gnutls_pk_algorithm_t) (out : gnutls_datum_t)
    (priv pub : gnutls_pk_params_st) (nonce : Option gnutls_datum_t) (w : World) :
    Branch gnutls_datum_t :=
  let size := E.gnutls_ecc_curve_get_size priv.curve
  /- Edwards curves are not approved -/
  if nonce.isSome then ⟨GNUTLS_E_INVALID_REQUEST, true, out, w⟩ else
  if size == 0 || priv.raw_priv.size != size then
    ⟨GNUTLS_E_INVALID_REQUEST, true, out, w⟩ else
  let m := edwards_curve_mul E algo (priv.raw_priv.data.getD []) (pub.raw_pub.data.getD [])
  let w1 : World := { w with calls := w.calls ++ edwards_curve_mul_prim algo }
  if m.1 < 0 then
    ⟨m.1, true, { data := some (E.gnutls_malloc size), size := size }, w1⟩ else
  let out1 : gnutls_datum_t := { data := m.2, size := size }
  if _gnutls_mem_is_zero (out1.data.getD []) out1.size then
    /- gnutls_free (out->data) -/
    ⟨GNUTLS_E_RECEIVED_ILLEGAL_PARAMETER, true, { out1 with data := none }, w1⟩
  else ⟨0, true, out1, w1⟩

/-- The GOST case of `_wrap_nettle_pk_derive` (lines 618-672). -/
def derive_gost (E : Env) (out : gnutls_datum_t) (priv pub : gnutls_pk_params_st)
    (nonce : Option gnutls_datum_t) (w : World) : Branch gnutls_datum_t :=
  /- GOST curves are not approved -/
  let out0 : gnutls_datum_t := { out with data := none }
  match get_supported_gost_curve priv.curve with
  | none => ⟨GNUTLS_E_ECC_UNSUPPORTED_CURVE, true, out0, w⟩
  | some curve =>
  match nonce with
  | none => ⟨GNUTLS_E_INVALID_REQUEST, true, out0, w⟩
  | some ukm =>
  if _gost_params_to_pubkey E pub curve < 0 then
    ⟨_gost_params_to_pubkey E pub curve, true, out0, w⟩ else
  if _gost_params_to_privkey E priv curve < 0 then
    ⟨_gost_params_to_privkey E priv curve, true, out0, w⟩ else
  let size := 2 * E.gnutls_ecc_curve_get_size priv.curve
  let z := E.gostdsa_vko curve (TOMPZ (priv.get GOST_K))
    (TOMPZ (pub.get GOST_X), TOMPZ (pub.get GOST_Y)) ((ukm.data.getD []).take ukm.size)
  ⟨0, true, { data := some z, size := size }, w.call Prim.gostdsa_vko⟩

/-- The function `_wrap_nettle_pk_derive`: the value returned, the output
datum and the world after the call. -/
def _wrap_nettle_pk_derive (E : Env) (algo : gnutls_pk_algorithm_t) (out : gnutls_datum_t)
    (priv pub : gnutls_pk_params_st) (nonce : Option gnutls_datum_t) (flags : Nat) (w : World) :
    Int × gnutls_datum_t × World :=
  let b : Branch gnutls_datum_t :=
    match algo with
    | GNUTLS_PK_DH => derive_dh E out priv pub nonce flags w
    | GNUTLS_PK_ECDSA => derive_ec E out priv pub nonce w
    | GNUTLS_PK_ECDH_X25519 => derive_ecdh_x E algo out priv pub nonce w
    | GNUTLS_PK_ECDH_X448 => derive_ecdh_x E algo out priv pub nonce w
    | GNUTLS_PK_GOST_01 => derive_gost E out priv pub nonce w
    | GNUTLS_PK_GOST_12_256 => derive_gost E out priv pub nonce w
    | GNUTLS_PK_GOST_12_512 => derive_gost E out priv pub nonce w
    | _ => ⟨GNUTLS_E_INTERNAL_ERROR, false, out, w⟩
  (b.ret, b.out, cleanup_fips_state b.ret b.not_approved b.world)

/-! ## The random callbacks (`pk.c` lines 84-129) -/

/-- The clock handed to the external primitives: the number of primitives
invoked so far. -/
def World.tick (w : World) : Nat := w.calls.length

/-- The callback `rnd_key_func`, called by `pk.c` itself for `length` bytes. -/
def rnd_key_func (E : Env) (length : Nat) (w : World) : List Nat × World :=
  let r := E.gnutls_rnd w.tick GNUTLS_RND_KEY length
  let w1 := w.call Prim.gnutls_rnd
  if r.1 < 0 then (r.2, _gnutls_switch_lib_state LIB_STATE_ERROR w1) else (r.2, w1)

/-- The callback `rnd_tmpkey_func`. -/
def rnd_tmpkey_func (E : Env) (length : Nat) (w : World) : List Nat × World :=
  let r := E.gnutls_rnd w.tick GNUTLS_RND_RANDOM length
  let w1 := w.call Prim.gnutls_rnd
  if r.1 < 0 then (r.2, _gnutls_switch_lib_state LIB_STATE_ERROR w1) else (r.2, w1)

/-- The callback `rnd_nonce_func`. -/
def rnd_nonce_func (E : Env) (length : Nat) (w : World) : List Nat × World :=
  let r := E.gnutls_rnd w.tick GNUTLS_RND_NONCE length
  let w1 := w.call Prim.gnutls_rnd
  if r.1 < 0 then (r.2, _gnutls_switch_lib_state LIB_STATE_ERROR w1) else (r.2, w1)

/-- The callback `rnd_datum_func`: the datum, left-padded with zeros or cut
to `length` bytes. -/
def rnd_datum_func (d : List Nat) (length : Nat) : List Nat :=
  if length > d.length then List.replicate (length - d.length) 0 ++ d
  else d.take length

/-- The callback `rnd_nonce_func_fallback`. -/
def rnd_nonce_func_fallback (length : Nat) (w : World) : List Nat × World :=
  let w1 :=
    if _gnutls_get_lib_state w != LIB_STATE_SELFTEST
    then _gnutls_switch_lib_state LIB_STATE_ERROR w else w
  (List.replicate length 0xAA, w1)

/-- A direct call `rnd_func (NULL, length, data)` made by `pk.c`. -/
def run_rnd_func (E : Env) (rf : RndFunc) (length : Nat) (w : World) : List Nat × World :=
  match rf with
  | RndFunc.rnd_key_func => rnd_key_func E length w
  | RndFunc.rnd_tmpkey_func => rnd_tmpkey_func E length w
  | RndFunc.rnd_nonce_func => rnd_nonce_func E length w
  | RndFunc.rnd_datum_func d => (rnd_datum_func d length, w)
  | RndFunc.rnd_nonce_func_fallback => rnd_nonce_func_fallback length w

/-- The effect on the world of the callback invocations an external
primitive made: the three generator-backed callbacks poison the library when
`gnutls_rnd` failed, the fallback does so whenever it runs outside self-test,
and `rnd_datum_func` has no effect. -/
def rnd_effect (rf : RndFunc) (u : RndUse) (w : World) : World :=
  match rf, u with
  | RndFunc.rnd_key_func, RndUse.failed => _gnutls_switch_lib_state LIB_STATE_ERROR w
  | RndFunc.rnd_tmpkey_func, RndUse.failed => _gnutls_switch_lib_state LIB_STATE_ERROR w
  | RndFunc.rnd_nonce_func, RndUse.failed => _gnutls_switch_lib_state LIB_STATE_ERROR w
  | RndFunc.rnd_nonce_func_fallback, RndUse.ok => (rnd_nonce_func_fallback 0 w).2
  | RndFunc.rnd_nonce_func_fallback, RndUse.failed => (rnd_nonce_func_fallback 0 w).2
  | _, _ => w

/-- The world after an external primitive `p` ran with callback `rf` and used
it as `u` says. -/
def World.after (w : World) (p : Prim) (rf : RndFunc) (u : RndUse) : World :=
  rnd_effect rf u (w.call p)

/-- The selection `_gnutls_get_lib_state() == LIB_STATE_SELFTEST ?
rnd_nonce_func_fallback : rnd_nonce_func` made by the RSA paths. -/
def select_nonce_func (w : World) : RndFunc :=
  if _gnutls_get_lib_state w == LIB_STATE_SELFTEST then RndFunc.rnd_nonce_func_fallback
  else RndFunc.rnd_nonce_func

/-! ## Encapsulation (`pk.c` lines 694-954) -/

/-- The function `ml_kem_pk_to_lc_kyber_type`. -/
def ml_kem_pk_to_lc_kyber_type (E : Env) (algo : gnutls_pk_algorithm_t) : lc_kyber_type :=
  match algo with
  | GNUTLS_PK_MLKEM768 =>
    if E.LC_KYBER_768_ENABLED then lc_kyber_type.LC_KYBER_768 else lc_kyber_type.LC_KYBER_UNKNOWN
  | GNUTLS_PK_MLKEM1024 =>
    if E.LC_KYBER_1024_ENABLED then lc_kyber_type.LC_KYBER_1024
    else lc_kyber_type.LC_KYBER_UNKNOWN
  | _ => lc_kyber_type.LC_KYBER_UNKNOWN

/-- The function `ml_kem_exists`. -/
def ml_kem_exists (E : Env) (algo : gnutls_pk_algorithm_t) : Bool :=
  ml_kem_pk_to_lc_kyber_type E algo != lc_kyber_type.LC_KYBER_UNKNOWN

/-- The bytes a datum holds: the first `size` bytes behind `data`. -/
def gnutls_datum_t.bytes (d : gnutls_datum_t) : List Nat := (d.data.getD []).take d.size

/-- A freshly allocated datum holding the given bytes (`_gnutls_set_datum`). -/
def _gnutls_set_datum (b : List Nat) : gnutls_datum_t := { data := some b, size := b.length }

/-- The function `ml_kem_encaps`: return value, `ciphertext`, `shared_secret`
and the world. -/
def ml_kem_encaps (E : Env) (algo : gnutls_pk_algorithm_t) (ciphertext shared_secret : gnutls_datum_t)
    (pub : gnutls_datum_t) (w : World) : Int × gnutls_datum_t × gnutls_datum_t × World :=
  let type := ml_kem_pk_to_lc_kyber_type E algo
  if type == lc_kyber_type.LC_KYBER_UNKNOWN then
    (GNUTLS_E_UNKNOWN_PK_ALGORITHM, ciphertext, shared_secret, w) else
  let l := E.lc_kyber_pk_load pub.bytes
  if l.1 < 0 || l.2 != type then (GNUTLS_E_INVALID_REQUEST, ciphertext, shared_secret, w) else
  let e := E.lc_kyber_enc w.tick pub.bytes
  let w1 := w.call Prim.lc_kyber_enc
  if e.1 < 0 then (GNUTLS_E_PK_ENCRYPTION_FAILED, ciphertext, shared_secret, w1) else
  if E.lc_kyber_ct_ptr e.2.1 < 0 then
    (GNUTLS_E_INTERNAL_ERROR, ciphertext, shared_secret, w1) else
  if E.lc_kyber_ss_ptr e.2.2 < 0 then
    (GNUTLS_E_INTERNAL_ERROR, ciphertext, shared_secret, w1) else
  (0, _gnutls_set_datum e.2.1, _gnutls_set_datum e.2.2, w1)

/-- The function `ml_kem_decaps`: return value, `shared_secret`, world. -/
def ml_kem_decaps (E : Env) (algo : gnutls_pk_algorithm_t) (shared_secret : gnutls_datum_t)
    (ciphertext priv : gnutls_datum_t) (w : World) : Int × gnutls_datum_t × World :=
  let type := ml_kem_pk_to_lc_kyber_type E algo
  if type == lc_kyber_type.LC_KYBER_UNKNOWN then
    (GNUTLS_E_UNKNOWN_PK_ALGORITHM, shared_secret, w) else
  let l := E.lc_kyber_sk_load priv.bytes
  if l.1 < 0 || l.2 != type then (GNUTLS_E_INVALID_REQUEST, shared_secret, w) else
  let c := E.lc_kyber_ct_load ciphertext.bytes
  if c.1 < 0 || c.2 != type then (GNUTLS_E_INVALID_REQUEST, shared_secret, w) else
  let d := E.lc_kyber_dec ciphertext.bytes priv.bytes
  let w1 := w.call Prim.lc_kyber_dec
  if d.1 < 0 then (GNUTLS_E_PK_DECRYPTION_FAILED, shared_secret, w1) else
  if E.lc_kyber_ss_ptr d.2 < 0 then (GNUTLS_E_INTERNAL_ERROR, shared_secret, w1) else
  (0, _gnutls_set_datum d.2, w1)

/-- The function `_wrap_nettle_pk_encaps`. -/
def _wrap_nettle_pk_encaps (E : Env) (algo : gnutls_pk_algorithm_t)
    (ciphertext shared_secret : gnutls_datum_t) (pub : gnutls_datum_t) (w : World) :
    Int × gnutls_datum_t × gnutls_datum_t × World :=
  match algo with
  | GNUTLS_PK_MLKEM768 => ml_kem_encaps E algo ciphertext shared_secret pub w
  | GNUTLS_PK_MLKEM1024 => ml_kem_encaps E algo ciphertext shared_secret pub w
  | _ => (GNUTLS_E_UNKNOWN_ALGORITHM, ciphertext, shared_secret, w)

/-- The function `_wrap_nettle_pk_decaps`. -/
def _wrap_nettle_pk_decaps (E : Env) (algo : gnutls_pk_algorithm_t) (shared_secret : gnutls_datum_t)
    (ciphertext priv : gnutls_datum_t) (w : World) : Int × gnutls_datum_t × World :=
  match algo with
  | GNUTLS_PK_MLKEM768 => ml_kem_decaps E algo shared_secret ciphertext priv w
  | GNUTLS_PK_MLKEM1024 => ml_kem_decaps E algo shared_secret ciphertext priv w
  | _ => (GNUTLS_E_UNKNOWN_ALGORITHM, shared_secret, w)

/-! ## Encryption and decryption (`pk.c` lines 956-1453) -/

/-- The tail shared by `encrypt`, `decrypt`, `sign`, `verify` and
`generate_keys`: the `cleanup:` classification, then `FAIL_IF_LIB_ERROR;
return ret;`. -/
def cleanup_and_return {α : Type} (b : Branch α) : Int × α × World :=
  let w := cleanup_fips_state b.ret b.not_approved b.world
  (if HAVE_LIB_ERROR w then GNUTLS_E_LIB_IN_ERROR_STATE else b.ret, b.out, w)

/-- Modelled from the spec: the unsigned big-endian scan behind
`_gnutls_mpi_init_scan_nz` of `mpi.c` (not among the sources). -/
def mpi_scan (bytes : List Nat) : Nat := bytes.foldl (fun a b => a * 256 + b) 0

/-- Modelled from the spec: `_gnutls_mpi_init_scan_nz` of `mpi.c` (not among
the sources) scans `size` bytes and fails on the value zero. -/
def _gnutls_mpi_init_scan_nz (buffer : List Nat) (size : Nat) : Int × bigint_t :=
  if mpi_scan (buffer.take size) == 0 then (GNUTLS_E_MPI_SCAN_FAILED, none)
  else (0, some (mpi_scan (buffer.take size)))

/-- Modelled from the spec: `_gnutls_mpi_bprint_size` of `mpi.c` (not among
the sources) writes `a` into a `size`-byte buffer, zero-padded on the left,
and fails without writing when `a` does not fit. -/
def _gnutls_mpi_bprint_size (a : Nat) (size : Nat) : Option (List Nat) :=
  if nettle_mpz_sizeinbase_256_u a ≤ size then some (nettle_mpz_get_str_256 size a) else none

/-- The function `_rsa_params_to_pubkey`: result code and the public key. -/
def _rsa_params_to_pubkey (E : Env) (pk_params : gnutls_pk_params_st) : Int × rsa_public_key :=
  let n := TOMPZ (pk_params.get RSA_MODULUS)
  let e := TOMPZ (pk_params.get RSA_PUB)
  let pub : rsa_public_key := { n := n, e := e, size := E.rsa_public_key_prepare n e }
  if pub.size == 0 then (GNUTLS_E_PK_INVALID_PUBKEY, pub) else (0, pub)

/-- The function `_rsa_encrypt`: nettle's return value, the bytes written to
the `ciphertext` buffer (`none` when nothing was written) and the world. -/
def _rsa_encrypt (E : Env) (key : rsa_public_key) (rnd_func : RndFunc) (message : List Nat)
    (w : World) : Int × Option (List Nat) × World :=
  let o := E.rsa_encrypt w.tick key rnd_func message
  let w1 := w.after Prim.rsa_encrypt rnd_func o.rnd
  if o.ret == 0 then (o.ret, none, w1)
  else (o.ret, _gnutls_mpi_bprint_size o.out key.size, w1)

/-- The function `_rsa_oaep_encrypt`. -/
def _rsa_oaep_encrypt (E : Env) (dig : gnutls_digest_algorithm_t) (pub : rsa_public_key)
    (rnd_func : RndFunc) (label message : List Nat) (w : World) :
    Int × Option (List Nat) × World :=
  match dig with
  | GNUTLS_DIG_SHA256 | GNUTLS_DIG_SHA384 | GNUTLS_DIG_SHA512 =>
    let o := E.rsa_oaep_encrypt w.tick dig pub rnd_func label message
    (o.ret, some o.out, w.after Prim.rsa_oaep_encrypt rnd_func o.rnd)
  | _ => (0, none, w)

/-- The body of `_wrap_nettle_pk_encrypt` between the first
`FAIL_IF_LIB_ERROR` and `cleanup:` (lines 1030-1118). -/
def encrypt_body (E : Env) (algo : gnutls_pk_algorithm_t) (ciphertext plaintext : gnutls_datum_t)
    (pk_params : gnutls_pk_params_st) (encrypt_params : gnutls_x509_spki_st) (w : World) :
    Branch gnutls_datum_t :=
  let algo1 :=
    if algo == GNUTLS_PK_RSA && pk_params.spki.pk == GNUTLS_PK_RSA_OAEP then GNUTLS_PK_RSA_OAEP
    else algo
  match algo1 with
  | GNUTLS_PK_RSA =>
    if E.rsa_pkcs1_encrypt_allowed == false then
      ⟨GNUTLS_E_UNSUPPORTED_ENCRYPTION_ALGORITHM, false, ciphertext, w⟩ else
    /- RSA encryption with PKCS#1 v1.5 padding is not approved -/
    let pk := _rsa_params_to_pubkey E pk_params
    if pk.1 < 0 then ⟨pk.1, true, ciphertext, w⟩ else
    let random_func := select_nonce_func w
    let r := _rsa_encrypt E pk.2 random_func plaintext.bytes w
    if r.1 == 0 || HAVE_LIB_ERROR r.2.2 then
      ⟨GNUTLS_E_ENCRYPTION_FAILED, true, ciphertext, r.2.2⟩ else
    ⟨0, true, { data := some (r.2.1.getD (E.gnutls_malloc pk.2.size)), size := pk.2.size },
      r.2.2⟩
  | GNUTLS_PK_RSA_OAEP =>
    let pk := _rsa_params_to_pubkey E pk_params
    if pk.1 < 0 then ⟨pk.1, false, ciphertext, w⟩ else
    let random_func := select_nonce_func w
    let r := _rsa_oaep_encrypt E encrypt_params.rsa_oaep_dig pk.2 random_func
      encrypt_params.rsa_oaep_label.bytes plaintext.bytes w
    if r.1 == 0 || HAVE_LIB_ERROR r.2.2 then
      ⟨GNUTLS_E_ENCRYPTION_FAILED, false, ciphertext, r.2.2⟩ else
    ⟨0, false, { data := some (r.2.1.getD (E.gnutls_malloc pk.2.size)), size := pk.2.size },
      r.2.2⟩
  | _ => ⟨GNUTLS_E_INVALID_REQUEST, false, ciphertext, w⟩

/-- The function `_wrap_nettle_pk_encrypt`: value returned, `ciphertext`,
world. -/
def _wrap_nettle_pk_encrypt (E : Env) (algo : gnutls_pk_algorithm_t)
    (ciphertext plaintext : gnutls_datum_t) (pk_params : gnutls_pk_params_st)
    (encrypt_params : gnutls_x509_spki_st) (w : World) : Int × gnutls_datum_t × World :=
  if HAVE_LIB_ERROR w then (GNUTLS_E_LIB_IN_ERROR_STATE, ciphertext, w) else
  cleanup_and_return (encrypt_body E algo ciphertext plaintext pk_params encrypt_params w)

/-- The function `_rsa_decrypt_tr`: nettle's return value, the message and
the world. -/
def _rsa_decrypt_tr (E : Env) (pub : rsa_public_key) (key : gnutls_pk_params_st)
    (rnd_func : RndFunc) (length : Nat) (ciphertext : List Nat) (w : World) :
    Int × Option (List Nat) × World :=
  let c := _gnutls_mpi_init_scan_nz ciphertext pub.size
  if c.1 < 0 then (0, none, w) else
  let o := E.rsa_decrypt_tr w.tick key rnd_func length (TOMPZ c.2)
  (o.ret, some o.out, w.after Prim.rsa_decrypt_tr rnd_func o.rnd)

/-- The function `_rsa_oaep_decrypt`. -/
def _rsa_oaep_decrypt (E : Env) (dig : gnutls_digest_algorithm_t) (key : gnutls_pk_params_st)
    (rnd_func : RndFunc) (label : List Nat) (length : Nat) (ciphertext : List Nat) (w : World) :
    Int × Option (List Nat) × World :=
  match dig with
  | GNUTLS_DIG_SHA256 | GNUTLS_DIG_SHA384 | GNUTLS_DIG_SHA512 =>
    let o := E.rsa_oaep_decrypt w.tick dig key rnd_func label length ciphertext
    (o.ret, some o.out, w.after Prim.rsa_oaep_decrypt rnd_func o.rnd)
  | _ => (0, none, w)

/-- The body of `_wrap_nettle_pk_decrypt` between the first
`FAIL_IF_LIB_ERROR` and `cleanup:` (lines 1205-1312). -/
def decrypt_body (E : Env) (algo : gnutls_pk_algorithm_t) (plaintext ciphertext : gnutls_datum_t)
    (pk_params : gnutls_pk_params_st) (encrypt_params : gnutls_x509_spki_st) (w : World) :
    Branch gnutls_datum_t :=
  let algo1 :=
    if algo == GNUTLS_PK_RSA && encrypt_params.pk == GNUTLS_PK_RSA_OAEP then GNUTLS_PK_RSA_OAEP
    else algo
  match algo1 with
  | GNUTLS_PK_RSA =>
    if E.rsa_pkcs1_encrypt_allowed == false then
      ⟨GNUTLS_E_UNSUPPORTED_ENCRYPTION_ALGORITHM, false, plaintext, w⟩ else
    /- RSA decryption with PKCS#1 v1.5 padding is not approved -/
    let pk := _rsa_params_to_pubkey E pk_params
    if pk.1 < 0 then ⟨pk.1, true, plaintext, w⟩ else
    if ciphertext.size != pk.2.size then ⟨GNUTLS_E_DECRYPTION_FAILED, true, plaintext, w⟩ else
    let random_func := select_nonce_func w
    let r := _rsa_decrypt_tr E pk.2 pk_params random_func pk.2.size (ciphertext.data.getD []) w
    if r.1 == 0 || HAVE_LIB_ERROR r.2.2 then
      ⟨GNUTLS_E_DECRYPTION_FAILED, true, plaintext, r.2.2⟩ else
    ⟨0, true, _gnutls_set_datum (r.2.1.getD []), r.2.2⟩
  | GNUTLS_PK_RSA_OAEP =>
    let pk := _rsa_params_to_pubkey E pk_params
    if pk.1 < 0 then ⟨pk.1, false, plaintext, w⟩ else
    if ciphertext.size != pk.2.size then ⟨GNUTLS_E_DECRYPTION_FAILED, false, plaintext, w⟩ else
    let random_func := select_nonce_func w
    let r := _rsa_oaep_decrypt E encrypt_params.rsa_oaep_dig pk_params random_func
      encrypt_params.rsa_oaep_label.bytes pk.2.size (ciphertext.data.getD []) w
    if r.1 == 0 || HAVE_LIB_ERROR r.2.2 then
      ⟨GNUTLS_E_DECRYPTION_FAILED, false, plaintext, r.2.2⟩ else
    ⟨0, false, _gnutls_set_datum (r.2.1.getD []), r.2.2⟩
  | _ => ⟨GNUTLS_E_INTERNAL_ERROR, false, plaintext, w⟩

/-- The function `_wrap_nettle_pk_decrypt`: value returned, `plaintext`,
world. -/
def _wrap_nettle_pk_decrypt (E : Env) (algo : gnutls_pk_algorithm_t)
    (plaintext ciphertext : gnutls_datum_t) (pk_params : gnutls_pk_params_st)
    (encrypt_params : gnutls_x509_spki_st) (w : World) : Int × gnutls_datum_t × World :=
  if HAVE_LIB_ERROR w then (GNUTLS_E_LIB_IN_ERROR_STATE, plaintext, w) else
  cleanup_and_return (decrypt_body E algo plaintext ciphertext pk_params encrypt_params w)

/-- The function `_rsa_sec_decrypt`. -/
def _rsa_sec_decrypt (E : Env) (pub : rsa_public_key) (key : gnutls_pk_params_st)
    (rnd_func : RndFunc) (length : Nat) (ciphertext : List Nat) (w : World) :
    Int × Option (List Nat) × World :=
  let c := _gnutls_mpi_init_scan_nz ciphertext pub.size
  if c.1 < 0 then (0, none, w) else
  let o := E.rsa_sec_decrypt w.tick key rnd_func length (TOMPZ c.2)
  (o.ret, some o.out, w.after Prim.rsa_sec_decrypt rnd_func o.rnd)

/-- Modelled from the spec: the macro `CONSTCHECK_NOT_EQUAL` of
`gnutls_int.h` (not among the sources), on 32-bit unsigned values:
`(-((uint32_t)a ^ (uint32_t)b)) >> 31`. -/
def CONSTCHECK_NOT_EQUAL (a b : Nat) : Nat :=
  ((2 ^ 32 - ((a % 2 ^ 32) ^^^ (b % 2 ^ 32))) % 2 ^ 32) >>> 31

/-- Modelled from the spec: the macro `CONSTCHECK_EQUAL`, `1U - NOT_EQUAL`. -/
def CONSTCHECK_EQUAL (a b : Nat) : Nat :=
  (2 ^ 32 + 1 - CONSTCHECK_NOT_EQUAL a b) % 2 ^ 32

/-- The conversion of a C `int` to `uint32_t`. -/
def to_uint32 (i : Int) : Nat := (i % 2 ^ 32).toNat

/-- The conversion of a `uint32_t` to a C `int` (two's complement). -/
def to_int32 (n : Nat) : Int := if n % 2 ^ 32 < 2 ^ 31 then (n % 2 ^ 32 : Nat) else (n % 2 ^ 32 : Nat) - 2 ^ 32

/-- The branch-free return expression of `_wrap_nettle_pk_decrypt2` (lines
1441-1447), from `HAVE_LIB_ERROR()` and the primitive's `ret`. -/
def decrypt2_return (have_lib_error : Bool) (ret : Int) : Int :=
  let is_err0 : Nat := if have_lib_error then 1 else 0
  let is_err1 := CONSTCHECK_NOT_EQUAL is_err0 0
  let is_err2 := is_err1 ||| CONSTCHECK_EQUAL (to_uint32 ret) 0
  to_int32 (((is_err2 * (2 ^ 32 - 1)) % 2 ^ 32) &&& to_uint32 GNUTLS_E_DECRYPTION_FAILED)

/-- The function `_wrap_nettle_pk_decrypt2`: value returned, the caller's
`plaintext` buffer (`none` is `NULL`) and the world. -/
def _wrap_nettle_pk_decrypt2 (E : Env) (algo : gnutls_pk_algorithm_t) (ciphertext : gnutls_datum_t)
    (plaintext : Option (List Nat)) (plaintext_size : Nat) (pk_params : gnutls_pk_params_st)
    (encrypt_params : gnutls_x509_spki_st) (w : World) : Int × Option (List Nat) × World :=
  if HAVE_LIB_ERROR w then (GNUTLS_E_LIB_IN_ERROR_STATE, plaintext, w) else
  let fail (ret : Int) (w1 : World) : Int × Option (List Nat) × World :=
    (ret, plaintext, _gnutls_switch_fips_state GNUTLS_FIPS140_OP_ERROR w1)
  if (algo != GNUTLS_PK_RSA && algo != GNUTLS_PK_RSA_OAEP) || plaintext.isNone then
    fail GNUTLS_E_INTERNAL_ERROR w else
  let algo1 := if encrypt_params.pk == GNUTLS_PK_RSA_OAEP then GNUTLS_PK_RSA_OAEP else algo
  let pk := _rsa_params_to_pubkey E pk_params
  if pk.1 < 0 then fail pk.1 w else
  if ciphertext.size != pk.2.size then fail GNUTLS_E_DECRYPTION_FAILED w else
  let random_func := select_nonce_func w
  let after (not_approved : Bool) (r : Int × Option (List Nat) × World) :
      Int × Option (List Nat) × World :=
    /- The decrypt operation is infallible; treat the approved operation as
       complete at this point, regardless of any decryption failure detected
       below. -/
    let w1 := _gnutls_switch_fips_state
      (if not_approved then GNUTLS_FIPS140_OP_NOT_APPROVED else GNUTLS_FIPS140_OP_APPROVED) r.2.2
    let buf := plaintext.getD []
    let written := r.2.1.getD []
    (decrypt2_return (HAVE_LIB_ERROR w1) r.1, some (written ++ buf.drop written.length), w1)
  match algo1 with
  | GNUTLS_PK_RSA =>
    if E.rsa_pkcs1_encrypt_allowed == false then
      fail GNUTLS_E_UNSUPPORTED_ENCRYPTION_ALGORITHM w else
    /- RSA decryption with PKCS#1 v1.5 padding is not approved -/
    after true (_rsa_sec_decrypt E pk.2 pk_params random_func plaintext_size
      (ciphertext.data.getD []) w)
  | GNUTLS_PK_RSA_OAEP =>
    after false (_rsa_oaep_decrypt E encrypt_params.rsa_oaep_dig pk_params random_func
      encrypt_params.rsa_oaep_label.bytes plaintext_size (ciphertext.data.getD []) w)
  | _ => fail GNUTLS_E_INTERNAL_ERROR w

/-! ## Signing (`pk.c` lines 1455-2213) -/

/-- The macro `CHECK_INVALID_RSA_PSS_PARAMS`: does it return? -/
def CHECK_INVALID_RSA_PSS_PARAMS (dig_size salt_size pub_size : Nat) : Bool :=
  decide (dig_size + salt_size + 2 > pub_size)

/-- The function `_rsa_pss_sign_digest_tr`: result code, signature integer
and world. -/
def _rsa_pss_sign_digest_tr (E : Env) (dig : gnutls_digest_algorithm_t) (pub : rsa_public_key)
    (priv : gnutls_pk_params_st) (rnd_func : RndFunc) (salt_size : Nat) (digest : List Nat)
    (w : World) : Int × Nat × World :=
  let hash_size : Option Nat :=
    match dig with
    | GNUTLS_DIG_SHA256 => some 32
    | GNUTLS_DIG_SHA384 => some 48
    | GNUTLS_DIG_SHA512 => some 64
    | _ => none
  match hash_size with
  | none => (GNUTLS_E_UNKNOWN_ALGORITHM, 0, w)
  | some hs =>
  /- This is also checked in pss_encode_mgf1, but error out earlier. -/
  if CHECK_INVALID_RSA_PSS_PARAMS hs salt_size pub.size then
    (GNUTLS_E_PK_INVALID_PUBKEY_PARAMS, 0, w) else
  let sw : List Nat × World :=
    if salt_size > 0 then
      let r := run_rnd_func E rnd_func salt_size (w.call Prim.rnd_salt)
      (r.1, r.2)
    else ([], w)
  let o := E.rsa_pss_sign_digest_tr sw.2.tick dig pub priv rnd_func sw.1 (digest.take hs)
  let w1 := sw.2.after Prim.rsa_pss_sign_digest_tr rnd_func o.rnd
  if o.ret == 0 then (GNUTLS_E_PK_SIGN_FAILED, o.out, w1) else (0, o.out, w1)

/-- The function `get_eddsa_curve`. -/
def get_eddsa_curve (algo : gnutls_pk_algorithm_t) : gnutls_ecc_curve_t :=
  match algo with
  | GNUTLS_PK_EDDSA_ED25519 => GNUTLS_ECC_CURVE_ED25519
  | GNUTLS_PK_EDDSA_ED448 => GNUTLS_ECC_CURVE_ED448
  | _ => GNUTLS_ECC_CURVE_INVALID

/-- The function `get_ecdh_curve`. -/
def get_ecdh_curve (algo : gnutls_pk_algorithm_t) : gnutls_ecc_curve_t :=
  match algo with
  | GNUTLS_PK_ECDH_X25519 => GNUTLS_ECC_CURVE_X25519
  | GNUTLS_PK_ECDH_X448 => GNUTLS_ECC_CURVE_X448
  | _ => GNUTLS_ECC_CURVE_INVALID

/-- The function `eddsa_sign`: result code and the signature bytes. -/
def eddsa_sign (E : Env) (algo : gnutls_pk_algorithm_t) (pub priv msg : List Nat) :
    Int × Option (List Nat) :=
  match algo with
  | GNUTLS_PK_EDDSA_ED25519 => (0, some (E.ed25519_sha512_sign pub priv msg))
  | GNUTLS_PK_EDDSA_ED448 => (0, some (E.ed448_shake256_sign pub priv msg))
  | _ => (GNUTLS_E_UNSUPPORTED_SIGNATURE_ALGORITHM, none)

/-- The function `ml_dsa_pk_to_lc_dilithium_type`. -/
def ml_dsa_pk_to_lc_dilithium_type (E : Env) (algo : gnutls_pk_algorithm_t) : lc_dilithium_type :=
  match algo with
  | GNUTLS_PK_MLDSA44 =>
    if E.LC_DILITHIUM_44_ENABLED then lc_dilithium_type.LC_DILITHIUM_44
    else lc_dilithium_type.LC_DILITHIUM_UNKNOWN
  | GNUTLS_PK_MLDSA65 =>
    if E.LC_DILITHIUM_65_ENABLED then lc_dilithium_type.LC_DILITHIUM_65
    else lc_dilithium_type.LC_DILITHIUM_UNKNOWN
  | GNUTLS_PK_MLDSA87 =>
    if E.LC_DILITHIUM_87_ENABLED then lc_dilithium_type.LC_DILITHIUM_87
    else lc_dilithium_type.LC_DILITHIUM_UNKNOWN
  | _ => lc_dilithium_type.LC_DILITHIUM_UNKNOWN

/-- The function `ml_dsa_exists`. -/
def ml_dsa_exists (E : Env) (algo : gnutls_pk_algorithm_t) : Bool :=
  ml_dsa_pk_to_lc_dilithium_type E algo != lc_dilithium_type.LC_DILITHIUM_UNKNOWN

/-- The function `ml_dsa_sign`: result code, `signature`, world. -/
def ml_dsa_sign (E : Env) (algo : gnutls_pk_algorithm_t) (signature message raw_priv : gnutls_datum_t)
    (w : World) : Int × gnutls_datum_t × World :=
  let type := ml_dsa_pk_to_lc_dilithium_type E algo
  if type == lc_dilithium_type.LC_DILITHIUM_UNKNOWN then
    (GNUTLS_E_UNSUPPORTED_SIGNATURE_ALGORITHM, signature, w) else
  let l := E.lc_dilithium_sk_load raw_priv.bytes
  if l.1 < 0 || l.2 != type then (GNUTLS_E_INVALID_REQUEST, signature, w) else
  let g := E.lc_dilithium_sign w.tick message.bytes raw_priv.bytes
  let w1 := w.call Prim.lc_dilithium_sign
  if g.1 < 0 then (GNUTLS_E_PK_SIGN_FAILED, signature, w1) else
  if E.lc_dilithium_sig_ptr g.2 < 0 then (GNUTLS_E_INTERNAL_ERROR, signature, w1) else
  (0, _gnutls_set_datum g.2, w1)

/-- The EdDSA case of `_wrap_nettle_pk_sign` (lines 1803-1839). -/
def sign_eddsa (E : Env) (algo : gnutls_pk_algorithm_t) (signature vdata : gnutls_datum_t)
    (pk_params : gnutls_pk_params_st) (w : World) : Branch gnutls_datum_t :=
  if get_eddsa_curve algo != pk_params.curve then
    ⟨GNUTLS_E_ECC_UNSUPPORTED_CURVE, false, signature, w⟩ else
  match E._gnutls_ecc_curve_get_params pk_params.curve with
  | none => ⟨GNUTLS_E_INVALID_REQUEST, false, signature, w⟩
  | some e =>
  let sig0 : gnutls_datum_t := { data := some (E.gnutls_malloc e.2), size := e.2 }
  if pk_params.raw_pub.size != e.1 || pk_params.raw_priv.size != e.1 then
    ⟨GNUTLS_E_PK_SIGN_FAILED, false, sig0, w⟩ else
  let r := eddsa_sign E algo (pk_params.raw_pub.data.getD []) (pk_params.raw_priv.data.getD [])
    vdata.bytes
  if r.1 < 0 then ⟨r.1, false, sig0, w⟩ else
  ⟨0, false, { sig0 with data := r.2 }, w.call Prim.eddsa_sign⟩

/-- The GOST case of `_wrap_nettle_pk_sign` (lines 1841-1891). -/
def sign_gost (E : Env) (signature vdata : gnutls_datum_t) (pk_params : gnutls_pk_params_st)
    (w : World) : Branch gnutls_datum_t :=
  /- GOSTDSA is not approved -/
  match get_supported_gost_curve pk_params.curve with
  | none => ⟨GNUTLS_E_ECC_UNSUPPORTED_CURVE, true, signature, w⟩
  | some curve =>
  if _ecc_params_to_privkey E pk_params curve < 0 then
    ⟨_ecc_params_to_privkey E pk_params curve, true, signature, w⟩ else
  if E._gnutls_mac_get_algo_len (E._gnutls_gost_digest pk_params.algo) != vdata.size then
    ⟨GNUTLS_E_INVALID_REQUEST, true, signature, w⟩ else
  let o := E.gostdsa_sign w.tick curve (TOMPZ (pk_params.get ECC_K)) RndFunc.rnd_tmpkey_func
    vdata.bytes
  let w1 := w.after Prim.gostdsa_sign RndFunc.rnd_tmpkey_func o.rnd
  let enc := E._gnutls_encode_gost_rs o.out.1 o.out.2 ((E.ecc_bit_size curve + 7) / 8)
  if enc.1 < 0 then ⟨enc.1, true, signature, w1⟩ else
  ⟨0, true, _gnutls_set_datum enc.2, w1⟩

/-- Is the digest one of the four SHA-2 ones the `switch` of lines 1936-1944
accepts? -/
def is_sha2_mac (dig : gnutls_digest_algorithm_t) : Bool :=
  match dig with
  | GNUTLS_DIG_SHA256 | GNUTLS_DIG_SHA384 | GNUTLS_DIG_SHA512 | GNUTLS_DIG_SHA224 => true
  | _ => false

/-- The ECDSA case of `_wrap_nettle_pk_sign` (lines 1893-1997). -/
def sign_ecdsa (E : Env) (signature vdata : gnutls_datum_t) (pk_params : gnutls_pk_params_st)
    (sign_params : gnutls_x509_spki_st) (w : World) : Branch gnutls_datum_t :=
  let curve_id := pk_params.curve
  match get_supported_nist_curve curve_id with
  | none => ⟨GNUTLS_E_ECC_UNSUPPORTED_CURVE, false, signature, w⟩
  | some curve =>
  /- P-192 is not supported in FIPS 140-3 -/
  let na0 := decide (curve_id = GNUTLS_ECC_CURVE_SECP192R1)
  if _ecc_params_to_privkey E pk_params curve < 0 then
    ⟨_ecc_params_to_privkey E pk_params curve, na0, signature, w⟩ else
  let priv := TOMPZ (pk_params.get ECC_K)
  let hash_len0 := (E._gnutls_dsa_q_to_hash pk_params).2
  let hash_len := if hash_len0 > vdata.size then vdata.size else hash_len0
  /- Only SHA-2 is allowed in FIPS 140-3 -/
  let not_approved := na0 || !is_sha2_mac sign_params.dsa_dig
  if _gnutls_get_lib_state w == LIB_STATE_SELFTEST
      || has_flag sign_params.flags GNUTLS_PK_FLAG_REPRODUCIBLE then
    let q := E._gnutls_ecc_curve_to_dsa_q curve_id
    if q.1 < 0 then ⟨q.1, not_approved, signature, w⟩ else
    let h := E._gnutls_dsa_compute_k q.2 priv (E.ecc_bit_size curve) sign_params.dsa_dig
      vdata.bytes
    let w1 := w.call Prim.dsa_compute_k
    if h.1 < 0 then ⟨h.1, not_approved, signature, w1⟩ else
    let k := E._gnutls_ecdsa_compute_k_finish h.2 ((E.ecc_bit_size curve + 7) / 8)
    let random_func := RndFunc.rnd_datum_func k
    let o := E.ecdsa_sign w1.tick curve priv random_func (vdata.bytes.take hash_len)
    let w2 := w1.after Prim.ecdsa_sign random_func o.rnd
    /- prevent memory leaks -/
    if HAVE_LIB_ERROR w2 then ⟨GNUTLS_E_LIB_IN_ERROR_STATE, not_approved, signature, w2⟩ else
    let enc := E._gnutls_encode_ber_rs o.out.1 o.out.2
    if enc.1 < 0 then ⟨enc.1, not_approved, signature, w2⟩ else
    ⟨0, not_approved, _gnutls_set_datum enc.2, w2⟩
  else
    let random_func := RndFunc.rnd_nonce_func
    let o := E.ecdsa_sign w.tick curve priv random_func (vdata.bytes.take hash_len)
    let w2 := w.after Prim.ecdsa_sign random_func o.rnd
    if HAVE_LIB_ERROR w2 then ⟨GNUTLS_E_LIB_IN_ERROR_STATE, not_approved, signature, w2⟩ else
    let enc := E._gnutls_encode_ber_rs o.out.1 o.out.2
    if enc.1 < 0 then ⟨enc.1, not_approved, signature, w2⟩ else
    ⟨0, not_approved, _gnutls_set_datum enc.2, w2⟩

/-- The DSA case of `_wrap_nettle_pk_sign` (lines 1999-2075). -/
def sign_dsa (E : Env) (signature vdata : gnutls_datum_t) (pk_params : gnutls_pk_params_st)
    (sign_params : gnutls_x509_spki_st) (w : World) : Branch gnutls_datum_t :=
  /- DSA is currently being defined as sunset with the current draft of
     FIPS 186-5 -/
  let p := TOMPZ (pk_params.get DSA_P)
  let q := TOMPZ (pk_params.get DSA_Q)
  let g := TOMPZ (pk_params.get DSA_G)
  let priv := TOMPZ (pk_params.get DSA_X)
  let hash_len0 := (E._gnutls_dsa_q_to_hash pk_params).2
  let hash_len := if hash_len0 > vdata.size then vdata.size else hash_len0
  if _gnutls_get_lib_state w == LIB_STATE_SELFTEST
      || has_flag sign_params.flags GNUTLS_PK_FLAG_REPRODUCIBLE then
    let h := E._gnutls_dsa_compute_k q priv (_gnutls_mpi_get_nbits q) sign_params.dsa_dig
      vdata.bytes
    let w1 := w.call Prim.dsa_compute_k
    if h.1 < 0 then ⟨h.1, true, signature, w1⟩ else
    let k := E._gnutls_dsa_compute_k_finish h.2 ((_gnutls_mpi_get_nbits q + 7) / 8)
    let random_func := RndFunc.rnd_datum_func k
    let o := E.dsa_sign w1.tick p q g priv random_func (vdata.bytes.take hash_len)
    let w2 := w1.after Prim.dsa_sign random_func o.rnd
    if o.ret == 0 || HAVE_LIB_ERROR w2 then ⟨GNUTLS_E_PK_SIGN_FAILED, true, signature, w2⟩ else
    let enc := E._gnutls_encode_ber_rs o.out.1 o.out.2
    if enc.1 < 0 then ⟨enc.1, true, signature, w2⟩ else
    ⟨0, true, _gnutls_set_datum enc.2, w2⟩
  else
    let random_func := RndFunc.rnd_nonce_func
    let o := E.dsa_sign w.tick p q g priv random_func (vdata.bytes.take hash_len)
    let w2 := w.after Prim.dsa_sign random_func o.rnd
    if o.ret == 0 || HAVE_LIB_ERROR w2 then ⟨GNUTLS_E_PK_SIGN_FAILED, true, signature, w2⟩ else
    let enc := E._gnutls_encode_ber_rs o.out.1 o.out.2
    if enc.1 < 0 then ⟨enc.1, true, signature, w2⟩ else
    ⟨0, true, _gnutls_set_datum enc.2, w2⟩

/-- The `GNUTLS_PK_RSA` case of `_wrap_nettle_pk_sign` (lines 2077-2124). -/
def sign_rsa (E : Env) (signature vdata : gnutls_datum_t) (pk_params : gnutls_pk_params_st)
    (w : World) : Branch gnutls_datum_t :=
  let pk := _rsa_params_to_pubkey E pk_params
  if pk.1 < 0 then ⟨pk.1, false, signature, w⟩ else
  /- RSA modulus size should be 2048-bit or larger in FIPS 140-3. -/
  let not_approved := decide (_gnutls_mpi_get_nbits pk.2.n < 2048)
  let random_func := select_nonce_func w
  let o := E.rsa_pkcs1_sign_tr w.tick pk.2 pk_params random_func vdata.bytes
  let w1 := w.after Prim.rsa_pkcs1_sign_tr random_func o.rnd
  if o.ret == 0 || HAVE_LIB_ERROR w1 then
    ⟨GNUTLS_E_PK_SIGN_FAILED, not_approved, signature, w1⟩ else
  ⟨0, not_approved, _gnutls_mpi_dprint_size o.out pk.2.size, w1⟩

/-- The `GNUTLS_PK_RSA_PSS` case of `_wrap_nettle_pk_sign` (lines 2125-2185). -/
def sign_rsa_pss (E : Env) (signature vdata : gnutls_datum_t) (pk_params : gnutls_pk_params_st)
    (sign_params : gnutls_x509_spki_st) (w : World) : Branch gnutls_datum_t :=
  let pk := _rsa_params_to_pubkey E pk_params
  if pk.1 < 0 then ⟨pk.1, false, signature, w⟩ else
  /- RSA modulus size should be 2048-bit or larger in FIPS 140-3; according
     to FIPS 186-5 5.4, the salt length must be in the range between 0 and
     the hash length inclusive. -/
  let not_approved := decide (_gnutls_mpi_get_nbits pk.2.n < 2048)
    || decide (sign_params.salt_size > E._gnutls_mac_get_algo_len sign_params.rsa_pss_dig)
  let random_func := select_nonce_func w
  let r := _rsa_pss_sign_digest_tr E sign_params.rsa_pss_dig pk.2 pk_params random_func
    sign_params.salt_size (vdata.data.getD []) w
  if r.1 < 0 then ⟨GNUTLS_E_PK_SIGN_FAILED, not_approved, signature, r.2.2⟩ else
  ⟨0, not_approved, _gnutls_mpi_dprint_size r.2.1 pk.2.size, r.2.2⟩

/-- The body of `_wrap_nettle_pk_sign` between the first `FAIL_IF_LIB_ERROR`
and `cleanup:` (lines 1786-2200). -/
def sign_body (E : Env) (algo : gnutls_pk_algorithm_t) (signature vdata : gnutls_datum_t)
    (pk_params : gnutls_pk_params_st) (sign_params : gnutls_x509_spki_st) (w : World) :
    Branch gnutls_datum_t :=
  /- check if the curve relates to the algorithm used -/
  if E.IS_EC algo && E.gnutls_ecc_curve_get_pk pk_params.curve != algo then
    ⟨GNUTLS_E_ECC_UNSUPPORTED_CURVE, false, signature, w⟩ else
  /- deterministic ECDSA/DSA is prohibited under FIPS except in the
     selftests -/
  if (algo == GNUTLS_PK_DSA || algo == GNUTLS_PK_ECDSA)
      && has_flag sign_params.flags GNUTLS_PK_FLAG_REPRODUCIBLE
      && E.fips_mode_enabled
      && _gnutls_get_lib_state w != LIB_STATE_SELFTEST then
    ⟨GNUTLS_E_INVALID_REQUEST, false, signature, w⟩ else
  match algo with
  | GNUTLS_PK_EDDSA_ED25519 => sign_eddsa E algo signature vdata pk_params w
  | GNUTLS_PK_EDDSA_ED448 => sign_eddsa E algo signature vdata pk_params w
  | GNUTLS_PK_GOST_01 => sign_gost E signature vdata pk_params w
  | GNUTLS_PK_GOST_12_256 => sign_gost E signature vdata pk_params w
  | GNUTLS_PK_GOST_12_512 => sign_gost E signature vdata pk_params w
  | GNUTLS_PK_ECDSA => sign_ecdsa E signature vdata pk_params sign_params w
  | GNUTLS_PK_DSA => sign_dsa E signature vdata pk_params sign_params w
  | GNUTLS_PK_RSA => sign_rsa E signature vdata pk_params w
  | GNUTLS_PK_RSA_PSS => sign_rsa_pss E signature vdata pk_params sign_params w
  | GNUTLS_PK_MLDSA44 | GNUTLS_PK_MLDSA65 | GNUTLS_PK_MLDSA87 =>
    let r := ml_dsa_sign E algo signature vdata pk_params.raw_priv w
    ⟨r.1, true, r.2.1, r.2.2⟩
  | _ => ⟨GNUTLS_E_INTERNAL_ERROR, false, signature, w⟩

/-- The function `_wrap_nettle_pk_sign`: value returned, `signature`, world. -/
def _wrap_nettle_pk_sign (E : Env) (algo : gnutls_pk_algorithm_t) (signature vdata : gnutls_datum_t)
    (pk_params : gnutls_pk_params_st) (sign_params : gnutls_x509_spki_st) (w : World) :
    Int × gnutls_datum_t × World :=
  if HAVE_LIB_ERROR w then (GNUTLS_E_LIB_IN_ERROR_STATE, signature, w) else
  cleanup_and_return (sign_body E algo signature vdata pk_params sign_params w)

/-! ## Verification (`pk.c` lines 2215-2588) -/

/-- The function `_rsa_pss_verify_digest`: nettle-style result (`0` is
failure) and the world. -/
def _rsa_pss_verify_digest (E : Env) (dig : gnutls_digest_algorithm_t) (pub : rsa_public_key)
    (salt_size : Nat) (digest : List Nat) (digest_size : Nat) (sig : Nat) (w : World) :
    Int × World :=
  let hash_size : Option Nat :=
    match dig with
    | GNUTLS_DIG_SHA256 => some 32
    | GNUTLS_DIG_SHA384 => some 48
    | GNUTLS_DIG_SHA512 => some 64
    | _ => none
  match hash_size with
  | none => (0, w)
  | some hs =>
  if digest_size != hs then (0, w) else
  if CHECK_INVALID_RSA_PSS_PARAMS hs salt_size pub.size then (0, w) else
  (E.rsa_pss_verify_digest dig pub salt_size (digest.take hs) sig,
    w.call Prim.rsa_pss_verify_digest)

/-- The function `eddsa_verify`: result code and world. -/
def eddsa_verify (E : Env) (algo : gnutls_pk_algorithm_t) (pub msg signature : List Nat)
    (w : World) : Int × World :=
  match algo with
  | GNUTLS_PK_EDDSA_ED25519 =>
    if E.ed25519_sha512_verify pub msg signature == 0
    then (GNUTLS_E_PK_SIG_VERIFY_FAILED, w.call Prim.eddsa_verify)
    else (0, w.call Prim.eddsa_verify)
  | GNUTLS_PK_EDDSA_ED448 =>
    if E.ed448_shake256_verify pub msg signature == 0
    then (GNUTLS_E_PK_SIG_VERIFY_FAILED, w.call Prim.eddsa_verify)
    else (0, w.call Prim.eddsa_verify)
  | _ => (GNUTLS_E_UNSUPPORTED_SIGNATURE_ALGORITHM, w)

/-- The function `ml_dsa_verify`: result code and world. -/
def ml_dsa_verify (E : Env) (algo : gnutls_pk_algorithm_t) (signature message raw_pub : gnutls_datum_t)
    (w : World) : Int × World :=
  let type := ml_dsa_pk_to_lc_dilithium_type E algo
  if type == lc_dilithium_type.LC_DILITHIUM_UNKNOWN then
    (GNUTLS_E_UNSUPPORTED_SIGNATURE_ALGORITHM, w) else
  let l := E.lc_dilithium_pk_load raw_pub.bytes
  if l.1 < 0 || l.2 != type then (GNUTLS_E_INVALID_REQUEST, w) else
  let g := E.lc_dilithium_sig_load signature.bytes
  if g.1 < 0 || g.2 != type then (GNUTLS_E_INVALID_REQUEST, w) else
  if E.lc_dilithium_verify signature.bytes message.bytes raw_pub.bytes < 0 then
    (GNUTLS_E_PK_SIG_VERIFY_FAILED, w.call Prim.lc_dilithium_verify)
  else (0, w.call Prim.lc_dilithium_verify)

/-- The body of `_wrap_nettle_pk_verify` between the first
`FAIL_IF_LIB_ERROR` and `cleanup:` (lines 2286-2573). -/
def verify_body (E : Env) (algo : gnutls_pk_algorithm_t) (vdata signature : gnutls_datum_t)
    (pk_params : gnutls_pk_params_st) (sign_params : gnutls_x509_spki_st) (w : World) :
    Branch Unit :=
  /- check if the curve relates to the algorithm used -/
  if E.IS_EC algo && E.gnutls_ecc_curve_get_pk pk_params.curve != algo then
    ⟨GNUTLS_E_ECC_UNSUPPORTED_CURVE, false, (), w⟩ else
  match algo with
  | GNUTLS_PK_EDDSA_ED25519 | GNUTLS_PK_EDDSA_ED448 =>
    if get_eddsa_curve algo != pk_params.curve then
      ⟨GNUTLS_E_ECC_UNSUPPORTED_CURVE, false, (), w⟩ else
    match E._gnutls_ecc_curve_get_params pk_params.curve with
    | none => ⟨GNUTLS_E_ECC_UNSUPPORTED_CURVE, false, (), w⟩
    | some e =>
    if signature.size != e.2 then ⟨GNUTLS_E_PK_SIG_VERIFY_FAILED, false, (), w⟩ else
    if pk_params.raw_pub.size != e.1 then ⟨GNUTLS_E_PK_SIGN_FAILED, false, (), w⟩ else
    let r := eddsa_verify E algo (pk_params.raw_pub.data.getD []) vdata.bytes
      (signature.data.getD []) w
    ⟨r.1, false, (), r.2⟩
  | GNUTLS_PK_GOST_01 | GNUTLS_PK_GOST_12_256 | GNUTLS_PK_GOST_12_512 =>
    /- GOSTDSA is not approved -/
    match get_supported_gost_curve pk_params.curve with
    | none => ⟨GNUTLS_E_ECC_UNSUPPORTED_CURVE, true, (), w⟩
    | some curve =>
    if E._gnutls_mac_get_algo_len (E._gnutls_gost_digest pk_params.algo) != vdata.size then
      ⟨GNUTLS_E_PK_SIG_VERIFY_FAILED, true, (), w⟩ else
    let d := E._gnutls_decode_gost_rs signature.bytes
    if d.1 < 0 then ⟨d.1, true, (), w⟩ else
    if _gost_params_to_pubkey E pk_params curve < 0 then
      ⟨_gost_params_to_pubkey E pk_params curve, true, (), w⟩ else
    if E.gostdsa_verify curve (TOMPZ (pk_params.get GOST_X), TOMPZ (pk_params.get GOST_Y))
        vdata.bytes d.2 == 0
    then ⟨GNUTLS_E_PK_SIG_VERIFY_FAILED, true, (), w.call Prim.gostdsa_verify⟩
    else ⟨0, true, (), w.call Prim.gostdsa_verify⟩
  | GNUTLS_PK_ECDSA =>
    let curve_id := pk_params.curve
    match get_supported_nist_curve curve_id with
    | none => ⟨GNUTLS_E_ECC_UNSUPPORTED_CURVE, false, (), w⟩
    | some curve =>
    /- P-192 is not supported in FIPS 140-3 -/
    let na0 := decide (curve_id = GNUTLS_ECC_CURVE_SECP192R1)
    let d := E._gnutls_decode_ber_rs signature.bytes
    if d.1 < 0 then ⟨d.1, na0, (), w⟩ else
    if _ecc_params_to_pubkey E pk_params curve < 0 then
      ⟨_ecc_params_to_pubkey E pk_params curve, na0, (), w⟩ else
    let hash_len0 := (E._gnutls_dsa_q_to_hash pk_params).2
    let hash_len := if hash_len0 > vdata.size then vdata.size else hash_len0
    let not_approved := na0 || !is_sha2_mac sign_params.dsa_dig
    if E.ecdsa_verify curve (TOMPZ (pk_params.get ECC_X), TOMPZ (pk_params.get ECC_Y))
        (vdata.bytes.take hash_len) d.2 == 0
    then ⟨GNUTLS_E_PK_SIG_VERIFY_FAILED, not_approved, (), w.call Prim.ecdsa_verify⟩
    else ⟨0, not_approved, (), w.call Prim.ecdsa_verify⟩
  | GNUTLS_PK_DSA =>
    /- DSA is currently being defined as sunset with the current draft of
       FIPS 186-5 -/
    let d := E._gnutls_decode_ber_rs signature.bytes
    if d.1 < 0 then ⟨d.1, true, (), w⟩ else
    let hash_len0 := (E._gnutls_dsa_q_to_hash pk_params).2
    let hash_len := if hash_len0 > vdata.size then vdata.size else hash_len0
    if E.dsa_verify (TOMPZ (pk_params.get DSA_P)) (TOMPZ (pk_params.get DSA_Q))
        (TOMPZ (pk_params.get DSA_G)) (TOMPZ (pk_params.get DSA_Y))
        (vdata.bytes.take hash_len) d.2 == 0
    then ⟨GNUTLS_E_PK_SIG_VERIFY_FAILED, true, (), w.call Prim.dsa_verify⟩
    else ⟨0, true, (), w.call Prim.dsa_verify⟩
  | GNUTLS_PK_RSA =>
    let pk := _rsa_params_to_pubkey E pk_params
    if pk.1 < 0 then ⟨pk.1, false, (), w⟩ else
    /- In FIPS 140-3, RSA key size should be larger than 2048-bit. -/
    let not_approved := decide (_gnutls_mpi_get_nbits pk.2.n < 2048)
    if signature.size != pk.2.size then
      ⟨GNUTLS_E_PK_SIG_VERIFY_FAILED, not_approved, (), w⟩ else
    let t := _gnutls_mpi_init_scan_nz (signature.data.getD []) signature.size
    if t.1 < 0 then ⟨t.1, not_approved, (), w⟩ else
    if E.rsa_pkcs1_verify pk.2 vdata.bytes (TOMPZ t.2) == 0
    then ⟨GNUTLS_E_PK_SIG_VERIFY_FAILED, not_approved, (), w.call Prim.rsa_pkcs1_verify⟩
    else ⟨0, not_approved, (), w.call Prim.rsa_pkcs1_verify⟩
  | GNUTLS_PK_RSA_PSS =>
    if has_flag sign_params.flags GNUTLS_PK_FLAG_RSA_PSS_FIXED_SALT_LENGTH
        && sign_params.salt_size != vdata.size then
      ⟨GNUTLS_E_PK_SIG_VERIFY_FAILED, false, (), w⟩ else
    let pk := _rsa_params_to_pubkey E pk_params
    if pk.1 < 0 then ⟨pk.1, false, (), w⟩ else
    /- RSA modulus size should be 2048-bit or larger in FIPS 140-3. -/
    let not_approved := decide (_gnutls_mpi_get_nbits pk.2.n < 2048)
    if signature.size != pk.2.size then
      ⟨GNUTLS_E_PK_SIG_VERIFY_FAILED, not_approved, (), w⟩ else
    let t := _gnutls_mpi_init_scan_nz (signature.data.getD []) signature.size
    if t.1 < 0 then ⟨t.1, not_approved, (), w⟩ else
    let r := _rsa_pss_verify_digest E sign_params.rsa_pss_dig pk.2 sign_params.salt_size
      (vdata.data.getD []) vdata.size (TOMPZ t.2) w
    if r.1 == 0 then ⟨GNUTLS_E_PK_SIG_VERIFY_FAILED, not_approved, (), r.2⟩
    else ⟨0, not_approved, (), r.2⟩
  | GNUTLS_PK_MLDSA44 | GNUTLS_PK_MLDSA65 | GNUTLS_PK_MLDSA87 =>
    let r := ml_dsa_verify E algo signature vdata pk_params.raw_pub w
    ⟨r.1, true, (), r.2⟩
  | _ => ⟨GNUTLS_E_INTERNAL_ERROR, false, (), w⟩

/-- The function `_wrap_nettle_pk_verify`: value returned and world. -/
def _wrap_nettle_pk_verify (E : Env) (algo : gnutls_pk_algorithm_t) (vdata signature : gnutls_datum_t)
    (pk_params : gnutls_pk_params_st) (sign_params : gnutls_x509_spki_st) (w : World) :
    Int × Unit × World :=
  if HAVE_LIB_ERROR w then (GNUTLS_E_LIB_IN_ERROR_STATE, (), w) else
  cleanup_and_return (verify_body E algo vdata signature pk_params sign_params w)

/-! ## Parameter generation (`pk.c` lines 2813-2971) -/

/-- The macro `GNUTLS_BITS_HAVE_SUBGROUP` of the public header. -/
def GNUTLS_BITS_HAVE_SUBGROUP (bits : Nat) : Bool := (bits &&& 0xFFFF0000) != 0

/-- The macro `GNUTLS_BITS_TO_SUBGROUP`. -/
def GNUTLS_BITS_TO_SUBGROUP (bits : Nat) : Nat := (bits >>> 16) &&& 0xFFFF

/-- The macro `GNUTLS_BITS_TO_GROUP`. -/
def GNUTLS_BITS_TO_GROUP (bits : Nat) : Nat := bits &&& 0xFFFF

/-- The `fail:` exit of `wrap_nettle_pk_generate_params` and the error exit
of `wrap_nettle_pk_generate_keys`: release the first `params_nr` slots and
reset the count. -/
def release_params (params : gnutls_pk_params_st) : gnutls_pk_params_st :=
  { params with
    params := params.params.enum.map
      (fun (i, v) => if i < params.params_nr then none else v),
    params_nr := 0 }

/-- The DSA/DH case of `wrap_nettle_pk_generate_params` (lines 2833-2935),
entered once `q_bits != 0`: result code, parameter set, world. -/
def generate_params_dsa (E : Env) (algo : gnutls_pk_algorithm_t) (level q_bits : Nat)
    (params : gnutls_pk_params_st) (w : World) : Int × gnutls_pk_params_st × World :=
  let store (pub : dsa_params) (pr : gnutls_pk_params_st) : gnutls_pk_params_st :=
    { ((pr.put DSA_P (some pub.p)).put DSA_Q (some pub.q)).put DSA_G (some pub.g) with
      params_nr := 3 }
  if E.fips_mode_enabled || has_flag params.pkflags GNUTLS_PK_FLAG_PROVABLE then
    let index : Nat := if algo == GNUTLS_PK_DSA then 1 else 2
    if params.palgo != GNUTLS_DIG_UNKNOWN && params.palgo != GNUTLS_DIG_SHA384 then
      (GNUTLS_E_INVALID_REQUEST, params, w) else
    let params1 := { params with palgo := GNUTLS_DIG_SHA384 }
    let g : Int × (dsa_params × dss_params_validation_seeds) × World :=
      if params1.seed_size != 0 then
        let r := E._dsa_generate_dss_pqg index (params1.seed.take params1.seed_size) level q_bits
        (r.1, (r.2.1, r.2.2), w.call Prim.dsa_generate_dss_pqg)
      else
        let o := E.dsa_generate_dss_pqg w.tick index RndFunc.rnd_tmpkey_func level q_bits
        (o.ret, o.out, w.after Prim.dsa_generate_dss_pqg RndFunc.rnd_tmpkey_func o.rnd)
    if g.1 != 1 || HAVE_LIB_ERROR g.2.2 then (GNUTLS_E_PK_GENERATION_ERROR, params1, g.2.2) else
    let cert := g.2.1.2
    let params2 :=
      if cert.seed_length != 0 && cert.seed_length < E.MAX_PVP_SEED_SIZE then
        { params1 with seed_size := cert.seed_length, seed := cert.seed.take cert.seed_length }
      else params1
    /- verify the generated parameters -/
    let w2 := g.2.2.call Prim.dsa_validate_dss_pqg
    if E.dsa_validate_dss_pqg g.2.1.1 cert index != 1 then
      (GNUTLS_E_PK_GENERATION_ERROR, params2, w2) else
    (0, store g.2.1.1 params2, w2)
  else
    let q_bits1 := if q_bits < 160 then 160 else q_bits
    let o := E.dsa_generate_params w.tick RndFunc.rnd_tmpkey_func level q_bits1
    let w1 := w.after Prim.dsa_generate_params RndFunc.rnd_tmpkey_func o.rnd
    if o.ret != 1 || HAVE_LIB_ERROR w1 then (GNUTLS_E_PK_GENERATION_ERROR, params, w1) else
    (0, store o.out params, w1)

/-- The function `wrap_nettle_pk_generate_params`: value returned, parameter
set, world. -/
def wrap_nettle_pk_generate_params (E : Env) (algo : gnutls_pk_algorithm_t) (level : Nat)
    (params : gnutls_pk_params_st) (w : World) : Int × gnutls_pk_params_st × World :=
  if HAVE_LIB_ERROR w then (GNUTLS_E_LIB_IN_ERROR_STATE, params, w) else
  let params0 := { params with algo := algo }
  match algo with
  | GNUTLS_PK_DSA | GNUTLS_PK_DH =>
    let q_bits :=
      if GNUTLS_BITS_HAVE_SUBGROUP level then GNUTLS_BITS_TO_SUBGROUP level
      else E._gnutls_pk_bits_to_subgroup_bits level
    let level1 := if GNUTLS_BITS_HAVE_SUBGROUP level then GNUTLS_BITS_TO_GROUP level else level
    if q_bits == 0 then (GNUTLS_E_ILLEGAL_PARAMETER, params0, w) else
    let r := generate_params_dsa E algo level1 q_bits params0 w
    if r.1 < 0 then
      /- fail: -/
      (if HAVE_LIB_ERROR r.2.2 then GNUTLS_E_LIB_IN_ERROR_STATE else r.1,
        release_params r.2.1, r.2.2)
    else
      (if HAVE_LIB_ERROR r.2.2 then GNUTLS_E_LIB_IN_ERROR_STATE else 0, r.2.1, r.2.2)
  | GNUTLS_PK_RSA_PSS | GNUTLS_PK_RSA_OAEP | GNUTLS_PK_RSA | GNUTLS_PK_ECDSA
  | GNUTLS_PK_EDDSA_ED25519 | GNUTLS_PK_EDDSA_ED448 | GNUTLS_PK_ECDH_X25519
  | GNUTLS_PK_ECDH_X448 | GNUTLS_PK_GOST_01 | GNUTLS_PK_GOST_12_256 | GNUTLS_PK_GOST_12_512
  | GNUTLS_PK_MLKEM768 | GNUTLS_PK_MLDSA44 | GNUTLS_PK_MLDSA65 | GNUTLS_PK_MLDSA87 =>
    (if HAVE_LIB_ERROR w then GNUTLS_E_LIB_IN_ERROR_STATE else 0, params0, w)
  | _ => (GNUTLS_E_INVALID_REQUEST, params0, w)

/-! ## The pairwise consistency test (`pk.c` lines 3202-3399) -/

/-- The array `const_data` of `pct_test`: the text and its terminating zero. -/
def const_data : List Nat := [111, 110, 101, 116, 119, 111, 116, 104, 114, 101, 101, 102, 111, 117, 114, 102, 105, 118, 101, 0]

/-- The array `const_data_sha256`. -/
def const_data_sha256 : List Nat := [111, 110, 101, 116, 119, 111, 116, 104, 114, 101, 101, 102, 111, 117, 114, 102, 105, 118, 101, 115, 105, 120, 115, 101, 118, 101, 110, 101, 105, 103, 104, 116]

/-- The array `const_data_sha384`. -/
def const_data_sha384 : List Nat := [111, 110, 101, 116, 119, 111, 116, 104, 114, 101, 101, 102, 111, 117, 114, 102, 105, 118, 101, 115, 105, 120, 115, 101, 118, 101, 110, 101, 105, 103, 104, 116, 110, 105, 110, 101, 116, 101, 110, 101, 108, 101, 118, 101, 110, 116, 119, 101]

/-- The array `const_data_sha512`. -/
def const_data_sha512 : List Nat := [111, 110, 101, 116, 119, 111, 116, 104, 114, 101, 101, 102, 111, 117, 114, 102, 105, 118, 101, 115, 105, 120, 115, 101, 118, 101, 110, 101, 105, 103, 104, 116, 110, 105, 110, 101, 116, 101, 110, 101, 108, 101, 118, 101, 110, 116, 119, 101, 108, 118, 101, 116, 104, 105, 114, 116, 101, 101, 110, 102, 111, 117, 114, 116]

/-- The C test `a.size == b.size && memcmp (a.data, b.data, a.size) == 0`. -/
def datum_equal (a b : gnutls_datum_t) : Bool :=
  a.size == b.size && (a.data.getD []).take a.size == (b.data.getD []).take a.size

/-- The first part of `pct_test` (lines 3217-3268): the result code (`0`
unless the RSA-PSS digest has no test vector), the copied `spki`, the test
message `ddata` and the world. -/
def pct_test_data (E : Env) (algo : gnutls_pk_algorithm_t) (params : gnutls_pk_params_st)
    (w : World) : Int × gnutls_x509_spki_st × gnutls_datum_t × World :=
  let spki := params.spki
  if algo == GNUTLS_PK_DSA || algo == GNUTLS_PK_EC then
    let me := E._gnutls_dsa_q_to_hash params
    let gen_data := (E.gnutls_rnd w.tick GNUTLS_RND_NONCE me.2).2
    (0, { spki with dsa_dig := me.1 }, { data := some gen_data, size := me.2 },
      w.call Prim.gnutls_rnd)
  else if algo == GNUTLS_PK_GOST_01 || algo == GNUTLS_PK_GOST_12_256 then
    (0, spki, { data := some const_data_sha256, size := 32 }, w)
  else if algo == GNUTLS_PK_GOST_12_512 then
    (0, spki, { data := some const_data_sha512, size := 64 }, w)
  else if algo == GNUTLS_PK_RSA_PSS then
    let dig := if spki.rsa_pss_dig == GNUTLS_DIG_UNKNOWN then GNUTLS_DIG_SHA256
      else spki.rsa_pss_dig
    let spki1 := { spki with rsa_pss_dig := dig }
    match dig with
    | GNUTLS_DIG_SHA256 => (0, spki1, { data := some const_data_sha256, size := 32 }, w)
    | GNUTLS_DIG_SHA384 => (0, spki1, { data := some const_data_sha384, size := 48 }, w)
    | GNUTLS_DIG_SHA512 => (0, spki1, { data := some const_data_sha512, size := 64 }, w)
    | _ => (GNUTLS_E_PK_GENERATION_ERROR, spki1, {}, w)
  else if algo == GNUTLS_PK_RSA_OAEP then
    let dig := if spki.rsa_oaep_dig == GNUTLS_DIG_UNKNOWN then GNUTLS_DIG_SHA256
      else spki.rsa_oaep_dig
    (0, { spki with rsa_oaep_dig := dig }, { data := some const_data, size := 20 }, w)
  else
    (0, spki, { data := some const_data, size := 20 }, w)

/-- The `GNUTLS_PK_RSA_OAEP` case of the `switch` in `pct_test` (lines
3286-3323): the value of `ret` on leaving the case, and the world. -/
def pct_test_oaep (E : Env) (algo : gnutls_pk_algorithm_t) (params : gnutls_pk_params_st)
    (spki : gnutls_x509_spki_st) (ddata : gnutls_datum_t) (w : World) : Int × World :=
  let e := _wrap_nettle_pk_encrypt E GNUTLS_PK_RSA_OAEP {} ddata params spki w
  let sig := e.2.1
  if e.1 < 0 then (GNUTLS_E_PK_GENERATION_ERROR, e.2.2) else
  if e.1 == 0 && datum_equal ddata sig then (GNUTLS_E_PK_GENERATION_ERROR, e.2.2) else
  if e.1 != 0 then (e.1, e.2.2) else
  let d := _wrap_nettle_pk_decrypt E algo {} sig params spki e.2.2
  let tmp := d.2.1
  if d.1 < 0 then (GNUTLS_E_PK_GENERATION_ERROR, d.2.2) else
  if !datum_equal tmp ddata then (GNUTLS_E_PK_GENERATION_ERROR, d.2.2) else
  let d2 := _wrap_nettle_pk_decrypt2 E algo sig tmp.data tmp.size params spki d.2.2
  if d2.1 < 0 then (GNUTLS_E_PK_GENERATION_ERROR, d2.2.2) else
  if !datum_equal { tmp with data := d2.2.1 } ddata then
    (GNUTLS_E_PK_GENERATION_ERROR, d2.2.2) else
  (0, d2.2.2)

/-- The `switch` of `pct_test` for every algorithm but `GNUTLS_PK_RSA`,
followed by `ret = 0` on the paths that `break`: the value of `ret` at
`cleanup:` and the world. -/
def pct_test_switch (E : Env) (algo : gnutls_pk_algorithm_t) (params : gnutls_pk_params_st)
    (spki : gnutls_x509_spki_st) (ddata : gnutls_datum_t) (w : World) : Int × World :=
  match algo with
  | GNUTLS_PK_RSA_OAEP =>
    let r := pct_test_oaep E algo params spki ddata w
    if r.1 < 0 then r else (0, r.2)
  | GNUTLS_PK_ECDSA | GNUTLS_PK_EDDSA_ED25519 | GNUTLS_PK_EDDSA_ED448 | GNUTLS_PK_DSA
  | GNUTLS_PK_RSA_PSS | GNUTLS_PK_GOST_01 | GNUTLS_PK_GOST_12_256 | GNUTLS_PK_GOST_12_512
  | GNUTLS_PK_MLDSA44 | GNUTLS_PK_MLDSA65 | GNUTLS_PK_MLDSA87 =>
    let sg := _wrap_nettle_pk_sign E algo {} ddata params spki w
    if sg.1 < 0 then (GNUTLS_E_PK_GENERATION_ERROR, sg.2.2) else
    let v := _wrap_nettle_pk_verify E algo ddata sg.2.1 params spki sg.2.2
    if v.1 < 0 then (GNUTLS_E_PK_GENERATION_ERROR, v.2.2) else
    (0, v.2.2)
  | GNUTLS_PK_DH =>
    let y := TOMPZ (params.get DSA_G) ^ TOMPZ (params.get DSA_X) % TOMPZ (params.get DSA_P)
    let w1 := w.call (Prim.mpi_powm (TOMPZ (params.get DSA_G)) (TOMPZ (params.get DSA_X))
      (TOMPZ (params.get DSA_P)))
    if y != TOMPZ (params.get DSA_Y) then (GNUTLS_E_PK_GENERATION_ERROR, w1) else (0, w1)
  | GNUTLS_PK_ECDH_X25519 | GNUTLS_PK_ECDH_X448 => (0, w)
  | GNUTLS_PK_MLKEM768 | GNUTLS_PK_MLKEM1024 =>
    if !ml_kem_exists E algo then (GNUTLS_E_UNKNOWN_PK_ALGORITHM, w) else (0, w)
  | _ => (GNUTLS_E_UNKNOWN_PK_ALGORITHM, w)

/-- The `cleanup:` label of `pct_test`: a generation error poisons the
library. -/
def pct_test_cleanup (r : Int × World) : Int × World :=
  if r.1 == GNUTLS_E_PK_GENERATION_ERROR then (r.1, _gnutls_switch_lib_state LIB_STATE_ERROR r.2)
  else r

/-- The function `pct_test` for an algorithm other than `GNUTLS_PK_RSA`. -/
def pct_test_single (E : Env) (algo : gnutls_pk_algorithm_t) (params : gnutls_pk_params_st)
    (w : World) : Int × World :=
  let d := pct_test_data E algo params w
  if d.1 < 0 then pct_test_cleanup (d.1, d.2.2.2)
  else pct_test_cleanup (pct_test_switch E algo params d.2.1 d.2.2.1 d.2.2.2)

/-- The function `pct_test`.  For `GNUTLS_PK_RSA` it runs itself for
RSA-OAEP and then RSA-PSS; either failure leaves the `switch` by `break`, so
that `ret = 0` follows (lines 3275-3285 and 3390). -/
def pct_test (E : Env) (algo : gnutls_pk_algorithm_t) (params : gnutls_pk_params_st)
    (w : World) : Int × World :=
  match algo with
  | GNUTLS_PK_RSA =>
    let r1 := pct_test_single E GNUTLS_PK_RSA_OAEP params w
    if r1.1 < 0 then pct_test_cleanup (0, r1.2) else
    let r2 := pct_test_single E GNUTLS_PK_RSA_PSS params r1.2
    pct_test_cleanup (0, r2.2)
  | _ => pct_test_single E algo params w

/-! ## Key generation (`pk.c` lines 3402-4175) -/

/-- How a `case` of `wrap_nettle_pk_generate_keys` ends: by a `return`
statement of its own, or by reaching `cleanup:` (through `goto cleanup` when
`ret` is negative, through `break` otherwise). -/
inductive Flow (α : Type) where
  | returned (ret : Int) (out : α) (world : World)
  | cleanup (b : Branch α)

/-- The function `eddsa_public_key`. -/
def eddsa_public_key (E : Env) (algo : gnutls_pk_algorithm_t) (priv : List Nat) :
    Int × Option (List Nat) :=
  match algo with
  | GNUTLS_PK_EDDSA_ED25519 => (0, some (E.ed25519_sha512_public_key priv))
  | GNUTLS_PK_EDDSA_ED448 => (0, some (E.ed448_shake256_public_key priv))
  | _ => (GNUTLS_E_UNSUPPORTED_SIGNATURE_ALGORITHM, none)

/-- The function `edwards_curve_mul_g`. -/
def edwards_curve_mul_g (E : Env) (algo : gnutls_pk_algorithm_t) (n : List Nat) :
    Int × Option (List Nat) :=
  match algo with
  | GNUTLS_PK_ECDH_X25519 => (0, some (E.curve25519_mul_g n))
  | GNUTLS_PK_ECDH_X448 => (0, some (E.curve448_mul_g n))
  | _ => (GNUTLS_E_ECC_UNSUPPORTED_CURVE, none)

/-- The function `dh_find_q`: result code and `q`. -/
def dh_find_q (E : Env) (pk_params : gnutls_pk_params_st) : Int × Nat :=
  let prime := _gnutls_mpi_dprint (TOMPZ (pk_params.get DSA_P))
  let generator := _gnutls_mpi_dprint (TOMPZ (pk_params.get DSA_G))
  match E._gnutls_dh_prime_match_fips_approved prime.bytes generator.bytes with
  | none => (GNUTLS_E_INVALID_REQUEST, 0)
  | some data_q =>
    let q := _gnutls_mpi_init_scan_nz data_q data_q.length
    if q.1 != 0 then (GNUTLS_E_MPI_SCAN_FAILED, 0) else (0, TOMPZ q.2)

/-- The function `ml_kem_generate_keypair`: result code, `raw_priv`,
`raw_pub`, world. -/
def ml_kem_generate_keypair (E : Env) (algo : gnutls_pk_algorithm_t)
    (raw_priv raw_pub : gnutls_datum_t) (w : World) :
    Int × gnutls_datum_t × gnutls_datum_t × World :=
  let type := ml_kem_pk_to_lc_kyber_type E algo
  if type == lc_kyber_type.LC_KYBER_UNKNOWN then
    (GNUTLS_E_UNKNOWN_PK_ALGORITHM, raw_priv, raw_pub, w) else
  let k := E.lc_kyber_keypair w.tick type
  let w1 := w.call Prim.lc_kyber_keypair
  if k.1 < 0 then (GNUTLS_E_PK_GENERATION_ERROR, raw_priv, raw_pub, w1) else
  if E.lc_kyber_sk_ptr k.2.2 < 0 then (GNUTLS_E_INTERNAL_ERROR, raw_priv, raw_pub, w1) else
  if E.lc_kyber_pk_ptr k.2.1 < 0 then (GNUTLS_E_INTERNAL_ERROR, raw_priv, raw_pub, w1) else
  (0, _gnutls_set_datum k.2.2, _gnutls_set_datum k.2.1, w1)

/-- The function `ml_dsa_generate_keypair`. -/
def ml_dsa_generate_keypair (E : Env) (algo : gnutls_pk_algorithm_t)
    (raw_priv raw_pub raw_seed : gnutls_datum_t) (w : World) :
    Int × gnutls_datum_t × gnutls_datum_t × World :=
  let type := ml_dsa_pk_to_lc_dilithium_type E algo
  if type == lc_dilithium_type.LC_DILITHIUM_UNKNOWN then
    (GNUTLS_E_UNKNOWN_PK_ALGORITHM, raw_priv, raw_pub, w) else
  let k := E.lc_dilithium_keypair_from_seed raw_seed.bytes type
  let w1 := w.call Prim.lc_dilithium_keypair_from_seed
  if k.1 < 0 then (GNUTLS_E_PK_GENERATION_ERROR, raw_priv, raw_pub, w1) else
  if E.lc_dilithium_sk_ptr k.2.2 < 0 then (GNUTLS_E_INTERNAL_ERROR, raw_priv, raw_pub, w1) else
  if E.lc_dilithium_pk_ptr k.2.1 < 0 then (GNUTLS_E_INTERNAL_ERROR, raw_priv, raw_pub, w1) else
  (0, _gnutls_set_datum k.2.2, _gnutls_set_datum k.2.1, w1)

/-- GMP's `mpz_powm`. -/
def mpz_powm (b e m : Nat) : Nat := b ^ e % m

/-- The macro `DH_EXPONENT_SIZE`. -/
def DH_EXPONENT_SIZE (E : Env) (p_size : Nat) : Nat :=
  2 * E._gnutls_pk_bits_to_subgroup_bits p_size

/-- The `do ... while (mpz_cmp_ui (y, 1) == 0)` loop of the DH case (lines
3596-3630), with `max_tries` tries left on entry: the result code (`0` when
the loop is left normally), `x`, `y` and the world. -/
def dh_keygen_loop (E : Env) (rnd_func : RndFunc) (pub : dsa_params) (have_q : Bool) :
    (max_tries : Nat) → (level : Nat) → World → Int × Nat × Nat × World
  | 0, _, w => (GNUTLS_E_RANDOM_FAILED, 0, 0, w)
  | n + 1, level, w =>
    let size := _gnutls_mpi_get_nbits pub.p
    let level1 :=
      if have_q then level
      else if level == 0 then min size (DH_EXPONENT_SIZE E size) else level
    let o : PrimOut Nat :=
      if have_q then E.nettle_mpz_random w.tick rnd_func (pub.q - 2)
      else E.nettle_mpz_random_size w.tick rnd_func level1
    let x : Nat :=
      if have_q then o.out + 1
      else if level1 ≥ size then o.out % pub.p else o.out
    let w1 := w.after Prim.mpz_random rnd_func o.rnd
    let y := mpz_powm pub.g x pub.p
    let w2 := w1.call (Prim.mpi_powm pub.g x pub.p)
    /- max_tries--; if (max_tries <= 0) -/
    if n == 0 then (GNUTLS_E_RANDOM_FAILED, x, y, w2) else
    if HAVE_LIB_ERROR w2 then (GNUTLS_E_LIB_IN_ERROR_STATE, x, y, w2) else
    if y == 1 then dh_keygen_loop E rnd_func pub have_q n level1 w2
    else (0, x, y, w2)

/-- The `GNUTLS_PK_DH` case of `wrap_nettle_pk_generate_keys` (lines
3562-3689), also entered by `GNUTLS_PK_DSA` outside FIPS mode. -/
def generate_keys_dh (E : Env) (algo : gnutls_pk_algorithm_t) (level : Nat)
    (params : gnutls_pk_params_st) (rnd_func : RndFunc) (not_approved : Bool) (w : World) :
    Branch gnutls_pk_params_st :=
  if algo != params.algo then ⟨GNUTLS_E_INVALID_REQUEST, not_approved, params, w⟩ else
  let pub : dsa_params :=
    { p := TOMPZ (params.get DSA_P), q := TOMPZ (params.get DSA_Q),
      g := TOMPZ (params.get DSA_G) }
  let have_q := (params.get DSA_Q).isSome
  /- This check is for the case !ENABLE_FIPS140 -/
  if algo == GNUTLS_PK_DSA && have_q == false then
    ⟨GNUTLS_E_INVALID_REQUEST, not_approved, params, w⟩ else
  let l := dh_keygen_loop E rnd_func pub have_q 3 level w
  if l.1 < 0 then ⟨l.1, not_approved, params, l.2.2.2⟩ else
  let x := l.2.1
  let y := l.2.2.1
  let w1 := l.2.2.2
  let store (w2 : World) : Branch gnutls_pk_params_st :=
    ⟨0, not_approved,
      { (params.put DSA_Y (some y)).put DSA_X (some x) with params_nr := params.params_nr + 2 },
      w2⟩
  if E.fips_mode_enabled then
    /- Step 1: 2 <= y <= p - 2 -/
    if y < 2 || decide ((y : Int) ≥ (pub.p : Int) - 1) then
      ⟨GNUTLS_E_RANDOM_FAILED, not_approved, params, w1⟩ else
    /- Step 2: 1 = y^q mod p -/
    let fq : Int × Nat := if have_q then (0, pub.q) else dh_find_q E params
    if fq.1 < 0 then ⟨fq.1, not_approved, params, w1⟩ else
    let w2 := w1.call (Prim.mpi_powm y fq.2 pub.p)
    if y ^ fq.2 % pub.p != 1 then ⟨GNUTLS_E_RANDOM_FAILED, not_approved, params, w2⟩ else
    store w2
  else store w1

/-- The `GNUTLS_PK_DSA` case in FIPS mode (lines 3511-3558). -/
def generate_keys_dsa_fips (E : Env) (params : gnutls_pk_params_st) (rnd_func : RndFunc)
    (w : World) : Branch gnutls_pk_params_st :=
  /- DSA is currently being defined as sunset with the current draft of
     FIPS 186-5 -/
  if (params.get DSA_Q).isNone then ⟨GNUTLS_E_INVALID_REQUEST, true, params, w⟩ else
  let pub : dsa_params :=
    { p := TOMPZ (params.get DSA_P), q := TOMPZ (params.get DSA_Q),
      g := TOMPZ (params.get DSA_G) }
  let o := E.dsa_generate_dss_keypair w.tick pub rnd_func
  let w1 := w.after Prim.dsa_generate_dss_keypair rnd_func o.rnd
  if o.ret != 1 || HAVE_LIB_ERROR w1 then ⟨GNUTLS_E_PK_GENERATION_ERROR, true, params, w1⟩ else
  ⟨0, true,
    { (params.put DSA_Y (some o.out.1)).put DSA_X (some o.out.2) with
      params_nr := params.params_nr + 2 }, w1⟩

/-- The retry loop of provable RSA generation with an internal seed (lines
3724-3731), with `retries` failed attempts so far: nettle's return value, the
key pair, the parameter set with the seed stored, and the world. -/
def rsa_provable_retry (E : Env) (rnd_func : RndFunc) (level : Nat) :
    (attempts_left : Nat) → gnutls_pk_params_st → World →
      Int × rsa_keypair × gnutls_pk_params_st × World
  | 0, params, w => (0, ⟨0, 65537, 0, 0, 0, 0, 0, 0⟩, params, w)
  | n + 1, params, w =>
    let o := E.rsa_generate_fips186_4_keypair w.tick 65537 rnd_func E.MAX_PVP_SEED_SIZE level
    let w1 := w.after Prim.rsa_generate_fips186_4_keypair rnd_func o.rnd
    let params1 := { params with seed_size := o.out.2.length, seed := o.out.2 }
    /- while (ret != 1 && ++retries < 3) -/
    if o.ret != 1 && n != 0 then rsa_provable_retry E rnd_func level n params1 w1
    else (o.ret, o.out.1, params1, w1)

/-- The RSA case of `wrap_nettle_pk_generate_keys` (lines 3690-3778). -/
def generate_keys_rsa (E : Env) (level : Nat) (params : gnutls_pk_params_st)
    (rnd_func : RndFunc) (w : World) : Branch gnutls_pk_params_st :=
  let store (k : rsa_keypair) (pr : gnutls_pk_params_st) : gnutls_pk_params_st :=
    { pr with
      params := [some k.n, some k.e, some k.d, some k.p, some k.q, some k.c, some k.a,
        some k.b] ++ pr.params.drop RSA_PRIVATE_PARAMS,
      params_nr := RSA_PRIVATE_PARAMS }
  if has_flag params.pkflags GNUTLS_PK_FLAG_PROVABLE || E.fips_mode_enabled then
    let params1 := { params with pkflags := params.pkflags ||| GNUTLS_PK_FLAG_PROVABLE }
    if params1.palgo != GNUTLS_DIG_UNKNOWN && params1.palgo != GNUTLS_DIG_SHA384 then
      ⟨GNUTLS_E_INVALID_REQUEST, false, params1, w⟩ else
    let params2 := { params1 with palgo := GNUTLS_DIG_SHA384 }
    let g : Int × rsa_keypair × gnutls_pk_params_st × World :=
      if params2.seed_size != 0 then
        let r := E._rsa_generate_fips186_4_keypair 65537 (params2.seed.take params2.seed_size)
          level
        (r.1, r.2, params2, w.call Prim.rsa_generate_fips186_4_keypair)
      else rsa_provable_retry E rnd_func level 3 params2 w
    if g.1 != 1 || HAVE_LIB_ERROR g.2.2.2 then
      ⟨GNUTLS_E_PK_GENERATION_ERROR, false, g.2.2.1, g.2.2.2⟩ else
    ⟨0, false, store g.2.1 g.2.2.1, g.2.2.2⟩
  else
    let o := E.rsa_generate_keypair w.tick 65537 rnd_func level
    let w1 := w.after Prim.rsa_generate_keypair rnd_func o.rnd
    if o.ret != 1 || HAVE_LIB_ERROR w1 then ⟨GNUTLS_E_PK_GENERATION_ERROR, true, params, w1⟩ else
    ⟨0, true, store o.out params, w1⟩

/-- The EdDSA case of `wrap_nettle_pk_generate_keys` (lines 3779-3826). -/
def generate_keys_eddsa (E : Env) (algo : gnutls_pk_algorithm_t) (level : Nat)
    (params : gnutls_pk_params_st) (rnd_level : gnutls_rnd_level_t) (w : World) :
    Branch gnutls_pk_params_st :=
  let size := E.gnutls_ecc_curve_get_size (E.curve_of_level level)
  if has_flag params.pkflags GNUTLS_PK_FLAG_PROVABLE then
    ⟨GNUTLS_E_INVALID_REQUEST, false, params, w⟩ else
  if get_eddsa_curve algo != E.curve_of_level level then
    ⟨GNUTLS_E_ECC_UNSUPPORTED_CURVE, false, params, w⟩ else
  if size == 0 then ⟨GNUTLS_E_INVALID_REQUEST, false, params, w⟩ else
  let r := E.gnutls_rnd w.tick rnd_level size
  let w1 := w.call Prim.gnutls_rnd
  let params1 : gnutls_pk_params_st :=
    { params with
      curve := E.curve_of_level level,
      raw_priv := { params.raw_priv with data := some r.2 },
      raw_pub := { params.raw_pub with data := some (E.gnutls_malloc size) } }
  if r.1 < 0 then ⟨GNUTLS_E_MEMORY_ERROR, false, params1, w1⟩ else
  let params2 : gnutls_pk_params_st :=
    { params1 with
      raw_priv := { data := some r.2, size := size },
      raw_pub := { data := some (E.gnutls_malloc size), size := size } }
  let k := eddsa_public_key E algo r.2
  if k.1 < 0 then ⟨k.1, false, params2, w1⟩ else
  ⟨0, false, { params2 with raw_pub := { data := k.2, size := size } },
    w1.call Prim.eddsa_public_key⟩

/-- The full public-key validation of a generated ECDSA key (lines
3887-3970): the result code. -/
def generate_keys_ecdsa_fips_checks (E : Env) (level : Nat) (curve : ecc_curve) (x y : Nat) :
    Int :=
  /- Step 1: verify that Q is not an identity element -/
  if x == 0 && y == 0 then GNUTLS_E_ILLEGAL_PARAMETER else
  /- Steps 2 and 3 are performed in nettle -/
  if E.ecc_point_set curve x y == false then GNUTLS_E_ILLEGAL_PARAMETER else
  match get_supported_nist_curve_order (E.curve_of_level level) with
  | none => GNUTLS_E_INTERNAL_ERROR
  | some nn =>
  match get_supported_nist_curve_modulus (E.curve_of_level level) with
  | none => GNUTLS_E_INTERNAL_ERROR
  | some mm =>
  /- (n - 1) * Q = -Q -/
  let r := E.ecc_point_mul curve (nn - 1) (x, y)
  if r.1 != x || decide ((r.2 : Int) ≠ (mm : Int) - (y : Int)) then GNUTLS_E_ILLEGAL_PARAMETER
  else 0

/-- The ECDSA case of `wrap_nettle_pk_generate_keys` (lines 3827-4000). -/
def generate_keys_ecdsa (E : Env) (level : Nat) (params : gnutls_pk_params_st)
    (rnd_func : RndFunc) (w : World) : Flow gnutls_pk_params_st :=
  if has_flag params.pkflags GNUTLS_PK_FLAG_PROVABLE then
    Flow.returned GNUTLS_E_INVALID_REQUEST params w else
  match get_supported_nist_curve (E.curve_of_level level) with
  | none => Flow.cleanup ⟨GNUTLS_E_ECC_UNSUPPORTED_CURVE, false, params, w⟩
  | some curve =>
  /- P-192 is not supported in FIPS 140-3 -/
  let na0 := decide (E.curve_of_level level = GNUTLS_ECC_CURVE_SECP192R1)
  let o := E.ecdsa_generate_keypair w.tick curve rnd_func
  let w1 := w.after Prim.ecdsa_generate_keypair rnd_func o.rnd
  if HAVE_LIB_ERROR w1 then Flow.cleanup ⟨GNUTLS_E_LIB_IN_ERROR_STATE, na0, params, w1⟩ else
  let params1 : gnutls_pk_params_st :=
    { ((params.put ECC_X (some 0)).put ECC_Y (some 0)).put ECC_K (some 0) with
      curve := E.curve_of_level level, params_nr := ECC_PRIVATE_PARAMS }
  let x := o.out.1.1
  let y := o.out.1.2
  let store : gnutls_pk_params_st :=
    ((params1.put ECC_X (some x)).put ECC_Y (some y)).put ECC_K (some o.out.2)
  if E.fips_mode_enabled then
    let c := generate_keys_ecdsa_fips_checks E level curve x y
    let w2 : World :=
      { w1 with calls := w1.calls ++
          (if (x == 0 && y == 0) || E.ecc_point_set curve x y == false
              || (get_supported_nist_curve_order (E.curve_of_level level)).isNone
              || (get_supported_nist_curve_modulus (E.curve_of_level level)).isNone
            then [] else [Prim.ecc_point_mul]) }
    if c < 0 then Flow.cleanup ⟨c, na0, params1, w2⟩
    else Flow.cleanup ⟨0, na0, store, w2⟩
  else Flow.cleanup ⟨0, true, store, w1⟩

/-- The GOST case of `wrap_nettle_pk_generate_keys` (lines 4002-4068). -/
def generate_keys_gost (E : Env) (algo : gnutls_pk_algorithm_t) (level : Nat)
    (params : gnutls_pk_params_st) (w : World) : Flow gnutls_pk_params_st :=
  if has_flag params.pkflags GNUTLS_PK_FLAG_PROVABLE then
    Flow.returned GNUTLS_E_INVALID_REQUEST params w else
  /- GOST curves are not approved -/
  match get_supported_gost_curve (E.curve_of_level level) with
  | none => Flow.cleanup ⟨GNUTLS_E_ECC_UNSUPPORTED_CURVE, true, params, w⟩
  | some curve =>
  let size_ok : Bool :=
    match E.hash_output_size (E._gnutls_gost_digest algo) with
    | none => false
    | some n => n * 8 == E.ecc_bit_size curve
  if size_ok == false then Flow.cleanup ⟨GNUTLS_E_INVALID_REQUEST, true, params, w⟩ else
  let o := E.gostdsa_generate_keypair w.tick curve RndFunc.rnd_key_func
  let w1 := w.after Prim.gostdsa_generate_keypair RndFunc.rnd_key_func o.rnd
  if HAVE_LIB_ERROR w1 then Flow.cleanup ⟨GNUTLS_E_LIB_IN_ERROR_STATE, true, params, w1⟩ else
  Flow.cleanup ⟨0, true,
    { ((params.put GOST_X (some o.out.1.1)).put GOST_Y (some o.out.1.2)).put GOST_K
        (some o.out.2) with
      curve := E.curve_of_level level, params_nr := GOST_PRIVATE_PARAMS }, w1⟩

/-- The X25519/X448 case of `wrap_nettle_pk_generate_keys` (lines
4070-4108). -/
def generate_keys_ecdh_x (E : Env) (algo : gnutls_pk_algorithm_t) (level : Nat)
    (params : gnutls_pk_params_st) (rnd_level : gnutls_rnd_level_t) (w : World) :
    Branch gnutls_pk_params_st :=
  let size := E.gnutls_ecc_curve_get_size (E.curve_of_level level)
  if size == 0 then ⟨GNUTLS_E_INVALID_REQUEST, true, params, w⟩ else
  let r := E.gnutls_rnd w.tick rnd_level size
  let w1 := w.call Prim.gnutls_rnd
  let params1 : gnutls_pk_params_st :=
    { params with
      curve := E.curve_of_level level,
      raw_priv := { params.raw_priv with data := some r.2 },
      raw_pub := { params.raw_pub with data := some (E.gnutls_malloc size) } }
  if r.1 < 0 then ⟨GNUTLS_E_MEMORY_ERROR, true, params1, w1⟩ else
  let params2 : gnutls_pk_params_st :=
    { params1 with
      raw_priv := { data := some r.2, size := size },
      raw_pub := { data := some (E.gnutls_malloc size), size := size } }
  let k := edwards_curve_mul_g E algo r.2
  if k.1 < 0 then ⟨k.1, true, params2, w1⟩ else
  ⟨0, true, { params2 with raw_pub := { data := k.2, size := size } },
    w1.call Prim.edwards_curve_mul_g⟩

/-- The ML-DSA case of `wrap_nettle_pk_generate_keys` (lines 4117-4140). -/
def generate_keys_mldsa (E : Env) (algo : gnutls_pk_algorithm_t) (params : gnutls_pk_params_st)
    (w : World) : Flow gnutls_pk_params_st :=
  if has_flag params.pkflags GNUTLS_PK_FLAG_PROVABLE then
    Flow.returned GNUTLS_E_INVALID_REQUEST params w else
  let seeded : Int × gnutls_pk_params_st × World :=
    if !has_flag params.pkflags GNUTLS_PK_FLAG_EXPAND_KEYS_FROM_SEED then
      let r := E.gnutls_rnd w.tick GNUTLS_RND_KEY 32
      (r.1, { params with raw_seed := { data := some r.2, size := 32 } },
        w.call Prim.gnutls_rnd)
    else (0, params, w)
  if seeded.1 < 0 then Flow.cleanup ⟨seeded.1, true, seeded.2.1, seeded.2.2⟩ else
  let k := ml_dsa_generate_keypair E algo seeded.2.1.raw_priv seeded.2.1.raw_pub
    seeded.2.1.raw_seed seeded.2.2
  Flow.cleanup ⟨k.1, true, { seeded.2.1 with raw_priv := k.2.1, raw_pub := k.2.2.1 }, k.2.2.2⟩

/-- The `switch` of `wrap_nettle_pk_generate_keys` (lines 3507-4144). -/
def generate_keys_switch (E : Env) (algo : gnutls_pk_algorithm_t) (level : Nat)
    (params : gnutls_pk_params_st) (ephemeral : Bool) (w : World) :
    Flow gnutls_pk_params_st :=
  let rnd_level := if ephemeral then GNUTLS_RND_RANDOM else GNUTLS_RND_KEY
  let rnd_func := if ephemeral then RndFunc.rnd_tmpkey_func else RndFunc.rnd_key_func
  match algo with
  | GNUTLS_PK_DSA =>
    if E.fips_mode_enabled then Flow.cleanup (generate_keys_dsa_fips E params rnd_func w)
    else Flow.cleanup (generate_keys_dh E algo level params rnd_func false w)
  | GNUTLS_PK_DH => Flow.cleanup (generate_keys_dh E algo level params rnd_func false w)
  | GNUTLS_PK_RSA_PSS | GNUTLS_PK_RSA_OAEP | GNUTLS_PK_RSA =>
    Flow.cleanup (generate_keys_rsa E level params rnd_func w)
  | GNUTLS_PK_EDDSA_ED25519 | GNUTLS_PK_EDDSA_ED448 =>
    Flow.cleanup (generate_keys_eddsa E algo level params rnd_level w)
  | GNUTLS_PK_ECDSA => generate_keys_ecdsa E level params rnd_func w
  | GNUTLS_PK_GOST_01 | GNUTLS_PK_GOST_12_256 | GNUTLS_PK_GOST_12_512 =>
    generate_keys_gost E algo level params w
  | GNUTLS_PK_ECDH_X25519 | GNUTLS_PK_ECDH_X448 =>
    Flow.cleanup (generate_keys_ecdh_x E algo level params rnd_level w)
  | GNUTLS_PK_MLKEM768 | GNUTLS_PK_MLKEM1024 =>
    /- not approved -/
    let k := ml_kem_generate_keypair E algo params.raw_priv params.raw_pub w
    Flow.cleanup ⟨k.1, true, { params with raw_priv := k.2.1, raw_pub := k.2.2.1 }, k.2.2.2⟩
  | GNUTLS_PK_MLDSA44 | GNUTLS_PK_MLDSA65 | GNUTLS_PK_MLDSA87 =>
    generate_keys_mldsa E algo params w
  | _ => Flow.returned GNUTLS_E_INVALID_REQUEST params w

/-- The `cleanup:` label of `wrap_nettle_pk_generate_keys` and the code after
it (lines 4158-4174): value returned, parameter set, world. -/
def generate_keys_cleanup (ret : Int) (not_approved : Bool) (params : gnutls_pk_params_st)
    (w : World) : Int × gnutls_pk_params_st × World :=
  let w1 := cleanup_fips_state ret not_approved w
  let params1 : gnutls_pk_params_st :=
    if ret < 0 then
      { release_params params with
        raw_priv := { params.raw_priv with data := none },
        raw_pub := { params.raw_pub with data := none } }
    else params
  (if HAVE_LIB_ERROR w1 then GNUTLS_E_LIB_IN_ERROR_STATE else ret, params1, w1)

/-- The function `wrap_nettle_pk_generate_keys`: value returned, parameter
set, world. -/
def wrap_nettle_pk_generate_keys (E : Env) (algo : gnutls_pk_algorithm_t) (level : Nat)
    (params : gnutls_pk_params_st) (ephemeral : Bool) (w : World) :
    Int × gnutls_pk_params_st × World :=
  if HAVE_LIB_ERROR w then (GNUTLS_E_LIB_IN_ERROR_STATE, params, w) else
  /- check if the curve relates to the algorithm used -/
  if E.IS_EC algo && E.gnutls_ecc_curve_get_pk (E.curve_of_level level) != algo then
    generate_keys_cleanup GNUTLS_E_ECC_UNSUPPORTED_CURVE false params w else
  match generate_keys_switch E algo level params ephemeral w with
  | Flow.returned ret out w1 => (ret, out, w1)
  | Flow.cleanup b =>
    if b.ret < 0 then generate_keys_cleanup b.ret b.not_approved b.out b.world else
    let params1 := { b.out with algo := algo }
    if E.fips_mode_enabled then
      let t := pct_test E algo params1 b.world
      generate_keys_cleanup t.1 b.not_approved params1 t.2
    else generate_keys_cleanup b.ret b.not_approved params1 b.world

/-! ## Parameter validation (`pk.c` lines 4177-4574) -/

/-- Parameter counts of `gnutls_int.h`. -/
abbrev DSA_PRIVATE_PARAMS : Nat := 5
abbrev ECC_PUBLIC_PARAMS : Nat := 2
abbrev GOST_PUBLIC_PARAMS : Nat := 2

/-- Modelled from the spec: `_gnutls_mpi_mulm` of `mpi.c` (not among the
sources): `a * b mod m`. -/
def _gnutls_mpi_mulm (a b m : Nat) : Nat := a * b % m

/-- Modelled from the spec: `_gnutls_mpi_modm` of `mpi.c` (not among the
sources): the result code, negative for a zero modulus, and `a mod |m|`. -/
def _gnutls_mpi_modm (a : Nat) (m : Int) : Int × Nat :=
  if m = 0 then (GNUTLS_E_INVALID_REQUEST, 0) else (0, a % m.natAbs)

/-- GMP's `mpz_invert (rop, a, m)`: the new value of `rop`, the inverse of `a`
modulo `m` in `[0, m)` when there is one; when there is none GMP leaves `rop`
undefined, which is the environment's `mpz_invert_undefined`. -/
def mpz_invert (E : Env) (rop a m : Nat) : Nat :=
  match (List.range m).find? (fun t => a * t % m == 1 % m) with
  | some t => t
  | none => E.mpz_invert_undefined rop a m

/-- The RSA case of `wrap_nettle_pk_verify_priv_params` (lines 4183-4243). -/
def verify_priv_params_rsa (E : Env) (params : gnutls_pk_params_st) : Int :=
  if params.params_nr != RSA_PRIVATE_PARAMS then GNUTLS_E_INVALID_REQUEST else
  let t1 := _gnutls_mpi_mulm (TOMPZ (params.get RSA_PRIME1)) (TOMPZ (params.get RSA_PRIME2))
    (TOMPZ (params.get RSA_MODULUS))
  if t1 != 0 then GNUTLS_E_ILLEGAL_PARAMETER else
  let t1 := mpz_invert E t1 (TOMPZ (params.get RSA_PRIME2)) (TOMPZ (params.get RSA_PRIME1))
  if t1 != TOMPZ (params.get RSA_COEF) then GNUTLS_E_ILLEGAL_PARAMETER else
  /- [RSA_PRIME1] = d % p-1, [RSA_PRIME2] = d % q-1 -/
  let m1 := _gnutls_mpi_modm (TOMPZ (params.get RSA_PRIV))
    ((TOMPZ (params.get RSA_PRIME1) : Int) - 1)
  if m1.1 < 0 then GNUTLS_E_MEMORY_ERROR else
  if TOMPZ (params.get RSA_E1) != m1.2 then GNUTLS_E_ILLEGAL_PARAMETER else
  let m2 := _gnutls_mpi_modm (TOMPZ (params.get RSA_PRIV))
    ((TOMPZ (params.get RSA_PRIME2) : Int) - 1)
  if m2.1 < 0 then GNUTLS_E_MEMORY_ERROR else
  if TOMPZ (params.get RSA_E2) != m2.2 then GNUTLS_E_ILLEGAL_PARAMETER else
  0

/-- The ECDSA case of `wrap_nettle_pk_verify_priv_params` (lines 4276-4338). -/
def verify_priv_params_ecdsa (E : Env) (params : gnutls_pk_params_st) : Int :=
  if params.params_nr != ECC_PRIVATE_PARAMS then GNUTLS_E_INVALID_REQUEST else
  match get_supported_nist_curve params.curve with
  | none => GNUTLS_E_ECC_UNSUPPORTED_CURVE
  | some curve =>
  if _ecc_params_to_pubkey E params curve < 0 then _ecc_params_to_pubkey E params curve else
  if _ecc_params_to_privkey E params curve < 0 then _ecc_params_to_privkey E params curve else
  /- verify that x,y lie on the curve -/
  if E.ecc_point_set curve (TOMPZ (params.get ECC_X)) (TOMPZ (params.get ECC_Y)) == false then
    GNUTLS_E_ILLEGAL_PARAMETER else
  let r := E.ecc_point_mul_g curve (TOMPZ (params.get ECC_K))
  /- verify that k*(Gx,Gy)=(x,y) -/
  if r.1 != TOMPZ (params.get ECC_X) || r.2 != TOMPZ (params.get ECC_Y) then
    GNUTLS_E_ILLEGAL_PARAMETER
  else 0

/-- The GOST case of `wrap_nettle_pk_verify_priv_params` (lines 4414-4476). -/
def verify_priv_params_gost (E : Env) (params : gnutls_pk_params_st) : Int :=
  if params.params_nr != GOST_PRIVATE_PARAMS then GNUTLS_E_INVALID_REQUEST else
  match get_supported_gost_curve params.curve with
  | none => GNUTLS_E_ECC_UNSUPPORTED_CURVE
  | some curve =>
  if _gost_params_to_pubkey E params curve < 0 then _gost_params_to_pubkey E params curve else
  if _gost_params_to_privkey E params curve < 0 then _gost_params_to_privkey E params curve else
  /- verify that x,y lie on the curve -/
  if E.gost_point_set curve (TOMPZ (params.get GOST_X)) (TOMPZ (params.get GOST_Y)) == false
  then GNUTLS_E_ILLEGAL_PARAMETER else
  let r := E.gost_point_mul_g curve (TOMPZ (params.get GOST_K))
  /- verify that k*(Gx,Gy)=(x,y) -/
  if r.1 != TOMPZ (params.get GOST_X) || r.2 != TOMPZ (params.get GOST_Y) then
    GNUTLS_E_ILLEGAL_PARAMETER
  else 0

/-- The EdDSA and X25519/X448 cases of `wrap_nettle_pk_verify_priv_params`
(lines 4339-4390), which differ in the curve look-up and in the function that
republishes the public key. -/
def verify_priv_params_raw (E : Env) (curve : gnutls_ecc_curve_t)
    (republish : List Nat → Int × Option (List Nat)) (params : gnutls_pk_params_st) : Int :=
  match E._gnutls_ecc_curve_get_params curve with
  | none => GNUTLS_E_INVALID_REQUEST
  | some e =>
  match params.raw_pub.data with
  | none => 0 /- nothing to verify -/
  | some raw_pub =>
  if params.raw_pub.size != e.1 then GNUTLS_E_ILLEGAL_PARAMETER else
  let k := republish (params.raw_priv.data.getD [])
  if k.1 < 0 then k.1 else
  if raw_pub.take e.1 != (k.2.getD []).take e.1 then GNUTLS_E_ILLEGAL_PARAMETER else
  0

/-- The function `wrap_nettle_pk_verify_priv_params`. -/
def wrap_nettle_pk_verify_priv_params (E : Env) (algo : gnutls_pk_algorithm_t)
    (params : gnutls_pk_params_st) : Int :=
  match algo with
  | GNUTLS_PK_RSA | GNUTLS_PK_RSA_PSS | GNUTLS_PK_RSA_OAEP => verify_priv_params_rsa E params
  | GNUTLS_PK_DSA | GNUTLS_PK_DH =>
    if params.params_nr != DSA_PRIVATE_PARAMS then GNUTLS_E_INVALID_REQUEST else
    let t1 := _gnutls_mpi_powm (TOMPZ (params.get DSA_G)) (TOMPZ (params.get DSA_X))
      (TOMPZ (params.get DSA_P))
    if t1 != TOMPZ (params.get DSA_Y) then GNUTLS_E_ILLEGAL_PARAMETER else 0
  | GNUTLS_PK_ECDSA => verify_priv_params_ecdsa E params
  | GNUTLS_PK_EDDSA_ED25519 | GNUTLS_PK_EDDSA_ED448 =>
    verify_priv_params_raw E (get_eddsa_curve algo) (eddsa_public_key E algo) params
  | GNUTLS_PK_ECDH_X25519 | GNUTLS_PK_ECDH_X448 =>
    verify_priv_params_raw E (get_ecdh_curve algo) (edwards_curve_mul_g E algo) params
  | GNUTLS_PK_MLKEM768 | GNUTLS_PK_MLKEM1024 =>
    if !ml_kem_exists E algo then GNUTLS_E_UNKNOWN_PK_ALGORITHM else 0
  | GNUTLS_PK_MLDSA44 | GNUTLS_PK_MLDSA65 | GNUTLS_PK_MLDSA87 =>
    if !ml_dsa_exists E algo then GNUTLS_E_UNKNOWN_PK_ALGORITHM else 0
  | GNUTLS_PK_GOST_01 | GNUTLS_PK_GOST_12_256 | GNUTLS_PK_GOST_12_512 =>
    verify_priv_params_gost E params
  | _ => GNUTLS_E_INVALID_REQUEST

/-- The function `wrap_nettle_pk_verify_pub_params`. -/
def wrap_nettle_pk_verify_pub_params (E : Env) (algo : gnutls_pk_algorithm_t)
    (params : gnutls_pk_params_st) : Int :=
  match algo with
  | GNUTLS_PK_RSA | GNUTLS_PK_RSA_PSS | GNUTLS_PK_RSA_OAEP | GNUTLS_PK_DSA
  | GNUTLS_PK_EDDSA_ED25519 | GNUTLS_PK_EDDSA_ED448 => 0
  | GNUTLS_PK_ECDSA =>
    /- just verify that x and y lie on the curve -/
    if params.params_nr != ECC_PUBLIC_PARAMS then GNUTLS_E_INVALID_REQUEST else
    match get_supported_nist_curve params.curve with
    | none => GNUTLS_E_ECC_UNSUPPORTED_CURVE
    | some curve =>
    if _ecc_params_to_pubkey E params curve < 0 then _ecc_params_to_pubkey E params curve else
    if E.ecc_point_set curve (TOMPZ (params.get ECC_X)) (TOMPZ (params.get ECC_Y)) == false
    then GNUTLS_E_ILLEGAL_PARAMETER else 0
  | GNUTLS_PK_GOST_01 | GNUTLS_PK_GOST_12_256 | GNUTLS_PK_GOST_12_512 =>
    /- just verify that x and y lie on the curve -/
    if params.params_nr != GOST_PUBLIC_PARAMS then GNUTLS_E_INVALID_REQUEST else
    match get_supported_gost_curve params.curve with
    | none => GNUTLS_E_ECC_UNSUPPORTED_CURVE
    | some curve =>
    if _gost_params_to_pubkey E params curve < 0 then _gost_params_to_pubkey E params curve else
    if E.gost_point_set curve (TOMPZ (params.get GOST_X)) (TOMPZ (params.get GOST_Y)) == false
    then GNUTLS_E_ILLEGAL_PARAMETER else 0
  | _ => GNUTLS_E_INVALID_REQUEST

/-- Modelled from the spec: the branching definition that the return
expression of `decrypt2` is said to equal: `GNUTLS_E_DECRYPTION_FAILED` if the
random generator failed or the primitive reported failure (`0`), and `0`
otherwise. -/
def decrypt2_return_spec (have_lib_error : Bool) (ret : Int) : Int :=
  if have_lib_error || ret == 0 then GNUTLS_E_DECRYPTION_FAILED else 0

/-- The environment with another random source: `gnutls_rnd` replaced, all
else kept. -/
def Env.with_rnd (E : Env) (rnd : Nat → gnutls_rnd_level_t → Nat → Int × List Nat) : Env :=
  { E with gnutls_rnd := rnd }

/-- The bit count the DH key-generation loop draws with after a pass: in the
branch without `q`, a `level` of `0` is replaced by
`MIN (size, DH_EXPONENT_SIZE (size))` (lines 3603-3606). -/
def dh_keygen_level (E : Env) (pub : dsa_params) (have_q : Bool) (level : Nat) : Nat :=
  let size := _gnutls_mpi_get_nbits pub.p
  if have_q then level
  else if level == 0 then min size (DH_EXPONENT_SIZE E size) else level

/-- One pass of the body of the DH key-generation loop up to `mpz_powm`
(lines 3598-3615): the candidate exponent `x`, `y = g^x mod p` and the
world. -/
def dh_keygen_candidate (E : Env) (rnd_func : RndFunc) (pub : dsa_params) (have_q : Bool)
    (level : Nat) (w : World) : Nat × Nat × World :=
  let size := _gnutls_mpi_get_nbits pub.p
  let level1 := dh_keygen_level E pub have_q level
  let o : PrimOut Nat :=
    if have_q then E.nettle_mpz_random w.tick rnd_func (pub.q - 2)
    else E.nettle_mpz_random_size w.tick rnd_func level1
  let x : Nat :=
    if have_q then o.out + 1
    else if level1 ≥ size then o.out % pub.p else o.out
  let w1 := w.after Prim.mpz_random rnd_func o.rnd
  (x, mpz_powm pub.g x pub.p, w1.call (Prim.mpi_powm pub.g x pub.p))

/-! ## Completing an imported private key (`pk.c` lines 4576-4844) -/

/-- Modelled from the spec: the enumeration `gnutls_direction_t` of
`gnutls_int.h` (not among the sources). -/
inductive gnutls_direction_t where
  | GNUTLS_IMPORT
  | GNUTLS_EXPORT
deriving DecidableEq, Repr

open gnutls_direction_t

/-- GMP's `mpz_invert (rop, a, m)`: its return value, nonzero when `a` has an
inverse modulo `m`.  With `m = 0`, where GMP's behaviour is undefined, it is
`0` here. -/
def mpz_invert_ret (a m : Nat) : Int :=
  if ((List.range m).find? (fun t => a * t % m == 1 % m)).isSome then 1 else 0

/-- Modelled from the spec: `gnutls_hash_get_len` of `hash.c` (not among the
sources), the output size of the digest and `0` for one without an entry. -/
def gnutls_hash_get_len (E : Env) (dig : gnutls_digest_algorithm_t) : Nat :=
  (E.hash_output_size dig).getD 0

/-- The function `_rsa_params_to_privkey`. -/
def _rsa_params_to_privkey (pk_params : gnutls_pk_params_st) : rsa_private_key :=
  { d := TOMPZ (pk_params.get RSA_PRIV),
    p := TOMPZ (pk_params.get RSA_PRIME1),
    q := TOMPZ (pk_params.get RSA_PRIME2),
    c := TOMPZ (pk_params.get RSA_COEF),
    a := TOMPZ (pk_params.get RSA_E1),
    b := TOMPZ (pk_params.get RSA_E2),
    /- we do not rsa_private_key_prepare() because it involves a multiplication. -/
    size := nettle_mpz_sizeinbase_256_u (TOMPZ (pk_params.get RSA_MODULUS)) }

/-- The function `calc_rsa_exp`: result code and the parameter set it
leaves. -/
def calc_rsa_exp (params : gnutls_pk_params_st) : Int × gnutls_pk_params_st :=
  if params.params_nr < RSA_PRIVATE_PARAMS - 2 then (GNUTLS_E_INTERNAL_ERROR, params) else
  let params1 := (params.put RSA_E1 (some 0)).put RSA_E2 (some 0)
  /- [6] = d % p-1, [7] = d % q-1 -/
  let m1 := _gnutls_mpi_modm (TOMPZ (params1.get RSA_PRIV))
    ((TOMPZ (params1.get RSA_PRIME1) : Int) - 1)
  if m1.1 < 0 then (m1.1, (params1.put RSA_E1 none).put RSA_E2 none) else
  let params2 := params1.put RSA_E1 (some m1.2)
  let m2 := _gnutls_mpi_modm (TOMPZ (params2.get RSA_PRIV))
    ((TOMPZ (params2.get RSA_PRIME2) : Int) - 1)
  if m2.1 < 0 then (m2.1, (params2.put RSA_E1 none).put RSA_E2 none) else
  (0, params2.put RSA_E2 (some m2.2))

/-- The function `calc_rsa_priv`: result code and the parameter set it
leaves. -/
def calc_rsa_priv (E : Env) (params : gnutls_pk_params_st) : Int × gnutls_pk_params_st :=
  let params1 := params.put RSA_PRIV (some 0)
  /- lcm(p - 1, q - 1) -/
  let p1 : Int := (TOMPZ (params1.get RSA_PRIME1) : Int) - 1
  let q1 : Int := (TOMPZ (params1.get RSA_PRIME2) : Int) - 1
  let lcm := Nat.lcm p1.natAbs q1.natAbs
  /- d = e^{-1} (mod lcm) -/
  if mpz_invert_ret (TOMPZ (params1.get RSA_PUB)) lcm == 0 then
    (GNUTLS_E_INVALID_REQUEST, params1.put RSA_PRIV none)
  else (0, params1.put RSA_PRIV (some (mpz_invert E 0 (TOMPZ (params1.get RSA_PUB)) lcm)))

/-- The function `calc_dsa_pub`: result code and the parameter set it
leaves. -/
def calc_dsa_pub (params : gnutls_pk_params_st) : Int × gnutls_pk_params_st :=
  /- y = g^x mod p -/
  (0, params.put DSA_Y (some (_gnutls_mpi_powm (TOMPZ (params.get DSA_G))
    (TOMPZ (params.get DSA_X)) (TOMPZ (params.get DSA_P)))))

/-- The RSA case of `wrap_nettle_pk_fixup` (lines 4684-4733). -/
def fixup_rsa (E : Env) (params : gnutls_pk_params_st) : Int × gnutls_pk_params_st :=
  let c : Int × gnutls_pk_params_st :=
    if params.get RSA_PRIV == none then
      let r := calc_rsa_priv E params
      if r.1 < 0 then r else (0, { r.2 with params_nr := r.2.params_nr + 1 })
    else (0, params)
  if c.1 < 0 then c else
  let params1 := c.2
  /- do not trust the generated values. -/
  if params1.params_nr < RSA_PRIVATE_PARAMS - 3 then (GNUTLS_E_PK_INVALID_PRIVKEY, params1) else
  let params2 :=
    if params1.get RSA_COEF == none then params1.put RSA_COEF (some 0) else params1
  if TOMPZ (params2.get RSA_PRIME1) == 0 then (GNUTLS_E_PK_INVALID_PRIVKEY, params2) else
  let params3 := params2.put RSA_COEF (some (mpz_invert E (TOMPZ (params2.get RSA_COEF))
    (TOMPZ (params2.get RSA_PRIME2)) (TOMPZ (params2.get RSA_PRIME1))))
  if mpz_invert_ret (TOMPZ (params2.get RSA_PRIME2)) (TOMPZ (params2.get RSA_PRIME1)) == 0 then
    (GNUTLS_E_PK_INVALID_PRIVKEY, params3) else
  /- calculate exp1 [6] and exp2 [7] -/
  let params4 := (params3.put RSA_E1 none).put RSA_E2 none
  /- marks RSA_COEF as present -/
  let r := calc_rsa_exp { params4 with params_nr := RSA_PRIVATE_PARAMS - 2 }
  if r.1 < 0 then r else
  let params5 : gnutls_pk_params_st := { r.2 with params_nr := RSA_PRIVATE_PARAMS }
  /- perform nettle's internal checks -/
  if E.rsa_private_key_prepare (_rsa_params_to_privkey params5) == 0 then
    (GNUTLS_E_PK_INVALID_PRIVKEY, params5)
  else (0, params5)

/-- The EdDSA and X25519/X448 cases of `wrap_nettle_pk_fixup` (lines
4734-4783), which differ in the curve look-up and in the function that
computes the public key. -/
def fixup_raw (E : Env) (curve : gnutls_ecc_curve_t)
    (republish : List Nat → Int × Option (List Nat)) (params : gnutls_pk_params_st) :
    Int × gnutls_pk_params_st :=
  if curve != params.curve then (GNUTLS_E_ECC_UNSUPPORTED_CURVE, params) else
  match params.raw_priv.data with
  | none => (GNUTLS_E_PK_INVALID_PRIVKEY, params)
  | some raw_priv =>
  let params1 : gnutls_pk_params_st :=
    if params.raw_pub.data == none then
      { params with
        raw_pub := { params.raw_pub with data := some (E.gnutls_malloc params.raw_priv.size) } }
    else params
  let k := republish raw_priv
  if k.1 < 0 then
    (k.1, { params1 with raw_pub := { params1.raw_pub with data := none } }) else
  (0, { params1 with raw_pub := { data := k.2, size := params1.raw_priv.size } })

/-- The GOST case of `wrap_nettle_pk_fixup` (lines 4808-4841). -/
def fixup_gost (E : Env) (params : gnutls_pk_params_st) : Int × gnutls_pk_params_st :=
  if params.params_nr != GOST_PRIVATE_PARAMS then (GNUTLS_E_INVALID_REQUEST, params) else
  match get_supported_gost_curve params.curve with
  | none => (GNUTLS_E_ECC_UNSUPPORTED_CURVE, params)
  | some curve =>
  let params1 :=
    if E.ecc_bit_size curve < _gnutls_mpi_get_nbits (TOMPZ (params.get GOST_K)) then
      params.put GOST_K (some (E.gostdsa_unmask_key curve (TOMPZ (params.get GOST_K))))
    else params
  if _gost_params_to_privkey E params1 curve < 0 then
    (_gost_params_to_privkey E params1 curve, params1) else
  let r := E.gost_point_mul_g curve (TOMPZ (params1.get GOST_K))
  (0, (params1.put GOST_X (some r.1)).put GOST_Y (some r.2))

/-- The function `wrap_nettle_pk_fixup`: result code and the parameter set it
leaves. -/
def wrap_nettle_pk_fixup (E : Env) (algo : gnutls_pk_algorithm_t)
    (direction : gnutls_direction_t) (params : gnutls_pk_params_st) :
    Int × gnutls_pk_params_st :=
  if direction != GNUTLS_IMPORT then (0, params) else
  if algo == GNUTLS_PK_RSA then fixup_rsa E params
  else if algo == GNUTLS_PK_EDDSA_ED25519 || algo == GNUTLS_PK_EDDSA_ED448 then
    fixup_raw E (get_eddsa_curve algo) (eddsa_public_key E algo) params
  else if algo == GNUTLS_PK_ECDH_X25519 || algo == GNUTLS_PK_ECDH_X448 then
    fixup_raw E (get_ecdh_curve algo) (edwards_curve_mul_g E algo) params
  else if algo == GNUTLS_PK_RSA_PSS then
    if params.params_nr < RSA_PRIVATE_PARAMS - 3 then (GNUTLS_E_PK_INVALID_PRIVKEY, params) else
    if params.spki.rsa_pss_dig != GNUTLS_DIG_UNKNOWN then
      let pub_size := nettle_mpz_sizeinbase_256_u (TOMPZ (params.get RSA_MODULUS))
      /- sanity check for private key -/
      if CHECK_INVALID_RSA_PSS_PARAMS (gnutls_hash_get_len E params.spki.rsa_pss_dig)
          params.spki.salt_size pub_size then
        (GNUTLS_E_PK_INVALID_PUBKEY_PARAMS, params)
      else (0, params)
    else (0, params)
  else if algo == GNUTLS_PK_DSA then
    if params.get DSA_Y == none then
      let r := calc_dsa_pub params
      if r.1 < 0 then r else (0, { r.2 with params_nr := r.2.params_nr + 1 })
    else (0, params)
  else if algo == GNUTLS_PK_GOST_01 || algo == GNUTLS_PK_GOST_12_256 ||
      algo == GNUTLS_PK_GOST_12_512 then
    fixup_gost E params
  else (0, params)

/-! ## Sample inputs -/

/-- A sample environment: FIPS mode off, a 16384-bit DH limit, 32-byte curves
and trivial stand-ins for the external primitives. -/
def sampleEnv : Env where
  fips_mode_enabled := false
  DEFAULT_MAX_VERIFY_BITS := 16384
  gnutls_ecc_curve_get_size := fun _ => 32
  ecc_point_set := fun _ _ _ => true
  ecc_scalar_set := fun _ _ => true
  ecc_point_mul := fun _ k P => (k * P.1 + 1, P.2)
  gost_point_set := fun _ _ _ => true
  curve25519_mul := fun _ _ => List.replicate 32 0
  curve448_mul := fun _ _ => List.replicate 56 0
  gostdsa_vko := fun _ _ _ _ => List.replicate 64 1
  gnutls_rnd := fun _ _ n => (0, List.replicate n 7)
  LC_KYBER_768_ENABLED := true
  LC_KYBER_1024_ENABLED := true
  lc_kyber_pk_load := fun _ => (0, lc_kyber_type.LC_KYBER_768)
  lc_kyber_sk_load := fun _ => (0, lc_kyber_type.LC_KYBER_768)
  lc_kyber_ct_load := fun _ => (0, lc_kyber_type.LC_KYBER_768)
  lc_kyber_enc := fun _ _ => (0, [1, 2], [3, 4])
  lc_kyber_dec := fun _ _ => (0, [3, 4])
  lc_kyber_ct_ptr := fun _ => 0
  lc_kyber_ss_ptr := fun _ => 0
  IS_EC := fun a => a == GNUTLS_PK_ECDSA || a == GNUTLS_PK_ECDH_X25519
    || a == GNUTLS_PK_EDDSA_ED25519 || a == GNUTLS_PK_ECDH_X448 || a == GNUTLS_PK_EDDSA_ED448
  gnutls_ecc_curve_get_pk := fun c =>
    match c with
    | GNUTLS_ECC_CURVE_X25519 => GNUTLS_PK_ECDH_X25519
    | GNUTLS_ECC_CURVE_X448 => GNUTLS_PK_ECDH_X448
    | GNUTLS_ECC_CURVE_ED25519 => GNUTLS_PK_EDDSA_ED25519
    | GNUTLS_ECC_CURVE_ED448 => GNUTLS_PK_EDDSA_ED448
    | GNUTLS_ECC_CURVE_SECP192R1 => GNUTLS_PK_ECDSA
    | GNUTLS_ECC_CURVE_SECP224R1 => GNUTLS_PK_ECDSA
    | GNUTLS_ECC_CURVE_SECP256R1 => GNUTLS_PK_ECDSA
    | GNUTLS_ECC_CURVE_SECP384R1 => GNUTLS_PK_ECDSA
    | GNUTLS_ECC_CURVE_SECP521R1 => GNUTLS_PK_ECDSA
    | _ => GNUTLS_PK_UNKNOWN
  _gnutls_ecc_curve_get_params := fun c =>
    match c with
    | GNUTLS_ECC_CURVE_ED25519 => some (32, 64)
    | GNUTLS_ECC_CURVE_ED448 => some (57, 114)
    | GNUTLS_ECC_CURVE_X25519 => some (32, 0)
    | GNUTLS_ECC_CURVE_X448 => some (56, 0)
    | GNUTLS_ECC_CURVE_SECP256R1 => some (32, 0)
    | _ => none
  ed25519_sha512_sign := fun _ _ _ => List.replicate 64 5
  ed448_shake256_sign := fun _ _ _ => List.replicate 114 5
  _gnutls_gost_digest := fun _ => GNUTLS_DIG_STREEBOG_256
  _gnutls_mac_get_algo_len := fun d =>
    match d with
    | GNUTLS_DIG_SHA256 => 32
    | GNUTLS_DIG_SHA384 => 48
    | GNUTLS_DIG_SHA512 => 64
    | GNUTLS_DIG_STREEBOG_256 => 32
    | _ => 20
  ecc_bit_size := fun _ => 256
  gostdsa_sign := fun _ _ _ _ _ => ⟨1, (1, 1), RndUse.ok⟩
  _gnutls_encode_gost_rs := fun r s _ => (0, [r, s])
  _gnutls_encode_ber_rs := fun r s => (0, [48, 6, 2, 1, r, 2, 1, s])
  _gnutls_dsa_q_to_hash := fun _ => (GNUTLS_DIG_SHA256, 32)
  _gnutls_ecc_curve_to_dsa_q := fun _ => (0, 11)
  _gnutls_dsa_compute_k := fun _ x _ _ _ => (0, x + 1)
  _gnutls_ecdsa_compute_k_finish := fun h _ => [h]
  _gnutls_dsa_compute_k_finish := fun h _ => [h]
  ecdsa_sign := fun _ _ _ _ _ => ⟨1, (3, 4), RndUse.ok⟩
  dsa_sign := fun _ _ _ _ _ _ _ => ⟨1, (3, 4), RndUse.ok⟩
  rsa_pkcs1_sign_tr := fun _ _ _ _ _ => ⟨1, 9, RndUse.ok⟩
  rsa_pss_sign_digest_tr := fun _ _ _ _ _ _ _ => ⟨1, 9, RndUse.ok⟩
  LC_DILITHIUM_44_ENABLED := true
  LC_DILITHIUM_65_ENABLED := true
  LC_DILITHIUM_87_ENABLED := true
  lc_dilithium_sk_load := fun _ => (0, lc_dilithium_type.LC_DILITHIUM_44)
  lc_dilithium_sign := fun _ _ _ => (0, [1, 2, 3])
  lc_dilithium_sig_ptr := fun _ => 0
  ed25519_sha512_verify := fun _ _ _ => 1
  ed448_shake256_verify := fun _ _ _ => 1
  _gnutls_decode_gost_rs := fun _ => (0, 1, 1)
  _gnutls_decode_ber_rs := fun _ => (0, 3, 4)
  gostdsa_verify := fun _ _ _ _ => 1
  ecdsa_verify := fun _ _ _ _ => 1
  dsa_verify := fun _ _ _ _ _ _ => 1
  rsa_pkcs1_verify := fun _ _ _ => 1
  rsa_pss_verify_digest := fun _ _ _ _ _ => 1
  lc_dilithium_pk_load := fun _ => (0, lc_dilithium_type.LC_DILITHIUM_44)
  lc_dilithium_sig_load := fun _ => (0, lc_dilithium_type.LC_DILITHIUM_44)
  lc_dilithium_verify := fun _ _ _ => 0
  _gnutls_pk_bits_to_subgroup_bits := fun b => if b ≤ 1024 then 160 else 256
  MAX_PVP_SEED_SIZE := 256
  _dsa_generate_dss_pqg := fun _ sd _ _ => (1, ⟨23, 11, 2⟩, ⟨sd, sd.length⟩)
  dsa_generate_dss_pqg := fun _ _ _ _ _ => ⟨1, (⟨23, 11, 2⟩, ⟨[1, 2, 3], 3⟩), RndUse.ok⟩
  dsa_validate_dss_pqg := fun _ _ _ => 1
  dsa_generate_params := fun _ _ _ _ => ⟨1, ⟨23, 11, 2⟩, RndUse.ok⟩
  dsa_generate_dss_keypair := fun _ _ _ => ⟨1, (8, 3), RndUse.ok⟩
  nettle_mpz_random := fun t _ n => ⟨1, (t + 2) % n, RndUse.ok⟩
  nettle_mpz_random_size := fun t _ b => ⟨1, (t + 2) % 2 ^ b, RndUse.ok⟩
  _gnutls_dh_prime_match_fips_approved := fun _ _ => some [11]
  _rsa_generate_fips186_4_keypair := fun e _ _ => (1, ⟨3233, e, 413, 61, 53, 38, 53, 49⟩)
  rsa_generate_fips186_4_keypair := fun _ e _ _ _ =>
    ⟨1, (⟨3233, e, 413, 61, 53, 38, 53, 49⟩, [9, 9]), RndUse.ok⟩
  rsa_generate_keypair := fun _ e _ _ => ⟨1, ⟨3233, e, 413, 61, 53, 38, 53, 49⟩, RndUse.ok⟩
  ed25519_sha512_public_key := fun k => k.reverse
  ed448_shake256_public_key := fun k => k.reverse
  ecdsa_generate_keypair := fun _ _ _ => ⟨1, ((5, 6), 7), RndUse.ok⟩
  gostdsa_generate_keypair := fun _ _ _ => ⟨1, ((5, 6), 7), RndUse.ok⟩
  curve25519_mul_g := fun k => k.reverse
  curve448_mul_g := fun k => k.reverse
  lc_kyber_keypair := fun _ _ => (0, [1], [2])
  lc_kyber_sk_ptr := fun _ => 0
  lc_kyber_pk_ptr := fun _ => 0
  lc_dilithium_keypair_from_seed := fun _ _ => (0, [1], [2])
  lc_dilithium_sk_ptr := fun _ => 0
  lc_dilithium_pk_ptr := fun _ => 0
  curve_of_level := fun l =>
    match l with
    | 2 => GNUTLS_ECC_CURVE_SECP256R1
    | 5 => GNUTLS_ECC_CURVE_SECP192R1
    | 6 => GNUTLS_ECC_CURVE_X25519
    | 7 => GNUTLS_ECC_CURVE_ED25519
    | _ => GNUTLS_ECC_CURVE_INVALID
  hash_output_size := fun _ => some 32
  ecc_point_mul_g := fun _ k => (k - 2, k - 1)
  gost_point_mul_g := fun _ k => (k - 2, k - 1)
  mpz_invert_undefined := fun rop _ _ => rop
  rsa_private_key_prepare := fun k => if k.p * k.q == 0 then 0 else 1
  gostdsa_unmask_key := fun _ k => k
  gnutls_malloc := fun n => List.replicate n 0xCD
  rsa_pkcs1_encrypt_allowed := true
  rsa_public_key_prepare := fun n _ => nettle_mpz_sizeinbase_256_u n
  rsa_encrypt := fun _ _ _ m => ⟨1, m.length, RndUse.ok⟩
  rsa_oaep_encrypt := fun _ _ _ _ _ m => ⟨1, m, RndUse.ok⟩
  rsa_decrypt_tr := fun _ _ _ _ c => ⟨1, [c % 256], RndUse.ok⟩
  rsa_oaep_decrypt := fun _ _ _ _ _ _ c => ⟨1, c, RndUse.ok⟩
  rsa_sec_decrypt := fun _ _ _ n c => ⟨1, List.replicate n (c % 256), RndUse.ok⟩

/-- A DH parameter set over the prime 23 with subgroup order 11, generator 2
and the given private and public values. -/
def sampleDh (x y : Nat) : gnutls_pk_params_st :=
  { params := [some 23, some 11, some 2, some y, some x], params_nr := 5, algo := GNUTLS_PK_DH }

/-- A DH private parameter set without subgroup order: prime `p`, generator
`g`, private exponent `x`. -/
def sampleDhPriv (p g x : Nat) : gnutls_pk_params_st :=
  { params := [some p, none, some g, none, some x], params_nr := 5, algo := GNUTLS_PK_DH }

/-- A DH public parameter set: prime `p`, generator `g`, public value `y`. -/
def sampleDhPub (p g y : Nat) : gnutls_pk_params_st :=
  { params := [some p, none, some g, some y], params_nr := 4, algo := GNUTLS_PK_DH }

/-- An X25519 private parameter set with a 32-byte scalar. -/
def sampleXPriv : gnutls_pk_params_st :=
  { curve := GNUTLS_ECC_CURVE_X25519, algo := GNUTLS_PK_ECDH_X25519,
    raw_priv := { data := some (List.replicate 32 1), size := 32 } }

/-- An X25519 public parameter set with a 32-byte point. -/
def sampleXPub : gnutls_pk_params_st :=
  { curve := GNUTLS_ECC_CURVE_X25519, algo := GNUTLS_PK_ECDH_X25519,
    raw_pub := { data := some (List.replicate 32 0), size := 32 } }

/-- A small RSA key: `n = 61 * 53`, `e = 17`, `d = 413` and the CRT values. -/
def sampleRsaKey : gnutls_pk_params_st :=
  { params := [some 3233, some 17, some 413, some 61, some 53, some 38, some 53, some 49],
    params_nr := 8, algo := GNUTLS_PK_RSA }

/-- The sample environment with an `rsa_sec_decrypt` that reports failure. -/
def decryptFailEnv : Env :=
  { sampleEnv with rsa_sec_decrypt := fun _ _ _ n _ => ⟨0, List.replicate n 0, RndUse.ok⟩ }

/-- The sample environment with a random generator that fails inside the RSA
primitives, which nevertheless report success. -/
def rndFailEnv : Env :=
  { sampleEnv with
    rsa_sec_decrypt := fun _ _ _ n c => ⟨1, List.replicate n (c % 256), RndUse.failed⟩,
    rsa_pss_sign_digest_tr := fun _ _ _ _ _ _ _ => ⟨1, 9, RndUse.failed⟩,
    rsa_public_key_prepare := fun _ _ => 256 }

/-- The sample environment in FIPS mode. -/
def fipsEnv : Env := { sampleEnv with fips_mode_enabled := true }

/-- The sample environment with a random generator that is down and an RSA
modulus size of 256 bytes. -/
def rngDownEnv : Env :=
  { sampleEnv with
    gnutls_rnd := fun _ _ n => (GNUTLS_E_RANDOM_FAILED, List.replicate n 0),
    rsa_public_key_prepare := fun _ _ => 256 }

/-- RSA-PSS signature parameters: SHA-256 with a 32-byte salt. -/
def samplePssParams : gnutls_x509_spki_st :=
  { pk := GNUTLS_PK_RSA_PSS, rsa_pss_dig := GNUTLS_DIG_SHA256, salt_size := 32 }

/-- An environment in FIPS mode whose point operations on P-256 accept the
points with `0 < y` below the modulus and map `(n - 1) * P` to `-P` and every
other multiple of `P` to `P`. -/
def p256Env : Env :=
  { sampleEnv with
    fips_mode_enabled := true,
    ecc_point_set := fun c x y =>
      c == ecc_curve.secp_256r1 && decide (0 < y) &&
        decide (y < (get_supported_nist_curve_modulus GNUTLS_ECC_CURVE_SECP256R1).getD 0),
    ecc_point_mul := fun _ k P =>
      if k == (get_supported_nist_curve_order GNUTLS_ECC_CURVE_SECP256R1).getD 0 - 1 then
        (P.1, (get_supported_nist_curve_modulus GNUTLS_ECC_CURVE_SECP256R1).getD 0 - P.2)
      else P }

/-- A P-256 private parameter set. -/
def sampleEcPriv : gnutls_pk_params_st :=
  { params := [some 5, some 6, some 7], params_nr := 3, curve := GNUTLS_ECC_CURVE_SECP256R1,
    algo := GNUTLS_PK_ECDSA }

/-- An Ed25519 key with 32-byte private and public parts. -/
def sampleEdKey : gnutls_pk_params_st :=
  { curve := GNUTLS_ECC_CURVE_ED25519, algo := GNUTLS_PK_EDDSA_ED25519,
    raw_priv := { data := some (List.replicate 32 1), size := 32 },
    raw_pub := { data := some (List.replicate 32 1), size := 32 } }

/-- Signature parameters asking for a reproducible SHA-256 signature. -/
def sampleReproducible : gnutls_x509_spki_st :=
  { dsa_dig := GNUTLS_DIG_SHA256, flags := GNUTLS_PK_FLAG_REPRODUCIBLE }

/-- The sample environment with a random source whose first two draws for a
DH exponent are `0` and whose third is `1`. -/
def thirdDrawEnv : Env :=
  { sampleEnv with nettle_mpz_random_size := fun t _ _ => ⟨1, t / 4, RndUse.ok⟩ }

/-- DH domain parameters over the prime 23 with generator 2, with the subgroup
order `q` given or absent. -/
def sampleDhDomain (q : Option Nat) : gnutls_pk_params_st :=
  { params := [some 23, q, some 2], params_nr := 3, algo := GNUTLS_PK_DH }

/-- The sample environment with a random generator that fails inside the
seeded RSA generator, which then reports failure. -/
def provableDownEnv : Env :=
  { sampleEnv with
    rsa_generate_fips186_4_keypair := fun _ e _ _ _ =>
      ⟨0, (⟨0, e, 0, 0, 0, 0, 0, 0⟩, []), RndUse.failed⟩ }

/-- The small RSA key, marked in its own `spki` as an RSA-OAEP key. -/
def oaepMarkedKey : gnutls_pk_params_st :=
  { sampleRsaKey with spki := { pk := GNUTLS_PK_RSA_OAEP } }

/-- Encryption parameters naming SHA-256 for OAEP and no algorithm. -/
def sampleOaepParams : gnutls_x509_spki_st := { rsa_oaep_dig := GNUTLS_DIG_SHA256 }

/-- The sample environment with toy paddings for one-byte messages under a
two-byte modulus: PKCS#1 v1.5 puts the block type `2` in front of the message
byte, OAEP the byte `1`, and each decryption checks for its own leading byte
and reports failure on any other. -/
def paddingEnv : Env :=
  { sampleEnv with
    rsa_encrypt := fun _ _ _ m => ⟨1, 2 * 256 + m.headD 0, RndUse.ok⟩,
    rsa_decrypt_tr := fun _ _ _ _ c =>
      if c / 256 == 2 then ⟨1, [c % 256], RndUse.ok⟩ else ⟨0, [], RndUse.ok⟩,
    rsa_oaep_encrypt := fun _ _ _ _ _ m => ⟨1, [1, m.headD 0], RndUse.ok⟩,
    rsa_oaep_decrypt := fun _ _ _ _ _ _ c =>
      if c.headD 0 == 1 then ⟨1, c.tail, RndUse.ok⟩ else ⟨0, [], RndUse.ok⟩ }

/-- A one-byte message. -/
def sampleMessage : gnutls_datum_t := { data := some [7], size := 1 }

/-- The numbers of the small RSA key as they are imported, without the CRT
values: `n = 61 * 53`, `e = 17`, `d = 413`, `p = 61`, `q = 53`. -/
def importedRsaKey : gnutls_pk_params_st :=
  { params := [some 3233, some 17, some 413, some 61, some 53], params_nr := 5,
    algo := GNUTLS_PK_RSA }

/-- An RSA parameter set with `p = q = 5`, `n = 25`, `d = 3`, coefficient `0`
and both CRT exponents `3 = d mod 4`; `q` has no inverse modulo `p`. -/
def noInverseRsaKey : gnutls_pk_params_st :=
  { params := [some 25, some 3, some 3, some 5, some 5, some 0, some 3, some 3],
    params_nr := 8, algo := GNUTLS_PK_RSA }

/-- A P-256 public parameter set holding the point `(0, 0)`. -/
def zeroEcPub : gnutls_pk_params_st :=
  { params := [some 0, some 0], params_nr := 2, curve := GNUTLS_ECC_CURVE_SECP256R1,
    algo := GNUTLS_PK_ECDSA }

/-- A world whose last operation was classified as approved. -/
def approvedWorld : World := { fips_state := GNUTLS_FIPS140_OP_APPROVED }

/-- A world with the library in the error state. -/
def errorWorld : World := { lib_state := LIB_STATE_ERROR }

/-! ## Theorems -/

/-! ### How the world changes -/

@[simp] theorem call_fips_writes (w : World) (p : Prim) :
    (w.call p).fips_writes = w.fips_writes := rfl

@[simp] theorem call_fips_state (w : World) (p : Prim) :
    (w.call p).fips_state = w.fips_state := rfl

@[simp] theorem call_lib_state (w : World) (p : Prim) :
    (w.call p).lib_state = w.lib_state := rfl

@[simp] theorem call_calls (w : World) (p : Prim) : (w.call p).calls = w.calls ++ [p] := rfl

@[simp] theorem switch_lib_state_fips_writes (s : gnutls_lib_state_t) (w : World) :
    (_gnutls_switch_lib_state s w).fips_writes = w.fips_writes := rfl

@[simp] theorem switch_lib_state_fips_state (s : gnutls_lib_state_t) (w : World) :
    (_gnutls_switch_lib_state s w).fips_state = w.fips_state := rfl

@[simp] theorem switch_lib_state_calls (s : gnutls_lib_state_t) (w : World) :
    (_gnutls_switch_lib_state s w).calls = w.calls := rfl

@[simp] theorem switch_lib_state_lib_state (s : gnutls_lib_state_t) (w : World) :
    (_gnutls_switch_lib_state s w).lib_state = s := rfl

@[simp] theorem switch_fips_state_fips_writes (s : gnutls_fips140_operation_state_t) (w : World) :
    (_gnutls_switch_fips_state s w).fips_writes = w.fips_writes ++ [s] := rfl

@[simp] theorem switch_fips_state_fips_state (s : gnutls_fips140_operation_state_t) (w : World) :
    (_gnutls_switch_fips_state s w).fips_state = s := rfl

@[simp] theorem switch_fips_state_lib_state (s : gnutls_fips140_operation_state_t) (w : World) :
    (_gnutls_switch_fips_state s w).lib_state = w.lib_state := rfl

@[simp] theorem switch_fips_state_calls (s : gnutls_fips140_operation_state_t) (w : World) :
    (_gnutls_switch_fips_state s w).calls = w.calls := rfl

@[simp] theorem have_lib_error_switch_fips_state (s : gnutls_fips140_operation_state_t)
    (w : World) : HAVE_LIB_ERROR (_gnutls_switch_fips_state s w) = HAVE_LIB_ERROR w := rfl

@[simp] theorem have_lib_error_call (w : World) (p : Prim) :
    HAVE_LIB_ERROR (w.call p) = HAVE_LIB_ERROR w := rfl

@[simp] theorem rnd_effect_fips_writes (rf : RndFunc) (u : RndUse) (w : World) :
    (rnd_effect rf u w).fips_writes = w.fips_writes := by
  cases rf <;> cases u <;> simp [rnd_effect, rnd_nonce_func_fallback] <;> split <;> rfl

@[simp] theorem rnd_effect_fips_state (rf : RndFunc) (u : RndUse) (w : World) :
    (rnd_effect rf u w).fips_state = w.fips_state := by
  cases rf <;> cases u <;> simp [rnd_effect, rnd_nonce_func_fallback] <;> split <;> rfl

@[simp] theorem rnd_effect_calls (rf : RndFunc) (u : RndUse) (w : World) :
    (rnd_effect rf u w).calls = w.calls := by
  cases rf <;> cases u <;> simp [rnd_effect, rnd_nonce_func_fallback] <;> split <;> rfl

@[simp] theorem after_fips_writes (w : World) (p : Prim) (rf : RndFunc) (u : RndUse) :
    (w.after p rf u).fips_writes = w.fips_writes := by simp [World.after]

@[simp] theorem after_fips_state (w : World) (p : Prim) (rf : RndFunc) (u : RndUse) :
    (w.after p rf u).fips_state = w.fips_state := by simp [World.after]

@[simp] theorem after_calls (w : World) (p : Prim) (rf : RndFunc) (u : RndUse) :
    (w.after p rf u).calls = w.calls ++ [p] := by simp [World.after]

@[simp] theorem run_rnd_func_fips_writes (E : Env) (rf : RndFunc) (n : Nat) (w : World) :
    (run_rnd_func E rf n w).2.fips_writes = w.fips_writes := by
  cases rf <;>
    simp [run_rnd_func, rnd_key_func, rnd_tmpkey_func, rnd_nonce_func, rnd_nonce_func_fallback] <;>
    split <;> rfl

@[simp] theorem run_rnd_func_fips_state (E : Env) (rf : RndFunc) (n : Nat) (w : World) :
    (run_rnd_func E rf n w).2.fips_state = w.fips_state := by
  cases rf <;>
    simp [run_rnd_func, rnd_key_func, rnd_tmpkey_func, rnd_nonce_func, rnd_nonce_func_fallback] <;>
    split <;> rfl

@[simp] theorem cleanup_fips_state_fips_writes (ret : Int) (na : Bool) (w : World) :
    (cleanup_fips_state ret na w).fips_writes = w.fips_writes ++
      [if ret < 0 then GNUTLS_FIPS140_OP_ERROR
        else if na then GNUTLS_FIPS140_OP_NOT_APPROVED else GNUTLS_FIPS140_OP_APPROVED] := by
  unfold cleanup_fips_state
  split_ifs <;> rfl

@[simp] theorem cleanup_fips_state_fips_state (ret : Int) (na : Bool) (w : World) :
    (cleanup_fips_state ret na w).fips_state =
      (if ret < 0 then GNUTLS_FIPS140_OP_ERROR
        else if na then GNUTLS_FIPS140_OP_NOT_APPROVED else GNUTLS_FIPS140_OP_APPROVED) := by
  unfold cleanup_fips_state
  split_ifs <;> rfl

@[simp] theorem cleanup_fips_state_lib_state (ret : Int) (na : Bool) (w : World) :
    (cleanup_fips_state ret na w).lib_state = w.lib_state := by
  unfold cleanup_fips_state
  split_ifs <;> rfl

@[simp] theorem cleanup_fips_state_calls (ret : Int) (na : Bool) (w : World) :
    (cleanup_fips_state ret na w).calls = w.calls := by
  unfold cleanup_fips_state
  split_ifs <;> rfl

@[simp] theorem have_lib_error_cleanup (ret : Int) (na : Bool) (w : World) :
    HAVE_LIB_ERROR (cleanup_fips_state ret na w) = HAVE_LIB_ERROR w := by
  simp [HAVE_LIB_ERROR, _gnutls_get_lib_state]

/-! ### The bodies of the entry points write no compliance state -/

theorem sign_eddsa_fips (E : Env) (algo : gnutls_pk_algorithm_t) (signature vdata : gnutls_datum_t)
    (pk_params : gnutls_pk_params_st) (w : World) :
    (sign_eddsa E algo signature vdata pk_params w).world.fips_writes = w.fips_writes ∧
      (sign_eddsa E algo signature vdata pk_params w).world.fips_state = w.fips_state := by
  unfold sign_eddsa eddsa_sign
  dsimp only
  repeat' split
  all_goals first | exact ⟨rfl, rfl⟩ | (simp; done) | (dsimp only; split_ifs <;> simp; done)

theorem sign_gost_fips (E : Env) (signature vdata : gnutls_datum_t) (pk_params : gnutls_pk_params_st) (w : World) :
    (sign_gost E signature vdata pk_params w).world.fips_writes = w.fips_writes ∧
      (sign_gost E signature vdata pk_params w).world.fips_state = w.fips_state := by
  unfold sign_gost
  dsimp only
  repeat' split
  all_goals first | exact ⟨rfl, rfl⟩ | (simp; done) | (dsimp only; split_ifs <;> simp; done)

theorem sign_ecdsa_fips (E : Env) (signature vdata : gnutls_datum_t) (pk_params : gnutls_pk_params_st)
    (sign_params : gnutls_x509_spki_st) (w : World) :
    (sign_ecdsa E signature vdata pk_params sign_params w).world.fips_writes = w.fips_writes ∧
      (sign_ecdsa E signature vdata pk_params sign_params w).world.fips_state = w.fips_state := by
  unfold sign_ecdsa
  dsimp only
  repeat' split
  all_goals first | exact ⟨rfl, rfl⟩ | (simp; done) | (dsimp only; split_ifs <;> simp; done)

theorem sign_dsa_fips (E : Env) (signature vdata : gnutls_datum_t) (pk_params : gnutls_pk_params_st)
    (sign_params : gnutls_x509_spki_st) (w : World) :
    (sign_dsa E signature vdata pk_params sign_params w).world.fips_writes = w.fips_writes ∧
      (sign_dsa E signature vdata pk_params sign_params w).world.fips_state = w.fips_state := by
  unfold sign_dsa
  dsimp only
  repeat' split
  all_goals first | exact ⟨rfl, rfl⟩ | (simp; done) | (dsimp only; split_ifs <;> simp; done)

theorem sign_rsa_fips (E : Env) (signature vdata : gnutls_datum_t) (pk_params : gnutls_pk_params_st) (w : World) :
    (sign_rsa E signature vdata pk_params w).world.fips_writes = w.fips_writes ∧
      (sign_rsa E signature vdata pk_params w).world.fips_state = w.fips_state := by
  unfold sign_rsa
  dsimp only
  repeat' split
  all_goals first | exact ⟨rfl, rfl⟩ | (simp; done) | (dsimp only; split_ifs <;> simp; done)

theorem _rsa_pss_sign_digest_tr_fips (E : Env) (dig : gnutls_digest_algorithm_t)
    (pub : rsa_public_key) (priv : gnutls_pk_params_st) (rnd_func : RndFunc) (salt_size : Nat)
    (digest : List Nat) (w : World) :
    (_rsa_pss_sign_digest_tr E dig pub priv rnd_func salt_size digest w).2.2.fips_writes
        = w.fips_writes ∧
      (_rsa_pss_sign_digest_tr E dig pub priv rnd_func salt_size digest w).2.2.fips_state
        = w.fips_state := by
  unfold _rsa_pss_sign_digest_tr
  dsimp only
  repeat' split
  all_goals first | exact ⟨rfl, rfl⟩ | (simp; done) | (dsimp only; split_ifs <;> simp; done)

theorem sign_rsa_pss_fips (E : Env) (signature vdata : gnutls_datum_t)
    (pk_params : gnutls_pk_params_st) (sign_params : gnutls_x509_spki_st) (w : World) :
    (sign_rsa_pss E signature vdata pk_params sign_params w).world.fips_writes = w.fips_writes ∧
      (sign_rsa_pss E signature vdata pk_params sign_params w).world.fips_state
        = w.fips_state := by
  unfold sign_rsa_pss
  dsimp only
  repeat' split
  all_goals first | exact ⟨rfl, rfl⟩ | exact _rsa_pss_sign_digest_tr_fips _ _ _ _ _ _ _ _

theorem ml_dsa_sign_fips (E : Env) (algo : gnutls_pk_algorithm_t)
    (signature message raw_priv : gnutls_datum_t) (w : World) :
    (ml_dsa_sign E algo signature message raw_priv w).2.2.fips_writes = w.fips_writes ∧
      (ml_dsa_sign E algo signature message raw_priv w).2.2.fips_state = w.fips_state := by
  unfold ml_dsa_sign
  dsimp only
  repeat' split
  all_goals first | exact ⟨rfl, rfl⟩ | (simp; done) | (dsimp only; split_ifs <;> simp; done)

/-- The body of `sign` writes no compliance state. -/
theorem sign_body_fips (E : Env) (algo : gnutls_pk_algorithm_t)
    (signature vdata : gnutls_datum_t) (pk_params : gnutls_pk_params_st)
    (sign_params : gnutls_x509_spki_st) (w : World) :
    (sign_body E algo signature vdata pk_params sign_params w).world.fips_writes
        = w.fips_writes ∧
      (sign_body E algo signature vdata pk_params sign_params w).world.fips_state
        = w.fips_state := by
  unfold sign_body
  dsimp only
  repeat' split
  all_goals first
    | exact ⟨rfl, rfl⟩
    | exact sign_eddsa_fips _ _ _ _ _ _
    | exact sign_gost_fips _ _ _ _ _
    | exact sign_ecdsa_fips _ _ _ _ _ _
    | exact sign_dsa_fips _ _ _ _ _ _
    | exact sign_rsa_fips _ _ _ _ _
    | exact sign_rsa_pss_fips _ _ _ _ _ _
    | exact ml_dsa_sign_fips _ _ _ _ _ _

/-- C5: in a finite-field DH derive call without nonce, a peer value `y` with
`y = 0`, `y = 1` or `y ≥ p - 1`, or one with `y ^ q mod p ≠ 1` for a present
subgroup order `q`, makes derive return `GNUTLS_E_RECEIVED_ILLEGAL_PARAMETER`
and leaves the output datum as it was passed in. -/
theorem derive_dh_rejects_invalid_peer (E : Env) (out : gnutls_datum_t)
    (priv pub : gnutls_pk_params_st) (flags : Nat) (w : World)
    (h : TOMPZ (pub.get DH_Y) = 0 ∨ TOMPZ (pub.get DH_Y) = 1 ∨
      ((TOMPZ (pub.get DH_Y) : Int) ≥ (TOMPZ (priv.get DH_P) : Int) - 1) ∨
      (∃ q, priv.get DH_Q = some q ∧
        TOMPZ (pub.get DH_Y) ^ q % TOMPZ (priv.get DH_P) ≠ 1)) :
    (_wrap_nettle_pk_derive E GNUTLS_PK_DH out priv pub none flags w).1
        = GNUTLS_E_RECEIVED_ILLEGAL_PARAMETER ∧
      (_wrap_nettle_pk_derive E GNUTLS_PK_DH out priv pub none flags w).2.1 = out := by
  simp only [_wrap_nettle_pk_derive]
  unfold derive_dh
  simp only [Option.isSome_none, Bool.false_eq_true, if_false]
  rcases h with h | h | h | ⟨q, hq, hpow⟩
  · simp [h]
  · simp [h]
  · simp [h]
  · split_ifs <;> simp_all [_gnutls_mpi_powm]

/-- Witness for `derive_dh_rejects_invalid_peer`: over the prime 23 the peer
value 1 is rejected. -/
theorem derive_dh_rejects_invalid_peer_witness :
    (TOMPZ ((sampleDh 0 1).get DH_Y) = 0 ∨ TOMPZ ((sampleDh 0 1).get DH_Y) = 1 ∨
      ((TOMPZ ((sampleDh 0 1).get DH_Y) : Int) ≥ (TOMPZ ((sampleDh 3 0).get DH_P) : Int) - 1) ∨
      (∃ q, (sampleDh 3 0).get DH_Q = some q ∧
        TOMPZ ((sampleDh 0 1).get DH_Y) ^ q % TOMPZ ((sampleDh 3 0).get DH_P) ≠ 1)) ∧
    ((_wrap_nettle_pk_derive sampleEnv GNUTLS_PK_DH {} (sampleDh 3 0) (sampleDh 0 1) none 0 {}).1
        = GNUTLS_E_RECEIVED_ILLEGAL_PARAMETER ∧
      (_wrap_nettle_pk_derive sampleEnv GNUTLS_PK_DH {} (sampleDh 3 0) (sampleDh 0 1) none 0
        {}).2.1 = {}) :=
  ⟨Or.inr (Or.inl (by decide)),
    derive_dh_rejects_invalid_peer sampleEnv {} (sampleDh 3 0) (sampleDh 0 1) 0 {}
      (Or.inr (Or.inl (by decide)))⟩

/-- The DH case of derive, for named values of the peer value `f`, the
exponent `x`, the modulus `p` and the shared value `k = f ^ x mod p`: a bad
`k` is rejected, and success means `1 < k < p - 1` with `k` encoded in the
output. -/
theorem derive_dh_characterisation (E : Env) (out : gnutls_datum_t)
    (priv pub : gnutls_pk_params_st) (flags : Nat) (w : World) (f x p k : Nat)
    (hf : TOMPZ (pub.get DH_Y) = f) (hx : TOMPZ (priv.get DH_X) = x)
    (hp : TOMPZ (priv.get DH_P) = p) (hk : f ^ x % p = k) :
    ((k = 0 ∨ k = 1 ∨ (k : Int) = (p : Int) - 1) →
      (derive_dh E out priv pub none flags w).ret = GNUTLS_E_RECEIVED_ILLEGAL_PARAMETER) ∧
    ((derive_dh E out priv pub none flags w).ret = 0 →
      1 < k ∧ k < p - 1 ∧
      (derive_dh E out priv pub none flags w).out =
        (if has_flag flags PK_DERIVE_TLS13 then
          _gnutls_mpi_dprint_size k ((_gnutls_mpi_get_nbits p + 7) / 8)
        else _gnutls_mpi_dprint k)) := by
  have hmod : 0 < p → k < p := fun h => hk ▸ Nat.mod_lt _ h
  unfold derive_dh
  simp only [Option.isSome_none, Bool.false_eq_true, if_false, _gnutls_mpi_powm, hf, hx, hp, hk]
  refine ⟨?_, ?_⟩
  · intro hbad
    split_ifs <;> simp_all
  · intro hret
    split_ifs at hret ⊢ <;> simp_all <;> omega

/-- C6: in a finite-field DH derive call without nonce, a computed shared
value `k = y ^ x mod p` equal to 0, 1 or `p - 1` makes derive fail with
`GNUTLS_E_RECEIVED_ILLEGAL_PARAMETER`; and whenever derive returns success,
`1 < k < p - 1` and the output datum is the encoding of `k` (padded to the
byte length of `p` under `PK_DERIVE_TLS13`, minimal otherwise). -/
theorem derive_dh_shared_value_checked (E : Env) (out : gnutls_datum_t)
    (priv pub : gnutls_pk_params_st) (flags : Nat) (w : World) :
    ((TOMPZ (pub.get DH_Y) ^ TOMPZ (priv.get DH_X) % TOMPZ (priv.get DH_P) = 0 ∨
        TOMPZ (pub.get DH_Y) ^ TOMPZ (priv.get DH_X) % TOMPZ (priv.get DH_P) = 1 ∨
        ((TOMPZ (pub.get DH_Y) ^ TOMPZ (priv.get DH_X) % TOMPZ (priv.get DH_P) : Nat) : Int)
          = (TOMPZ (priv.get DH_P) : Int) - 1) →
      (_wrap_nettle_pk_derive E GNUTLS_PK_DH out priv pub none flags w).1
        = GNUTLS_E_RECEIVED_ILLEGAL_PARAMETER) ∧
    ((_wrap_nettle_pk_derive E GNUTLS_PK_DH out priv pub none flags w).1 = 0 →
      1 < TOMPZ (pub.get DH_Y) ^ TOMPZ (priv.get DH_X) % TOMPZ (priv.get DH_P) ∧
      TOMPZ (pub.get DH_Y) ^ TOMPZ (priv.get DH_X) % TOMPZ (priv.get DH_P)
        < TOMPZ (priv.get DH_P) - 1 ∧
      (_wrap_nettle_pk_derive E GNUTLS_PK_DH out priv pub none flags w).2.1 =
        (if has_flag flags PK_DERIVE_TLS13 then
          _gnutls_mpi_dprint_size
            (TOMPZ (pub.get DH_Y) ^ TOMPZ (priv.get DH_X) % TOMPZ (priv.get DH_P))
            ((_gnutls_mpi_get_nbits (TOMPZ (priv.get DH_P)) + 7) / 8)
        else
          _gnutls_mpi_dprint
            (TOMPZ (pub.get DH_Y) ^ TOMPZ (priv.get DH_X) % TOMPZ (priv.get DH_P)))) := by
  exact derive_dh_characterisation E out priv pub flags w _ _ _ _ rfl rfl rfl rfl

/-- Witness for `derive_dh_shared_value_checked`: with `p = 23`, peer value
19 and exponent 6 the shared value is 2 and derive returns its encoding. -/
theorem derive_dh_shared_value_checked_witness :
    (_wrap_nettle_pk_derive sampleEnv GNUTLS_PK_DH {} (sampleDhPriv 23 5 6) (sampleDhPub 23 5 19)
        none 0 {}).1 = 0 ∧
      (_wrap_nettle_pk_derive sampleEnv GNUTLS_PK_DH {} (sampleDhPriv 23 5 6)
        (sampleDhPub 23 5 19) none 0 {}).2.1 = { data := some [2], size := 1 } :=
  have h : (_wrap_nettle_pk_derive sampleEnv GNUTLS_PK_DH {} (sampleDhPriv 23 5 6)
      (sampleDhPub 23 5 19) none 0 {}).1 = 0 := by decide
  ⟨h, ((derive_dh_shared_value_checked sampleEnv {} (sampleDhPriv 23 5 6) (sampleDhPub 23 5 19)
      0 {}).2 h).2.2.trans (by decide)⟩

/-- C7: for DH domain parameters `(p, g)`, private exponents `xA`, `xB` and
public values `g ^ xA mod p`, `g ^ xB mod p`, if derive of A's private key
with B's public value and derive of B's private key with A's public value
both succeed under the same flags, they return the same datum. -/
theorem derive_dh_symmetric (E : Env) (p g xA xB : Nat) (privA privB pubA pubB : gnutls_pk_params_st)
    (outA outB : gnutls_datum_t) (flags : Nat) (wA wB : World)
    (hpA : privA.get DH_P = some p) (hpB : privB.get DH_P = some p)
    (hxA : privA.get DH_X = some xA) (hxB : privB.get DH_X = some xB)
    (hyA : pubA.get DH_Y = some (g ^ xA % p)) (hyB : pubB.get DH_Y = some (g ^ xB % p))
    (hA : (_wrap_nettle_pk_derive E GNUTLS_PK_DH outA privA pubB none flags wA).1 = 0)
    (hB : (_wrap_nettle_pk_derive E GNUTLS_PK_DH outB privB pubA none flags wB).1 = 0) :
    (_wrap_nettle_pk_derive E GNUTLS_PK_DH outA privA pubB none flags wA).2.1 =
      (_wrap_nettle_pk_derive E GNUTLS_PK_DH outB privB pubA none flags wB).2.1 := by
  have hk : (g ^ xB % p) ^ xA % p = (g ^ xA % p) ^ xB % p := by
    rw [← Nat.pow_mod, ← Nat.pow_mod, ← pow_mul, ← pow_mul, Nat.mul_comm]
  have cA := (derive_dh_characterisation E outA privA pubB flags wA (g ^ xB % p) xA p _
    (by simp [TOMPZ, hyB]) (by simp [TOMPZ, hxA]) (by simp [TOMPZ, hpA]) rfl).2 hA
  have cB := (derive_dh_characterisation E outB privB pubA flags wB (g ^ xA % p) xB p _
    (by simp [TOMPZ, hyA]) (by simp [TOMPZ, hxB]) (by simp [TOMPZ, hpB]) rfl).2 hB
  show (derive_dh E outA privA pubB none flags wA).out = (derive_dh E outB privB pubA none flags wB).out
  rw [cA.2.2, cB.2.2, hk]

/-- Witness for `derive_dh_symmetric`: `p = 23`, `g = 5`, exponents 6 and 15
(public values 8 and 19); both sides derive the secret 2. -/
theorem derive_dh_symmetric_witness :
    ((sampleDhPriv 23 5 6).get DH_P = some 23 ∧ (sampleDhPriv 23 5 15).get DH_P = some 23 ∧
      (sampleDhPriv 23 5 6).get DH_X = some 6 ∧ (sampleDhPriv 23 5 15).get DH_X = some 15 ∧
      (sampleDhPub 23 5 8).get DH_Y = some (5 ^ 6 % 23) ∧
      (sampleDhPub 23 5 19).get DH_Y = some (5 ^ 15 % 23) ∧
      (_wrap_nettle_pk_derive sampleEnv GNUTLS_PK_DH {} (sampleDhPriv 23 5 6)
        (sampleDhPub 23 5 19) none 0 {}).1 = 0 ∧
      (_wrap_nettle_pk_derive sampleEnv GNUTLS_PK_DH {} (sampleDhPriv 23 5 15)
        (sampleDhPub 23 5 8) none 0 {}).1 = 0) ∧
    (_wrap_nettle_pk_derive sampleEnv GNUTLS_PK_DH {} (sampleDhPriv 23 5 6)
        (sampleDhPub 23 5 19) none 0 {}).2.1 =
      (_wrap_nettle_pk_derive sampleEnv GNUTLS_PK_DH {} (sampleDhPriv 23 5 15)
        (sampleDhPub 23 5 8) none 0 {}).2.1 :=
  ⟨⟨by decide, by decide, by decide, by decide, by decide, by decide, by decide, by decide⟩,
    derive_dh_symmetric sampleEnv 23 5 6 15 (sampleDhPriv 23 5 6) (sampleDhPriv 23 5 15)
      (sampleDhPub 23 5 8) (sampleDhPub 23 5 19) {} {} 0 {} {}
      (by decide) (by decide) (by decide) (by decide) (by decide) (by decide) (by decide)
      (by decide)⟩

/-- C8: an X25519 or X448 derive call that reaches the scalar multiplication
(no nonce, a curve of non-zero size, a private scalar of that size) and whose
product is all zero bytes returns `GNUTLS_E_RECEIVED_ILLEGAL_PARAMETER`, the
illegal-parameter error of this path, and leaves the output datum without a
buffer. -/
theorem derive_ecdh_x_rejects_zero_output (E : Env) (algo : gnutls_pk_algorithm_t)
    (out : gnutls_datum_t) (priv pub : gnutls_pk_params_st) (flags : Nat) (w : World)
    (halgo : algo = GNUTLS_PK_ECDH_X25519 ∨ algo = GNUTLS_PK_ECDH_X448)
    (hsize : E.gnutls_ecc_curve_get_size priv.curve ≠ 0)
    (hpriv : priv.raw_priv.size = E.gnutls_ecc_curve_get_size priv.curve)
    (hzero : ∀ b ∈ (((edwards_curve_mul E algo (priv.raw_priv.data.getD [])
        (pub.raw_pub.data.getD [])).2.getD []).take (E.gnutls_ecc_curve_get_size priv.curve)),
      b = 0) :
    (_wrap_nettle_pk_derive E algo out priv pub none flags w).1
        = GNUTLS_E_RECEIVED_ILLEGAL_PARAMETER ∧
      (_wrap_nettle_pk_derive E algo out priv pub none flags w).2.1.data = none := by
  have hz : _gnutls_mem_is_zero ((edwards_curve_mul E algo (priv.raw_priv.data.getD [])
      (pub.raw_pub.data.getD [])).2.getD []) (E.gnutls_ecc_curve_get_size priv.curve) = true := by
    simp only [_gnutls_mem_is_zero, List.all_eq_true, beq_iff_eq]
    exact hzero
  rcases halgo with h | h <;> subst h <;>
    simp only [_wrap_nettle_pk_derive, derive_ecdh_x] <;>
    simp [hsize, hpriv, edwards_curve_mul] at hz ⊢ <;>
    simp [hz]

/-- Witness for `derive_ecdh_x_rejects_zero_output`: the sample environment
multiplies to 32 zero bytes. -/
theorem derive_ecdh_x_rejects_zero_output_witness :
    ((GNUTLS_PK_ECDH_X25519 = GNUTLS_PK_ECDH_X25519 ∨ GNUTLS_PK_ECDH_X25519 = GNUTLS_PK_ECDH_X448) ∧
      sampleEnv.gnutls_ecc_curve_get_size sampleXPriv.curve ≠ 0 ∧
      sampleXPriv.raw_priv.size = sampleEnv.gnutls_ecc_curve_get_size sampleXPriv.curve ∧
      (∀ b ∈ (((edwards_curve_mul sampleEnv GNUTLS_PK_ECDH_X25519
          (sampleXPriv.raw_priv.data.getD []) (sampleXPub.raw_pub.data.getD [])).2.getD []).take
            (sampleEnv.gnutls_ecc_curve_get_size sampleXPriv.curve)), b = 0)) ∧
    ((_wrap_nettle_pk_derive sampleEnv GNUTLS_PK_ECDH_X25519 {} sampleXPriv sampleXPub none 0 {}).1
        = GNUTLS_E_RECEIVED_ILLEGAL_PARAMETER ∧
      (_wrap_nettle_pk_derive sampleEnv GNUTLS_PK_ECDH_X25519 {} sampleXPriv sampleXPub none 0
        {}).2.1.data = none) :=
  ⟨⟨Or.inl rfl, by decide, by decide, by decide⟩,
    derive_ecdh_x_rejects_zero_output sampleEnv GNUTLS_PK_ECDH_X25519 {} sampleXPriv sampleXPub 0
      {} (Or.inl rfl) (by decide) (by decide) (by decide)⟩

/-! ### C3: the compliance state after `decrypt2` -/

theorem CONSTCHECK_NOT_EQUAL_cases (a b : Nat) :
    CONSTCHECK_NOT_EQUAL a b = 0 ∨ CONSTCHECK_NOT_EQUAL a b = 1 := by
  unfold CONSTCHECK_NOT_EQUAL
  have h : (2 ^ 32 - ((a % 2 ^ 32) ^^^ (b % 2 ^ 32))) % 2 ^ 32 < 2 ^ 32 :=
    Nat.mod_lt _ (by norm_num)
  generalize (2 ^ 32 - ((a % 2 ^ 32) ^^^ (b % 2 ^ 32))) % 2 ^ 32 = y at h
  rw [Nat.shiftRight_eq_div_pow]
  norm_num at h ⊢
  omega

/-- The branch-free return expression yields `0` or
`GNUTLS_E_DECRYPTION_FAILED`, whatever the primitive returned. -/
theorem decrypt2_return_cases (b : Bool) (ret : Int) :
    decrypt2_return b ret = 0 ∨ decrypt2_return b ret = GNUTLS_E_DECRYPTION_FAILED := by
  unfold decrypt2_return CONSTCHECK_EQUAL
  dsimp only
  rcases CONSTCHECK_NOT_EQUAL_cases (if b = true then 1 else 0) 0 with h1 | h1 <;>
    rcases CONSTCHECK_NOT_EQUAL_cases (to_uint32 ret) 0 with h2 | h2 <;>
    rw [h1, h2] <;> decide

/-- C3 (counterexample): `decrypt2` on a PKCS#1 v1.5 key whose primitive
reports failure returns `GNUTLS_E_DECRYPTION_FAILED` and leaves the
compliance state `NOT_APPROVED`, not `ERROR`; the same happens when the random
generator fails during the primitive. -/
theorem decrypt2_failure_not_error_state :
    ((_wrap_nettle_pk_decrypt2 decryptFailEnv GNUTLS_PK_RSA { data := some [1, 2], size := 2 }
        (some [0, 0]) 2 sampleRsaKey {} {}).1 = GNUTLS_E_DECRYPTION_FAILED ∧
      (_wrap_nettle_pk_decrypt2 decryptFailEnv GNUTLS_PK_RSA { data := some [1, 2], size := 2 }
        (some [0, 0]) 2 sampleRsaKey {} {}).2.2.fips_state = GNUTLS_FIPS140_OP_NOT_APPROVED) ∧
    ((_wrap_nettle_pk_decrypt2 rndFailEnv GNUTLS_PK_RSA { data := some [1, 2], size := 256 }
        (some [0, 0]) 2 sampleRsaKey {} {}).1 = GNUTLS_E_DECRYPTION_FAILED ∧
      (_wrap_nettle_pk_decrypt2 rndFailEnv GNUTLS_PK_RSA { data := some [1, 2], size := 256 }
        (some [0, 0]) 2 sampleRsaKey {} {}).2.2.fips_state = GNUTLS_FIPS140_OP_NOT_APPROVED) := by
  decide

/-- C3 (amended): a `decrypt2` call made while the library is in an error
state returns `GNUTLS_E_LIB_IN_ERROR_STATE` and leaves the world, hence the
compliance state, as it was.  With the library not in an error state: if the
algorithm is neither RSA nor RSA-OAEP, or the plaintext buffer is `NULL`, or
the public key is invalid, or the ciphertext size differs from the modulus
size, or the scheme is PKCS#1 v1.5 and that scheme is disallowed, the call
returns an error, leaves `ERROR`, invokes no primitive and leaves the buffer
alone; in every other case it reaches the decryption step, returns `0` or
`GNUTLS_E_DECRYPTION_FAILED`, and leaves `NOT_APPROVED` for PKCS#1 v1.5 and
`APPROVED` for OAEP, whether or not decryption failed. -/
theorem decrypt2_compliance_state (E : Env) (algo : gnutls_pk_algorithm_t)
    (ciphertext : gnutls_datum_t) (plaintext : Option (List Nat)) (plaintext_size : Nat)
    (pk_params : gnutls_pk_params_st) (encrypt_params : gnutls_x509_spki_st) (w : World) :
    (HAVE_LIB_ERROR w = true →
      _wrap_nettle_pk_decrypt2 E algo ciphertext plaintext plaintext_size pk_params
        encrypt_params w = (GNUTLS_E_LIB_IN_ERROR_STATE, plaintext, w)) ∧
    (HAVE_LIB_ERROR w = false →
      ((algo ≠ GNUTLS_PK_RSA ∧ algo ≠ GNUTLS_PK_RSA_OAEP) ∨ plaintext = none ∨
        (_rsa_params_to_pubkey E pk_params).1 < 0 ∨
        ciphertext.size ≠ (_rsa_params_to_pubkey E pk_params).2.size ∨
        (algo = GNUTLS_PK_RSA ∧ encrypt_params.pk ≠ GNUTLS_PK_RSA_OAEP ∧
          E.rsa_pkcs1_encrypt_allowed = false)) →
      (_wrap_nettle_pk_decrypt2 E algo ciphertext plaintext plaintext_size pk_params
          encrypt_params w).1 < 0 ∧
        (_wrap_nettle_pk_decrypt2 E algo ciphertext plaintext plaintext_size pk_params
          encrypt_params w).2.1 = plaintext ∧
        (_wrap_nettle_pk_decrypt2 E algo ciphertext plaintext plaintext_size pk_params
          encrypt_params w).2.2.fips_state = GNUTLS_FIPS140_OP_ERROR ∧
        (_wrap_nettle_pk_decrypt2 E algo ciphertext plaintext plaintext_size pk_params
          encrypt_params w).2.2.calls = w.calls) ∧
    (HAVE_LIB_ERROR w = false →
      (algo = GNUTLS_PK_RSA ∨ algo = GNUTLS_PK_RSA_OAEP) → plaintext ≠ none →
      ¬ (_rsa_params_to_pubkey E pk_params).1 < 0 →
      ciphertext.size = (_rsa_params_to_pubkey E pk_params).2.size →
      (algo = GNUTLS_PK_RSA → encrypt_params.pk ≠ GNUTLS_PK_RSA_OAEP →
        E.rsa_pkcs1_encrypt_allowed = true) →
      ((_wrap_nettle_pk_decrypt2 E algo ciphertext plaintext plaintext_size pk_params
            encrypt_params w).1 = 0 ∨
          (_wrap_nettle_pk_decrypt2 E algo ciphertext plaintext plaintext_size pk_params
            encrypt_params w).1 = GNUTLS_E_DECRYPTION_FAILED) ∧
        (_wrap_nettle_pk_decrypt2 E algo ciphertext plaintext plaintext_size pk_params
          encrypt_params w).2.2.fips_state =
            (if algo = GNUTLS_PK_RSA ∧ encrypt_params.pk ≠ GNUTLS_PK_RSA_OAEP
              then GNUTLS_FIPS140_OP_NOT_APPROVED else GNUTLS_FIPS140_OP_APPROVED)) := by
  refine ⟨fun h => by simp [_wrap_nettle_pk_decrypt2, h], fun h he => ?_,
    fun h ha hpl hpk hsz hal => ?_⟩
  · generalize hpub : _rsa_params_to_pubkey E pk_params = pub at he ⊢
    unfold _wrap_nettle_pk_decrypt2
    simp only [h, Bool.false_eq_true, if_false, hpub]
    try dsimp only
    split_ifs <;> (try split) <;> (try split_ifs) <;>
      (try simp_all [_gnutls_switch_fips_state]) <;> omega
  · generalize hpub : _rsa_params_to_pubkey E pk_params = pub at hpk hsz ⊢
    unfold _wrap_nettle_pk_decrypt2
    simp only [h, Bool.false_eq_true, if_false, hpub]
    try dsimp only
    split_ifs <;> (try split) <;> (try split_ifs) <;>
      simp_all [decrypt2_return_cases]

/-! ### C10: algorithms outside the approved set -/

/-- The GOST branch of `derive` always hands `not_approved = true` to `cleanup:`. -/
theorem derive_gost_not_approved (E : Env) (out : gnutls_datum_t) (priv pub : gnutls_pk_params_st)
    (nonce : Option gnutls_datum_t) (w : World) :
    (derive_gost E out priv pub nonce w).not_approved = true := by
  unfold derive_gost
  dsimp only
  repeat' split
  all_goals rfl

/-- The X25519/X448 branch of `derive` always hands `not_approved = true` to
`cleanup:`. -/
theorem derive_ecdh_x_not_approved (E : Env) (algo : gnutls_pk_algorithm_t) (out : gnutls_datum_t)
    (priv pub : gnutls_pk_params_st) (nonce : Option gnutls_datum_t) (w : World) :
    (derive_ecdh_x E algo out priv pub nonce w).not_approved = true := by
  unfold derive_ecdh_x
  dsimp only
  repeat' split
  all_goals rfl

/-- The ECDH branch of `derive` on P-192 hands either an error or
`not_approved = true` to `cleanup:`. -/
theorem derive_ec_p192_not_approved (E : Env) (out : gnutls_datum_t)
    (priv pub : gnutls_pk_params_st) (nonce : Option gnutls_datum_t) (w : World)
    (hc : priv.curve = GNUTLS_ECC_CURVE_SECP192R1) :
    (derive_ec E out priv pub nonce w).ret < 0 ∨
      (derive_ec E out priv pub nonce w).not_approved = true := by
  unfold derive_ec
  simp only [hc, get_supported_nist_curve]
  repeat' split
  all_goals simp_all

/-- The `cleanup:` classification leaves `ERROR` or `NOT_APPROVED` when the
call failed or was flagged. -/
theorem cleanup_state_of_flag (ret : Int) (na : Bool) (w : World) (h : ret < 0 ∨ na = true) :
    (cleanup_fips_state ret na w).fips_state = GNUTLS_FIPS140_OP_ERROR ∨
      (cleanup_fips_state ret na w).fips_state = GNUTLS_FIPS140_OP_NOT_APPROVED := by
  rw [cleanup_fips_state_fips_state]
  rcases h with h | h
  · left; simp [h]
  · by_cases hr : ret < 0
    · left; simp [hr]
    · right; simp [hr, h]

/-- The function `_wrap_nettle_pk_encaps` never writes the compliance state. -/
theorem encaps_fips (E : Env) (algo : gnutls_pk_algorithm_t)
    (ciphertext shared_secret pub : gnutls_datum_t) (w : World) :
    (_wrap_nettle_pk_encaps E algo ciphertext shared_secret pub w).2.2.2.fips_writes
        = w.fips_writes ∧
      (_wrap_nettle_pk_encaps E algo ciphertext shared_secret pub w).2.2.2.fips_state
        = w.fips_state := by
  unfold _wrap_nettle_pk_encaps ml_kem_encaps
  dsimp only
  repeat' split
  all_goals first | exact ⟨rfl, rfl⟩ | (simp; done)

/-- The function `_wrap_nettle_pk_decaps` never writes the compliance state. -/
theorem decaps_fips (E : Env) (algo : gnutls_pk_algorithm_t)
    (shared_secret ciphertext priv : gnutls_datum_t) (w : World) :
    (_wrap_nettle_pk_decaps E algo shared_secret ciphertext priv w).2.2.fips_writes
        = w.fips_writes ∧
      (_wrap_nettle_pk_decaps E algo shared_secret ciphertext priv w).2.2.fips_state
        = w.fips_state := by
  unfold _wrap_nettle_pk_decaps ml_kem_decaps
  dsimp only
  repeat' split
  all_goals first | exact ⟨rfl, rfl⟩ | (simp; done)

/-- C10 (counterexample): a successful ML-KEM-768 encapsulation and a
successful decapsulation, started with the compliance state `APPROVED`, both
leave it `APPROVED`: neither function writes the compliance state. -/
theorem encaps_decaps_leave_approved :
    ((_wrap_nettle_pk_encaps sampleEnv GNUTLS_PK_MLKEM768 {} {} { data := some [7], size := 1 }
        approvedWorld).1 = 0 ∧
      (_wrap_nettle_pk_encaps sampleEnv GNUTLS_PK_MLKEM768 {} {} { data := some [7], size := 1 }
        approvedWorld).2.2.2.fips_state = GNUTLS_FIPS140_OP_APPROVED) ∧
    ((_wrap_nettle_pk_decaps sampleEnv GNUTLS_PK_MLKEM768 {} { data := some [1, 2], size := 2 }
        { data := some [2], size := 1 } approvedWorld).1 = 0 ∧
      (_wrap_nettle_pk_decaps sampleEnv GNUTLS_PK_MLKEM768 {} { data := some [1, 2], size := 2 }
        { data := some [2], size := 1 } approvedWorld).2.2.fips_state
          = GNUTLS_FIPS140_OP_APPROVED) := by
  decide

/-- C10 (amended): a `derive` call on curve P-192 (algorithm ECDSA/ECDH with
the private key on `SECP192R1`), on a GOST algorithm or on X25519/X448 leaves
the compliance state `ERROR` or `NOT_APPROVED`, never `APPROVED`, whether or
not it succeeds; `encaps` and `decaps` leave the compliance state as they
found it and write nothing, for every algorithm. -/
theorem derive_not_approved_state (E : Env) (algo : gnutls_pk_algorithm_t) (out : gnutls_datum_t)
    (priv pub : gnutls_pk_params_st) (nonce : Option gnutls_datum_t) (flags : Nat) (w : World)
    (kem : gnutls_pk_algorithm_t) (ciphertext shared_secret key : gnutls_datum_t)
    (h : (algo = GNUTLS_PK_ECDSA ∧ priv.curve = GNUTLS_ECC_CURVE_SECP192R1) ∨
      algo = GNUTLS_PK_GOST_01 ∨ algo = GNUTLS_PK_GOST_12_256 ∨ algo = GNUTLS_PK_GOST_12_512 ∨
      algo = GNUTLS_PK_ECDH_X25519 ∨ algo = GNUTLS_PK_ECDH_X448) :
    ((_wrap_nettle_pk_derive E algo out priv pub nonce flags w).2.2.fips_state
          = GNUTLS_FIPS140_OP_ERROR ∨
        (_wrap_nettle_pk_derive E algo out priv pub nonce flags w).2.2.fips_state
          = GNUTLS_FIPS140_OP_NOT_APPROVED) ∧
      (_wrap_nettle_pk_encaps E kem ciphertext shared_secret key w).2.2.2.fips_state
        = w.fips_state ∧
      (_wrap_nettle_pk_encaps E kem ciphertext shared_secret key w).2.2.2.fips_writes
        = w.fips_writes ∧
      (_wrap_nettle_pk_decaps E kem shared_secret ciphertext key w).2.2.fips_state
        = w.fips_state ∧
      (_wrap_nettle_pk_decaps E kem shared_secret ciphertext key w).2.2.fips_writes
        = w.fips_writes := by
  refine ⟨?_, ?_, ?_, ?_, ?_⟩
  · rcases h with ⟨h, hc⟩ | h | h | h | h | h <;> subst h
    · exact cleanup_state_of_flag _ _ _ (derive_ec_p192_not_approved E out priv pub nonce w hc)
    · exact cleanup_state_of_flag _ _ _ (Or.inr (derive_gost_not_approved E out priv pub nonce w))
    · exact cleanup_state_of_flag _ _ _ (Or.inr (derive_gost_not_approved E out priv pub nonce w))
    · exact cleanup_state_of_flag _ _ _ (Or.inr (derive_gost_not_approved E out priv pub nonce w))
    · exact cleanup_state_of_flag _ _ _
        (Or.inr (derive_ecdh_x_not_approved E _ out priv pub nonce w))
    · exact cleanup_state_of_flag _ _ _
        (Or.inr (derive_ecdh_x_not_approved E _ out priv pub nonce w))
  · exact (encaps_fips E kem ciphertext shared_secret key w).2
  · exact (encaps_fips E kem ciphertext shared_secret key w).1
  · exact (decaps_fips E kem shared_secret ciphertext key w).2
  · exact (decaps_fips E kem shared_secret ciphertext key w).1

/-- Witness for `derive_not_approved_state`: an X25519 derive call and ML-KEM
calls in the sample environment. -/
theorem derive_not_approved_state_witness :
    ((GNUTLS_PK_ECDH_X25519 = GNUTLS_PK_ECDSA ∧
        sampleXPriv.curve = GNUTLS_ECC_CURVE_SECP192R1) ∨
      GNUTLS_PK_ECDH_X25519 = GNUTLS_PK_GOST_01 ∨
      GNUTLS_PK_ECDH_X25519 = GNUTLS_PK_GOST_12_256 ∨
      GNUTLS_PK_ECDH_X25519 = GNUTLS_PK_GOST_12_512 ∨
      GNUTLS_PK_ECDH_X25519 = GNUTLS_PK_ECDH_X25519 ∨
      GNUTLS_PK_ECDH_X25519 = GNUTLS_PK_ECDH_X448) ∧
    (((_wrap_nettle_pk_derive sampleEnv GNUTLS_PK_ECDH_X25519 {} sampleXPriv sampleXPub none 0
          approvedWorld).2.2.fips_state = GNUTLS_FIPS140_OP_ERROR ∨
        (_wrap_nettle_pk_derive sampleEnv GNUTLS_PK_ECDH_X25519 {} sampleXPriv sampleXPub none 0
          approvedWorld).2.2.fips_state = GNUTLS_FIPS140_OP_NOT_APPROVED) ∧
      (_wrap_nettle_pk_encaps sampleEnv GNUTLS_PK_MLKEM768 {} {} { data := some [7], size := 1 }
        approvedWorld).2.2.2.fips_state = approvedWorld.fips_state ∧
      (_wrap_nettle_pk_encaps sampleEnv GNUTLS_PK_MLKEM768 {} {} { data := some [7], size := 1 }
        approvedWorld).2.2.2.fips_writes = approvedWorld.fips_writes ∧
      (_wrap_nettle_pk_decaps sampleEnv GNUTLS_PK_MLKEM768 {} {} { data := some [7], size := 1 }
        approvedWorld).2.2.fips_state = approvedWorld.fips_state ∧
      (_wrap_nettle_pk_decaps sampleEnv GNUTLS_PK_MLKEM768 {} {} { data := some [7], size := 1 }
        approvedWorld).2.2.fips_writes = approvedWorld.fips_writes) :=
  ⟨Or.inr (Or.inr (Or.inr (Or.inr (Or.inl rfl)))),
    derive_not_approved_state sampleEnv GNUTLS_PK_ECDH_X25519 {} sampleXPriv sampleXPub none 0
      approvedWorld GNUTLS_PK_MLKEM768 {} {} { data := some [7], size := 1 }
      (Or.inr (Or.inr (Or.inr (Or.inr (Or.inl rfl)))))⟩

/-! ### C4: calls made while the library is in the error state -/

/-- The value and the output of `derive` do not depend on the library state. -/
theorem derive_ret_out_lib_state (E : Env) (algo : gnutls_pk_algorithm_t) (out : gnutls_datum_t)
    (priv pub : gnutls_pk_params_st) (nonce : Option gnutls_datum_t) (flags : Nat) (w : World)
    (s : gnutls_lib_state_t) :
    (_wrap_nettle_pk_derive E algo out priv pub nonce flags { w with lib_state := s }).1 =
        (_wrap_nettle_pk_derive E algo out priv pub nonce flags w).1 ∧
      (_wrap_nettle_pk_derive E algo out priv pub nonce flags { w with lib_state := s }).2.1 =
        (_wrap_nettle_pk_derive E algo out priv pub nonce flags w).2.1 := by
  unfold _wrap_nettle_pk_derive
  dsimp only
  cases algo <;> dsimp only
  all_goals first
    | exact ⟨rfl, rfl⟩
    | (unfold derive_dh; dsimp only; split_ifs <;> exact ⟨rfl, rfl⟩)
    | (unfold derive_ecdh_x; dsimp only; split_ifs <;> exact ⟨rfl, rfl⟩)
    | (unfold derive_gost; dsimp only; repeat' split
       all_goals first | exact ⟨rfl, rfl⟩ | simp_all)
    | (unfold derive_ec derive_ec_fips_checks; dsimp only; repeat' split
       all_goals first | exact ⟨rfl, rfl⟩ | simp_all)

/-- The value and the outputs of `encaps` do not depend on the library state. -/
theorem encaps_lib_state (E : Env) (algo : gnutls_pk_algorithm_t)
    (ciphertext shared_secret pub : gnutls_datum_t) (w : World) (s : gnutls_lib_state_t) :
    (_wrap_nettle_pk_encaps E algo ciphertext shared_secret pub { w with lib_state := s }).1 =
        (_wrap_nettle_pk_encaps E algo ciphertext shared_secret pub w).1 ∧
      (_wrap_nettle_pk_encaps E algo ciphertext shared_secret pub { w with lib_state := s }).2.1 =
        (_wrap_nettle_pk_encaps E algo ciphertext shared_secret pub w).2.1 ∧
      (_wrap_nettle_pk_encaps E algo ciphertext shared_secret pub { w with lib_state := s }).2.2.1 =
        (_wrap_nettle_pk_encaps E algo ciphertext shared_secret pub w).2.2.1 := by
  unfold _wrap_nettle_pk_encaps ml_kem_encaps
  dsimp only [World.tick]
  cases algo <;> dsimp only
  all_goals first
    | exact ⟨rfl, rfl, rfl⟩
    | (split_ifs <;> exact ⟨rfl, rfl, rfl⟩)

/-- The value and the output of `decaps` do not depend on the library state. -/
theorem decaps_lib_state (E : Env) (algo : gnutls_pk_algorithm_t)
    (shared_secret ciphertext priv : gnutls_datum_t) (w : World) (s : gnutls_lib_state_t) :
    (_wrap_nettle_pk_decaps E algo shared_secret ciphertext priv { w with lib_state := s }).1 =
        (_wrap_nettle_pk_decaps E algo shared_secret ciphertext priv w).1 ∧
      (_wrap_nettle_pk_decaps E algo shared_secret ciphertext priv { w with lib_state := s }).2.1 =
        (_wrap_nettle_pk_decaps E algo shared_secret ciphertext priv w).2.1 := by
  unfold _wrap_nettle_pk_decaps ml_kem_decaps
  dsimp only [World.tick]
  cases algo <;> dsimp only
  all_goals first
    | exact ⟨rfl, rfl⟩
    | (split_ifs <;> exact ⟨rfl, rfl⟩)

/-- C4 (counterexample): with the library in the error state, a DH derive call
in the sample environment returns `0`, invokes the modular exponentiation and
hands back a shared secret; an ML-KEM encapsulation likewise succeeds, invokes
the primitive and produces a ciphertext and a shared secret. -/
theorem derive_runs_in_error_state :
    HAVE_LIB_ERROR errorWorld = true ∧
    _wrap_nettle_pk_derive sampleEnv GNUTLS_PK_DH {} (sampleDhPriv 23 5 6) (sampleDhPub 23 5 19)
        none 0 errorWorld =
      (0, { data := some [2], size := 1 },
        { lib_state := LIB_STATE_ERROR, fips_state := GNUTLS_FIPS140_OP_NOT_APPROVED,
          fips_writes := [GNUTLS_FIPS140_OP_NOT_APPROVED], calls := [Prim.mpi_powm 19 6 23] }) ∧
    _wrap_nettle_pk_encaps sampleEnv GNUTLS_PK_MLKEM768 {} {} { data := some [7], size := 1 }
        errorWorld =
      (0, { data := some [1, 2], size := 2 }, { data := some [3, 4], size := 2 },
        { lib_state := LIB_STATE_ERROR, calls := [Prim.lc_kyber_enc] }) := by
  decide

/-- C4 (amended): while the library is in an error state, `generate_params`,
`generate_keys`, `sign`, `verify`, `encrypt`, `decrypt` and `decrypt2` return
`GNUTLS_E_LIB_IN_ERROR_STATE` at once, with the output object and the world
(so also the list of primitives invoked and the compliance state) exactly as
they were on entry.  The functions `derive`, `encaps` and `decaps` do not
consult the library state: their return value and outputs are the same as
with any other library state. -/
theorem lib_error_fail_fast (E : Env) (algo : gnutls_pk_algorithm_t) (level : Nat)
    (params priv pub : gnutls_pk_params_st) (ephemeral : Bool) (a b : gnutls_datum_t)
    (plaintext : Option (List Nat)) (plaintext_size : Nat) (spki : gnutls_x509_spki_st)
    (nonce : Option gnutls_datum_t) (flags : Nat) (s : gnutls_lib_state_t) (w : World)
    (h : HAVE_LIB_ERROR w = true) :
    wrap_nettle_pk_generate_params E algo level params w
        = (GNUTLS_E_LIB_IN_ERROR_STATE, params, w) ∧
      wrap_nettle_pk_generate_keys E algo level params ephemeral w
        = (GNUTLS_E_LIB_IN_ERROR_STATE, params, w) ∧
      _wrap_nettle_pk_sign E algo a b params spki w = (GNUTLS_E_LIB_IN_ERROR_STATE, a, w) ∧
      _wrap_nettle_pk_verify E algo a b params spki w = (GNUTLS_E_LIB_IN_ERROR_STATE, (), w) ∧
      _wrap_nettle_pk_encrypt E algo a b params spki w = (GNUTLS_E_LIB_IN_ERROR_STATE, a, w) ∧
      _wrap_nettle_pk_decrypt E algo a b params spki w = (GNUTLS_E_LIB_IN_ERROR_STATE, a, w) ∧
      _wrap_nettle_pk_decrypt2 E algo a plaintext plaintext_size params spki w
        = (GNUTLS_E_LIB_IN_ERROR_STATE, plaintext, w) ∧
      ((_wrap_nettle_pk_derive E algo a priv pub nonce flags w).1 =
          (_wrap_nettle_pk_derive E algo a priv pub nonce flags { w with lib_state := s }).1 ∧
        (_wrap_nettle_pk_derive E algo a priv pub nonce flags w).2.1 =
          (_wrap_nettle_pk_derive E algo a priv pub nonce flags { w with lib_state := s }).2.1) ∧
      ((_wrap_nettle_pk_encaps E algo a b a w).1 =
          (_wrap_nettle_pk_encaps E algo a b a { w with lib_state := s }).1 ∧
        (_wrap_nettle_pk_encaps E algo a b a w).2.1 =
          (_wrap_nettle_pk_encaps E algo a b a { w with lib_state := s }).2.1 ∧
        (_wrap_nettle_pk_encaps E algo a b a w).2.2.1 =
          (_wrap_nettle_pk_encaps E algo a b a { w with lib_state := s }).2.2.1) ∧
      ((_wrap_nettle_pk_decaps E algo a b a w).1 =
          (_wrap_nettle_pk_decaps E algo a b a { w with lib_state := s }).1 ∧
        (_wrap_nettle_pk_decaps E algo a b a w).2.1 =
          (_wrap_nettle_pk_decaps E algo a b a { w with lib_state := s }).2.1) := by
  refine ⟨?_, ?_, ?_, ?_, ?_, ?_, ?_, ?_, ?_, ?_⟩
  · simp [wrap_nettle_pk_generate_params, h]
  · simp [wrap_nettle_pk_generate_keys, h]
  · simp [_wrap_nettle_pk_sign, h]
  · simp [_wrap_nettle_pk_verify, h]
  · simp [_wrap_nettle_pk_encrypt, h]
  · simp [_wrap_nettle_pk_decrypt, h]
  · simp [_wrap_nettle_pk_decrypt2, h]
  · exact ⟨(derive_ret_out_lib_state E algo a priv pub nonce flags w s).1.symm,
      (derive_ret_out_lib_state E algo a priv pub nonce flags w s).2.symm⟩
  · exact ⟨(encaps_lib_state E algo a b a w s).1.symm, (encaps_lib_state E algo a b a w s).2.1.symm,
      (encaps_lib_state E algo a b a w s).2.2.symm⟩
  · exact ⟨(decaps_lib_state E algo a b a w s).1.symm, (decaps_lib_state E algo a b a w s).2.symm⟩

/-- Witness for `lib_error_fail_fast`: the sample inputs on a world in the
error state. -/
theorem lib_error_fail_fast_witness :
    HAVE_LIB_ERROR errorWorld = true ∧
    (wrap_nettle_pk_generate_params sampleEnv GNUTLS_PK_RSA 2048 sampleRsaKey errorWorld
        = (GNUTLS_E_LIB_IN_ERROR_STATE, sampleRsaKey, errorWorld) ∧
      wrap_nettle_pk_generate_keys sampleEnv GNUTLS_PK_RSA 2048 sampleRsaKey false errorWorld
        = (GNUTLS_E_LIB_IN_ERROR_STATE, sampleRsaKey, errorWorld) ∧
      _wrap_nettle_pk_sign sampleEnv GNUTLS_PK_RSA {} {} sampleRsaKey {} errorWorld
        = (GNUTLS_E_LIB_IN_ERROR_STATE, {}, errorWorld) ∧
      _wrap_nettle_pk_verify sampleEnv GNUTLS_PK_RSA {} {} sampleRsaKey {} errorWorld
        = (GNUTLS_E_LIB_IN_ERROR_STATE, (), errorWorld) ∧
      _wrap_nettle_pk_encrypt sampleEnv GNUTLS_PK_RSA {} {} sampleRsaKey {} errorWorld
        = (GNUTLS_E_LIB_IN_ERROR_STATE, {}, errorWorld) ∧
      _wrap_nettle_pk_decrypt sampleEnv GNUTLS_PK_RSA {} {} sampleRsaKey {} errorWorld
        = (GNUTLS_E_LIB_IN_ERROR_STATE, {}, errorWorld) ∧
      _wrap_nettle_pk_decrypt2 sampleEnv GNUTLS_PK_RSA {} (some [0]) 1 sampleRsaKey {} errorWorld
        = (GNUTLS_E_LIB_IN_ERROR_STATE, some [0], errorWorld) ∧
      ((_wrap_nettle_pk_derive sampleEnv GNUTLS_PK_RSA {} sampleRsaKey sampleRsaKey none 0
            errorWorld).1 =
          (_wrap_nettle_pk_derive sampleEnv GNUTLS_PK_RSA {} sampleRsaKey sampleRsaKey none 0
            { errorWorld with lib_state := LIB_STATE_OPERATIONAL }).1 ∧
        (_wrap_nettle_pk_derive sampleEnv GNUTLS_PK_RSA {} sampleRsaKey sampleRsaKey none 0
            errorWorld).2.1 =
          (_wrap_nettle_pk_derive sampleEnv GNUTLS_PK_RSA {} sampleRsaKey sampleRsaKey none 0
            { errorWorld with lib_state := LIB_STATE_OPERATIONAL }).2.1) ∧
      ((_wrap_nettle_pk_encaps sampleEnv GNUTLS_PK_RSA {} {} {} errorWorld).1 =
          (_wrap_nettle_pk_encaps sampleEnv GNUTLS_PK_RSA {} {} {}
            { errorWorld with lib_state := LIB_STATE_OPERATIONAL }).1 ∧
        (_wrap_nettle_pk_encaps sampleEnv GNUTLS_PK_RSA {} {} {} errorWorld).2.1 =
          (_wrap_nettle_pk_encaps sampleEnv GNUTLS_PK_RSA {} {} {}
            { errorWorld with lib_state := LIB_STATE_OPERATIONAL }).2.1 ∧
        (_wrap_nettle_pk_encaps sampleEnv GNUTLS_PK_RSA {} {} {} errorWorld).2.2.1 =
          (_wrap_nettle_pk_encaps sampleEnv GNUTLS_PK_RSA {} {} {}
            { errorWorld with lib_state := LIB_STATE_OPERATIONAL }).2.2.1) ∧
      ((_wrap_nettle_pk_decaps sampleEnv GNUTLS_PK_RSA {} {} {} errorWorld).1 =
          (_wrap_nettle_pk_decaps sampleEnv GNUTLS_PK_RSA {} {} {}
            { errorWorld with lib_state := LIB_STATE_OPERATIONAL }).1 ∧
        (_wrap_nettle_pk_decaps sampleEnv GNUTLS_PK_RSA {} {} {} errorWorld).2.1 =
          (_wrap_nettle_pk_decaps sampleEnv GNUTLS_PK_RSA {} {} {}
            { errorWorld with lib_state := LIB_STATE_OPERATIONAL }).2.1)) :=
  ⟨by decide,
    lib_error_fail_fast sampleEnv GNUTLS_PK_RSA 2048 sampleRsaKey sampleRsaKey sampleRsaKey false
      {} {} (some [0]) 1 {} none 0 LIB_STATE_OPERATIONAL errorWorld (by decide)⟩

/-! ### C2: how often the compliance state is written -/

/-- A `sign` call writes the compliance state once, unless the library is in
an error state on entry, when it writes nothing. -/
theorem sign_writes (E : Env) (algo : gnutls_pk_algorithm_t) (signature vdata : gnutls_datum_t)
    (pk_params : gnutls_pk_params_st) (sign_params : gnutls_x509_spki_st) (w : World) :
    (_wrap_nettle_pk_sign E algo signature vdata pk_params sign_params w).2.2.fips_writes =
      if HAVE_LIB_ERROR w then w.fips_writes
      else w.fips_writes ++
        [(_wrap_nettle_pk_sign E algo signature vdata pk_params sign_params w).2.2.fips_state] := by
  unfold _wrap_nettle_pk_sign cleanup_and_return
  split_ifs with h
  · rfl
  · simp [(sign_body_fips E algo signature vdata pk_params sign_params w).1]

/-- The tail shared by the entry points appends one write, the state it
leaves. -/
theorem cleanup_and_return_writes {α : Type} (b : Branch α) :
    (cleanup_and_return b).2.2.fips_writes =
      b.world.fips_writes ++ [(cleanup_and_return b).2.2.fips_state] := by
  simp [cleanup_and_return]

/-- A primitive that runs with the library in the error state leaves it
there. -/
theorem after_lib_state_error (w : World) (p : Prim) (rf : RndFunc) (u : RndUse)
    (h : w.lib_state = LIB_STATE_ERROR) : (w.after p rf u).lib_state = LIB_STATE_ERROR := by
  cases rf <;> cases u <;>
    simp [World.after, rnd_effect, rnd_nonce_func_fallback, _gnutls_get_lib_state, h]

/-- C1 (divergence): an RSA-PSS `sign` call with a SHA-256 salted signature,
made while the library is operational, during which the random generator
fails while the signing primitive reports success, passes the `cleanup:`
label with `ret = 0`: it writes `NOT_APPROVED` or `APPROVED`, and then returns
`GNUTLS_E_LIB_IN_ERROR_STATE`.  The call returns an error and the state
written is not `ERROR`. -/
theorem sign_rsa_pss_rng_failure_not_error (E : Env) (signature vdata : gnutls_datum_t)
    (pk_params : gnutls_pk_params_st) (sign_params : gnutls_x509_spki_st) (w : World)
    (hw : w.lib_state = LIB_STATE_OPERATIONAL)
    (hec : E.IS_EC GNUTLS_PK_RSA_PSS = false)
    (hdig : sign_params.rsa_pss_dig = GNUTLS_DIG_SHA256)
    (hsalt : 0 < sign_params.salt_size)
    (hsize : 32 + sign_params.salt_size + 2 ≤
      E.rsa_public_key_prepare (TOMPZ (pk_params.get RSA_MODULUS))
        (TOMPZ (pk_params.get RSA_PUB)))
    (hrnd : ∀ t n, (E.gnutls_rnd t GNUTLS_RND_NONCE n).1 < 0)
    (hprim : ∀ t d p k r s m, (E.rsa_pss_sign_digest_tr t d p k r s m).ret ≠ 0) :
    (_wrap_nettle_pk_sign E GNUTLS_PK_RSA_PSS signature vdata pk_params sign_params w).1
        = GNUTLS_E_LIB_IN_ERROR_STATE ∧
      (_wrap_nettle_pk_sign E GNUTLS_PK_RSA_PSS signature vdata pk_params sign_params
        w).2.2.fips_state ≠ GNUTLS_FIPS140_OP_ERROR ∧
      (_wrap_nettle_pk_sign E GNUTLS_PK_RSA_PSS signature vdata pk_params sign_params
        w).2.2.fips_writes = w.fips_writes ++
          [(_wrap_nettle_pk_sign E GNUTLS_PK_RSA_PSS signature vdata pk_params sign_params
            w).2.2.fips_state] := by
  have hw0 : HAVE_LIB_ERROR w = false := by
    simp [HAVE_LIB_ERROR, _gnutls_get_lib_state, hw]
  have hb : (sign_body E GNUTLS_PK_RSA_PSS signature vdata pk_params sign_params w).ret = 0 ∧
      (sign_body E GNUTLS_PK_RSA_PSS signature vdata pk_params sign_params w).world.lib_state
        = LIB_STATE_ERROR := by
    have hne : E.rsa_public_key_prepare (TOMPZ (pk_params.get RSA_MODULUS))
        (TOMPZ (pk_params.get RSA_PUB)) ≠ 0 := by omega
    have hck : ¬ (32 + sign_params.salt_size + 2 >
        E.rsa_public_key_prepare (TOMPZ (pk_params.get RSA_MODULUS))
          (TOMPZ (pk_params.get RSA_PUB))) := by omega
    simp only [sign_body, sign_rsa_pss, _rsa_pss_sign_digest_tr, _rsa_params_to_pubkey,
      select_nonce_func, _gnutls_get_lib_state, hw, hdig, hne, hck, hsalt, hec,
      CHECK_INVALID_RSA_PSS_PARAMS, run_rnd_func, rnd_nonce_func, hrnd, hprim]
    simp [hne, hck, hsalt, hprim, after_lib_state_error]
  have hs := sign_writes E GNUTLS_PK_RSA_PSS signature vdata pk_params sign_params w
  rw [hw0] at hs
  refine ⟨?_, ?_, by simpa using hs⟩
  · have he : HAVE_LIB_ERROR
        (sign_body E GNUTLS_PK_RSA_PSS signature vdata pk_params sign_params w).world = true := by
      simp [HAVE_LIB_ERROR, _gnutls_get_lib_state, hb.2]
    simp [_wrap_nettle_pk_sign, hw0, cleanup_and_return, he]
  · simp [_wrap_nettle_pk_sign, hw0, cleanup_and_return, hb.1]
    split <;> simp

/-- The random generator of `rngDownEnv` always fails. -/
theorem rngDownEnv_rnd : ∀ t n, (rngDownEnv.gnutls_rnd t GNUTLS_RND_NONCE n).1 < 0 := by
  intro t n
  show GNUTLS_E_RANDOM_FAILED < 0
  decide

/-- The RSA-PSS primitive of `rngDownEnv` always reports success. -/
theorem rngDownEnv_prim :
    ∀ t d p k r s m, (rngDownEnv.rsa_pss_sign_digest_tr t d p k r s m).ret ≠ 0 := by
  intro t d p k r s m
  show (1 : Int) ≠ 0
  decide

/-- Witness for `sign_rsa_pss_rng_failure_not_error`: the sample key with a
random generator that is down. -/
theorem sign_rsa_pss_rng_failure_not_error_witness :
    (({} : World).lib_state = LIB_STATE_OPERATIONAL ∧
      rngDownEnv.IS_EC GNUTLS_PK_RSA_PSS = false ∧
      samplePssParams.rsa_pss_dig = GNUTLS_DIG_SHA256 ∧
      0 < samplePssParams.salt_size ∧
      32 + samplePssParams.salt_size + 2 ≤
        rngDownEnv.rsa_public_key_prepare (TOMPZ (sampleRsaKey.get RSA_MODULUS))
          (TOMPZ (sampleRsaKey.get RSA_PUB)) ∧
      (∀ t n, (rngDownEnv.gnutls_rnd t GNUTLS_RND_NONCE n).1 < 0) ∧
      (∀ t d p k r s m, (rngDownEnv.rsa_pss_sign_digest_tr t d p k r s m).ret ≠ 0)) ∧
    ((_wrap_nettle_pk_sign rngDownEnv GNUTLS_PK_RSA_PSS {}
          { data := some (List.replicate 32 1), size := 32 } sampleRsaKey samplePssParams {}).1
        = GNUTLS_E_LIB_IN_ERROR_STATE ∧
      (_wrap_nettle_pk_sign rngDownEnv GNUTLS_PK_RSA_PSS {}
          { data := some (List.replicate 32 1), size := 32 } sampleRsaKey samplePssParams
          {}).2.2.fips_state ≠ GNUTLS_FIPS140_OP_ERROR ∧
      (_wrap_nettle_pk_sign rngDownEnv GNUTLS_PK_RSA_PSS {}
          { data := some (List.replicate 32 1), size := 32 } sampleRsaKey samplePssParams
          {}).2.2.fips_writes = ({} : World).fips_writes ++
        [(_wrap_nettle_pk_sign rngDownEnv GNUTLS_PK_RSA_PSS {}
          { data := some (List.replicate 32 1), size := 32 } sampleRsaKey samplePssParams
          {}).2.2.fips_state]) :=
  ⟨⟨rfl, rfl, rfl, by decide, by decide, rngDownEnv_rnd, rngDownEnv_prim⟩,
    sign_rsa_pss_rng_failure_not_error rngDownEnv {}
      { data := some (List.replicate 32 1), size := 32 } sampleRsaKey samplePssParams {} rfl rfl
      rfl (by decide) (by decide) rngDownEnv_rnd rngDownEnv_prim⟩

/-! ### C9: validation of the peer's point in FIPS mode -/

/-- C11: for a primitive result of `0` or `1`, the value of the branch-free
expression `(int) ((is_err * UINT_MAX) & GNUTLS_E_DECRYPTION_FAILED)` that
`decrypt2` returns, computed over 32-bit unsigned arithmetic, equals the
branching definition: `GNUTLS_E_DECRYPTION_FAILED` if the library is in an
error state (a random-generator failure) or the primitive reported `0`, and
`0` otherwise. -/
theorem decrypt2_return_refines (have_lib_error : Bool) (ret : Int)
    (h : ret = 0 ∨ ret = 1) :
    decrypt2_return have_lib_error ret = decrypt2_return_spec have_lib_error ret := by
  rcases h with rfl | rfl <;> cases have_lib_error <;> decide

/-- Witness for `decrypt2_return_refines`: a poisoned library and a successful
primitive. -/
theorem decrypt2_return_refines_witness :
    ((1 : Int) = 0 ∨ (1 : Int) = 1) ∧
      decrypt2_return true 1 = decrypt2_return_spec true 1 :=
  ⟨Or.inr rfl, decrypt2_return_refines true 1 (Or.inr rfl)⟩

/-! ### C12: RSA-PSS parameters that do not fit the modulus -/

/-- C12 (counterexample): an RSA-PSS `sign` call with SHA-256, a 32-byte salt
and a 2-byte modulus returns `GNUTLS_E_PK_SIGN_FAILED`, not
`GNUTLS_E_PK_INVALID_PUBKEY_PARAMS`; the latter is what the helper
`_rsa_pss_sign_digest_tr` returns, and `sign` replaces it. -/
theorem sign_rsa_pss_invalid_params_code :
    (_rsa_pss_sign_digest_tr sampleEnv GNUTLS_DIG_SHA256
        (_rsa_params_to_pubkey sampleEnv sampleRsaKey).2 sampleRsaKey RndFunc.rnd_nonce_func 32
        (List.replicate 32 1) {}).1 = GNUTLS_E_PK_INVALID_PUBKEY_PARAMS ∧
      (_wrap_nettle_pk_sign sampleEnv GNUTLS_PK_RSA_PSS {}
        { data := some (List.replicate 32 1), size := 32 } sampleRsaKey samplePssParams {}).1
        = GNUTLS_E_PK_SIGN_FAILED ∧
      GNUTLS_E_PK_SIGN_FAILED ≠ GNUTLS_E_PK_INVALID_PUBKEY_PARAMS := by
  decide

/-- C12 (amended): in an RSA-PSS `sign` call made with the library not in an
error state and a usable public key, if the digest is SHA-256, SHA-384 or
SHA-512 and `digest_size + salt_size + 2` exceeds the modulus size in bytes,
the helper `_rsa_pss_sign_digest_tr` returns
`GNUTLS_E_PK_INVALID_PUBKEY_PARAMS` without touching the world, and `sign`
returns `GNUTLS_E_PK_SIGN_FAILED`, leaves the signature as it was, invokes
neither the salt random source nor the signing primitive, and writes
`ERROR`. -/
theorem sign_rsa_pss_invalid_params (E : Env) (signature vdata : gnutls_datum_t)
    (pk_params : gnutls_pk_params_st) (sign_params : gnutls_x509_spki_st) (w : World)
    (hs : Nat) (rf : RndFunc) (digest : List Nat)
    (hw : HAVE_LIB_ERROR w = false)
    (hec : E.IS_EC GNUTLS_PK_RSA_PSS = false)
    (hpk : E.rsa_public_key_prepare (TOMPZ (pk_params.get RSA_MODULUS))
      (TOMPZ (pk_params.get RSA_PUB)) ≠ 0)
    (hdig : (sign_params.rsa_pss_dig = GNUTLS_DIG_SHA256 ∧ hs = 32) ∨
      (sign_params.rsa_pss_dig = GNUTLS_DIG_SHA384 ∧ hs = 48) ∨
      (sign_params.rsa_pss_dig = GNUTLS_DIG_SHA512 ∧ hs = 64))
    (hsize : hs + sign_params.salt_size + 2 >
      E.rsa_public_key_prepare (TOMPZ (pk_params.get RSA_MODULUS))
        (TOMPZ (pk_params.get RSA_PUB))) :
    _rsa_pss_sign_digest_tr E sign_params.rsa_pss_dig (_rsa_params_to_pubkey E pk_params).2
        pk_params rf sign_params.salt_size digest w
        = (GNUTLS_E_PK_INVALID_PUBKEY_PARAMS, 0, w) ∧
      _wrap_nettle_pk_sign E GNUTLS_PK_RSA_PSS signature vdata pk_params sign_params w
        = (GNUTLS_E_PK_SIGN_FAILED, signature,
            _gnutls_switch_fips_state GNUTLS_FIPS140_OP_ERROR w) := by
  have h1 : ∀ rf digest, _rsa_pss_sign_digest_tr E sign_params.rsa_pss_dig
      (_rsa_params_to_pubkey E pk_params).2 pk_params rf sign_params.salt_size digest w
        = (GNUTLS_E_PK_INVALID_PUBKEY_PARAMS, 0, w) := by
    intro rf digest
    rcases hdig with ⟨hd, rfl⟩ | ⟨hd, rfl⟩ | ⟨hd, rfl⟩ <;>
      simp [_rsa_pss_sign_digest_tr, _rsa_params_to_pubkey, hd, hpk,
        CHECK_INVALID_RSA_PSS_PARAMS, hsize]
  refine ⟨h1 rf digest, ?_⟩
  have hb : sign_body E GNUTLS_PK_RSA_PSS signature vdata pk_params sign_params w
      = ⟨GNUTLS_E_PK_SIGN_FAILED, decide (_gnutls_mpi_get_nbits
          (_rsa_params_to_pubkey E pk_params).2.n < 2048)
        || decide (sign_params.salt_size > E._gnutls_mac_get_algo_len sign_params.rsa_pss_dig),
        signature, w⟩ := by
    simp only [sign_body, sign_rsa_pss, h1]
    simp [hec, _rsa_params_to_pubkey, hpk]
  simp [_wrap_nettle_pk_sign, hw, cleanup_and_return, hb, cleanup_fips_state]

/-- Witness for `sign_rsa_pss_invalid_params`: the sample key, whose modulus
has two bytes. -/
theorem sign_rsa_pss_invalid_params_witness :
    (HAVE_LIB_ERROR ({} : World) = false ∧
      sampleEnv.IS_EC GNUTLS_PK_RSA_PSS = false ∧
      sampleEnv.rsa_public_key_prepare (TOMPZ (sampleRsaKey.get RSA_MODULUS))
        (TOMPZ (sampleRsaKey.get RSA_PUB)) ≠ 0 ∧
      ((samplePssParams.rsa_pss_dig = GNUTLS_DIG_SHA256 ∧ 32 = 32) ∨
        (samplePssParams.rsa_pss_dig = GNUTLS_DIG_SHA384 ∧ 32 = 48) ∨
        (samplePssParams.rsa_pss_dig = GNUTLS_DIG_SHA512 ∧ 32 = 64)) ∧
      32 + samplePssParams.salt_size + 2 >
        sampleEnv.rsa_public_key_prepare (TOMPZ (sampleRsaKey.get RSA_MODULUS))
          (TOMPZ (sampleRsaKey.get RSA_PUB))) ∧
    (_rsa_pss_sign_digest_tr sampleEnv samplePssParams.rsa_pss_dig
        (_rsa_params_to_pubkey sampleEnv sampleRsaKey).2 sampleRsaKey RndFunc.rnd_nonce_func
        samplePssParams.salt_size [] {} = (GNUTLS_E_PK_INVALID_PUBKEY_PARAMS, 0, {}) ∧
      _wrap_nettle_pk_sign sampleEnv GNUTLS_PK_RSA_PSS {} {} sampleRsaKey samplePssParams {}
        = (GNUTLS_E_PK_SIGN_FAILED, {},
            _gnutls_switch_fips_state GNUTLS_FIPS140_OP_ERROR {})) :=
  ⟨⟨rfl, rfl, by decide, Or.inl ⟨rfl, rfl⟩, by decide⟩,
    sign_rsa_pss_invalid_params sampleEnv {} {} sampleRsaKey samplePssParams {} 32
      RndFunc.rnd_nonce_func [] rfl rfl (by decide) (Or.inl ⟨rfl, rfl⟩) (by decide)⟩

/-! ### C13: EdDSA verification with buffers of the wrong size -/

/-- C13 (counterexample): an Ed25519 `verify` call with a 64-byte signature
and a 31-byte public key returns `GNUTLS_E_PK_SIGN_FAILED`, not
`GNUTLS_E_PK_SIG_VERIFY_FAILED`. -/
theorem verify_eddsa_short_key_code :
    (_wrap_nettle_pk_verify sampleEnv GNUTLS_PK_EDDSA_ED25519 { data := some [1], size := 1 }
        { data := some (List.replicate 64 5), size := 64 }
        { curve := GNUTLS_ECC_CURVE_ED25519, algo := GNUTLS_PK_EDDSA_ED25519,
          raw_pub := { data := some (List.replicate 31 1), size := 31 } } {} {}).1
        = GNUTLS_E_PK_SIGN_FAILED ∧
      GNUTLS_E_PK_SIGN_FAILED ≠ GNUTLS_E_PK_SIG_VERIFY_FAILED := by
  decide

/-- C13 (amended): in an Ed25519 or Ed448 `verify` call made with the library
not in an error state, on the matching curve with table entry `e`: a signature
whose length differs from `e.sig_size` makes verify return
`GNUTLS_E_PK_SIG_VERIFY_FAILED`; a signature of the right length with a public
key whose length differs from `e.size` makes it return
`GNUTLS_E_PK_SIGN_FAILED`.  In both cases no primitive is invoked and `ERROR`
is written. -/
theorem verify_eddsa_size_mismatch (E : Env) (algo : gnutls_pk_algorithm_t)
    (vdata signature : gnutls_datum_t) (pk_params : gnutls_pk_params_st)
    (sign_params : gnutls_x509_spki_st) (w : World) (e : Nat × Nat)
    (hw : HAVE_LIB_ERROR w = false)
    (halgo : algo = GNUTLS_PK_EDDSA_ED25519 ∨ algo = GNUTLS_PK_EDDSA_ED448)
    (hec : (E.IS_EC algo && E.gnutls_ecc_curve_get_pk pk_params.curve != algo) = false)
    (hcurve : get_eddsa_curve algo = pk_params.curve)
    (he : E._gnutls_ecc_curve_get_params pk_params.curve = some e) :
    (signature.size ≠ e.2 →
      _wrap_nettle_pk_verify E algo vdata signature pk_params sign_params w
        = (GNUTLS_E_PK_SIG_VERIFY_FAILED, (),
            _gnutls_switch_fips_state GNUTLS_FIPS140_OP_ERROR w)) ∧
    (signature.size = e.2 → pk_params.raw_pub.size ≠ e.1 →
      _wrap_nettle_pk_verify E algo vdata signature pk_params sign_params w
        = (GNUTLS_E_PK_SIGN_FAILED, (),
            _gnutls_switch_fips_state GNUTLS_FIPS140_OP_ERROR w)) := by
  constructor
  · intro hsig
    rcases halgo with rfl | rfl <;>
      simp [_wrap_nettle_pk_verify, hw, cleanup_and_return, verify_body, hec, hcurve, he, hsig,
        cleanup_fips_state]
  · intro hsig hpub
    rcases halgo with rfl | rfl <;>
      simp [_wrap_nettle_pk_verify, hw, cleanup_and_return, verify_body, hec, hcurve, he, hsig,
        hpub, cleanup_fips_state]

/-- Witness for `verify_eddsa_size_mismatch`: an Ed25519 key in the sample
environment. -/
theorem verify_eddsa_size_mismatch_witness :
    (HAVE_LIB_ERROR ({} : World) = false ∧
      (GNUTLS_PK_EDDSA_ED25519 = GNUTLS_PK_EDDSA_ED25519 ∨
        GNUTLS_PK_EDDSA_ED25519 = GNUTLS_PK_EDDSA_ED448) ∧
      (sampleEnv.IS_EC GNUTLS_PK_EDDSA_ED25519 &&
        sampleEnv.gnutls_ecc_curve_get_pk sampleEdKey.curve != GNUTLS_PK_EDDSA_ED25519) = false ∧
      get_eddsa_curve GNUTLS_PK_EDDSA_ED25519 = sampleEdKey.curve ∧
      sampleEnv._gnutls_ecc_curve_get_params sampleEdKey.curve = some (32, 64)) ∧
    ((({ data := some [5], size := 1 } : gnutls_datum_t).size ≠ (32, 64).2 →
      _wrap_nettle_pk_verify sampleEnv GNUTLS_PK_EDDSA_ED25519 {} { data := some [5], size := 1 }
          sampleEdKey {} {}
        = (GNUTLS_E_PK_SIG_VERIFY_FAILED, (),
            _gnutls_switch_fips_state GNUTLS_FIPS140_OP_ERROR {})) ∧
    (({ data := some [5], size := 1 } : gnutls_datum_t).size = (32, 64).2 →
      sampleEdKey.raw_pub.size ≠ (32, 64).1 →
      _wrap_nettle_pk_verify sampleEnv GNUTLS_PK_EDDSA_ED25519 {} { data := some [5], size := 1 }
          sampleEdKey {} {}
        = (GNUTLS_E_PK_SIGN_FAILED, (),
            _gnutls_switch_fips_state GNUTLS_FIPS140_OP_ERROR {}))) :=
  ⟨⟨rfl, Or.inl rfl, by decide, rfl, rfl⟩,
    verify_eddsa_size_mismatch sampleEnv GNUTLS_PK_EDDSA_ED25519 {}
      { data := some [5], size := 1 } sampleEdKey {} {} (32, 64) rfl (Or.inl rfl) (by decide) rfl
      rfl⟩

/-! ### C14: deterministic signatures in FIPS mode -/

/-- C14 (counterexample): with the library in the error state, which is not
the self-test state, a reproducible ECDSA `sign` call in FIPS mode fails at the
entry check and leaves the compliance state `APPROVED` as it found it, not
`ERROR`. -/
theorem sign_reproducible_poisoned_state :
    _gnutls_get_lib_state { approvedWorld with lib_state := LIB_STATE_ERROR }
        ≠ LIB_STATE_SELFTEST ∧
      (_wrap_nettle_pk_sign fipsEnv GNUTLS_PK_ECDSA {} { data := some [1], size := 1 }
        sampleEcPriv { flags := GNUTLS_PK_FLAG_REPRODUCIBLE }
        { approvedWorld with lib_state := LIB_STATE_ERROR }).1 = GNUTLS_E_LIB_IN_ERROR_STATE ∧
      (_wrap_nettle_pk_sign fipsEnv GNUTLS_PK_ECDSA {} { data := some [1], size := 1 }
        sampleEcPriv { flags := GNUTLS_PK_FLAG_REPRODUCIBLE }
        { approvedWorld with lib_state := LIB_STATE_ERROR }).2.2.fips_state
          = GNUTLS_FIPS140_OP_APPROVED := by
  decide

/-- C14 (amended): an ECDSA or DSA `sign` call with the reproducible flag set,
in FIPS mode and with the library not in self-test.  If the library is not in
an error state either, the call fails with `GNUTLS_E_INVALID_REQUEST` (or,
for ECDSA on a curve of another algorithm, `GNUTLS_E_ECC_UNSUPPORTED_CURVE`),
hands back the signature as it was passed in, invokes no primitive, so derives
no nonce, and writes `ERROR`.  If the library is in an error state, the call
fails with `GNUTLS_E_LIB_IN_ERROR_STATE` and leaves the world, the compliance
state included, as it was. -/
theorem sign_reproducible_refused (E : Env) (algo : gnutls_pk_algorithm_t)
    (signature vdata : gnutls_datum_t) (pk_params : gnutls_pk_params_st)
    (sign_params : gnutls_x509_spki_st) (w : World)
    (halgo : algo = GNUTLS_PK_ECDSA ∨ algo = GNUTLS_PK_DSA)
    (hflag : has_flag sign_params.flags GNUTLS_PK_FLAG_REPRODUCIBLE = true)
    (hfips : E.fips_mode_enabled = true)
    (hst : _gnutls_get_lib_state w ≠ LIB_STATE_SELFTEST) :
    (HAVE_LIB_ERROR w = false →
      ((_wrap_nettle_pk_sign E algo signature vdata pk_params sign_params w).1
            = GNUTLS_E_INVALID_REQUEST ∨
          (_wrap_nettle_pk_sign E algo signature vdata pk_params sign_params w).1
            = GNUTLS_E_ECC_UNSUPPORTED_CURVE) ∧
        (_wrap_nettle_pk_sign E algo signature vdata pk_params sign_params w).2
          = (signature, _gnutls_switch_fips_state GNUTLS_FIPS140_OP_ERROR w)) ∧
    (HAVE_LIB_ERROR w = true →
      _wrap_nettle_pk_sign E algo signature vdata pk_params sign_params w
        = (GNUTLS_E_LIB_IN_ERROR_STATE, signature, w)) := by
  constructor
  · intro hw
    by_cases hec : (E.IS_EC algo && E.gnutls_ecc_curve_get_pk pk_params.curve != algo) = true
    · have hb : sign_body E algo signature vdata pk_params sign_params w
          = ⟨GNUTLS_E_ECC_UNSUPPORTED_CURVE, false, signature, w⟩ := by
        simp only [sign_body, hec, if_true]
      simp [_wrap_nettle_pk_sign, hw, cleanup_and_return, hb, cleanup_fips_state]
    · have hb : sign_body E algo signature vdata pk_params sign_params w
          = ⟨GNUTLS_E_INVALID_REQUEST, false, signature, w⟩ := by
        rcases halgo with rfl | rfl <;>
          simp [sign_body, hec, hflag, hfips, hst]
      simp [_wrap_nettle_pk_sign, hw, cleanup_and_return, hb, cleanup_fips_state]
  · intro hw
    simp [_wrap_nettle_pk_sign, hw]

/-- Witness for `sign_reproducible_refused`: a reproducible P-256 signature
request in FIPS mode. -/
theorem sign_reproducible_refused_witness :
    ((GNUTLS_PK_ECDSA = GNUTLS_PK_ECDSA ∨ GNUTLS_PK_ECDSA = GNUTLS_PK_DSA) ∧
      has_flag ({ flags := GNUTLS_PK_FLAG_REPRODUCIBLE } : gnutls_x509_spki_st).flags
        GNUTLS_PK_FLAG_REPRODUCIBLE = true ∧
      fipsEnv.fips_mode_enabled = true ∧
      _gnutls_get_lib_state ({} : World) ≠ LIB_STATE_SELFTEST) ∧
    ((HAVE_LIB_ERROR ({} : World) = false →
      ((_wrap_nettle_pk_sign fipsEnv GNUTLS_PK_ECDSA {} { data := some [1], size := 1 }
            sampleEcPriv { flags := GNUTLS_PK_FLAG_REPRODUCIBLE } {}).1
            = GNUTLS_E_INVALID_REQUEST ∨
          (_wrap_nettle_pk_sign fipsEnv GNUTLS_PK_ECDSA {} { data := some [1], size := 1 }
            sampleEcPriv { flags := GNUTLS_PK_FLAG_REPRODUCIBLE } {}).1
            = GNUTLS_E_ECC_UNSUPPORTED_CURVE) ∧
        (_wrap_nettle_pk_sign fipsEnv GNUTLS_PK_ECDSA {} { data := some [1], size := 1 }
          sampleEcPriv { flags := GNUTLS_PK_FLAG_REPRODUCIBLE } {}).2
          = ({}, _gnutls_switch_fips_state GNUTLS_FIPS140_OP_ERROR {})) ∧
    (HAVE_LIB_ERROR ({} : World) = true →
      _wrap_nettle_pk_sign fipsEnv GNUTLS_PK_ECDSA {} { data := some [1], size := 1 }
          sampleEcPriv { flags := GNUTLS_PK_FLAG_REPRODUCIBLE } {}
        = (GNUTLS_E_LIB_IN_ERROR_STATE, {}, {}))) :=
  ⟨⟨Or.inl rfl, by decide, rfl, by decide⟩,
    sign_reproducible_refused fipsEnv GNUTLS_PK_ECDSA {} { data := some [1], size := 1 }
      sampleEcPriv { flags := GNUTLS_PK_FLAG_REPRODUCIBLE } {} (Or.inl rfl) (by decide) rfl
      (by decide)⟩

/-! ### C15 and C16: deterministic ECDSA and DSA signatures -/

/-- A primitive that draws from `rnd_datum_func` does not touch the library
state. -/
theorem have_lib_error_after_datum (w : World) (p : Prim) (k : List Nat) (u : RndUse) :
    HAVE_LIB_ERROR (w.after p (RndFunc.rnd_datum_func k) u) = HAVE_LIB_ERROR w := by
  cases u <;> rfl

/-! Replacing the random source leaves the other oracles alone. -/

@[simp] theorem with_rnd_IS_EC (E : Env)
    (rnd : Nat → gnutls_rnd_level_t → Nat → Int × List Nat) :
    (E.with_rnd rnd).IS_EC = E.IS_EC := rfl

@[simp] theorem with_rnd_gnutls_ecc_curve_get_pk (E : Env)
    (rnd : Nat → gnutls_rnd_level_t → Nat → Int × List Nat) :
    (E.with_rnd rnd).gnutls_ecc_curve_get_pk = E.gnutls_ecc_curve_get_pk := rfl

@[simp] theorem with_rnd_fips_mode_enabled (E : Env)
    (rnd : Nat → gnutls_rnd_level_t → Nat → Int × List Nat) :
    (E.with_rnd rnd).fips_mode_enabled = E.fips_mode_enabled := rfl

@[simp] theorem with_rnd_ecc_scalar_set (E : Env)
    (rnd : Nat → gnutls_rnd_level_t → Nat → Int × List Nat) :
    (E.with_rnd rnd).ecc_scalar_set = E.ecc_scalar_set := rfl

@[simp] theorem with_rnd_gnutls_dsa_q_to_hash (E : Env)
    (rnd : Nat → gnutls_rnd_level_t → Nat → Int × List Nat) :
    (E.with_rnd rnd)._gnutls_dsa_q_to_hash = E._gnutls_dsa_q_to_hash := rfl

@[simp] theorem with_rnd_gnutls_ecc_curve_to_dsa_q (E : Env)
    (rnd : Nat → gnutls_rnd_level_t → Nat → Int × List Nat) :
    (E.with_rnd rnd)._gnutls_ecc_curve_to_dsa_q = E._gnutls_ecc_curve_to_dsa_q := rfl

@[simp] theorem with_rnd_gnutls_dsa_compute_k (E : Env)
    (rnd : Nat → gnutls_rnd_level_t → Nat → Int × List Nat) :
    (E.with_rnd rnd)._gnutls_dsa_compute_k = E._gnutls_dsa_compute_k := rfl

@[simp] theorem with_rnd_ecc_bit_size (E : Env)
    (rnd : Nat → gnutls_rnd_level_t → Nat → Int × List Nat) :
    (E.with_rnd rnd).ecc_bit_size = E.ecc_bit_size := rfl

@[simp] theorem with_rnd_gnutls_ecdsa_compute_k_finish (E : Env)
    (rnd : Nat → gnutls_rnd_level_t → Nat → Int × List Nat) :
    (E.with_rnd rnd)._gnutls_ecdsa_compute_k_finish = E._gnutls_ecdsa_compute_k_finish := rfl

@[simp] theorem with_rnd_ecdsa_sign (E : Env)
    (rnd : Nat → gnutls_rnd_level_t → Nat → Int × List Nat) :
    (E.with_rnd rnd).ecdsa_sign = E.ecdsa_sign := rfl

@[simp] theorem with_rnd_gnutls_encode_ber_rs (E : Env)
    (rnd : Nat → gnutls_rnd_level_t → Nat → Int × List Nat) :
    (E.with_rnd rnd)._gnutls_encode_ber_rs = E._gnutls_encode_ber_rs := rfl

@[simp] theorem with_rnd_gnutls_dsa_compute_k_finish (E : Env)
    (rnd : Nat → gnutls_rnd_level_t → Nat → Int × List Nat) :
    (E.with_rnd rnd)._gnutls_dsa_compute_k_finish = E._gnutls_dsa_compute_k_finish := rfl

@[simp] theorem with_rnd_dsa_sign (E : Env)
    (rnd : Nat → gnutls_rnd_level_t → Nat → Int × List Nat) :
    (E.with_rnd rnd).dsa_sign = E.dsa_sign := rfl

/-- Two worlds with the same library state agree on `HAVE_LIB_ERROR`. -/
theorem have_lib_error_congr (w1 w2 : World) (h : w1.lib_state = w2.lib_state) :
    HAVE_LIB_ERROR w2 = HAVE_LIB_ERROR w1 := by
  simp [HAVE_LIB_ERROR, _gnutls_get_lib_state, h]

/-- With the reproducible flag, two runs of the ECDSA case that start with
the same library state give the same result, whatever the random source. -/
theorem sign_ecdsa_reproducible (E : Env) (rnd : Nat → gnutls_rnd_level_t → Nat → Int × List Nat)
    (signature vdata : gnutls_datum_t) (pk_params : gnutls_pk_params_st)
    (sign_params : gnutls_x509_spki_st) (w1 w2 : World)
    (hflag : has_flag sign_params.flags GNUTLS_PK_FLAG_REPRODUCIBLE = true)
    (hlib : w1.lib_state = w2.lib_state)
    (hdet : ∀ t1 t2 c k d h,
      (E.ecdsa_sign t1 c k (RndFunc.rnd_datum_func d) h).ret
          = (E.ecdsa_sign t2 c k (RndFunc.rnd_datum_func d) h).ret ∧
        (E.ecdsa_sign t1 c k (RndFunc.rnd_datum_func d) h).out
          = (E.ecdsa_sign t2 c k (RndFunc.rnd_datum_func d) h).out) :
    (sign_ecdsa (E.with_rnd rnd) signature vdata pk_params sign_params w2).ret
        = (sign_ecdsa E signature vdata pk_params sign_params w1).ret ∧
      (sign_ecdsa (E.with_rnd rnd) signature vdata pk_params sign_params w2).out
        = (sign_ecdsa E signature vdata pk_params sign_params w1).out ∧
      HAVE_LIB_ERROR
          (sign_ecdsa (E.with_rnd rnd) signature vdata pk_params sign_params w2).world
        = HAVE_LIB_ERROR (sign_ecdsa E signature vdata pk_params sign_params w1).world := by
  obtain ⟨fo, hfo⟩ : ∃ fo, ∀ t c k d h,
      (E.ecdsa_sign t c k (RndFunc.rnd_datum_func d) h).out = fo c k d h :=
    ⟨fun c k d h => (E.ecdsa_sign 0 c k (RndFunc.rnd_datum_func d) h).out,
      fun t c k d h => (hdet t 0 c k d h).2⟩
  have hl := have_lib_error_congr w1 w2 hlib
  unfold sign_ecdsa _ecc_params_to_privkey
  simp only [hflag, hfo, hl, Bool.or_true, if_true, have_lib_error_after_datum,
    have_lib_error_call, with_rnd_ecc_scalar_set, with_rnd_gnutls_dsa_q_to_hash,
    with_rnd_gnutls_ecc_curve_to_dsa_q, with_rnd_gnutls_dsa_compute_k, with_rnd_ecc_bit_size,
    with_rnd_gnutls_ecdsa_compute_k_finish, with_rnd_ecdsa_sign, with_rnd_gnutls_encode_ber_rs]
  split
  · exact ⟨rfl, rfl, hl⟩
  · split_ifs <;>
      first
        | exact ⟨rfl, rfl, hl⟩
        | exact ⟨rfl, rfl, by simp only [have_lib_error_call, hl]⟩
        | exact ⟨rfl, rfl, by simp only [have_lib_error_after_datum, have_lib_error_call, hl]⟩

/-- With the reproducible flag, two runs of the DSA case that start with the
same library state give the same result, whatever the random source. -/
theorem sign_dsa_reproducible (E : Env) (rnd : Nat → gnutls_rnd_level_t → Nat → Int × List Nat)
    (signature vdata : gnutls_datum_t) (pk_params : gnutls_pk_params_st)
    (sign_params : gnutls_x509_spki_st) (w1 w2 : World)
    (hflag : has_flag sign_params.flags GNUTLS_PK_FLAG_REPRODUCIBLE = true)
    (hlib : w1.lib_state = w2.lib_state)
    (hdet : ∀ t1 t2 p q g x d h,
      (E.dsa_sign t1 p q g x (RndFunc.rnd_datum_func d) h).ret
          = (E.dsa_sign t2 p q g x (RndFunc.rnd_datum_func d) h).ret ∧
        (E.dsa_sign t1 p q g x (RndFunc.rnd_datum_func d) h).out
          = (E.dsa_sign t2 p q g x (RndFunc.rnd_datum_func d) h).out) :
    (sign_dsa (E.with_rnd rnd) signature vdata pk_params sign_params w2).ret
        = (sign_dsa E signature vdata pk_params sign_params w1).ret ∧
      (sign_dsa (E.with_rnd rnd) signature vdata pk_params sign_params w2).out
        = (sign_dsa E signature vdata pk_params sign_params w1).out ∧
      HAVE_LIB_ERROR
          (sign_dsa (E.with_rnd rnd) signature vdata pk_params sign_params w2).world
        = HAVE_LIB_ERROR (sign_dsa E signature vdata pk_params sign_params w1).world := by
  obtain ⟨fr, hfr⟩ : ∃ fr, ∀ t p q g x d h,
      (E.dsa_sign t p q g x (RndFunc.rnd_datum_func d) h).ret = fr p q g x d h :=
    ⟨fun p q g x d h => (E.dsa_sign 0 p q g x (RndFunc.rnd_datum_func d) h).ret,
      fun t p q g x d h => (hdet t 0 p q g x d h).1⟩
  obtain ⟨fo, hfo⟩ : ∃ fo, ∀ t p q g x d h,
      (E.dsa_sign t p q g x (RndFunc.rnd_datum_func d) h).out = fo p q g x d h :=
    ⟨fun p q g x d h => (E.dsa_sign 0 p q g x (RndFunc.rnd_datum_func d) h).out,
      fun t p q g x d h => (hdet t 0 p q g x d h).2⟩
  have hl := have_lib_error_congr w1 w2 hlib
  unfold sign_dsa
  simp only [hflag, hfr, hfo, hl, Bool.or_true, if_true, have_lib_error_after_datum,
    have_lib_error_call, with_rnd_gnutls_dsa_q_to_hash, with_rnd_gnutls_dsa_compute_k,
    with_rnd_gnutls_dsa_compute_k_finish, with_rnd_dsa_sign, with_rnd_gnutls_encode_ber_rs]
  split_ifs <;> simp_all [have_lib_error_after_datum]

/-- With the reproducible flag, two runs of the body of `sign` for ECDSA or
DSA that start with the same library state give the same result, whatever the
random source. -/
theorem sign_body_reproducible (E : Env) (rnd : Nat → gnutls_rnd_level_t → Nat → Int × List Nat)
    (algo : gnutls_pk_algorithm_t) (signature vdata : gnutls_datum_t)
    (pk_params : gnutls_pk_params_st) (sign_params : gnutls_x509_spki_st) (w1 w2 : World)
    (halgo : algo = GNUTLS_PK_ECDSA ∨ algo = GNUTLS_PK_DSA)
    (hflag : has_flag sign_params.flags GNUTLS_PK_FLAG_REPRODUCIBLE = true)
    (hlib : w1.lib_state = w2.lib_state)
    (hec : ∀ t1 t2 c k d h,
      (E.ecdsa_sign t1 c k (RndFunc.rnd_datum_func d) h).ret
          = (E.ecdsa_sign t2 c k (RndFunc.rnd_datum_func d) h).ret ∧
        (E.ecdsa_sign t1 c k (RndFunc.rnd_datum_func d) h).out
          = (E.ecdsa_sign t2 c k (RndFunc.rnd_datum_func d) h).out)
    (hdsa : ∀ t1 t2 p q g x d h,
      (E.dsa_sign t1 p q g x (RndFunc.rnd_datum_func d) h).ret
          = (E.dsa_sign t2 p q g x (RndFunc.rnd_datum_func d) h).ret ∧
        (E.dsa_sign t1 p q g x (RndFunc.rnd_datum_func d) h).out
          = (E.dsa_sign t2 p q g x (RndFunc.rnd_datum_func d) h).out) :
    (sign_body (E.with_rnd rnd) algo signature vdata pk_params sign_params w2).ret
        = (sign_body E algo signature vdata pk_params sign_params w1).ret ∧
      (sign_body (E.with_rnd rnd) algo signature vdata pk_params sign_params w2).out
        = (sign_body E algo signature vdata pk_params sign_params w1).out ∧
      HAVE_LIB_ERROR
          (sign_body (E.with_rnd rnd) algo signature vdata pk_params sign_params w2).world
        = HAVE_LIB_ERROR (sign_body E algo signature vdata pk_params sign_params w1).world := by
  have hl := have_lib_error_congr w1 w2 hlib
  have h1 := sign_ecdsa_reproducible E rnd signature vdata pk_params sign_params w1 w2 hflag hlib
    hec
  have h2 := sign_dsa_reproducible E rnd signature vdata pk_params sign_params w1 w2 hflag hlib
    hdsa
  unfold sign_body
  simp only [with_rnd_IS_EC, with_rnd_gnutls_ecc_curve_get_pk, with_rnd_fips_mode_enabled,
    _gnutls_get_lib_state, ← hlib]
  rcases halgo with rfl | rfl
  · split_ifs
    · exact ⟨rfl, rfl, hl⟩
    · exact ⟨rfl, rfl, hl⟩
    · exact h1
  · split_ifs
    · exact ⟨rfl, rfl, hl⟩
    · exact ⟨rfl, rfl, hl⟩
    · exact h2

/-- C15 (counterexample): the same reproducible P-256 `sign` call, with the
same key, signature parameters and message, returns `0` and a signature when
the library is operational, and `GNUTLS_E_LIB_IN_ERROR_STATE` and no signature
when the library is in the error state. -/
theorem sign_reproducible_library_state :
    (_wrap_nettle_pk_sign sampleEnv GNUTLS_PK_ECDSA {} { data := some [1, 2], size := 2 }
        sampleEcPriv sampleReproducible {}).1 = 0 ∧
      (_wrap_nettle_pk_sign sampleEnv GNUTLS_PK_ECDSA {} { data := some [1, 2], size := 2 }
        sampleEcPriv sampleReproducible errorWorld).1 = GNUTLS_E_LIB_IN_ERROR_STATE ∧
      (_wrap_nettle_pk_sign sampleEnv GNUTLS_PK_ECDSA {} { data := some [1, 2], size := 2 }
        sampleEcPriv sampleReproducible {}).2.1.data ≠ none ∧
      (_wrap_nettle_pk_sign sampleEnv GNUTLS_PK_ECDSA {} { data := some [1, 2], size := 2 }
        sampleEcPriv sampleReproducible errorWorld).2.1.data = none := by
  decide

/-- C15 (amended): for ECDSA and DSA `sign` with the reproducible flag set, two calls
with the same key parameters, signature parameters and message, made with the
same library state, return the same status and the same signature, whatever
the random source returns in either run: the second run may start from any
other world and use any other `gnutls_rnd`.  The signing primitives of nettle
are taken to be functions of their arguments and of the bytes their random
callback hands them, which with `rnd_datum_func` is the derived nonce. -/
theorem sign_reproducible_deterministic (E : Env)
    (rnd : Nat → gnutls_rnd_level_t → Nat → Int × List Nat) (algo : gnutls_pk_algorithm_t)
    (signature vdata : gnutls_datum_t) (pk_params : gnutls_pk_params_st)
    (sign_params : gnutls_x509_spki_st) (w1 w2 : World)
    (halgo : algo = GNUTLS_PK_ECDSA ∨ algo = GNUTLS_PK_DSA)
    (hflag : has_flag sign_params.flags GNUTLS_PK_FLAG_REPRODUCIBLE = true)
    (hlib : w1.lib_state = w2.lib_state)
    (hec : ∀ t1 t2 c k d h,
      (E.ecdsa_sign t1 c k (RndFunc.rnd_datum_func d) h).ret
          = (E.ecdsa_sign t2 c k (RndFunc.rnd_datum_func d) h).ret ∧
        (E.ecdsa_sign t1 c k (RndFunc.rnd_datum_func d) h).out
          = (E.ecdsa_sign t2 c k (RndFunc.rnd_datum_func d) h).out)
    (hdsa : ∀ t1 t2 p q g x d h,
      (E.dsa_sign t1 p q g x (RndFunc.rnd_datum_func d) h).ret
          = (E.dsa_sign t2 p q g x (RndFunc.rnd_datum_func d) h).ret ∧
        (E.dsa_sign t1 p q g x (RndFunc.rnd_datum_func d) h).out
          = (E.dsa_sign t2 p q g x (RndFunc.rnd_datum_func d) h).out) :
    (_wrap_nettle_pk_sign (E.with_rnd rnd) algo signature vdata pk_params sign_params w2).1
        = (_wrap_nettle_pk_sign E algo signature vdata pk_params sign_params w1).1 ∧
      (_wrap_nettle_pk_sign (E.with_rnd rnd) algo signature vdata pk_params sign_params w2).2.1
        = (_wrap_nettle_pk_sign E algo signature vdata pk_params sign_params w1).2.1 := by
  have hl := have_lib_error_congr w1 w2 hlib
  obtain ⟨hr, ho, hw⟩ := sign_body_reproducible E rnd algo signature vdata pk_params sign_params
    w1 w2 halgo hflag hlib hec hdsa
  unfold _wrap_nettle_pk_sign cleanup_and_return
  simp only [hl, have_lib_error_cleanup, hr, ho, hw]
  split_ifs <;> exact ⟨rfl, rfl⟩

/-- The signing primitives of the sample environment ignore the tick. -/
theorem sampleEnv_ecdsa_sign : ∀ t1 t2 c k d h,
    (sampleEnv.ecdsa_sign t1 c k (RndFunc.rnd_datum_func d) h).ret
        = (sampleEnv.ecdsa_sign t2 c k (RndFunc.rnd_datum_func d) h).ret ∧
      (sampleEnv.ecdsa_sign t1 c k (RndFunc.rnd_datum_func d) h).out
        = (sampleEnv.ecdsa_sign t2 c k (RndFunc.rnd_datum_func d) h).out :=
  fun _ _ _ _ _ _ => ⟨rfl, rfl⟩

/-- The DSA primitive of the sample environment ignores the tick. -/
theorem sampleEnv_dsa_sign : ∀ t1 t2 p q g x d h,
    (sampleEnv.dsa_sign t1 p q g x (RndFunc.rnd_datum_func d) h).ret
        = (sampleEnv.dsa_sign t2 p q g x (RndFunc.rnd_datum_func d) h).ret ∧
      (sampleEnv.dsa_sign t1 p q g x (RndFunc.rnd_datum_func d) h).out
        = (sampleEnv.dsa_sign t2 p q g x (RndFunc.rnd_datum_func d) h).out :=
  fun _ _ _ _ _ _ _ _ => ⟨rfl, rfl⟩

/-- Witness for `sign_reproducible_deterministic`: a reproducible P-256
signature in the sample environment, repeated after other calls and with a
failing random source. -/
theorem sign_reproducible_deterministic_witness :
    ((GNUTLS_PK_ECDSA = GNUTLS_PK_ECDSA ∨ GNUTLS_PK_ECDSA = GNUTLS_PK_DSA) ∧
      has_flag sampleReproducible.flags GNUTLS_PK_FLAG_REPRODUCIBLE = true ∧
      ({} : World).lib_state = ({ calls := [Prim.gnutls_rnd] } : World).lib_state ∧
      (∀ t1 t2 c k d h,
        (sampleEnv.ecdsa_sign t1 c k (RndFunc.rnd_datum_func d) h).ret
            = (sampleEnv.ecdsa_sign t2 c k (RndFunc.rnd_datum_func d) h).ret ∧
          (sampleEnv.ecdsa_sign t1 c k (RndFunc.rnd_datum_func d) h).out
            = (sampleEnv.ecdsa_sign t2 c k (RndFunc.rnd_datum_func d) h).out) ∧
      (∀ t1 t2 p q g x d h,
        (sampleEnv.dsa_sign t1 p q g x (RndFunc.rnd_datum_func d) h).ret
            = (sampleEnv.dsa_sign t2 p q g x (RndFunc.rnd_datum_func d) h).ret ∧
          (sampleEnv.dsa_sign t1 p q g x (RndFunc.rnd_datum_func d) h).out
            = (sampleEnv.dsa_sign t2 p q g x (RndFunc.rnd_datum_func d) h).out)) ∧
    ((_wrap_nettle_pk_sign (sampleEnv.with_rnd (fun _ _ n => (GNUTLS_E_RANDOM_FAILED,
          List.replicate n 0))) GNUTLS_PK_ECDSA {} { data := some [1, 2], size := 2 }
          sampleEcPriv sampleReproducible { calls := [Prim.gnutls_rnd] }).1
        = (_wrap_nettle_pk_sign sampleEnv GNUTLS_PK_ECDSA {} { data := some [1, 2], size := 2 }
          sampleEcPriv sampleReproducible {}).1 ∧
      (_wrap_nettle_pk_sign (sampleEnv.with_rnd (fun _ _ n => (GNUTLS_E_RANDOM_FAILED,
          List.replicate n 0))) GNUTLS_PK_ECDSA {} { data := some [1, 2], size := 2 }
          sampleEcPriv sampleReproducible { calls := [Prim.gnutls_rnd] }).2.1
        = (_wrap_nettle_pk_sign sampleEnv GNUTLS_PK_ECDSA {} { data := some [1, 2], size := 2 }
          sampleEcPriv sampleReproducible {}).2.1) :=
  ⟨⟨Or.inl rfl, by decide, rfl, sampleEnv_ecdsa_sign, sampleEnv_dsa_sign⟩,
    sign_reproducible_deterministic sampleEnv
      (fun _ _ n => (GNUTLS_E_RANDOM_FAILED, List.replicate n 0)) GNUTLS_PK_ECDSA {}
      { data := some [1, 2], size := 2 } sampleEcPriv sampleReproducible {}
      { calls := [Prim.gnutls_rnd] } (Or.inl rfl) (by decide) rfl sampleEnv_ecdsa_sign
      sampleEnv_dsa_sign⟩


/-- A call that leaves through the shared tail with `0` had `ret = 0` at
`cleanup:` and was classified by its `not_approved` flag alone. -/
theorem cleanup_and_return_zero {α : Type} (b : Branch α)
    (h : (cleanup_and_return b).1 = 0) :
    b.ret = 0 ∧ (cleanup_and_return b).2.2.fips_state
      = (if b.not_approved then GNUTLS_FIPS140_OP_NOT_APPROVED
          else GNUTLS_FIPS140_OP_APPROVED) := by
  simp only [cleanup_and_return, have_lib_error_cleanup] at h ⊢
  split at h
  · simp at h
  · simp [h]

/-- The ECDSA case of `sign` ends with `ret = 0` only with the flag set from
the curve and the digest. -/
theorem sign_ecdsa_flag (E : Env) (signature vdata : gnutls_datum_t)
    (pk_params : gnutls_pk_params_st) (sign_params : gnutls_x509_spki_st) (w : World)
    (h : (sign_ecdsa E signature vdata pk_params sign_params w).ret = 0) :
    (sign_ecdsa E signature vdata pk_params sign_params w).not_approved
      = (decide (pk_params.curve = GNUTLS_ECC_CURVE_SECP192R1)
          || !is_sha2_mac sign_params.dsa_dig) := by
  unfold sign_ecdsa at h ⊢
  cases hc : get_supported_nist_curve pk_params.curve with
  | none => simp [hc] at h
  | some c =>
    simp only [hc] at h ⊢
    split_ifs at h ⊢ <;> first | rfl | (simp at h; done) | (dsimp only at h; omega)

/-- The DSA case of `sign` always hands `not_approved = true` to `cleanup:`. -/
theorem sign_dsa_flag (E : Env) (signature vdata : gnutls_datum_t)
    (pk_params : gnutls_pk_params_st) (sign_params : gnutls_x509_spki_st) (w : World) :
    (sign_dsa E signature vdata pk_params sign_params w).not_approved = true := by
  unfold sign_dsa
  dsimp only
  split_ifs <;> rfl

/-- C16 (counterexample): outside FIPS mode and outside self-test, a
reproducible ECDSA signature on P-256 with SHA-256 succeeds and leaves
`APPROVED`. -/
theorem sign_deterministic_approved :
    sampleEnv.fips_mode_enabled = false ∧
      has_flag sampleReproducible.flags GNUTLS_PK_FLAG_REPRODUCIBLE = true ∧
      _gnutls_get_lib_state ({} : World) ≠ LIB_STATE_SELFTEST ∧
      (_wrap_nettle_pk_sign sampleEnv GNUTLS_PK_ECDSA {} { data := some [1, 2], size := 2 }
        sampleEcPriv sampleReproducible {}).1 = 0 ∧
      (_wrap_nettle_pk_sign sampleEnv GNUTLS_PK_ECDSA {} { data := some [1, 2], size := 2 }
        sampleEcPriv sampleReproducible {}).2.2.fips_state = GNUTLS_FIPS140_OP_APPROVED ∧
      (_wrap_nettle_pk_sign sampleEnv GNUTLS_PK_ECDSA {} { data := some [1, 2], size := 2 }
        sampleEcPriv sampleReproducible {}).2.2.calls
          = [Prim.dsa_compute_k, Prim.ecdsa_sign] := by
  decide

/-- C16 (amended): a successful DSA `sign` call always leaves `NOT_APPROVED`.
A successful ECDSA `sign` call, with a derived or a random nonce, leaves
`NOT_APPROVED` exactly when the curve is P-192 or the digest is none of
SHA-224, SHA-256, SHA-384 and SHA-512, and `APPROVED` otherwise: deriving the
nonce deterministically does not by itself make the call not approved. -/
theorem sign_dsa_ecdsa_classification (E : Env) (signature vdata : gnutls_datum_t)
    (pk_params : gnutls_pk_params_st) (sign_params : gnutls_x509_spki_st) (w : World) :
    ((_wrap_nettle_pk_sign E GNUTLS_PK_DSA signature vdata pk_params sign_params w).1 = 0 →
      (_wrap_nettle_pk_sign E GNUTLS_PK_DSA signature vdata pk_params sign_params
        w).2.2.fips_state = GNUTLS_FIPS140_OP_NOT_APPROVED) ∧
    ((_wrap_nettle_pk_sign E GNUTLS_PK_ECDSA signature vdata pk_params sign_params w).1 = 0 →
      (_wrap_nettle_pk_sign E GNUTLS_PK_ECDSA signature vdata pk_params sign_params
        w).2.2.fips_state =
          (if pk_params.curve = GNUTLS_ECC_CURVE_SECP192R1
              ∨ is_sha2_mac sign_params.dsa_dig = false
            then GNUTLS_FIPS140_OP_NOT_APPROVED else GNUTLS_FIPS140_OP_APPROVED)) := by
  constructor
  · intro h
    by_cases hw : HAVE_LIB_ERROR w = true
    · simp [_wrap_nettle_pk_sign, hw] at h
    · simp only [_wrap_nettle_pk_sign, hw, Bool.false_eq_true, if_false] at h ⊢
      obtain ⟨hr, hs⟩ := cleanup_and_return_zero _ h
      rw [hs]
      have hb : (sign_body E GNUTLS_PK_DSA signature vdata pk_params sign_params w).not_approved
          = true := by
        unfold sign_body at hr ⊢
        split_ifs at hr ⊢
        · simp at hr
        · simp at hr
        · exact sign_dsa_flag E signature vdata pk_params sign_params w
      simp [hb]
  · intro h
    by_cases hw : HAVE_LIB_ERROR w = true
    · simp [_wrap_nettle_pk_sign, hw] at h
    · simp only [_wrap_nettle_pk_sign, hw, Bool.false_eq_true, if_false] at h ⊢
      obtain ⟨hr, hs⟩ := cleanup_and_return_zero _ h
      rw [hs]
      have hb : (sign_body E GNUTLS_PK_ECDSA signature vdata pk_params sign_params
          w).not_approved = (decide (pk_params.curve = GNUTLS_ECC_CURVE_SECP192R1)
            || !is_sha2_mac sign_params.dsa_dig) := by
        unfold sign_body at hr ⊢
        split_ifs at hr ⊢
        · simp at hr
        · simp at hr
        · exact sign_ecdsa_flag E signature vdata pk_params sign_params w hr
      rw [hb]
      by_cases hc : pk_params.curve = GNUTLS_ECC_CURVE_SECP192R1 <;>
        cases hd : is_sha2_mac sign_params.dsa_dig <;> simp [hc, hd]

/-! ### The classification of RSA key generation -/

/-- A `generate_keys` call that leaves through `cleanup:` with `0` was
classified by its `not_approved` flag alone and keeps its parameter set. -/
theorem generate_keys_cleanup_zero (ret : Int) (na : Bool) (params : gnutls_pk_params_st)
    (w : World) (h : (generate_keys_cleanup ret na params w).1 = 0) :
    ret = 0 ∧ (generate_keys_cleanup ret na params w).2.1 = params ∧
      (generate_keys_cleanup ret na params w).2.2.fips_state
        = (if na then GNUTLS_FIPS140_OP_NOT_APPROVED else GNUTLS_FIPS140_OP_APPROVED) := by
  simp only [generate_keys_cleanup, have_lib_error_cleanup] at h ⊢
  split at h
  · simp at h
  · simp [h]

/-- The RSA case of `generate_keys` sets `not_approved` in standard mode and
never in provable mode. -/
theorem generate_keys_rsa_flag (E : Env) (level : Nat) (params : gnutls_pk_params_st)
    (rnd_func : RndFunc) (w : World) :
    (generate_keys_rsa E level params rnd_func w).not_approved
      = !(has_flag params.pkflags GNUTLS_PK_FLAG_PROVABLE || E.fips_mode_enabled) := by
  unfold generate_keys_rsa
  dsimp only
  split_ifs with h1 <;> simp_all <;> (intro h; rcases h1 with h1 | h1 <;> simp_all)

/-- For a modulus `m > 1` and `a` coprime to it, `mpz_invert` yields the one
`c` in `[0, m)` with `a * c ≡ 1 (mod m)`. -/
theorem mpz_invert_spec (E : Env) (rop a m c : Nat) (hm : 1 < m) (hc : Nat.Coprime a m) :
    (c < m ∧ a * c % m = 1) ↔ c = mpz_invert E rop a m := by
  obtain ⟨k, hk⟩ := Nat.exists_mul_emod_eq_one_of_coprime hc hm
  have h1 : 1 % m = 1 := Nat.mod_eq_of_lt hm
  have hex : ∃ t ∈ List.range m, (a * t % m == 1 % m) = true := by
    refine ⟨k % m, List.mem_range.2 (Nat.mod_lt _ (by omega)), ?_⟩
    rw [h1, beq_iff_eq, Nat.mul_mod, Nat.mod_mod, ← Nat.mul_mod]
    exact hk
  unfold mpz_invert
  cases hf : (List.range m).find? (fun t => a * t % m == 1 % m) with
  | none =>
    rw [List.find?_eq_none] at hf
    obtain ⟨t, ht, hp⟩ := hex
    exact absurd hp (hf t ht)
  | some t =>
    have hp := List.find?_some hf
    have hmem := List.mem_range.1 (List.mem_of_find?_eq_some hf)
    rw [h1, beq_iff_eq] at hp
    dsimp only
    constructor
    · rintro ⟨hlt, hinv⟩
      have hmod : a * c ≡ a * t [MOD m] := by
        unfold Nat.ModEq
        rw [hinv, hp]
      have h2 : c ≡ t [MOD m] :=
        Nat.ModEq.cancel_left_of_coprime (Nat.Coprime.symm hc) hmod
      unfold Nat.ModEq at h2
      rwa [Nat.mod_eq_of_lt hlt, Nat.mod_eq_of_lt hmem] at h2
    · rintro rfl
      exact ⟨hmem, hp⟩

/-- The reduction `_gnutls_mpi_modm` modulo `p - 1` for `p > 1`. -/
theorem modm_pred (a p : Nat) (hp : 1 < p) :
    _gnutls_mpi_modm a ((p : Int) - 1) = (0, a % (p - 1)) := by
  have h : ((p : Int) - 1) = ((p - 1 : Nat) : Int) := by omega
  unfold _gnutls_mpi_modm
  rw [h, Int.natAbs_ofNat]
  have h0 : ¬ (((p - 1 : Nat) : Int) = 0) := by omega
  simp [h0]

/-- The RSA case of `verify_priv_params` on a parameter set with the slots it
reads present and `p, q > 1`, as a chain of its four comparisons. -/
theorem verify_priv_params_rsa_eq (E : Env) (params : gnutls_pk_params_st)
    (n d p q c e1 e2 : Nat)
    (hnr : params.params_nr = RSA_PRIVATE_PARAMS)
    (hn : params.get RSA_MODULUS = some n) (hd : params.get RSA_PRIV = some d)
    (hp : params.get RSA_PRIME1 = some p) (hq : params.get RSA_PRIME2 = some q)
    (hc : params.get RSA_COEF = some c) (he1 : params.get RSA_E1 = some e1)
    (he2 : params.get RSA_E2 = some e2) (hp1 : 1 < p) (hq1 : 1 < q) :
    verify_priv_params_rsa E params =
      if p * q % n ≠ 0 then GNUTLS_E_ILLEGAL_PARAMETER else
      if mpz_invert E (p * q % n) q p ≠ c then GNUTLS_E_ILLEGAL_PARAMETER else
      if e1 ≠ d % (p - 1) then GNUTLS_E_ILLEGAL_PARAMETER else
      if e2 ≠ d % (q - 1) then GNUTLS_E_ILLEGAL_PARAMETER else 0 := by
  unfold verify_priv_params_rsa
  simp only [hnr, hn, hd, hp, hq, hc, he1, he2, TOMPZ, Option.getD_some, _gnutls_mpi_mulm,
    modm_pred _ _ hp1, modm_pred _ _ hq1]
  simp

/-- When `a` has no inverse modulo `m > 1`, `mpz_invert` leaves in `rop` what
GMP leaves there. -/
theorem mpz_invert_no_inverse (E : Env) (rop a m : Nat) (hm : 1 < m)
    (hc : ¬ Nat.Coprime a m) :
    mpz_invert E rop a m = E.mpz_invert_undefined rop a m := by
  unfold mpz_invert
  cases hf : (List.range m).find? (fun t => a * t % m == 1 % m) with
  | none => rfl
  | some t =>
    exfalso
    have hp := List.find?_some hf
    rw [beq_iff_eq] at hp
    exact hc (Nat.coprime_of_mul_modEq_one t hp)

/-- C20 (code): on an RSA, RSA-PSS or RSA-OAEP parameter set with all eight
fields present and `p, q > 1`.  When `p` and `q` are coprime,
`verify_priv_params` returns `GNUTLS_E_ILLEGAL_PARAMETER` whenever the stored
coefficient is not the inverse of `q` modulo `p`, or the first CRT exponent is
not `d mod (p - 1)`, or the second is not `d mod (q - 1)`, and it returns `0`
when all three match and the modulus divides `p * q`.  When `p` and `q` are
not coprime, so that no stored coefficient is the inverse of `q` modulo `p`,
and the two CRT exponents match and the modulus divides `p * q`, the call
compares the stored coefficient with what `mpz_invert`, whose return value it
does not look at, left in its result, and returns `0` when the two agree. -/
theorem verify_priv_params_rsa_crt (E : Env) (algo : gnutls_pk_algorithm_t)
    (params : gnutls_pk_params_st) (n e d p q c e1 e2 : Nat)
    (halgo : algo = GNUTLS_PK_RSA ∨ algo = GNUTLS_PK_RSA_PSS ∨ algo = GNUTLS_PK_RSA_OAEP)
    (hnr : params.params_nr = RSA_PRIVATE_PARAMS)
    (hn : params.get RSA_MODULUS = some n) (_he : params.get RSA_PUB = some e)
    (hd : params.get RSA_PRIV = some d)
    (hp : params.get RSA_PRIME1 = some p) (hq : params.get RSA_PRIME2 = some q)
    (hc : params.get RSA_COEF = some c) (he1 : params.get RSA_E1 = some e1)
    (he2 : params.get RSA_E2 = some e2)
    (hp1 : 1 < p) (hq1 : 1 < q) :
    (Nat.Coprime q p →
      ((¬ (c < p ∧ q * c % p = 1) ∨ e1 ≠ d % (p - 1) ∨ e2 ≠ d % (q - 1)) →
        wrap_nettle_pk_verify_priv_params E algo params = GNUTLS_E_ILLEGAL_PARAMETER) ∧
      (((c < p ∧ q * c % p = 1) ∧ e1 = d % (p - 1) ∧ e2 = d % (q - 1) ∧ n ∣ p * q) →
        wrap_nettle_pk_verify_priv_params E algo params = 0)) ∧
    (¬ Nat.Coprime q p →
      (∀ c', ¬ (c' < p ∧ q * c' % p = 1)) ∧
      (e1 = d % (p - 1) ∧ e2 = d % (q - 1) ∧ n ∣ p * q →
        wrap_nettle_pk_verify_priv_params E algo params
          = if E.mpz_invert_undefined 0 q p = c then 0 else GNUTLS_E_ILLEGAL_PARAMETER)) := by
  have hw : wrap_nettle_pk_verify_priv_params E algo params = verify_priv_params_rsa E params := by
    rcases halgo with rfl | rfl | rfl <;> rfl
  rw [hw, verify_priv_params_rsa_eq E params n d p q c e1 e2 hnr hn hd hp hq hc he1 he2 hp1 hq1]
  refine ⟨fun hcop => ?_, fun hcop => ⟨?_, ?_⟩⟩
  · have hinv := mpz_invert_spec E (p * q % n) q p c hp1 hcop
    constructor
    · intro h
      split_ifs with h1 h2 h3 h4
      · rfl
      · rfl
      · rfl
      · rfl
      · exfalso
        rcases h with h | h | h
        · exact h (hinv.2 (not_not.1 h2).symm)
        · exact h3 h
        · exact h4 h
    · rintro ⟨hci, h3, h4, hdiv⟩
      have h1 : p * q % n = 0 := Nat.mod_eq_zero_of_dvd hdiv
      have h2 : mpz_invert E (p * q % n) q p = c := (hinv.1 hci).symm
      rw [if_neg (not_not.2 h1), if_neg (not_not.2 h2), if_neg (not_not.2 h3),
        if_neg (not_not.2 h4)]
  · rintro c' ⟨_, h2⟩
    apply hcop
    apply Nat.coprime_of_mul_modEq_one c'
    unfold Nat.ModEq
    rw [h2, Nat.mod_eq_of_lt hp1]
  · rintro ⟨h3, h4, hdiv⟩
    have h1 : p * q % n = 0 := Nat.mod_eq_zero_of_dvd hdiv
    rw [if_neg (not_not.2 h1), h1, mpz_invert_no_inverse E 0 q p hp1 hcop,
      if_neg (not_not.2 h3), if_neg (not_not.2 h4)]
    by_cases hu : E.mpz_invert_undefined 0 q p = c
    · rw [if_neg (not_not.2 hu), if_pos hu]
    · rw [if_pos hu, if_neg hu]

/-- C20 (witness): with `p = q = 5`, `n = 25`, `d = 3`, both CRT exponents `3`
and the coefficient `0`, which is not an inverse of `5` modulo `5`,
`verify_priv_params` returns `0`: `mpz_invert` leaves the product
`p * q mod n = 0` in place, and the stored coefficient compares equal to it. -/
theorem verify_priv_params_rsa_crt_witness :
    ¬ Nat.Coprime 5 5 ∧ (∀ c', ¬ (c' < 5 ∧ 5 * c' % 5 = 1)) ∧
      wrap_nettle_pk_verify_priv_params sampleEnv GNUTLS_PK_RSA noInverseRsaKey = 0 :=
  ⟨by decide,
    ((verify_priv_params_rsa_crt sampleEnv GNUTLS_PK_RSA noInverseRsaKey 25 3 3 5 5 0 3 3
      (Or.inl rfl) rfl rfl rfl rfl rfl rfl rfl rfl rfl (by decide) (by decide)).2
        (by decide)).1,
    ((verify_priv_params_rsa_crt sampleEnv GNUTLS_PK_RSA noInverseRsaKey 25 3 3 5 5 0 3 3
      (Or.inl rfl) rfl rfl rfl rfl rfl rfl rfl rfl rfl (by decide) (by decide)).2
        (by decide)).2 (by decide)⟩

/-! ### C19: a failed pairwise consistency test -/

/-- A `pct_test` run for one algorithm that ends with
`GNUTLS_E_PK_GENERATION_ERROR` leaves the library in its error state. -/
theorem pct_test_single_poisons (E : Env) (algo : gnutls_pk_algorithm_t)
    (params : gnutls_pk_params_st) (w : World)
    (h : (pct_test_single E algo params w).1 = GNUTLS_E_PK_GENERATION_ERROR) :
    HAVE_LIB_ERROR (pct_test_single E algo params w).2 = true := by
  unfold pct_test_single pct_test_cleanup at h ⊢
  dsimp only at h ⊢
  split_ifs at h ⊢ <;> first | rfl | simp_all

/-- The cleanup of `pct_test` keeps an error state of the library. -/
theorem pct_test_cleanup_zero (w : World) : pct_test_cleanup (0, w) = (0, w) := rfl

/-- The test `pct_test` never reports a generation error for `GNUTLS_PK_RSA`:
it returns `0` whatever its two nested runs returned. -/
theorem pct_test_rsa_ret (E : Env) (params : gnutls_pk_params_st) (w : World) :
    (pct_test E GNUTLS_PK_RSA params w).1 = 0 := by
  unfold pct_test
  dsimp only
  split_ifs <;> rfl

/-- Releasing a parameter set empties every slot below its count. -/
theorem release_params_get (params : gnutls_pk_params_st) (i : Nat) (h : i < params.params_nr) :
    (release_params params).get i = none := by
  unfold release_params gnutls_pk_params_st.get
  simp only [List.getD_eq_getElem?_getD, List.getElem?_map, List.getElem?_enum]
  cases params.params[i]? <;> simp [h]

/-- The error exit of `generate_keys` when the library is in its error state. -/
theorem generate_keys_cleanup_neg (ret : Int) (na : Bool) (params : gnutls_pk_params_st)
    (w : World) (h : ret < 0) (hl : HAVE_LIB_ERROR w = true) :
    generate_keys_cleanup ret na params w =
      (GNUTLS_E_LIB_IN_ERROR_STATE,
        { release_params params with
          raw_priv := { params.raw_priv with data := none },
          raw_pub := { params.raw_pub with data := none } },
        _gnutls_switch_fips_state GNUTLS_FIPS140_OP_ERROR w) := by
  have h1 : HAVE_LIB_ERROR (cleanup_fips_state ret na w) = true := by
    rw [have_lib_error_cleanup]
    exact hl
  unfold generate_keys_cleanup
  simp only [h1, if_true]
  simp only [cleanup_fips_state, h, if_true]

/-- The exit of `generate_keys` with `ret = 0` and `not_approved` unset when the
library is in its error state. -/
theorem generate_keys_cleanup_poisoned (params : gnutls_pk_params_st)
    (w : World) (hl : HAVE_LIB_ERROR w = true) :
    generate_keys_cleanup 0 false params w =
      (GNUTLS_E_LIB_IN_ERROR_STATE, params,
        _gnutls_switch_fips_state GNUTLS_FIPS140_OP_APPROVED w) := by
  have h1 : HAVE_LIB_ERROR (cleanup_fips_state 0 false w) = true := by
    rw [have_lib_error_cleanup]
    exact hl
  unfold generate_keys_cleanup
  simp only [h1, if_true]
  simp [cleanup_fips_state]

/-- C19 (code): in FIPS mode, when key generation itself succeeded, (1) a
pairwise consistency test that ends with `GNUTLS_E_PK_GENERATION_ERROR` makes
`generate_keys` return `GNUTLS_E_LIB_IN_ERROR_STATE` with an emptied parameter
set, the compliance state `ERROR` and the library in its error state; (2) for
`GNUTLS_PK_RSA` the test never ends so: when one of its two nested tests fails
with `GNUTLS_E_PK_GENERATION_ERROR`, `generate_keys` returns
`GNUTLS_E_LIB_IN_ERROR_STATE` but hands back the generated key untouched and
leaves the compliance state `APPROVED`. -/
theorem generate_keys_pct_failure (E : Env) (algo : gnutls_pk_algorithm_t) (level : Nat)
    (params : gnutls_pk_params_st) (ephemeral : Bool) (w : World)
    (b : Branch gnutls_pk_params_st)
    (hfips : E.fips_mode_enabled = true)
    (hw : HAVE_LIB_ERROR w = false)
    (hec : (E.IS_EC algo && E.gnutls_ecc_curve_get_pk (E.curve_of_level level) != algo) = false)
    (hsw : generate_keys_switch E algo level params ephemeral w = Flow.cleanup b)
    (hb : 0 ≤ b.ret) :
    ((pct_test E algo { b.out with algo := algo } b.world).1 = GNUTLS_E_PK_GENERATION_ERROR →
      (wrap_nettle_pk_generate_keys E algo level params ephemeral w).1
          = GNUTLS_E_LIB_IN_ERROR_STATE ∧
        (wrap_nettle_pk_generate_keys E algo level params ephemeral w).2.1.params_nr = 0 ∧
        (∀ i, i < b.out.params_nr →
          (wrap_nettle_pk_generate_keys E algo level params ephemeral w).2.1.get i = none) ∧
        (wrap_nettle_pk_generate_keys E algo level params ephemeral w).2.1.raw_priv.data = none ∧
        (wrap_nettle_pk_generate_keys E algo level params ephemeral w).2.1.raw_pub.data = none ∧
        (wrap_nettle_pk_generate_keys E algo level params ephemeral w).2.2.fips_state
          = GNUTLS_FIPS140_OP_ERROR ∧
        (wrap_nettle_pk_generate_keys E algo level params ephemeral w).2.2.lib_state
          = LIB_STATE_ERROR) ∧
    (algo = GNUTLS_PK_RSA →
      ((pct_test_single E GNUTLS_PK_RSA_OAEP { b.out with algo := algo } b.world).1
          = GNUTLS_E_PK_GENERATION_ERROR ∨
        (0 ≤ (pct_test_single E GNUTLS_PK_RSA_OAEP { b.out with algo := algo } b.world).1 ∧
          (pct_test_single E GNUTLS_PK_RSA_PSS { b.out with algo := algo }
            (pct_test_single E GNUTLS_PK_RSA_OAEP { b.out with algo := algo } b.world).2).1
            = GNUTLS_E_PK_GENERATION_ERROR)) →
      (wrap_nettle_pk_generate_keys E algo level params ephemeral w).1
          = GNUTLS_E_LIB_IN_ERROR_STATE ∧
        (wrap_nettle_pk_generate_keys E algo level params ephemeral w).2.1
          = { b.out with algo := algo } ∧
        (wrap_nettle_pk_generate_keys E algo level params ephemeral w).2.2.fips_state
          = GNUTLS_FIPS140_OP_APPROVED) := by
  have hnb : ¬ b.ret < 0 := by omega
  have hr : wrap_nettle_pk_generate_keys E algo level params ephemeral w
      = generate_keys_cleanup (pct_test E algo { b.out with algo := algo } b.world).1
          b.not_approved { b.out with algo := algo }
          (pct_test E algo { b.out with algo := algo } b.world).2 := by
    unfold wrap_nettle_pk_generate_keys
    rw [hsw]
    simp only [hw, hec, hfips, hnb, Bool.false_eq_true, if_false, if_true]
  rw [hr]
  constructor
  · intro hp
    have halgo : algo ≠ GNUTLS_PK_RSA := by
      rintro rfl
      rw [pct_test_rsa_ret] at hp
      exact absurd hp (by decide)
    have hs : pct_test E algo { b.out with algo := algo } b.world
        = pct_test_single E algo { b.out with algo := algo } b.world := by
      unfold pct_test
      split
      · exact absurd rfl halgo
      · rfl
    have hp2 := hp
    rw [hs] at hp2
    have hl := pct_test_single_poisons E algo _ _ hp2
    rw [← hs] at hl
    have hlib : (pct_test E algo { b.out with algo := algo } b.world).2.lib_state
        = LIB_STATE_ERROR := by
      rw [hs]
      unfold pct_test_single pct_test_cleanup at hp2 ⊢
      dsimp only at hp2 ⊢
      split_ifs at hp2 ⊢ <;> first | rfl | simp_all
    have hneg : (pct_test E algo { b.out with algo := algo } b.world).1 < 0 := by
      rw [hp]; decide
    rw [generate_keys_cleanup_neg _ _ _ _ hneg hl]
    refine ⟨rfl, rfl, ?_, rfl, rfl, rfl, hlib⟩
    intro i hi
    exact release_params_get { b.out with algo := algo } i hi
  · rintro rfl hp
    have hbe : b = generate_keys_rsa E level params
        (if ephemeral then RndFunc.rnd_tmpkey_func else RndFunc.rnd_key_func) w := by
      have h2 : generate_keys_switch E GNUTLS_PK_RSA level params ephemeral w
          = Flow.cleanup (generate_keys_rsa E level params
              (if ephemeral then RndFunc.rnd_tmpkey_func else RndFunc.rnd_key_func) w) := rfl
      rw [hsw] at h2
      injection h2
    have hna : b.not_approved = false := by
      rw [hbe, generate_keys_rsa_flag, hfips]
      simp
    have hl : HAVE_LIB_ERROR
        (pct_test E GNUTLS_PK_RSA { b.out with algo := GNUTLS_PK_RSA } b.world).2 = true := by
      unfold pct_test
      dsimp only
      rcases hp with hp | ⟨h0, hp⟩
      · have hlt : (pct_test_single E GNUTLS_PK_RSA_OAEP
            { b.out with algo := GNUTLS_PK_RSA } b.world).1 < 0 := by
          rw [hp]; decide
        rw [if_pos hlt, pct_test_cleanup_zero]
        exact pct_test_single_poisons E _ _ _ hp
      · have hlt : ¬ (pct_test_single E GNUTLS_PK_RSA_OAEP
            { b.out with algo := GNUTLS_PK_RSA } b.world).1 < 0 := by omega
        rw [if_neg hlt, pct_test_cleanup_zero]
        exact pct_test_single_poisons E _ _ _ hp
    rw [pct_test_rsa_ret, hna, generate_keys_cleanup_poisoned _ _ hl]
    exact ⟨rfl, rfl, rfl⟩

/-- C19 (witness): in the sample environment in FIPS mode the RSA-PSS half of
the test fails; `generate_keys` for `GNUTLS_PK_RSA` then returns
`GNUTLS_E_LIB_IN_ERROR_STATE`, hands back all eight key parameters and leaves
the compliance state `APPROVED`. -/
theorem generate_keys_pct_failure_witness :
    ((wrap_nettle_pk_generate_keys fipsEnv GNUTLS_PK_RSA 2048 {} false {}).1
        = GNUTLS_E_LIB_IN_ERROR_STATE ∧
      (wrap_nettle_pk_generate_keys fipsEnv GNUTLS_PK_RSA 2048 {} false {}).2.1
        = { (generate_keys_rsa fipsEnv 2048 {} RndFunc.rnd_key_func {}).out with
            algo := GNUTLS_PK_RSA } ∧
      (wrap_nettle_pk_generate_keys fipsEnv GNUTLS_PK_RSA 2048 {} false {}).2.2.fips_state
        = GNUTLS_FIPS140_OP_APPROVED) ∧
    (wrap_nettle_pk_generate_keys fipsEnv GNUTLS_PK_RSA 2048 {} false {}).2.1.params
      = [some 3233, some 65537, some 413, some 61, some 53, some 38, some 53, some 49] ∧
    (wrap_nettle_pk_generate_keys fipsEnv GNUTLS_PK_RSA 2048 {} false {}).2.1.params_nr = 8 :=
  ⟨(generate_keys_pct_failure fipsEnv GNUTLS_PK_RSA 2048 {} false {}
      (generate_keys_rsa fipsEnv 2048 {} RndFunc.rnd_key_func {})
      rfl rfl rfl rfl (by decide)).2 rfl (Or.inr ⟨by decide, by decide⟩),
    by decide, by decide⟩

/-! ### C18: validating a generated key -/

/-- The cases of `generate_keys` that leave by a `return` of their own return
`GNUTLS_E_INVALID_REQUEST`. -/
theorem generate_keys_switch_returned (E : Env) (algo : gnutls_pk_algorithm_t) (level : Nat)
    (params : gnutls_pk_params_st) (ephemeral : Bool) (w : World) (ret : Int)
    (out : gnutls_pk_params_st) (w1 : World)
    (h : generate_keys_switch E algo level params ephemeral w = Flow.returned ret out w1) :
    ret = GNUTLS_E_INVALID_REQUEST := by
  unfold generate_keys_switch generate_keys_ecdsa generate_keys_gost generate_keys_mldsa at h
  dsimp only at h
  repeat' split at h
  all_goals first
    | (injection h with h1 h2 h3; exact h1.symm)
    | (exact Flow.noConfusion h)

/-- A `generate_keys` call that returns `0` reached `cleanup:` with a
non-negative `ret` and hands back the parameter set of that point, with the
algorithm recorded. -/
theorem generate_keys_success (E : Env) (algo : gnutls_pk_algorithm_t) (level : Nat)
    (params : gnutls_pk_params_st) (ephemeral : Bool) (w : World)
    (h : (wrap_nettle_pk_generate_keys E algo level params ephemeral w).1 = 0) :
    ∃ b, generate_keys_switch E algo level params ephemeral w = Flow.cleanup b ∧ 0 ≤ b.ret ∧
      (wrap_nettle_pk_generate_keys E algo level params ephemeral w).2.1
        = { b.out with algo := algo } := by
  unfold wrap_nettle_pk_generate_keys at h ⊢
  by_cases hw : HAVE_LIB_ERROR w = true
  · simp [hw] at h
  by_cases hec : (E.IS_EC algo && E.gnutls_ecc_curve_get_pk (E.curve_of_level level) != algo)
      = true
  · simp only [hw, hec, if_true, Bool.false_eq_true, if_false] at h
    have := (generate_keys_cleanup_zero _ _ _ _ h).1
    simp at this
  simp only [hw, hec, Bool.false_eq_true, if_false] at h ⊢
  cases hsw : generate_keys_switch E algo level params ephemeral w with
  | returned ret out w1 =>
    have hr := generate_keys_switch_returned E algo level params ephemeral w ret out w1 hsw
    rw [hsw] at h
    simp [hr] at h
  | cleanup b =>
    rw [hsw] at h
    refine ⟨b, rfl, ?_, ?_⟩
    · by_contra hb
      have hb2 : b.ret < 0 := by omega
      simp only [hb2, if_true] at h
      have := (generate_keys_cleanup_zero _ _ _ _ h).1
      omega
    · dsimp only at h ⊢
      split_ifs at h ⊢ with h1 h2
      · have := (generate_keys_cleanup_zero _ _ _ _ h).1
        omega
      · exact (generate_keys_cleanup_zero _ _ _ _ h).2.1
      · exact (generate_keys_cleanup_zero _ _ _ _ h).2.1

/-- A generated ECDSA key carries `ECC_PRIVATE_PARAMS` parameters. -/
theorem generate_keys_ecdsa_count (E : Env) (level : Nat) (params : gnutls_pk_params_st)
    (rnd_func : RndFunc) (w : World) (b : Branch gnutls_pk_params_st)
    (h : generate_keys_ecdsa E level params rnd_func w = Flow.cleanup b) (hb : 0 ≤ b.ret) :
    b.out.params_nr = ECC_PRIVATE_PARAMS := by
  unfold generate_keys_ecdsa at h
  dsimp only at h
  repeat' split at h
  all_goals first
    | (exact Flow.noConfusion h)
    | (injection h with h1; subst h1; first | rfl | (simp at hb; done))

/-- A generated GOST key carries `GOST_PRIVATE_PARAMS` parameters. -/
theorem generate_keys_gost_count (E : Env) (algo : gnutls_pk_algorithm_t) (level : Nat)
    (params : gnutls_pk_params_st) (w : World) (b : Branch gnutls_pk_params_st)
    (h : generate_keys_gost E algo level params w = Flow.cleanup b) (hb : 0 ≤ b.ret) :
    b.out.params_nr = GOST_PRIVATE_PARAMS := by
  unfold generate_keys_gost at h
  dsimp only at h
  repeat' split at h
  all_goals first
    | (exact Flow.noConfusion h)
    | (injection h with h1; subst h1; first | rfl | (simp at hb; done))

/-- Reading a slot after writing one. -/
theorem get_put (p : gnutls_pk_params_st) (i j : Nat) (v : bigint_t) :
    (p.put i v).get j = if i = j then v else p.get j := by
  unfold gnutls_pk_params_st.put gnutls_pk_params_st.get set_slot
  simp only [List.getD_eq_getElem?_getD, List.getElem?_set, List.length_append,
    List.length_replicate]
  by_cases hij : i = j
  · subst hij
    have hlt : i < p.params.length + (i + 1 - p.params.length) := by omega
    simp [hlt]
  · simp only [hij, if_false]
    by_cases hj : j < p.params.length
    · rw [List.getElem?_append_left hj]
    · have hle : p.params.length ≤ j := by omega
      rw [List.getElem?_append_right hle, List.getElem?_replicate,
        List.getElem?_eq_none hle]
      split_ifs <;> rfl

/-- The key-generation loop of the DH case hands back `y = g^x mod p`. -/
theorem dh_keygen_loop_pub (E : Env) (rnd_func : RndFunc) (pub : dsa_params) (have_q : Bool)
    (max_tries level : Nat) (w : World)
    (h : 0 ≤ (dh_keygen_loop E rnd_func pub have_q max_tries level w).1) :
    (dh_keygen_loop E rnd_func pub have_q max_tries level w).2.2.1
      = mpz_powm pub.g (dh_keygen_loop E rnd_func pub have_q max_tries level w).2.1 pub.p := by
  induction max_tries generalizing level w with
  | zero => simp [dh_keygen_loop] at h
  | succ n ih =>
    unfold dh_keygen_loop at h ⊢
    dsimp only at h ⊢
    split_ifs at h ⊢
    all_goals first
      | rfl
      | (simp at h; done)
      | exact ih _ _ h

/-- A DH or DSA key stored by the DH case of `generate_keys` on a parameter
set of three slots satisfies `verify_priv_params`. -/
theorem dh_store_valid (E : Env) (algo : gnutls_pk_algorithm_t)
    (params key : gnutls_pk_params_st) (x y : Nat)
    (halgo : algo = GNUTLS_PK_DH ∨ algo = GNUTLS_PK_DSA)
    (hnr : params.params_nr = 3)
    (hy : y = mpz_powm (TOMPZ (params.get DSA_G)) x (TOMPZ (params.get DSA_P)))
    (hk : key.params = ((params.put DSA_Y (some y)).put DSA_X (some x)).params)
    (hkn : key.params_nr = params.params_nr + 2) :
    wrap_nettle_pk_verify_priv_params E algo key = 0 := by
  have hg : ∀ j, key.get j = ((params.put DSA_Y (some y)).put DSA_X (some x)).get j := by
    intro j
    unfold gnutls_pk_params_st.get
    rw [hk]
  have hP := hg DSA_P
  have hG := hg DSA_G
  have hX := hg DSA_X
  have hY := hg DSA_Y
  rw [get_put, get_put] at hP hG hX hY
  simp only [DSA_P, DSA_G, DSA_X, DSA_Y] at hP hG hX hY hy
  simp only [Nat.reduceEqDiff, if_false, if_true] at hP hG hX hY
  rw [hnr] at hkn
  rcases halgo with rfl | rfl
  all_goals
    unfold wrap_nettle_pk_verify_priv_params
    simp only [DSA_P, DSA_G, DSA_X, DSA_Y, hP, hG, hX, hY, hkn, DSA_PRIVATE_PARAMS, TOMPZ,
      Option.getD_some, _gnutls_mpi_powm]
    unfold mpz_powm TOMPZ at hy
    simp [← hy]

/-- What the DH case of `generate_keys` stores when it succeeds: a private
`x` and the public `g^x mod p`, in two further slots. -/
theorem generate_keys_dh_out (E : Env) (algo : gnutls_pk_algorithm_t) (level : Nat)
    (params : gnutls_pk_params_st) (rnd_func : RndFunc) (na : Bool) (w : World)
    (hb : 0 ≤ (generate_keys_dh E algo level params rnd_func na w).ret) :
    ∃ x y, y = mpz_powm (TOMPZ (params.get DSA_G)) x (TOMPZ (params.get DSA_P)) ∧
      (generate_keys_dh E algo level params rnd_func na w).out.params
        = ((params.put DSA_Y (some y)).put DSA_X (some x)).params ∧
      (generate_keys_dh E algo level params rnd_func na w).out.params_nr
        = params.params_nr + 2 := by
  have hloop := dh_keygen_loop_pub E rnd_func
    { p := TOMPZ (params.get DSA_P), q := TOMPZ (params.get DSA_Q),
      g := TOMPZ (params.get DSA_G) } (params.get DSA_Q).isSome 3 level w
  generalize hr : generate_keys_dh E algo level params rnd_func na w = r at hb ⊢
  unfold generate_keys_dh at hr
  simp only at hr
  generalize dh_keygen_loop E rnd_func
    { p := TOMPZ (params.get DSA_P), q := TOMPZ (params.get DSA_Q),
      g := TOMPZ (params.get DSA_G) } (params.get DSA_Q).isSome 3 level w = l at hr hloop
  split_ifs at hr
  all_goals subst hr
  all_goals dsimp only at hb
  all_goals first
    | omega
    | (exact absurd hb (by decide))
    | exact ⟨l.2.1, l.2.2.1, hloop (by omega), rfl, rfl⟩

/-- A key generated by the DH case of `generate_keys` from a parameter set of
three slots satisfies `verify_priv_params`. -/
theorem generate_keys_dh_valid (E : Env) (algo : gnutls_pk_algorithm_t) (level : Nat)
    (params : gnutls_pk_params_st) (rnd_func : RndFunc) (na : Bool) (w : World)
    (halgo : algo = GNUTLS_PK_DH ∨ algo = GNUTLS_PK_DSA) (hnr : params.params_nr = 3)
    (hb : 0 ≤ (generate_keys_dh E algo level params rnd_func na w).ret) :
    wrap_nettle_pk_verify_priv_params E algo
      { (generate_keys_dh E algo level params rnd_func na w).out with algo := algo } = 0 := by
  obtain ⟨x, y, hy, hp, hn⟩ := generate_keys_dh_out E algo level params rnd_func na w hb
  exact dh_store_valid E algo params _ x y halgo hnr hy hp hn

/-- A key generated by the EdDSA case of `generate_keys` satisfies the check
of `verify_priv_params`, when the curve table has the entry of the algorithm
with the size key generation used. -/
theorem generate_keys_eddsa_valid (E : Env) (algo : gnutls_pk_algorithm_t) (level : Nat)
    (params : gnutls_pk_params_st) (rnd_level : gnutls_rnd_level_t) (w : World)
    (e : Nat × Nat)
    (htab : E._gnutls_ecc_curve_get_params (get_eddsa_curve algo) = some e)
    (hsz : e.1 = E.gnutls_ecc_curve_get_size (E.curve_of_level level))
    (hb : 0 ≤ (generate_keys_eddsa E algo level params rnd_level w).ret) :
    verify_priv_params_raw E (get_eddsa_curve algo) (eddsa_public_key E algo)
      { (generate_keys_eddsa E algo level params rnd_level w).out with algo := algo } = 0 := by
  unfold generate_keys_eddsa at hb ⊢
  dsimp only at hb ⊢
  split_ifs at hb ⊢ with h1 h2 h3 h4 h5
  all_goals first
    | (dsimp only at hb; first | omega | exact absurd hb (by decide))
    | skip
  unfold verify_priv_params_raw
  simp only [htab, hsz, Option.getD_some]
  cases hk : (eddsa_public_key E algo (E.gnutls_rnd w.tick rnd_level
      (E.gnutls_ecc_curve_get_size (E.curve_of_level level))).2).2 with
  | none => rfl
  | some v => simp [hk, h5]

/-- A key generated by the X25519/X448 case of `generate_keys` satisfies the
check of `verify_priv_params`, when the curve table has the entry of the
algorithm with the size key generation used. -/
theorem generate_keys_ecdh_x_valid (E : Env) (algo : gnutls_pk_algorithm_t) (level : Nat)
    (params : gnutls_pk_params_st) (rnd_level : gnutls_rnd_level_t) (w : World)
    (e : Nat × Nat)
    (htab : E._gnutls_ecc_curve_get_params (get_ecdh_curve algo) = some e)
    (hsz : e.1 = E.gnutls_ecc_curve_get_size (E.curve_of_level level))
    (hb : 0 ≤ (generate_keys_ecdh_x E algo level params rnd_level w).ret) :
    verify_priv_params_raw E (get_ecdh_curve algo) (edwards_curve_mul_g E algo)
      { (generate_keys_ecdh_x E algo level params rnd_level w).out with algo := algo } = 0 := by
  unfold generate_keys_ecdh_x at hb ⊢
  dsimp only at hb ⊢
  split_ifs at hb ⊢ with h1 h2 h3
  all_goals first
    | (dsimp only at hb; first | omega | exact absurd hb (by decide))
    | skip
  unfold verify_priv_params_raw
  simp only [htab, hsz, Option.getD_some]
  cases hk : (edwards_curve_mul_g E algo (E.gnutls_rnd w.tick rnd_level
      (E.gnutls_ecc_curve_get_size (E.curve_of_level level))).2).2 with
  | none => rfl
  | some v => simp [hk, h3]

/-- A successful ML-KEM key generation means the parameter set is compiled
in. -/
theorem ml_kem_generate_keypair_exists (E : Env) (algo : gnutls_pk_algorithm_t)
    (raw_priv raw_pub : gnutls_datum_t) (w : World)
    (h : 0 ≤ (ml_kem_generate_keypair E algo raw_priv raw_pub w).1) :
    ml_kem_exists E algo = true := by
  unfold ml_kem_generate_keypair at h
  unfold ml_kem_exists
  dsimp only at h
  split_ifs at h with h1
  all_goals first
    | (simp at h; done)
    | simpa using h1

/-- A successful ML-DSA key generation means the parameter set is compiled
in. -/
theorem generate_keys_mldsa_exists (E : Env) (algo : gnutls_pk_algorithm_t)
    (params : gnutls_pk_params_st) (w : World) (b : Branch gnutls_pk_params_st)
    (h : generate_keys_mldsa E algo params w = Flow.cleanup b) (hb : 0 ≤ b.ret) :
    ml_dsa_exists E algo = true := by
  unfold generate_keys_mldsa at h
  dsimp only at h
  split_ifs at h with h1 h2
  all_goals first
    | (exact Flow.noConfusion h)
    | (injection h with h1; subst h1; dsimp only at hb; first | omega | skip)
  all_goals
    unfold ml_dsa_generate_keypair at hb
    unfold ml_dsa_exists
    dsimp only at hb
    split_ifs at hb with h3
    all_goals first
      | (simp at hb; done)
      | simpa using h3

/-- C18 (counterexample): an X25519 key generated in the sample environment
is refused by `verify_pub_params`, which has no case for the algorithm. -/
theorem generate_keys_x25519_pub_refused :
    (wrap_nettle_pk_generate_keys sampleEnv GNUTLS_PK_ECDH_X25519 6 {} false {}).1 = 0 ∧
      wrap_nettle_pk_verify_pub_params sampleEnv GNUTLS_PK_ECDH_X25519
        (wrap_nettle_pk_generate_keys sampleEnv GNUTLS_PK_ECDH_X25519 6 {} false {}).2.1
        = GNUTLS_E_INVALID_REQUEST := by
  decide

/-! ### C30: what a successful `verify_priv_params` says about the RSA modulus -/

/-- C30 (counterexample): `verify_priv_params` accepts an RSA parameter set
whose modulus is `p` alone, because it tests `p * q mod n = 0`; here
`n = 61`, `p = 61`, `q = 53`, and `n ≠ p * q`. -/
theorem verify_priv_params_rsa_modulus_is_p :
    wrap_nettle_pk_verify_priv_params sampleEnv GNUTLS_PK_RSA
        { params := [some 61, some 17, some 413, some 61, some 53, some 38, some 53, some 49],
          params_nr := 8, algo := GNUTLS_PK_RSA } = 0 ∧
      (61 : Nat) ≠ 61 * 53 := by
  decide

/-- C30 (amended): if `verify_priv_params` returns `0` on an RSA, RSA-PSS or
RSA-OAEP parameter set with modulus `n` and primes `p`, `q`, then `n` divides
`p * q`. -/
theorem verify_priv_params_rsa_modulus_divides (E : Env) (algo : gnutls_pk_algorithm_t)
    (params : gnutls_pk_params_st) (n p q : Nat)
    (halgo : algo = GNUTLS_PK_RSA ∨ algo = GNUTLS_PK_RSA_PSS ∨ algo = GNUTLS_PK_RSA_OAEP)
    (hn : params.get RSA_MODULUS = some n) (hp : params.get RSA_PRIME1 = some p)
    (hq : params.get RSA_PRIME2 = some q)
    (h : wrap_nettle_pk_verify_priv_params E algo params = 0) :
    n ∣ p * q := by
  have hw : wrap_nettle_pk_verify_priv_params E algo params = verify_priv_params_rsa E params := by
    rcases halgo with rfl | rfl | rfl <;> rfl
  rw [hw] at h
  by_contra hd
  have h0 : p * q % n ≠ 0 := fun h0 => hd (Nat.dvd_of_mod_eq_zero h0)
  unfold verify_priv_params_rsa at h
  simp only [hn, hp, hq, TOMPZ, Option.getD_some, _gnutls_mpi_mulm] at h
  split_ifs at h with h1 h2
  all_goals first
    | exact absurd h (by decide)
    | (simp [h0] at h2; done)

/-- C30 (witness): the sample RSA key is accepted, and its modulus `3233`
divides `61 * 53`. -/
theorem verify_priv_params_rsa_modulus_divides_witness : 3233 ∣ 61 * 53 :=
  verify_priv_params_rsa_modulus_divides sampleEnv GNUTLS_PK_RSA sampleRsaKey 3233 61 53
    (Or.inl rfl) rfl rfl rfl (by decide)

/-! ### C26: `generate_params` for the algorithms without parameters -/

/-- C26 (code): with the library not in an error state, `generate_params`
returns `0` and changes nothing but the recorded algorithm for RSA, RSA-PSS,
RSA-OAEP, ECDSA, Ed25519, Ed448, X25519, X448, the three GOST algorithms,
ML-KEM-768 and ML-DSA-44/65/87; for ML-KEM-1024, which its `switch` does not
list, it records the algorithm and returns `GNUTLS_E_INVALID_REQUEST`.  In
both cases no primitive is invoked and no state is written. -/
theorem generate_params_nothing (E : Env) (algo : gnutls_pk_algorithm_t) (level : Nat)
    (params : gnutls_pk_params_st) (w : World) (hw : HAVE_LIB_ERROR w = false) :
    (algo = GNUTLS_PK_RSA ∨ algo = GNUTLS_PK_RSA_PSS ∨ algo = GNUTLS_PK_RSA_OAEP ∨
        algo = GNUTLS_PK_ECDSA ∨ algo = GNUTLS_PK_EDDSA_ED25519 ∨
        algo = GNUTLS_PK_EDDSA_ED448 ∨ algo = GNUTLS_PK_ECDH_X25519 ∨
        algo = GNUTLS_PK_ECDH_X448 ∨ algo = GNUTLS_PK_GOST_01 ∨
        algo = GNUTLS_PK_GOST_12_256 ∨ algo = GNUTLS_PK_GOST_12_512 ∨
        algo = GNUTLS_PK_MLKEM768 ∨ algo = GNUTLS_PK_MLDSA44 ∨ algo = GNUTLS_PK_MLDSA65 ∨
        algo = GNUTLS_PK_MLDSA87 →
      wrap_nettle_pk_generate_params E algo level params w
        = (0, { params with algo := algo }, w)) ∧
    (algo = GNUTLS_PK_MLKEM1024 →
      wrap_nettle_pk_generate_params E algo level params w
        = (GNUTLS_E_INVALID_REQUEST, { params with algo := algo }, w)) := by
  constructor
  · intro h
    rcases h with h | h | h | h | h | h | h | h | h | h | h | h | h | h | h <;> subst h <;>
      simp [wrap_nettle_pk_generate_params, hw]
  · rintro rfl
    simp [wrap_nettle_pk_generate_params, hw]

/-- C26 (witness): `generate_params` for ML-KEM-1024 in the sample
environment fails with `GNUTLS_E_INVALID_REQUEST`, while `generate_keys`
for the same algorithm succeeds. -/
theorem generate_params_nothing_witness :
    wrap_nettle_pk_generate_params sampleEnv GNUTLS_PK_MLKEM1024 0 {} {}
        = (GNUTLS_E_INVALID_REQUEST, { algo := GNUTLS_PK_MLKEM1024 }, {}) ∧
      (wrap_nettle_pk_generate_keys sampleEnv GNUTLS_PK_MLKEM1024 0 {} false {}).1 = 0 :=
  ⟨(generate_params_nothing sampleEnv GNUTLS_PK_MLKEM1024 0 {} {} rfl).2 rfl, by decide⟩

/-! ### C24: the size guard of DH derive -/

/-- The halving count of zero is zero. -/
theorem bit_length_zero (fuel : Nat) : bit_length fuel 0 = 0 := by
  cases fuel <;> simp [bit_length]

/-- The bit length of `2 ^ k`, counted with enough fuel. -/
theorem bit_length_two_pow (k : Nat) : ∀ fuel, 2 ^ k ≤ fuel → bit_length fuel (2 ^ k) = k + 1 := by
  induction k with
  | zero =>
    intro fuel h
    cases fuel with
    | zero => simp at h
    | succ f => simp [bit_length, bit_length_zero]
  | succ k ih =>
    intro fuel h
    cases fuel with
    | zero => simp at h
    | succ f =>
      have hpos : 0 < 2 ^ k := Nat.two_pow_pos k
      have h2 : 2 ^ (k + 1) = 2 * 2 ^ k := by rw [pow_succ]; ring
      have hne : 2 ^ (k + 1) ≠ 0 := by omega
      have hdiv : 2 ^ (k + 1) / 2 = 2 ^ k := by omega
      have hf : 2 ^ k ≤ f := by omega
      simp only [bit_length, hne, if_false, hdiv, ih f hf]

/-- The number of bits of `2 ^ k` is `k + 1`. -/
theorem nbits_two_pow (k : Nat) : _gnutls_mpi_get_nbits (2 ^ k) = k + 1 := by
  have hpos : 0 < 2 ^ k := Nat.two_pow_pos k
  have hne : 2 ^ k ≠ 0 := by omega
  simp only [_gnutls_mpi_get_nbits, mpz_sizeinbase_2, hne, if_false]
  exact bit_length_two_pow k _ (le_refl _)

/-- C24 (code): in a DH derive call without nonce whose modulus `p` has no
bits or more than `MAX_DH_BITS` bits, derive returns
`GNUTLS_E_RECEIVED_ILLEGAL_PARAMETER` and leaves the output datum as it was;
no exponentiation is made when the private parameters hold no subgroup order
`q`; but when they hold one and the peer value `y` passes the range check
`1 < y < p - 1`, exactly one modular exponentiation `y ^ q mod p` with that
modulus has been performed, because the subgroup check precedes the size
guard. -/
theorem derive_dh_size_guard (E : Env) (out : gnutls_datum_t) (priv pub : gnutls_pk_params_st)
    (flags : Nat) (w : World)
    (hbits : _gnutls_mpi_get_nbits (TOMPZ (priv.get DH_P)) = 0 ∨
      MAX_DH_BITS E < _gnutls_mpi_get_nbits (TOMPZ (priv.get DH_P))) :
    (_wrap_nettle_pk_derive E GNUTLS_PK_DH out priv pub none flags w).1
        = GNUTLS_E_RECEIVED_ILLEGAL_PARAMETER ∧
      (_wrap_nettle_pk_derive E GNUTLS_PK_DH out priv pub none flags w).2.1 = out ∧
      (priv.get DH_Q = none →
        (_wrap_nettle_pk_derive E GNUTLS_PK_DH out priv pub none flags w).2.2.calls
          = w.calls) ∧
      (∀ q, priv.get DH_Q = some q → TOMPZ (pub.get DH_Y) ≠ 0 → TOMPZ (pub.get DH_Y) ≠ 1 →
        (TOMPZ (pub.get DH_Y) : Int) < (TOMPZ (priv.get DH_P) : Int) - 1 →
        (_wrap_nettle_pk_derive E GNUTLS_PK_DH out priv pub none flags w).2.2.calls
          = w.calls ++ [Prim.mpi_powm (TOMPZ (pub.get DH_Y)) q (TOMPZ (priv.get DH_P))]) := by
  have hb : (_gnutls_mpi_get_nbits (TOMPZ (priv.get DH_P)) == 0
      || decide (_gnutls_mpi_get_nbits (TOMPZ (priv.get DH_P)) > MAX_DH_BITS E)) = true := by
    rcases hbits with h | h
    · simp [h]
    · simp [h]
  simp only [_wrap_nettle_pk_derive, cleanup_fips_state_calls]
  generalize hr : derive_dh E out priv pub none flags w = r
  unfold derive_dh at hr
  simp only [Option.isSome_none, Bool.false_eq_true, if_false, hb, if_true] at hr
  refine ⟨?_, ?_, ?_, ?_⟩
  · split_ifs at hr <;> subst hr <;> rfl
  · split_ifs at hr <;> subst hr <;> rfl
  · intro hq
    rw [hq] at hr
    split_ifs at hr <;> subst hr <;> rfl
  · intro q hq h0 h1 hlt
    rw [hq] at hr
    have hge : ¬ ((TOMPZ (pub.get DH_Y) : Int) ≥ (TOMPZ (priv.get DH_P) : Int) - 1) := by omega
    have hc : (TOMPZ (pub.get DH_Y) == 1 || TOMPZ (pub.get DH_Y) == 0
        || decide ((TOMPZ (pub.get DH_Y) : Int) ≥ (TOMPZ (priv.get DH_P) : Int) - 1)) = false := by
      simp only [beq_iff_eq, h0, h1, hge, decide_False, Bool.or_self, Bool.or_false]
      simp [h0, h1]
    simp only [hc, Bool.false_eq_true, if_false] at hr
    split_ifs at hr <;> subst hr <;> rfl

set_option exponentiation.threshold 20000 in
/-- C24 (witness): with a modulus of 16385 bits, a subgroup order and the peer
value 2, derive in the sample environment (`MAX_DH_BITS = 16384`) fails after
having computed `2 ^ 5 mod p`. -/
theorem derive_dh_size_guard_witness :
    (_wrap_nettle_pk_derive sampleEnv GNUTLS_PK_DH {}
        { params := [some (2 ^ 16384), some 5, some 2, none, some 3], params_nr := 5 }
        { params := [some (2 ^ 16384), some 5, some 2, some 2], params_nr := 4 }
        none 0 {}).1 = GNUTLS_E_RECEIVED_ILLEGAL_PARAMETER ∧
      (_wrap_nettle_pk_derive sampleEnv GNUTLS_PK_DH {}
        { params := [some (2 ^ 16384), some 5, some 2, none, some 3], params_nr := 5 }
        { params := [some (2 ^ 16384), some 5, some 2, some 2], params_nr := 4 }
        none 0 {}).2.2.calls = [Prim.mpi_powm 2 5 (2 ^ 16384)] :=
  have h := derive_dh_size_guard sampleEnv {}
    { params := [some (2 ^ 16384), some 5, some 2, none, some 3], params_nr := 5 }
    { params := [some (2 ^ 16384), some 5, some 2, some 2], params_nr := 4 } 0 {}
    (Or.inr (by
      show 16384 < _gnutls_mpi_get_nbits (2 ^ 16384)
      rw [nbits_two_pow]
      decide))
  ⟨h.1, h.2.2.2 5 rfl (by decide) (by decide) (by decide)⟩

/-! ### C27, C28: the DH key-generation loop -/

/-- One pass of the DH key-generation loop, in terms of the candidate it
draws. -/
theorem dh_keygen_loop_succ (E : Env) (rnd_func : RndFunc) (pub : dsa_params) (have_q : Bool)
    (n level : Nat) (w : World) :
    dh_keygen_loop E rnd_func pub have_q (n + 1) level w =
      (if n == 0 then
        (GNUTLS_E_RANDOM_FAILED, dh_keygen_candidate E rnd_func pub have_q level w)
      else if HAVE_LIB_ERROR (dh_keygen_candidate E rnd_func pub have_q level w).2.2 then
        (GNUTLS_E_LIB_IN_ERROR_STATE, dh_keygen_candidate E rnd_func pub have_q level w)
      else if (dh_keygen_candidate E rnd_func pub have_q level w).2.1 == 1 then
        dh_keygen_loop E rnd_func pub have_q n (dh_keygen_level E pub have_q level)
          (dh_keygen_candidate E rnd_func pub have_q level w).2.2
      else (0, dh_keygen_candidate E rnd_func pub have_q level w)) := rfl

/-- A candidate of the DH key-generation loop has `y = g^x mod p`. -/
theorem dh_keygen_candidate_pub (E : Env) (rnd_func : RndFunc) (pub : dsa_params)
    (have_q : Bool) (level : Nat) (w : World) :
    (dh_keygen_candidate E rnd_func pub have_q level w).2.1
      = mpz_powm pub.g (dh_keygen_candidate E rnd_func pub have_q level w).1 pub.p := rfl

/-- With `q` present, a candidate exponent is one more than a value drawn
below `q - 2`. -/
theorem dh_keygen_candidate_priv (E : Env) (rnd_func : RndFunc) (pub : dsa_params)
    (level : Nat) (w : World) :
    (dh_keygen_candidate E rnd_func pub true level w).1
      = (E.nettle_mpz_random w.tick rnd_func (pub.q - 2)).out + 1 := rfl

/-- What a successful run of the DH key-generation loop hands back: a public
value `y = g^x mod p` different from `1`, and, when `q` is present, an `x` that
is one more than a value `nettle_mpz_random` drew below `q - 2`. -/
theorem dh_keygen_loop_success (E : Env) (rnd_func : RndFunc) (pub : dsa_params)
    (have_q : Bool) (max_tries level : Nat) (w : World)
    (h : 0 ≤ (dh_keygen_loop E rnd_func pub have_q max_tries level w).1) :
    (dh_keygen_loop E rnd_func pub have_q max_tries level w).2.2.1
        = mpz_powm pub.g (dh_keygen_loop E rnd_func pub have_q max_tries level w).2.1 pub.p ∧
      (dh_keygen_loop E rnd_func pub have_q max_tries level w).2.2.1 ≠ 1 ∧
      (have_q = true → ∃ t,
        (dh_keygen_loop E rnd_func pub have_q max_tries level w).2.1
          = (E.nettle_mpz_random t rnd_func (pub.q - 2)).out + 1) := by
  induction max_tries generalizing level w with
  | zero =>
    have h0 : (dh_keygen_loop E rnd_func pub have_q 0 level w).1 = GNUTLS_E_RANDOM_FAILED := rfl
    rw [h0] at h
    exact absurd h (by decide)
  | succ n ih =>
    rw [dh_keygen_loop_succ] at h ⊢
    split_ifs at h ⊢ with h1 h2 h3
    · dsimp only at h
      exact absurd h (by decide)
    · dsimp only at h
      exact absurd h (by decide)
    · exact ih _ _ h
    · refine ⟨dh_keygen_candidate_pub _ _ _ _ _ _, by simpa using h3, ?_⟩
      rintro rfl
      exact ⟨w.tick, dh_keygen_candidate_priv _ _ _ _ _⟩

/-- What the DH case of `generate_keys` stores when it succeeds with a
subgroup order `q` present. -/
theorem generate_keys_dh_out_q (E : Env) (algo : gnutls_pk_algorithm_t) (level : Nat)
    (params : gnutls_pk_params_st) (rnd_func : RndFunc) (na : Bool) (w : World) (q : Nat)
    (hq : params.get DSA_Q = some q)
    (hb : 0 ≤ (generate_keys_dh E algo level params rnd_func na w).ret) :
    ∃ x y t, y = mpz_powm (TOMPZ (params.get DSA_G)) x (TOMPZ (params.get DSA_P)) ∧ y ≠ 1 ∧
      x = (E.nettle_mpz_random t rnd_func (q - 2)).out + 1 ∧
      (generate_keys_dh E algo level params rnd_func na w).out.params
        = ((params.put DSA_Y (some y)).put DSA_X (some x)).params := by
  have hloop := dh_keygen_loop_success E rnd_func
    { p := TOMPZ (params.get DSA_P), q := TOMPZ (params.get DSA_Q),
      g := TOMPZ (params.get DSA_G) } (params.get DSA_Q).isSome 3 level w
  generalize hr : generate_keys_dh E algo level params rnd_func na w = r at hb ⊢
  unfold generate_keys_dh at hr
  simp only at hr
  generalize dh_keygen_loop E rnd_func
    { p := TOMPZ (params.get DSA_P), q := TOMPZ (params.get DSA_Q),
      g := TOMPZ (params.get DSA_G) } (params.get DSA_Q).isSome 3 level w = l at hr hloop
  have hqq : TOMPZ (params.get DSA_Q) = q := by simp [hq, TOMPZ]
  have hsome : (params.get DSA_Q).isSome = true := by simp [hq]
  simp only [hqq] at hloop
  split_ifs at hr
  all_goals subst hr
  all_goals dsimp only at hb
  all_goals first
    | omega
    | (exact absurd hb (by decide))
    | (obtain ⟨h1, h2, h3⟩ := hloop (by omega)
       obtain ⟨t, ht⟩ := h3 hsome
       exact ⟨l.2.1, l.2.2.1, t, h1, h2, ht, rfl⟩)

/-- C27: on a successful DH `generate_keys` call, or DSA call outside FIPS
mode, with a subgroup order `q ≥ 3` present and a random source that returns
values below the bound it is given, the stored private exponent `x` satisfies
`1 ≤ x ≤ q - 2`, the stored public value is `y = g^x mod p`, and `y ≠ 1`. -/
theorem generate_keys_dh_exponent_range (E : Env) (algo : gnutls_pk_algorithm_t) (level : Nat)
    (params : gnutls_pk_params_st) (ephemeral : Bool) (w : World) (q : Nat)
    (halgo : algo = GNUTLS_PK_DH ∨ (algo = GNUTLS_PK_DSA ∧ E.fips_mode_enabled = false))
    (hq : params.get DSA_Q = some q) (hq3 : 3 ≤ q)
    (hrnd : ∀ t rf n, 0 < n → (E.nettle_mpz_random t rf n).out < n)
    (hret : (wrap_nettle_pk_generate_keys E algo level params ephemeral w).1 = 0) :
    ∃ x, (wrap_nettle_pk_generate_keys E algo level params ephemeral w).2.1.get DSA_X = some x ∧
      1 ≤ x ∧ x ≤ q - 2 ∧
      (wrap_nettle_pk_generate_keys E algo level params ephemeral w).2.1.get DSA_Y
        = some (TOMPZ (params.get DSA_G) ^ x % TOMPZ (params.get DSA_P)) ∧
      TOMPZ (params.get DSA_G) ^ x % TOMPZ (params.get DSA_P) ≠ 1 := by
  obtain ⟨b, hsw, hb, hout⟩ := generate_keys_success E algo level params ephemeral w hret
  have hbe : b = generate_keys_dh E algo level params
      (if ephemeral then RndFunc.rnd_tmpkey_func else RndFunc.rnd_key_func) false w := by
    rcases halgo with rfl | ⟨rfl, hf⟩
    · have h2 : generate_keys_switch E GNUTLS_PK_DH level params ephemeral w
          = Flow.cleanup _ := rfl
      rw [hsw] at h2
      injection h2
    · have h2 : generate_keys_switch E GNUTLS_PK_DSA level params ephemeral w
          = Flow.cleanup (generate_keys_dh E GNUTLS_PK_DSA level params
              (if ephemeral then RndFunc.rnd_tmpkey_func else RndFunc.rnd_key_func)
              false w) := by
        unfold generate_keys_switch
        simp [hf]
      rw [hsw] at h2
      injection h2
  rw [hbe] at hb
  obtain ⟨x, y, t, hy, hy1, hx, hp⟩ := generate_keys_dh_out_q E algo level params _ false w q hq hb
  have hg : ∀ j, (wrap_nettle_pk_generate_keys E algo level params ephemeral w).2.1.get j
      = ((params.put DSA_Y (some y)).put DSA_X (some x)).get j := by
    intro j
    rw [hout, hbe]
    unfold gnutls_pk_params_st.get
    rw [← hp]
  have hlt := hrnd t (if ephemeral then RndFunc.rnd_tmpkey_func else RndFunc.rnd_key_func)
    (q - 2) (by omega)
  refine ⟨x, ?_, by omega, by omega, ?_, ?_⟩
  · rw [hg, get_put]
    simp
  · rw [hg, get_put, get_put]
    simp only [DSA_X, DSA_Y, Nat.reduceEqDiff, if_false, if_true]
    rw [hy]
    rfl
  · unfold mpz_powm at hy
    rw [← hy]
    exact hy1

/-- The sample random source returns values below its bound. -/
theorem sampleEnv_mpz_random (t : Nat) (rf : RndFunc) (n : Nat) (h : 0 < n) :
    (sampleEnv.nettle_mpz_random t rf n).out < n :=
  Nat.mod_lt _ h

/-- C27 (witness): a DH key generated in the sample environment over the prime
23 with `q = 11`. -/
theorem generate_keys_dh_exponent_range_witness :
    ∃ x, (wrap_nettle_pk_generate_keys sampleEnv GNUTLS_PK_DH 0 (sampleDhDomain (some 11))
          false {}).2.1.get DSA_X = some x ∧
      1 ≤ x ∧ x ≤ 11 - 2 ∧
      (wrap_nettle_pk_generate_keys sampleEnv GNUTLS_PK_DH 0 (sampleDhDomain (some 11))
          false {}).2.1.get DSA_Y
        = some (TOMPZ ((sampleDhDomain (some 11)).get DSA_G) ^ x
            % TOMPZ ((sampleDhDomain (some 11)).get DSA_P)) ∧
      TOMPZ ((sampleDhDomain (some 11)).get DSA_G) ^ x
        % TOMPZ ((sampleDhDomain (some 11)).get DSA_P) ≠ 1 :=
  generate_keys_dh_exponent_range sampleEnv GNUTLS_PK_DH 0 (sampleDhDomain (some 11)) false {}
    11 (Or.inl rfl) rfl (by decide) sampleEnv_mpz_random (by decide)

/-- C28 (code): the DH key-generation loop started with `max_tries = 3` draws
at most three candidates.  It returns the first or the second candidate when
that one has `y ≠ 1` and the library is not in an error state; the third
candidate is drawn and exponentiated, but the loop then fails with
`GNUTLS_E_RANDOM_FAILED` whatever `y` it has, because `max_tries` has reached
zero before `y` is examined. -/
theorem dh_keygen_loop_three (E : Env) (rnd_func : RndFunc) (pub : dsa_params) (have_q : Bool)
    (level : Nat) (w : World) :
    dh_keygen_loop E rnd_func pub have_q 3 level w =
      (if HAVE_LIB_ERROR (dh_keygen_candidate E rnd_func pub have_q level w).2.2 then
        (GNUTLS_E_LIB_IN_ERROR_STATE, dh_keygen_candidate E rnd_func pub have_q level w)
      else if (dh_keygen_candidate E rnd_func pub have_q level w).2.1 ≠ 1 then
        (0, dh_keygen_candidate E rnd_func pub have_q level w)
      else if HAVE_LIB_ERROR (dh_keygen_candidate E rnd_func pub have_q
          (dh_keygen_level E pub have_q level)
          (dh_keygen_candidate E rnd_func pub have_q level w).2.2).2.2 then
        (GNUTLS_E_LIB_IN_ERROR_STATE, dh_keygen_candidate E rnd_func pub have_q
          (dh_keygen_level E pub have_q level)
          (dh_keygen_candidate E rnd_func pub have_q level w).2.2)
      else if (dh_keygen_candidate E rnd_func pub have_q
          (dh_keygen_level E pub have_q level)
          (dh_keygen_candidate E rnd_func pub have_q level w).2.2).2.1 ≠ 1 then
        (0, dh_keygen_candidate E rnd_func pub have_q
          (dh_keygen_level E pub have_q level)
          (dh_keygen_candidate E rnd_func pub have_q level w).2.2)
      else
        (GNUTLS_E_RANDOM_FAILED, dh_keygen_candidate E rnd_func pub have_q
          (dh_keygen_level E pub have_q (dh_keygen_level E pub have_q level))
          (dh_keygen_candidate E rnd_func pub have_q
            (dh_keygen_level E pub have_q level)
            (dh_keygen_candidate E rnd_func pub have_q level w).2.2).2.2)) := by
  rw [dh_keygen_loop_succ, dh_keygen_loop_succ, dh_keygen_loop_succ]
  split_ifs <;> simp_all

/-- C28 (example): over the prime 23 with generator 2 and no `q`, when the
first two exponents drawn are `0` and the third is `1`, the third candidate has
`y = 2 ≠ 1`, three candidates have been drawn, and `generate_keys` fails with
`GNUTLS_E_RANDOM_FAILED`. -/
theorem generate_keys_dh_third_candidate_lost :
    (wrap_nettle_pk_generate_keys thirdDrawEnv GNUTLS_PK_DH 0 (sampleDhDomain none) false {}).1
        = GNUTLS_E_RANDOM_FAILED ∧
      (wrap_nettle_pk_generate_keys thirdDrawEnv GNUTLS_PK_DH 0 (sampleDhDomain none) false
        {}).2.2.calls
        = [Prim.mpz_random, Prim.mpi_powm 2 0 23, Prim.mpz_random, Prim.mpi_powm 2 0 23,
            Prim.mpz_random, Prim.mpi_powm 2 1 23] ∧
      mpz_powm 2 1 23 ≠ 1 := by
  decide

/-! ### C25: the retries of provable RSA key generation -/

/-- A primitive that ran advances the clock by one. -/
theorem after_tick (w : World) (p : Prim) (rf : RndFunc) (u : RndUse) :
    (w.after p rf u).tick = w.tick + 1 := by
  simp [World.tick]

/-- One pass of the retry loop of provable RSA key generation. -/
theorem rsa_provable_retry_succ (E : Env) (rnd_func : RndFunc) (level n : Nat)
    (params : gnutls_pk_params_st) (w : World) :
    rsa_provable_retry E rnd_func level (n + 1) params w =
      (if (E.rsa_generate_fips186_4_keypair w.tick 65537 rnd_func E.MAX_PVP_SEED_SIZE level).ret
            != 1 && n != 0 then
        rsa_provable_retry E rnd_func level n
          { params with
            seed_size := (E.rsa_generate_fips186_4_keypair w.tick 65537 rnd_func
              E.MAX_PVP_SEED_SIZE level).out.2.length,
            seed := (E.rsa_generate_fips186_4_keypair w.tick 65537 rnd_func
              E.MAX_PVP_SEED_SIZE level).out.2 }
          (w.after Prim.rsa_generate_fips186_4_keypair rnd_func
            (E.rsa_generate_fips186_4_keypair w.tick 65537 rnd_func E.MAX_PVP_SEED_SIZE
              level).rnd)
      else
        ((E.rsa_generate_fips186_4_keypair w.tick 65537 rnd_func E.MAX_PVP_SEED_SIZE level).ret,
          (E.rsa_generate_fips186_4_keypair w.tick 65537 rnd_func E.MAX_PVP_SEED_SIZE
            level).out.1,
          { params with
            seed_size := (E.rsa_generate_fips186_4_keypair w.tick 65537 rnd_func
              E.MAX_PVP_SEED_SIZE level).out.2.length,
            seed := (E.rsa_generate_fips186_4_keypair w.tick 65537 rnd_func
              E.MAX_PVP_SEED_SIZE level).out.2 },
          w.after Prim.rsa_generate_fips186_4_keypair rnd_func
            (E.rsa_generate_fips186_4_keypair w.tick 65537 rnd_func E.MAX_PVP_SEED_SIZE
              level).rnd)) := rfl

/-- The retry loop started with three attempts: the value it ends with and the
invocations it made, in terms of the three successive runs of the generator. -/
theorem rsa_provable_retry_three (E : Env) (rnd_func : RndFunc) (level : Nat)
    (params : gnutls_pk_params_st) (w : World) :
    (rsa_provable_retry E rnd_func level 3 params w).1 =
        (if (E.rsa_generate_fips186_4_keypair w.tick 65537 rnd_func E.MAX_PVP_SEED_SIZE
              level).ret = 1 then 1
          else if (E.rsa_generate_fips186_4_keypair (w.tick + 1) 65537 rnd_func
              E.MAX_PVP_SEED_SIZE level).ret = 1 then 1
          else (E.rsa_generate_fips186_4_keypair (w.tick + 2) 65537 rnd_func
              E.MAX_PVP_SEED_SIZE level).ret) ∧
      (rsa_provable_retry E rnd_func level 3 params w).2.2.2.calls =
        w.calls ++ List.replicate
          (if (E.rsa_generate_fips186_4_keypair w.tick 65537 rnd_func E.MAX_PVP_SEED_SIZE
              level).ret = 1 then 1
            else if (E.rsa_generate_fips186_4_keypair (w.tick + 1) 65537 rnd_func
              E.MAX_PVP_SEED_SIZE level).ret = 1 then 2
            else 3) Prim.rsa_generate_fips186_4_keypair := by
  rw [rsa_provable_retry_succ]
  by_cases h0 : (E.rsa_generate_fips186_4_keypair w.tick 65537 rnd_func E.MAX_PVP_SEED_SIZE
      level).ret = 1
  · simp [h0]
  · rw [rsa_provable_retry_succ]
    simp only [after_tick]
    by_cases h1 : (E.rsa_generate_fips186_4_keypair (w.tick + 1) 65537 rnd_func
        E.MAX_PVP_SEED_SIZE level).ret = 1
    · simp [h0, h1]
    · rw [rsa_provable_retry_succ]
      simp [h0, h1, after_tick, List.replicate]

/-- In provable mode with an acceptable digest, the RSA case of `generate_keys`
leaves the world its one seeded run or its retry loop left, and ends with `0`
or `GNUTLS_E_PK_GENERATION_ERROR`. -/
theorem generate_keys_rsa_provable_world (E : Env) (level : Nat) (params : gnutls_pk_params_st)
    (rf : RndFunc) (w : World)
    (hprov : (has_flag params.pkflags GNUTLS_PK_FLAG_PROVABLE || E.fips_mode_enabled) = true)
    (hpa : (params.palgo != GNUTLS_DIG_UNKNOWN && params.palgo != GNUTLS_DIG_SHA384) = false) :
    (generate_keys_rsa E level params rf w).world =
        (if params.seed_size != 0 then w.call Prim.rsa_generate_fips186_4_keypair
          else (rsa_provable_retry E rf level 3
            { params with
              pkflags := params.pkflags ||| GNUTLS_PK_FLAG_PROVABLE,
              palgo := GNUTLS_DIG_SHA384 } w).2.2.2) ∧
      ((generate_keys_rsa E level params rf w).ret = 0 ∨
        (generate_keys_rsa E level params rf w).ret = GNUTLS_E_PK_GENERATION_ERROR) := by
  generalize hr : generate_keys_rsa E level params rf w = r
  unfold generate_keys_rsa at hr
  simp only [hprov, hpa, if_true, Bool.false_eq_true, if_false] at hr
  split_ifs at hr <;> subst hr <;> simp_all

/-- The value `generate_keys` returns from its `cleanup:` label, and the
primitives invoked up to there. -/
theorem generate_keys_cleanup_ret (ret : Int) (na : Bool) (params : gnutls_pk_params_st)
    (w : World) :
    (generate_keys_cleanup ret na params w).1
        = (if HAVE_LIB_ERROR w then GNUTLS_E_LIB_IN_ERROR_STATE else ret) ∧
      (generate_keys_cleanup ret na params w).2.2.calls = w.calls := by
  simp [generate_keys_cleanup]

/-- C25 (counterexample): when the random generator fails inside the seeded
generator, provable RSA key generation invokes the generator three times and
reports `GNUTLS_E_LIB_IN_ERROR_STATE`, not `GNUTLS_E_PK_GENERATION_ERROR`. -/
theorem generate_keys_rsa_provable_rng_failure :
    (wrap_nettle_pk_generate_keys provableDownEnv GNUTLS_PK_RSA 2048
        { pkflags := GNUTLS_PK_FLAG_PROVABLE } false {}).1 = GNUTLS_E_LIB_IN_ERROR_STATE ∧
      (wrap_nettle_pk_generate_keys provableDownEnv GNUTLS_PK_RSA 2048
        { pkflags := GNUTLS_PK_FLAG_PROVABLE } false {}).2.2.calls
        = [Prim.rsa_generate_fips186_4_keypair, Prim.rsa_generate_fips186_4_keypair,
            Prim.rsa_generate_fips186_4_keypair] ∧
      GNUTLS_E_LIB_IN_ERROR_STATE ≠ GNUTLS_E_PK_GENERATION_ERROR := by
  decide

/-- C25 (amended): in provable RSA key generation (provable flag set or FIPS
mode on, digest unset or SHA-384) started with the library not in an error
state: (1) with an internally generated seed the seeded generator is invoked
once if the first run succeeds, twice if the first fails and the second
succeeds, and three times otherwise; (2) with a caller-supplied seed it is
invoked exactly once; (3) when the RSA case fails, `generate_keys` invokes
nothing further and returns `GNUTLS_E_PK_GENERATION_ERROR` if the library is
not in an error state at the end, and `GNUTLS_E_LIB_IN_ERROR_STATE` if it
is. -/
theorem generate_keys_rsa_provable_retries (E : Env) (algo : gnutls_pk_algorithm_t)
    (level : Nat) (params : gnutls_pk_params_st) (ephemeral : Bool) (w : World)
    (halgo : algo = GNUTLS_PK_RSA ∨ algo = GNUTLS_PK_RSA_PSS ∨ algo = GNUTLS_PK_RSA_OAEP)
    (hw : HAVE_LIB_ERROR w = false)
    (hec : (E.IS_EC algo && E.gnutls_ecc_curve_get_pk (E.curve_of_level level) != algo) = false)
    (hprov : (has_flag params.pkflags GNUTLS_PK_FLAG_PROVABLE || E.fips_mode_enabled) = true)
    (hpalgo : params.palgo = GNUTLS_DIG_UNKNOWN ∨ params.palgo = GNUTLS_DIG_SHA384) :
    (params.seed_size = 0 →
      (generate_keys_rsa E level params
          (if ephemeral then RndFunc.rnd_tmpkey_func else RndFunc.rnd_key_func) w).world.calls
        = w.calls ++ List.replicate
          (if (E.rsa_generate_fips186_4_keypair w.tick 65537
                (if ephemeral then RndFunc.rnd_tmpkey_func else RndFunc.rnd_key_func)
                E.MAX_PVP_SEED_SIZE level).ret = 1 then 1
            else if (E.rsa_generate_fips186_4_keypair (w.tick + 1) 65537
                (if ephemeral then RndFunc.rnd_tmpkey_func else RndFunc.rnd_key_func)
                E.MAX_PVP_SEED_SIZE level).ret = 1 then 2
            else 3) Prim.rsa_generate_fips186_4_keypair) ∧
    (params.seed_size ≠ 0 →
      (generate_keys_rsa E level params
          (if ephemeral then RndFunc.rnd_tmpkey_func else RndFunc.rnd_key_func) w).world.calls
        = w.calls ++ [Prim.rsa_generate_fips186_4_keypair]) ∧
    ((generate_keys_rsa E level params
          (if ephemeral then RndFunc.rnd_tmpkey_func else RndFunc.rnd_key_func) w).ret < 0 →
      (wrap_nettle_pk_generate_keys E algo level params ephemeral w).1
          = (if HAVE_LIB_ERROR (generate_keys_rsa E level params
                (if ephemeral then RndFunc.rnd_tmpkey_func else RndFunc.rnd_key_func) w).world
              then GNUTLS_E_LIB_IN_ERROR_STATE else GNUTLS_E_PK_GENERATION_ERROR) ∧
        (wrap_nettle_pk_generate_keys E algo level params ephemeral w).2.2.calls
          = (generate_keys_rsa E level params
              (if ephemeral then RndFunc.rnd_tmpkey_func else RndFunc.rnd_key_func)
              w).world.calls) := by
  have hpa : (params.palgo != GNUTLS_DIG_UNKNOWN && params.palgo != GNUTLS_DIG_SHA384) = false := by
    rcases hpalgo with h | h <;> simp [h]
  have hsw : generate_keys_switch E algo level params ephemeral w
      = Flow.cleanup (generate_keys_rsa E level params
          (if ephemeral then RndFunc.rnd_tmpkey_func else RndFunc.rnd_key_func) w) := by
    rcases halgo with rfl | rfl | rfl <;> rfl
  have hb := generate_keys_rsa_provable_world E level params
    (if ephemeral then RndFunc.rnd_tmpkey_func else RndFunc.rnd_key_func) w hprov hpa
  refine ⟨?_, ?_, ?_⟩
  · intro hs
    rw [hb.1]
    simp only [hs, bne_self_eq_false, Bool.false_eq_true, if_false]
    exact (rsa_provable_retry_three E _ level _ w).2
  · intro hs
    rw [hb.1]
    simp [hs]
  · intro hneg
    have hret : (generate_keys_rsa E level params
        (if ephemeral then RndFunc.rnd_tmpkey_func else RndFunc.rnd_key_func) w).ret
        = GNUTLS_E_PK_GENERATION_ERROR := by
      rcases hb.2 with h | h
      · omega
      · exact h
    unfold wrap_nettle_pk_generate_keys
    rw [hsw]
    simp only [hw, hec, hneg, if_true, Bool.false_eq_true, if_false]
    rw [(generate_keys_cleanup_ret _ _ _ _).1, (generate_keys_cleanup_ret _ _ _ _).2, hret]
    exact ⟨rfl, rfl⟩

/-- C25 (witness): provable RSA key generation in the sample environment, whose
seeded generator succeeds at once: one invocation. -/
theorem generate_keys_rsa_provable_retries_witness :
    (generate_keys_rsa sampleEnv 2048 { pkflags := GNUTLS_PK_FLAG_PROVABLE }
        (if false then RndFunc.rnd_tmpkey_func else RndFunc.rnd_key_func) {}).world.calls
      = ({} : World).calls ++ List.replicate
          (if (sampleEnv.rsa_generate_fips186_4_keypair ({} : World).tick 65537
                (if false then RndFunc.rnd_tmpkey_func else RndFunc.rnd_key_func)
                sampleEnv.MAX_PVP_SEED_SIZE 2048).ret = 1 then 1
            else if (sampleEnv.rsa_generate_fips186_4_keypair (({} : World).tick + 1) 65537
                (if false then RndFunc.rnd_tmpkey_func else RndFunc.rnd_key_func)
                sampleEnv.MAX_PVP_SEED_SIZE 2048).ret = 1 then 2
            else 3) Prim.rsa_generate_fips186_4_keypair :=
  (generate_keys_rsa_provable_retries sampleEnv GNUTLS_PK_RSA 2048
    { pkflags := GNUTLS_PK_FLAG_PROVABLE } false {} (Or.inl rfl) rfl rfl rfl (Or.inl rfl)).1 rfl

/-! ### C29: the output datum of a failed derive -/

/-- A failed DH derive hands back the output datum as it was. -/
theorem derive_dh_error_out (E : Env) (out : gnutls_datum_t) (priv pub : gnutls_pk_params_st)
    (nonce : Option gnutls_datum_t) (flags : Nat) (w : World)
    (h : (derive_dh E out priv pub nonce flags w).ret < 0) :
    (derive_dh E out priv pub nonce flags w).out = out := by
  generalize hr : derive_dh E out priv pub nonce flags w = r at h ⊢
  unfold derive_dh at hr
  simp only at hr
  split_ifs at hr
  all_goals subst hr
  all_goals dsimp only at h
  all_goals first
    | rfl
    | (exact absurd h (by decide))

/-- A failed X25519 or X448 derive hands back an empty output datum when it
was given one. -/
theorem derive_ecdh_x_error_out (E : Env) (algo : gnutls_pk_algorithm_t) (out : gnutls_datum_t)
    (priv pub : gnutls_pk_params_st) (nonce : Option gnutls_datum_t) (w : World)
    (halgo : algo = GNUTLS_PK_ECDH_X25519 ∨ algo = GNUTLS_PK_ECDH_X448)
    (hout : out.data = none)
    (h : (derive_ecdh_x E algo out priv pub nonce w).ret < 0) :
    (derive_ecdh_x E algo out priv pub nonce w).out.data = none := by
  generalize hr : derive_ecdh_x E algo out priv pub nonce w = r at h ⊢
  unfold derive_ecdh_x at hr
  have hm : ∀ n p, (edwards_curve_mul E algo n p).1 = 0 := by
    intro n p
    rcases halgo with rfl | rfl <;> rfl
  simp only [hm] at hr
  split_ifs at hr
  all_goals subst hr
  all_goals dsimp only at h
  all_goals first
    | exact hout
    | rfl
    | (exact absurd h (by decide))
    | omega

/-- A failed GOST derive hands back an empty output datum. -/
theorem derive_gost_error_out (E : Env) (out : gnutls_datum_t) (priv pub : gnutls_pk_params_st)
    (nonce : Option gnutls_datum_t) (w : World)
    (h : (derive_gost E out priv pub nonce w).ret < 0) :
    (derive_gost E out priv pub nonce w).out.data = none := by
  generalize hr : derive_gost E out priv pub nonce w = r at h ⊢
  unfold derive_gost at hr
  simp only at hr
  cases hc : get_supported_gost_curve priv.curve with
  | none =>
    simp only [hc] at hr
    subst hr
    rfl
  | some curve =>
    cases nonce with
    | none =>
      simp only [hc] at hr
      subst hr
      rfl
    | some ukm =>
      simp only [hc] at hr
      split_ifs at hr
      all_goals subst hr
      all_goals dsimp only at h
      all_goals first
        | rfl
        | (exact absurd h (by decide))

/-- The curve tables have an order and a modulus for every supported NIST
curve. -/
theorem nist_curve_tables (gc : gnutls_ecc_curve_t) (c : ecc_curve)
    (h : get_supported_nist_curve gc = some c) :
    ∃ n p, get_supported_nist_curve_order gc = some n ∧
      get_supported_nist_curve_modulus gc = some p := by
  cases gc <;> simp [get_supported_nist_curve] at h <;> exact ⟨_, _, rfl, rfl⟩

/-- The validation block of FIPS mode returns `0` when `ecc_point_set` accepts
the shared point `R` and `(n - 1) * R = -R`. -/
theorem derive_ec_fips_checks_pass (E : Env) (priv : gnutls_pk_params_st) (curve : ecc_curve)
    (d : Nat) (Q : Nat × Nat) (w : World) (n p : Nat)
    (ho : get_supported_nist_curve_order priv.curve = some n)
    (hm : get_supported_nist_curve_modulus priv.curve = some p)
    (hset : E.ecc_point_set curve (E.ecc_point_mul curve d Q).1 (E.ecc_point_mul curve d Q).2
      = true)
    (hx : (E.ecc_point_mul curve (n - 1) (E.ecc_point_mul curve d Q)).1
      = (E.ecc_point_mul curve d Q).1)
    (hy : ((E.ecc_point_mul curve (n - 1) (E.ecc_point_mul curve d Q)).2 : Int)
      = (p : Int) - ((E.ecc_point_mul curve d Q).2 : Int)) :
    (derive_ec_fips_checks E priv curve d Q w).1 = 0 := by
  unfold derive_ec_fips_checks
  simp [ho, hm, hset, hx, hy]

/-- A failed NIST ECDH derive hands back an empty output datum, the arithmetic
provider being taken to multiply an accepted point by an accepted scalar into
a point that is `(0, 0)` or that `ecc_point_set` accepts and that satisfies
`(n - 1) * R = -R`. -/
theorem derive_ec_error_out (E : Env) (out : gnutls_datum_t) (priv pub : gnutls_pk_params_st)
    (nonce : Option gnutls_datum_t) (w : World)
    (hprov : ∀ c n p x y k, get_supported_nist_curve priv.curve = some c →
      get_supported_nist_curve_order priv.curve = some n →
      get_supported_nist_curve_modulus priv.curve = some p →
      E.ecc_point_set c x y = true → E.ecc_scalar_set c k = true →
      ¬ ((E.ecc_point_mul c k (x, y)).1 = 0 ∧ (E.ecc_point_mul c k (x, y)).2 = 0) →
      E.ecc_point_set c (E.ecc_point_mul c k (x, y)).1 (E.ecc_point_mul c k (x, y)).2 = true ∧
        (E.ecc_point_mul c (n - 1) (E.ecc_point_mul c k (x, y))).1
          = (E.ecc_point_mul c k (x, y)).1 ∧
        ((E.ecc_point_mul c (n - 1) (E.ecc_point_mul c k (x, y))).2 : Int)
          = (p : Int) - ((E.ecc_point_mul c k (x, y)).2 : Int))
    (h : (derive_ec E out priv pub nonce w).ret < 0) :
    (derive_ec E out priv pub nonce w).out.data = none := by
  generalize hr : derive_ec E out priv pub nonce w = r at h ⊢
  unfold derive_ec at hr
  simp only at hr
  cases hc : get_supported_nist_curve priv.curve with
  | none =>
    simp only [hc] at hr
    split_ifs at hr <;> subst hr <;> rfl
  | some curve =>
    obtain ⟨n, p, ho, hm⟩ := nist_curve_tables priv.curve curve hc
    simp only [hc] at hr
    split_ifs at hr with h1 h2 h3 h4 h5
    all_goals subst hr
    all_goals dsimp only at h
    all_goals first
      | rfl
      | (exact absurd h (by decide))
      | skip
    exfalso
    have hps : E.ecc_point_set curve (TOMPZ (pub.get ECC_X)) (TOMPZ (pub.get ECC_Y)) = true := by
      unfold _ecc_params_to_pubkey at h2
      by_contra hne
      simp [hne] at h2
    have hsc : E.ecc_scalar_set curve (TOMPZ (priv.get ECC_K)) = true := by
      unfold _ecc_params_to_privkey at h3
      by_contra hne
      simp [hne] at h3
    have hr0 : ¬ ((E.ecc_point_mul curve (TOMPZ (priv.get ECC_K))
          (TOMPZ (pub.get ECC_X), TOMPZ (pub.get ECC_Y))).1 = 0 ∧
        (E.ecc_point_mul curve (TOMPZ (priv.get ECC_K))
          (TOMPZ (pub.get ECC_X), TOMPZ (pub.get ECC_Y))).2 = 0) := by
      intro hz
      apply h4
      unfold ecc_shared_secret
      simp [hz.1, hz.2]
    obtain ⟨q1, q2, q3⟩ := hprov curve n p _ _ _ hc ho hm hps hsc hr0
    rw [derive_ec_fips_checks_pass E priv curve _ _ _ n p ho hm q1 q2 q3] at h
    exact absurd h (by decide)

/-- C29: for every derive call (DH, NIST ECDH, X25519/X448, GOST, or an
algorithm derive has no case for) started with an empty output datum, the
arithmetic provider being taken to multiply a point `ecc_point_set` accepts by
a scalar `ecc_scalar_set` accepts into a point that is `(0, 0)` or that
`ecc_point_set` accepts and that satisfies `(n - 1) * R = -R`: if derive
returns an error, the output datum it hands back is empty. -/
theorem derive_error_output (E : Env) (algo : gnutls_pk_algorithm_t) (out : gnutls_datum_t)
    (priv pub : gnutls_pk_params_st) (nonce : Option gnutls_datum_t) (flags : Nat) (w : World)
    (hout : out.data = none)
    (hprov : ∀ c n p x y k, get_supported_nist_curve priv.curve = some c →
      get_supported_nist_curve_order priv.curve = some n →
      get_supported_nist_curve_modulus priv.curve = some p →
      E.ecc_point_set c x y = true → E.ecc_scalar_set c k = true →
      ¬ ((E.ecc_point_mul c k (x, y)).1 = 0 ∧ (E.ecc_point_mul c k (x, y)).2 = 0) →
      E.ecc_point_set c (E.ecc_point_mul c k (x, y)).1 (E.ecc_point_mul c k (x, y)).2 = true ∧
        (E.ecc_point_mul c (n - 1) (E.ecc_point_mul c k (x, y))).1
          = (E.ecc_point_mul c k (x, y)).1 ∧
        ((E.ecc_point_mul c (n - 1) (E.ecc_point_mul c k (x, y))).2 : Int)
          = (p : Int) - ((E.ecc_point_mul c k (x, y)).2 : Int))
    (hret : (_wrap_nettle_pk_derive E algo out priv pub nonce flags w).1 < 0) :
    (_wrap_nettle_pk_derive E algo out priv pub nonce flags w).2.1.data = none := by
  cases algo
  case GNUTLS_PK_DH =>
    have h := derive_dh_error_out E out priv pub nonce flags w hret
    show (derive_dh E out priv pub nonce flags w).out.data = none
    rw [h]
    exact hout
  case GNUTLS_PK_ECDSA => exact derive_ec_error_out E out priv pub nonce w hprov hret
  case GNUTLS_PK_ECDH_X25519 =>
    exact derive_ecdh_x_error_out E _ out priv pub nonce w (Or.inl rfl) hout hret
  case GNUTLS_PK_ECDH_X448 =>
    exact derive_ecdh_x_error_out E _ out priv pub nonce w (Or.inr rfl) hout hret
  case GNUTLS_PK_GOST_01 => exact derive_gost_error_out E out priv pub nonce w hret
  case GNUTLS_PK_GOST_12_256 => exact derive_gost_error_out E out priv pub nonce w hret
  case GNUTLS_PK_GOST_12_512 => exact derive_gost_error_out E out priv pub nonce w hret
  all_goals exact hout

/-- In the environment `p256Env` the multiple of an accepted point is an
accepted point `R` with `(n - 1) * R = -R`. -/
theorem p256Env_valid : ∀ c n p x y k,
    get_supported_nist_curve sampleEcPriv.curve = some c →
    get_supported_nist_curve_order sampleEcPriv.curve = some n →
    get_supported_nist_curve_modulus sampleEcPriv.curve = some p →
    p256Env.ecc_point_set c x y = true → p256Env.ecc_scalar_set c k = true →
    ¬ ((p256Env.ecc_point_mul c k (x, y)).1 = 0 ∧ (p256Env.ecc_point_mul c k (x, y)).2 = 0) →
    p256Env.ecc_point_set c (p256Env.ecc_point_mul c k (x, y)).1
        (p256Env.ecc_point_mul c k (x, y)).2 = true ∧
      (p256Env.ecc_point_mul c (n - 1) (p256Env.ecc_point_mul c k (x, y))).1
        = (p256Env.ecc_point_mul c k (x, y)).1 ∧
      ((p256Env.ecc_point_mul c (n - 1) (p256Env.ecc_point_mul c k (x, y))).2 : Int)
        = (p : Int) - ((p256Env.ecc_point_mul c k (x, y)).2 : Int) := by
  intro c n p x y k hc ho hm hset _ _
  simp only [sampleEcPriv, get_supported_nist_curve, Option.some.injEq] at hc
  simp only [sampleEcPriv, get_supported_nist_curve_order, Option.some.injEq] at ho
  simp only [sampleEcPriv, get_supported_nist_curve_modulus, Option.some.injEq] at hm
  subst hc ho hm
  simp only [p256Env, Bool.and_eq_true, beq_iff_eq, decide_eq_true_eq,
    get_supported_nist_curve_modulus, Option.getD_some, true_and] at hset
  obtain ⟨hy0, hy⟩ := hset
  simp only [p256Env, get_supported_nist_curve_order, get_supported_nist_curve_modulus,
    Option.getD_some, beq_self_eq_true, if_true, true_and]
  by_cases hk : k = 0xffffffff00000000ffffffffffffffffbce6faada7179e84f3b9cac2fc632551 - 1
  · subst hk
    simp only [beq_self_eq_true, if_true, Bool.and_eq_true, decide_eq_true_eq, true_and]
    exact ⟨⟨by omega, by omega⟩, by omega⟩
  · have hk2 : (k == 0xffffffff00000000ffffffffffffffffbce6faada7179e84f3b9cac2fc632551 - 1)
        = false := by simpa using hk
    simp only [hk2, Bool.false_eq_true, if_false, beq_self_eq_true, if_true, Bool.and_eq_true,
      decide_eq_true_eq, true_and]
    exact ⟨⟨hy0, hy⟩, by omega⟩

/-- C29 (witness): in the environment `p256Env`, a P-256 derive call with the
peer point `(0, 0)`, which `ecc_point_set` refuses, returns an error and hands
back an empty output datum. -/
theorem derive_error_output_witness :
    (_wrap_nettle_pk_derive p256Env GNUTLS_PK_ECDSA {} sampleEcPriv zeroEcPub none 0 {}).1 < 0 ∧
      (_wrap_nettle_pk_derive p256Env GNUTLS_PK_ECDSA {} sampleEcPriv zeroEcPub none 0
        {}).2.1.data = none :=
  ⟨by decide,
    derive_error_output p256Env GNUTLS_PK_ECDSA {} sampleEcPriv zeroEcPub none 0 {} rfl
      p256Env_valid (by decide)⟩

/-! ### C22: the front gate of the entry points -/

/-- The value returned through the shared tail, and the primitives invoked up
to there, for a body that left the world as it found it. -/
theorem cleanup_and_return_early {α : Type} (ret : Int) (na : Bool) (out : α) (w : World)
    (hw : HAVE_LIB_ERROR w = false) :
    (cleanup_and_return ⟨ret, na, out, w⟩).1 = ret ∧
      (cleanup_and_return ⟨ret, na, out, w⟩).2.1 = out ∧
      (cleanup_and_return ⟨ret, na, out, w⟩).2.2.calls = w.calls := by
  simp [cleanup_and_return, hw]

/-- The body of `sign` for an algorithm that `sign` has no case for. -/
theorem sign_body_unimplemented (E : Env) (algo : gnutls_pk_algorithm_t)
    (signature vdata : gnutls_datum_t) (pk_params : gnutls_pk_params_st)
    (sign_params : gnutls_x509_spki_st) (w : World)
    (h : algo ∉ [GNUTLS_PK_EDDSA_ED25519, GNUTLS_PK_EDDSA_ED448, GNUTLS_PK_GOST_01,
      GNUTLS_PK_GOST_12_256, GNUTLS_PK_GOST_12_512, GNUTLS_PK_ECDSA, GNUTLS_PK_DSA,
      GNUTLS_PK_RSA, GNUTLS_PK_RSA_PSS, GNUTLS_PK_MLDSA44, GNUTLS_PK_MLDSA65,
      GNUTLS_PK_MLDSA87]) :
    sign_body E algo signature vdata pk_params sign_params w =
      ⟨if E.IS_EC algo && E.gnutls_ecc_curve_get_pk pk_params.curve != algo
          then GNUTLS_E_ECC_UNSUPPORTED_CURVE else GNUTLS_E_INTERNAL_ERROR,
        false, signature, w⟩ := by
  have hre : (algo == GNUTLS_PK_DSA || algo == GNUTLS_PK_ECDSA) = false := by
    cases algo <;> simp at h <;> rfl
  unfold sign_body
  simp only [hre, Bool.false_and, Bool.false_eq_true, if_false]
  by_cases hc : (E.IS_EC algo && E.gnutls_ecc_curve_get_pk pk_params.curve != algo) = true
  · simp only [hc, if_true]
  · simp only [hc, if_false]
    cases algo <;> simp at h <;> rfl

/-- The body of `verify` for an algorithm that `verify` has no case for. -/
theorem verify_body_unimplemented (E : Env) (algo : gnutls_pk_algorithm_t)
    (vdata signature : gnutls_datum_t) (pk_params : gnutls_pk_params_st)
    (sign_params : gnutls_x509_spki_st) (w : World)
    (h : algo ∉ [GNUTLS_PK_EDDSA_ED25519, GNUTLS_PK_EDDSA_ED448, GNUTLS_PK_GOST_01,
      GNUTLS_PK_GOST_12_256, GNUTLS_PK_GOST_12_512, GNUTLS_PK_ECDSA, GNUTLS_PK_DSA,
      GNUTLS_PK_RSA, GNUTLS_PK_RSA_PSS, GNUTLS_PK_MLDSA44, GNUTLS_PK_MLDSA65,
      GNUTLS_PK_MLDSA87]) :
    verify_body E algo vdata signature pk_params sign_params w =
      ⟨if E.IS_EC algo && E.gnutls_ecc_curve_get_pk pk_params.curve != algo
          then GNUTLS_E_ECC_UNSUPPORTED_CURVE else GNUTLS_E_INTERNAL_ERROR,
        false, (), w⟩ := by
  unfold verify_body
  by_cases hc : (E.IS_EC algo && E.gnutls_ecc_curve_get_pk pk_params.curve != algo) = true
  · simp only [hc, if_true]
  · simp only [hc, if_false]
    cases algo <;> simp at h <;> rfl

/-- The body of `encrypt` for an algorithm that `encrypt` has no case for. -/
theorem encrypt_body_unimplemented (E : Env) (algo : gnutls_pk_algorithm_t)
    (ciphertext plaintext : gnutls_datum_t) (pk_params : gnutls_pk_params_st)
    (encrypt_params : gnutls_x509_spki_st) (w : World)
    (h : algo ∉ [GNUTLS_PK_RSA, GNUTLS_PK_RSA_OAEP]) :
    encrypt_body E algo ciphertext plaintext pk_params encrypt_params w =
      ⟨GNUTLS_E_INVALID_REQUEST, false, ciphertext, w⟩ := by
  unfold encrypt_body
  cases algo <;> simp at h <;> rfl

/-- The body of `decrypt` for an algorithm that `decrypt` has no case for. -/
theorem decrypt_body_unimplemented (E : Env) (algo : gnutls_pk_algorithm_t)
    (plaintext ciphertext : gnutls_datum_t) (pk_params : gnutls_pk_params_st)
    (encrypt_params : gnutls_x509_spki_st) (w : World)
    (h : algo ∉ [GNUTLS_PK_RSA, GNUTLS_PK_RSA_OAEP]) :
    decrypt_body E algo plaintext ciphertext pk_params encrypt_params w =
      ⟨GNUTLS_E_INTERNAL_ERROR, false, plaintext, w⟩ := by
  unfold decrypt_body
  cases algo <;> simp at h <;> rfl


/-- The curve check of `sign` and `verify`. -/
theorem front_gate_curve_sign_verify (E : Env) (algo : gnutls_pk_algorithm_t)
    (pk_params : gnutls_pk_params_st) (spki : gnutls_x509_spki_st) (d1 d2 : gnutls_datum_t)
    (w : World) (hw : HAVE_LIB_ERROR w = false)
    (hc : (E.IS_EC algo && E.gnutls_ecc_curve_get_pk pk_params.curve != algo) = true) :
    (_wrap_nettle_pk_sign E algo d1 d2 pk_params spki w).1 = GNUTLS_E_ECC_UNSUPPORTED_CURVE ∧
      (_wrap_nettle_pk_sign E algo d1 d2 pk_params spki w).2.2.calls = w.calls ∧
      (_wrap_nettle_pk_verify E algo d1 d2 pk_params spki w).1
        = GNUTLS_E_ECC_UNSUPPORTED_CURVE ∧
      (_wrap_nettle_pk_verify E algo d1 d2 pk_params spki w).2.2.calls = w.calls := by
  have hs : sign_body E algo d1 d2 pk_params spki w
      = ⟨GNUTLS_E_ECC_UNSUPPORTED_CURVE, false, d1, w⟩ := by
    unfold sign_body
    simp only [hc, if_true]
  have hv : verify_body E algo d1 d2 pk_params spki w
      = ⟨GNUTLS_E_ECC_UNSUPPORTED_CURVE, false, (), w⟩ := by
    unfold verify_body
    simp only [hc, if_true]
  simp only [_wrap_nettle_pk_sign, _wrap_nettle_pk_verify, hw, Bool.false_eq_true, if_false,
    hs, hv]
  exact ⟨(cleanup_and_return_early _ _ _ w hw).1, (cleanup_and_return_early _ _ _ w hw).2.2,
    (cleanup_and_return_early _ _ _ w hw).1, (cleanup_and_return_early _ _ _ w hw).2.2⟩

/-- The curve check of `generate_keys`. -/
theorem front_gate_curve_generate_keys (E : Env) (algo : gnutls_pk_algorithm_t)
    (pk_params : gnutls_pk_params_st) (level : Nat) (ephemeral : Bool)
    (w : World) (hw : HAVE_LIB_ERROR w = false)
    (hc : (E.IS_EC algo && E.gnutls_ecc_curve_get_pk (E.curve_of_level level) != algo) = true) :
    (wrap_nettle_pk_generate_keys E algo level pk_params ephemeral w).1
        = GNUTLS_E_ECC_UNSUPPORTED_CURVE ∧
      (wrap_nettle_pk_generate_keys E algo level pk_params ephemeral w).2.2.calls = w.calls := by
  unfold wrap_nettle_pk_generate_keys
  simp only [hw, hc, Bool.false_eq_true, if_false, if_true]
  rw [(generate_keys_cleanup_ret _ _ _ _).1, (generate_keys_cleanup_ret _ _ _ _).2]
  simp [hw]

/-- An algorithm `sign` and `verify` have no case for. -/
theorem front_gate_sign_verify (E : Env) (algo : gnutls_pk_algorithm_t)
    (pk_params : gnutls_pk_params_st) (spki : gnutls_x509_spki_st) (d1 d2 : gnutls_datum_t)
    (w : World) (hw : HAVE_LIB_ERROR w = false)
    (h : algo ∉ [GNUTLS_PK_EDDSA_ED25519, GNUTLS_PK_EDDSA_ED448, GNUTLS_PK_GOST_01,
      GNUTLS_PK_GOST_12_256, GNUTLS_PK_GOST_12_512, GNUTLS_PK_ECDSA, GNUTLS_PK_DSA,
      GNUTLS_PK_RSA, GNUTLS_PK_RSA_PSS, GNUTLS_PK_MLDSA44, GNUTLS_PK_MLDSA65,
      GNUTLS_PK_MLDSA87]) :
    (_wrap_nettle_pk_sign E algo d1 d2 pk_params spki w).1
        = (if E.IS_EC algo && E.gnutls_ecc_curve_get_pk pk_params.curve != algo
            then GNUTLS_E_ECC_UNSUPPORTED_CURVE else GNUTLS_E_INTERNAL_ERROR) ∧
      (_wrap_nettle_pk_sign E algo d1 d2 pk_params spki w).2.2.calls = w.calls ∧
      (_wrap_nettle_pk_verify E algo d1 d2 pk_params spki w).1
        = (if E.IS_EC algo && E.gnutls_ecc_curve_get_pk pk_params.curve != algo
            then GNUTLS_E_ECC_UNSUPPORTED_CURVE else GNUTLS_E_INTERNAL_ERROR) ∧
      (_wrap_nettle_pk_verify E algo d1 d2 pk_params spki w).2.2.calls = w.calls := by
  simp only [_wrap_nettle_pk_sign, _wrap_nettle_pk_verify, hw, Bool.false_eq_true, if_false,
    sign_body_unimplemented E algo d1 d2 pk_params spki w h,
    verify_body_unimplemented E algo d1 d2 pk_params spki w h]
  exact ⟨(cleanup_and_return_early _ _ _ w hw).1, (cleanup_and_return_early _ _ _ w hw).2.2,
    (cleanup_and_return_early _ _ _ w hw).1, (cleanup_and_return_early _ _ _ w hw).2.2⟩

/-- An algorithm `encrypt`, `decrypt` and `decrypt2` have no case for. -/
theorem front_gate_encrypt_decrypt (E : Env) (algo : gnutls_pk_algorithm_t)
    (pk_params : gnutls_pk_params_st) (spki : gnutls_x509_spki_st) (d1 d2 : gnutls_datum_t)
    (buf : Option (List Nat)) (n : Nat) (w : World) (hw : HAVE_LIB_ERROR w = false)
    (h : algo ∉ [GNUTLS_PK_RSA, GNUTLS_PK_RSA_OAEP]) :
    (_wrap_nettle_pk_encrypt E algo d1 d2 pk_params spki w).1 = GNUTLS_E_INVALID_REQUEST ∧
      (_wrap_nettle_pk_encrypt E algo d1 d2 pk_params spki w).2.2.calls = w.calls ∧
      (_wrap_nettle_pk_decrypt E algo d1 d2 pk_params spki w).1 = GNUTLS_E_INTERNAL_ERROR ∧
      (_wrap_nettle_pk_decrypt E algo d1 d2 pk_params spki w).2.2.calls = w.calls ∧
      (_wrap_nettle_pk_decrypt2 E algo d1 buf n pk_params spki w).1 = GNUTLS_E_INTERNAL_ERROR ∧
      (_wrap_nettle_pk_decrypt2 E algo d1 buf n pk_params spki w).2.2.calls = w.calls := by
  have h2 : (algo != GNUTLS_PK_RSA && algo != GNUTLS_PK_RSA_OAEP) = true := by
    cases algo <;> simp at h <;> rfl
  simp only [_wrap_nettle_pk_encrypt, _wrap_nettle_pk_decrypt, _wrap_nettle_pk_decrypt2, hw,
    Bool.false_eq_true, if_false, h2, Bool.true_or, if_true,
    encrypt_body_unimplemented E algo d1 d2 pk_params spki w h,
    decrypt_body_unimplemented E algo d1 d2 pk_params spki w h]
  exact ⟨(cleanup_and_return_early _ _ _ w hw).1, (cleanup_and_return_early _ _ _ w hw).2.2,
    (cleanup_and_return_early _ _ _ w hw).1, (cleanup_and_return_early _ _ _ w hw).2.2,
    trivial, rfl⟩

/-- An algorithm `derive` has no case for. -/
theorem front_gate_derive (E : Env) (algo : gnutls_pk_algorithm_t)
    (priv pub : gnutls_pk_params_st) (d1 : gnutls_datum_t) (nonce : Option gnutls_datum_t)
    (flags : Nat) (w : World)
    (h : algo ∉ [GNUTLS_PK_DH, GNUTLS_PK_ECDSA, GNUTLS_PK_ECDH_X25519, GNUTLS_PK_ECDH_X448,
      GNUTLS_PK_GOST_01, GNUTLS_PK_GOST_12_256, GNUTLS_PK_GOST_12_512]) :
    (_wrap_nettle_pk_derive E algo d1 priv pub nonce flags w).1 = GNUTLS_E_INTERNAL_ERROR ∧
      (_wrap_nettle_pk_derive E algo d1 priv pub nonce flags w).2.2.calls = w.calls := by
  cases algo <;> simp at h <;> exact ⟨rfl, rfl⟩

/-- An algorithm `encaps` and `decaps` have no case for. -/
theorem front_gate_kem (E : Env) (algo : gnutls_pk_algorithm_t) (d1 d2 d3 : gnutls_datum_t)
    (w : World) (h : algo ∉ [GNUTLS_PK_MLKEM768, GNUTLS_PK_MLKEM1024]) :
    _wrap_nettle_pk_encaps E algo d1 d2 d3 w = (GNUTLS_E_UNKNOWN_ALGORITHM, d1, d2, w) ∧
      _wrap_nettle_pk_decaps E algo d1 d2 d3 w = (GNUTLS_E_UNKNOWN_ALGORITHM, d1, w) := by
  cases algo <;> simp at h <;> exact ⟨rfl, rfl⟩

/-- An algorithm `generate_params` has no case for. -/
theorem front_gate_generate_params (E : Env) (algo : gnutls_pk_algorithm_t)
    (pk_params : gnutls_pk_params_st) (level : Nat) (w : World)
    (hw : HAVE_LIB_ERROR w = false)
    (h : algo ∉ [GNUTLS_PK_DSA, GNUTLS_PK_DH, GNUTLS_PK_RSA_PSS, GNUTLS_PK_RSA_OAEP,
      GNUTLS_PK_RSA, GNUTLS_PK_ECDSA, GNUTLS_PK_EDDSA_ED25519, GNUTLS_PK_EDDSA_ED448,
      GNUTLS_PK_ECDH_X25519, GNUTLS_PK_ECDH_X448, GNUTLS_PK_GOST_01, GNUTLS_PK_GOST_12_256,
      GNUTLS_PK_GOST_12_512, GNUTLS_PK_MLKEM768, GNUTLS_PK_MLDSA44, GNUTLS_PK_MLDSA65,
      GNUTLS_PK_MLDSA87]) :
    (wrap_nettle_pk_generate_params E algo level pk_params w).1 = GNUTLS_E_INVALID_REQUEST ∧
      (wrap_nettle_pk_generate_params E algo level pk_params w).2.2 = w := by
  unfold wrap_nettle_pk_generate_params
  simp only [hw, Bool.false_eq_true, if_false]
  cases algo <;> simp at h <;> exact ⟨rfl, rfl⟩

/-- An algorithm `generate_keys` and `verify_priv_params` have no case for. -/
theorem front_gate_generate_keys (E : Env) (algo : gnutls_pk_algorithm_t)
    (pk_params : gnutls_pk_params_st) (level : Nat) (ephemeral : Bool) (w : World)
    (hw : HAVE_LIB_ERROR w = false)
    (h : algo ∉ [GNUTLS_PK_DSA, GNUTLS_PK_DH, GNUTLS_PK_RSA_PSS, GNUTLS_PK_RSA_OAEP,
      GNUTLS_PK_RSA, GNUTLS_PK_ECDSA, GNUTLS_PK_EDDSA_ED25519, GNUTLS_PK_EDDSA_ED448,
      GNUTLS_PK_ECDH_X25519, GNUTLS_PK_ECDH_X448, GNUTLS_PK_GOST_01, GNUTLS_PK_GOST_12_256,
      GNUTLS_PK_GOST_12_512, GNUTLS_PK_MLKEM768, GNUTLS_PK_MLKEM1024, GNUTLS_PK_MLDSA44,
      GNUTLS_PK_MLDSA65, GNUTLS_PK_MLDSA87]) :
    (wrap_nettle_pk_generate_keys E algo level pk_params ephemeral w).1
        = (if E.IS_EC algo && E.gnutls_ecc_curve_get_pk (E.curve_of_level level) != algo
            then GNUTLS_E_ECC_UNSUPPORTED_CURVE else GNUTLS_E_INVALID_REQUEST) ∧
      (wrap_nettle_pk_generate_keys E algo level pk_params ephemeral w).2.2.calls = w.calls ∧
      wrap_nettle_pk_verify_priv_params E algo pk_params = GNUTLS_E_INVALID_REQUEST := by
  have hsw : generate_keys_switch E algo level pk_params ephemeral w
      = Flow.returned GNUTLS_E_INVALID_REQUEST pk_params w := by
    cases algo <;> simp at h <;> rfl
  refine ⟨?_, ?_, ?_⟩
  · unfold wrap_nettle_pk_generate_keys
    rw [hsw]
    simp only [hw, Bool.false_eq_true, if_false]
    split_ifs
    · rw [(generate_keys_cleanup_ret _ _ _ _).1]
      simp [hw]
    · rfl
  · unfold wrap_nettle_pk_generate_keys
    rw [hsw]
    simp only [hw, Bool.false_eq_true, if_false]
    split_ifs
    · rw [(generate_keys_cleanup_ret _ _ _ _).2]
    · rfl
  · cases algo <;> simp at h <;> rfl

/-- An algorithm `verify_pub_params` has no case for. -/
theorem front_gate_verify_pub (E : Env) (algo : gnutls_pk_algorithm_t)
    (pk_params : gnutls_pk_params_st)
    (h : algo ∉ [GNUTLS_PK_RSA, GNUTLS_PK_RSA_PSS, GNUTLS_PK_RSA_OAEP, GNUTLS_PK_DSA,
      GNUTLS_PK_EDDSA_ED25519, GNUTLS_PK_EDDSA_ED448, GNUTLS_PK_ECDSA, GNUTLS_PK_GOST_01,
      GNUTLS_PK_GOST_12_256, GNUTLS_PK_GOST_12_512]) :
    wrap_nettle_pk_verify_pub_params E algo pk_params = GNUTLS_E_INVALID_REQUEST := by
  cases algo <;> simp at h <;> rfl

/-- C22 (counterexample): `sign` for the unknown algorithm identifier returns
`GNUTLS_E_INTERNAL_ERROR`, the code of the internal-error kind, and `encrypt`
returns `GNUTLS_E_INVALID_REQUEST`. -/
theorem sign_unknown_algorithm_internal_error :
    (_wrap_nettle_pk_sign sampleEnv GNUTLS_PK_UNKNOWN {} { data := some [1], size := 1 } {} {}
        {}).1 = GNUTLS_E_INTERNAL_ERROR ∧
      (_wrap_nettle_pk_encrypt sampleEnv GNUTLS_PK_UNKNOWN {} { data := some [1], size := 1 } {}
        {} {}).1 = GNUTLS_E_INVALID_REQUEST ∧
      GNUTLS_E_INTERNAL_ERROR ≠ GNUTLS_E_UNKNOWN_PK_ALGORITHM ∧
      GNUTLS_E_INTERNAL_ERROR ≠ GNUTLS_E_UNKNOWN_ALGORITHM ∧
      GNUTLS_E_INTERNAL_ERROR ≠ GNUTLS_E_ECC_UNSUPPORTED_CURVE := by
  decide

/-- C22 (amended): with the library not in an error state, (1) `sign`,
`verify` and `generate_keys` reject a curve that does not belong to the
requested elliptic-curve algorithm with `GNUTLS_E_ECC_UNSUPPORTED_CURVE`;
(2) an algorithm an entry point has no case for is rejected with
`GNUTLS_E_INTERNAL_ERROR` by `derive`, `decrypt`, `decrypt2`, `sign` and
`verify`, with `GNUTLS_E_INVALID_REQUEST` by `encrypt`, `generate_params`,
`generate_keys`, `verify_priv_params` and `verify_pub_params`, and with
`GNUTLS_E_UNKNOWN_ALGORITHM` by `encaps` and `decaps` (for `sign`, `verify` and
`generate_keys` the curve check comes first).  In every case no primitive and
no random-source call has been made. -/
theorem front_gate_rejections (E : Env) (algo : gnutls_pk_algorithm_t)
    (pk_params : gnutls_pk_params_st) (spki : gnutls_x509_spki_st) (d1 d2 d3 : gnutls_datum_t)
    (nonce : Option gnutls_datum_t) (buf : Option (List Nat)) (n level flags : Nat)
    (ephemeral : Bool) (w : World) (hw : HAVE_LIB_ERROR w = false) :
    ((E.IS_EC algo && E.gnutls_ecc_curve_get_pk pk_params.curve != algo) = true →
      (_wrap_nettle_pk_sign E algo d1 d2 pk_params spki w).1 = GNUTLS_E_ECC_UNSUPPORTED_CURVE ∧
      (_wrap_nettle_pk_sign E algo d1 d2 pk_params spki w).2.2.calls = w.calls ∧
      (_wrap_nettle_pk_verify E algo d1 d2 pk_params spki w).1
        = GNUTLS_E_ECC_UNSUPPORTED_CURVE ∧
      (_wrap_nettle_pk_verify E algo d1 d2 pk_params spki w).2.2.calls = w.calls) ∧
    ((E.IS_EC algo && E.gnutls_ecc_curve_get_pk (E.curve_of_level level) != algo) = true →
      (wrap_nettle_pk_generate_keys E algo level pk_params ephemeral w).1
        = GNUTLS_E_ECC_UNSUPPORTED_CURVE ∧
      (wrap_nettle_pk_generate_keys E algo level pk_params ephemeral w).2.2.calls = w.calls) ∧
    (algo ∉ [GNUTLS_PK_EDDSA_ED25519, GNUTLS_PK_EDDSA_ED448, GNUTLS_PK_GOST_01,
        GNUTLS_PK_GOST_12_256, GNUTLS_PK_GOST_12_512, GNUTLS_PK_ECDSA, GNUTLS_PK_DSA,
        GNUTLS_PK_RSA, GNUTLS_PK_RSA_PSS, GNUTLS_PK_MLDSA44, GNUTLS_PK_MLDSA65,
        GNUTLS_PK_MLDSA87] →
      (_wrap_nettle_pk_sign E algo d1 d2 pk_params spki w).1
        = (if E.IS_EC algo && E.gnutls_ecc_curve_get_pk pk_params.curve != algo
            then GNUTLS_E_ECC_UNSUPPORTED_CURVE else GNUTLS_E_INTERNAL_ERROR) ∧
      (_wrap_nettle_pk_sign E algo d1 d2 pk_params spki w).2.2.calls = w.calls ∧
      (_wrap_nettle_pk_verify E algo d1 d2 pk_params spki w).1
        = (if E.IS_EC algo && E.gnutls_ecc_curve_get_pk pk_params.curve != algo
            then GNUTLS_E_ECC_UNSUPPORTED_CURVE else GNUTLS_E_INTERNAL_ERROR) ∧
      (_wrap_nettle_pk_verify E algo d1 d2 pk_params spki w).2.2.calls = w.calls) ∧
    (algo ∉ [GNUTLS_PK_RSA, GNUTLS_PK_RSA_OAEP] →
      (_wrap_nettle_pk_encrypt E algo d1 d2 pk_params spki w).1 = GNUTLS_E_INVALID_REQUEST ∧
      (_wrap_nettle_pk_encrypt E algo d1 d2 pk_params spki w).2.2.calls = w.calls ∧
      (_wrap_nettle_pk_decrypt E algo d1 d2 pk_params spki w).1 = GNUTLS_E_INTERNAL_ERROR ∧
      (_wrap_nettle_pk_decrypt E algo d1 d2 pk_params spki w).2.2.calls = w.calls ∧
      (_wrap_nettle_pk_decrypt2 E algo d1 buf n pk_params spki w).1 = GNUTLS_E_INTERNAL_ERROR ∧
      (_wrap_nettle_pk_decrypt2 E algo d1 buf n pk_params spki w).2.2.calls = w.calls) ∧
    (algo ∉ [GNUTLS_PK_DH, GNUTLS_PK_ECDSA, GNUTLS_PK_ECDH_X25519, GNUTLS_PK_ECDH_X448,
        GNUTLS_PK_GOST_01, GNUTLS_PK_GOST_12_256, GNUTLS_PK_GOST_12_512] →
      (_wrap_nettle_pk_derive E algo d1 pk_params pk_params nonce flags w).1
        = GNUTLS_E_INTERNAL_ERROR ∧
      (_wrap_nettle_pk_derive E algo d1 pk_params pk_params nonce flags w).2.2.calls
        = w.calls) ∧
    (algo ∉ [GNUTLS_PK_MLKEM768, GNUTLS_PK_MLKEM1024] →
      _wrap_nettle_pk_encaps E algo d1 d2 d3 w = (GNUTLS_E_UNKNOWN_ALGORITHM, d1, d2, w) ∧
      _wrap_nettle_pk_decaps E algo d1 d2 d3 w = (GNUTLS_E_UNKNOWN_ALGORITHM, d1, w)) ∧
    (algo ∉ [GNUTLS_PK_DSA, GNUTLS_PK_DH, GNUTLS_PK_RSA_PSS, GNUTLS_PK_RSA_OAEP, GNUTLS_PK_RSA,
        GNUTLS_PK_ECDSA, GNUTLS_PK_EDDSA_ED25519, GNUTLS_PK_EDDSA_ED448,
        GNUTLS_PK_ECDH_X25519, GNUTLS_PK_ECDH_X448, GNUTLS_PK_GOST_01, GNUTLS_PK_GOST_12_256,
        GNUTLS_PK_GOST_12_512, GNUTLS_PK_MLKEM768, GNUTLS_PK_MLDSA44, GNUTLS_PK_MLDSA65,
        GNUTLS_PK_MLDSA87] →
      (wrap_nettle_pk_generate_params E algo level pk_params w).1 = GNUTLS_E_INVALID_REQUEST ∧
      (wrap_nettle_pk_generate_params E algo level pk_params w).2.2 = w) ∧
    (algo ∉ [GNUTLS_PK_DSA, GNUTLS_PK_DH, GNUTLS_PK_RSA_PSS, GNUTLS_PK_RSA_OAEP, GNUTLS_PK_RSA,
        GNUTLS_PK_ECDSA, GNUTLS_PK_EDDSA_ED25519, GNUTLS_PK_EDDSA_ED448,
        GNUTLS_PK_ECDH_X25519, GNUTLS_PK_ECDH_X448, GNUTLS_PK_GOST_01, GNUTLS_PK_GOST_12_256,
        GNUTLS_PK_GOST_12_512, GNUTLS_PK_MLKEM768, GNUTLS_PK_MLKEM1024, GNUTLS_PK_MLDSA44,
        GNUTLS_PK_MLDSA65, GNUTLS_PK_MLDSA87] →
      (wrap_nettle_pk_generate_keys E algo level pk_params ephemeral w).1
        = (if E.IS_EC algo && E.gnutls_ecc_curve_get_pk (E.curve_of_level level) != algo
            then GNUTLS_E_ECC_UNSUPPORTED_CURVE else GNUTLS_E_INVALID_REQUEST) ∧
      (wrap_nettle_pk_generate_keys E algo level pk_params ephemeral w).2.2.calls = w.calls ∧
      wrap_nettle_pk_verify_priv_params E algo pk_params = GNUTLS_E_INVALID_REQUEST) ∧
    (algo ∉ [GNUTLS_PK_RSA, GNUTLS_PK_RSA_PSS, GNUTLS_PK_RSA_OAEP, GNUTLS_PK_DSA,
        GNUTLS_PK_EDDSA_ED25519, GNUTLS_PK_EDDSA_ED448, GNUTLS_PK_ECDSA, GNUTLS_PK_GOST_01,
        GNUTLS_PK_GOST_12_256, GNUTLS_PK_GOST_12_512] →
      wrap_nettle_pk_verify_pub_params E algo pk_params = GNUTLS_E_INVALID_REQUEST) := by
  exact ⟨front_gate_curve_sign_verify E algo pk_params spki d1 d2 w hw,
    front_gate_curve_generate_keys E algo pk_params level ephemeral w hw,
    front_gate_sign_verify E algo pk_params spki d1 d2 w hw,
    front_gate_encrypt_decrypt E algo pk_params spki d1 d2 buf n w hw,
    front_gate_derive E algo pk_params pk_params d1 nonce flags w,
    front_gate_kem E algo d1 d2 d3 w,
    front_gate_generate_params E algo pk_params level w hw,
    front_gate_generate_keys E algo pk_params level ephemeral w hw,
    front_gate_verify_pub E algo pk_params⟩

/-- C22 (witness): in the sample environment `sign` rejects the unknown
algorithm identifier with `GNUTLS_E_INTERNAL_ERROR` before any primitive is
invoked. -/
theorem front_gate_rejections_witness :
    (_wrap_nettle_pk_sign sampleEnv GNUTLS_PK_UNKNOWN {} {} {} {} {}).1
        = (if sampleEnv.IS_EC GNUTLS_PK_UNKNOWN
              && sampleEnv.gnutls_ecc_curve_get_pk ({} : gnutls_pk_params_st).curve
                != GNUTLS_PK_UNKNOWN
            then GNUTLS_E_ECC_UNSUPPORTED_CURVE else GNUTLS_E_INTERNAL_ERROR) ∧
      (_wrap_nettle_pk_sign sampleEnv GNUTLS_PK_UNKNOWN {} {} {} {} {}).2.2.calls
        = ({} : World).calls :=
  ⟨((front_gate_rejections sampleEnv GNUTLS_PK_UNKNOWN {} {} {} {} {} none none 0 0 0 false {}
      rfl).2.2.1 (by decide)).1,
    ((front_gate_rejections sampleEnv GNUTLS_PK_UNKNOWN {} {} {} {} {} none none 0 0 0 false {}
      rfl).2.2.1 (by decide)).2.1⟩

/-! ### C23: encrypt followed by decrypt -/

/-- A number is below two to the power of its bit length. -/
theorem lt_two_pow_bit_length : ∀ fuel a, a ≤ fuel → a < 2 ^ bit_length fuel a := by
  intro fuel
  induction fuel with
  | zero =>
    intro a h
    have : a = 0 := by omega
    subst this
    simp [bit_length]
  | succ f ih =>
    intro a h
    by_cases ha : a = 0
    · subst ha
      simp [bit_length]
    · simp only [bit_length, ha, if_false]
      have h2 : a / 2 ≤ f := by omega
      have h3 := ih (a / 2) h2
      rw [pow_succ]
      omega

/-- A number of at most `size` bytes is below `256 ^ size`. -/
theorem lt_of_sizeinbase_256 (a size : Nat) (h : nettle_mpz_sizeinbase_256_u a ≤ size) :
    a < 256 ^ size := by
  unfold nettle_mpz_sizeinbase_256_u _gnutls_mpi_get_nbits mpz_sizeinbase_2 at h
  by_cases ha : a = 0
  · subst ha
    exact Nat.pow_pos (by decide)
  · simp only [ha, if_false] at h
    have h1 := lt_two_pow_bit_length a a (le_refl a)
    have h2 : bit_length a a ≤ 8 * size := by omega
    have h3 : 2 ^ bit_length a a ≤ 2 ^ (8 * size) := Nat.pow_le_pow_right (by decide) h2
    have h4 : (2 : Nat) ^ (8 * size) = 256 ^ size := by
      rw [pow_mul]
      norm_num
    omega

/-- Scanning bytes after a value already read. -/
theorem foldl_scan (xs : List Nat) (a : Nat) :
    xs.foldl (fun a b => a * 256 + b) a = a * 256 ^ xs.length + mpi_scan xs := by
  induction xs generalizing a with
  | nil => simp [mpi_scan]
  | cons x xs ih =>
    simp only [List.foldl_cons, List.length_cons, mpi_scan]
    rw [ih, ih (0 * 256 + x)]
    ring

/-- The bytes `nettle_mpz_get_str_256` writes: the leading byte, then those of
the rest. -/
theorem get_str_256_succ (size a : Nat) :
    nettle_mpz_get_str_256 (size + 1) a
      = (a / 256 ^ size % 256) :: nettle_mpz_get_str_256 size a := by
  unfold nettle_mpz_get_str_256
  rw [List.range_succ_eq_map, List.map_cons, List.map_map]
  congr 1
  apply List.map_congr_left
  intro i _
  simp only [Function.comp_apply]
  congr 3
  omega

/-- The bytes `nettle_mpz_get_str_256` writes number `size`. -/
theorem get_str_256_length (size a : Nat) : (nettle_mpz_get_str_256 size a).length = size := by
  simp [nettle_mpz_get_str_256]

/-- Scanning the `size` bytes written for `a` gives `a` back, reduced modulo
`256 ^ size`. -/
theorem mpi_scan_get_str_256 (size a : Nat) :
    mpi_scan (nettle_mpz_get_str_256 size a) = a % 256 ^ size := by
  induction size with
  | zero => simp [nettle_mpz_get_str_256, mpi_scan, Nat.mod_one]
  | succ n ih =>
    rw [get_str_256_succ]
    unfold mpi_scan
    rw [List.foldl_cons, foldl_scan, ih, get_str_256_length]
    have hp : 0 < 256 ^ n := Nat.pow_pos (by decide)
    rw [pow_succ, Nat.mod_mul]
    simp only [zero_mul, zero_add]
    rw [Nat.mul_comm]
    omega

/-- A healthy run of a primitive with the callback the RSA paths select keeps
the library out of the error state. -/
theorem have_lib_error_after_ok (w : World) (p : Prim) (h : HAVE_LIB_ERROR w = false) :
    HAVE_LIB_ERROR (w.after p (select_nonce_func w) RndUse.ok) = false := by
  unfold select_nonce_func
  unfold HAVE_LIB_ERROR _gnutls_get_lib_state at h ⊢
  by_cases hs : w.lib_state = LIB_STATE_SELFTEST
  · simp [World.after, rnd_effect, rnd_nonce_func_fallback, _gnutls_get_lib_state, hs,
      World.call]
  · simp only [_gnutls_get_lib_state, beq_iff_eq, hs, if_false]
    simpa [World.after, rnd_effect, World.call] using h

/-- The PKCS#1 v1.5 case of `encrypt`, when it ends with `ret = 0`. -/
theorem encrypt_body_pkcs1 (E : Env) (algo : gnutls_pk_algorithm_t)
    (c0 plaintext : gnutls_datum_t) (pk_params : gnutls_pk_params_st)
    (ep : gnutls_x509_spki_st) (w : World)
    (ha : algo = GNUTLS_PK_RSA) (hk : pk_params.spki.pk ≠ GNUTLS_PK_RSA_OAEP)
    (h : (encrypt_body E algo c0 plaintext pk_params ep w).ret = 0) :
    E.rsa_pkcs1_encrypt_allowed = true ∧ ¬ (_rsa_params_to_pubkey E pk_params).1 < 0 ∧
      (encrypt_body E algo c0 plaintext pk_params ep w).out =
        { data := some ((_gnutls_mpi_bprint_size
            (E.rsa_encrypt w.tick (_rsa_params_to_pubkey E pk_params).2 (select_nonce_func w)
              plaintext.bytes).out (_rsa_params_to_pubkey E pk_params).2.size).getD
            (E.gnutls_malloc (_rsa_params_to_pubkey E pk_params).2.size)),
          size := (_rsa_params_to_pubkey E pk_params).2.size } ∧
      HAVE_LIB_ERROR (encrypt_body E algo c0 plaintext pk_params ep w).world = false := by
  subst ha
  have hk2 : (pk_params.spki.pk == GNUTLS_PK_RSA_OAEP) = false := by simpa using hk
  generalize hr : encrypt_body E GNUTLS_PK_RSA c0 plaintext pk_params ep w = r at h ⊢
  unfold encrypt_body at hr
  simp only [hk2, Bool.and_false, Bool.false_eq_true, if_false] at hr
  split_ifs at hr with h1 h2 h3
  all_goals subst hr
  all_goals dsimp only at h
  all_goals first
    | exact absurd h (by decide)
    | omega
    | skip
  have h3b := h3
  simp only [Bool.or_eq_true, not_or, Bool.not_eq_true] at h3b
  refine ⟨by simpa using h1, h2, ?_, h3b.2⟩
  simp only [_rsa_encrypt]
  have h4 : ¬ ((E.rsa_encrypt w.tick (_rsa_params_to_pubkey E pk_params).2 (select_nonce_func w)
      plaintext.bytes).ret == 0) = true := by
    intro h5
    apply h3
    simp [_rsa_encrypt, h5]
  simp [h4]

/-- The OAEP case of `encrypt`, when it ends with `ret = 0`. -/
theorem encrypt_body_oaep (E : Env) (algo : gnutls_pk_algorithm_t)
    (c0 plaintext : gnutls_datum_t) (pk_params : gnutls_pk_params_st)
    (ep : gnutls_x509_spki_st) (w : World)
    (ha : algo = GNUTLS_PK_RSA_OAEP ∨
      (algo = GNUTLS_PK_RSA ∧ pk_params.spki.pk = GNUTLS_PK_RSA_OAEP))
    (h : (encrypt_body E algo c0 plaintext pk_params ep w).ret = 0) :
    ¬ (_rsa_params_to_pubkey E pk_params).1 < 0 ∧
      (ep.rsa_oaep_dig = GNUTLS_DIG_SHA256 ∨ ep.rsa_oaep_dig = GNUTLS_DIG_SHA384 ∨
        ep.rsa_oaep_dig = GNUTLS_DIG_SHA512) ∧
      (encrypt_body E algo c0 plaintext pk_params ep w).out =
        { data := some (E.rsa_oaep_encrypt w.tick ep.rsa_oaep_dig
            (_rsa_params_to_pubkey E pk_params).2 (select_nonce_func w)
            ep.rsa_oaep_label.bytes plaintext.bytes).out,
          size := (_rsa_params_to_pubkey E pk_params).2.size } ∧
      HAVE_LIB_ERROR (encrypt_body E algo c0 plaintext pk_params ep w).world = false := by
  have hal : (if (algo == GNUTLS_PK_RSA && pk_params.spki.pk == GNUTLS_PK_RSA_OAEP) = true
      then GNUTLS_PK_RSA_OAEP else algo) = GNUTLS_PK_RSA_OAEP := by
    rcases ha with ha | ⟨ha, hk⟩
    · subst ha
      simp
    · subst ha
      simp [hk]
  generalize hr : encrypt_body E algo c0 plaintext pk_params ep w = r at h ⊢
  unfold encrypt_body at hr
  simp only [hal] at hr
  split_ifs at hr with h2 h3
  all_goals subst hr
  all_goals dsimp only at h
  all_goals first
    | exact absurd h (by decide)
    | omega
    | skip
  have hd : ep.rsa_oaep_dig = GNUTLS_DIG_SHA256 ∨ ep.rsa_oaep_dig = GNUTLS_DIG_SHA384 ∨
      ep.rsa_oaep_dig = GNUTLS_DIG_SHA512 := by
    by_contra hn
    apply h3
    have : (_rsa_oaep_encrypt E ep.rsa_oaep_dig (_rsa_params_to_pubkey E pk_params).2
        (select_nonce_func w) ep.rsa_oaep_label.bytes plaintext.bytes w).1 = 0 := by
      unfold _rsa_oaep_encrypt
      cases hdig : ep.rsa_oaep_dig <;> simp [hdig] at hn ⊢
    simp [this]
  have h3b := h3
  simp only [Bool.or_eq_true, not_or, Bool.not_eq_true] at h3b
  refine ⟨h2, hd, ?_, h3b.2⟩
  rcases hd with hd | hd | hd <;> simp [_rsa_oaep_encrypt, hd]

/-- The PKCS#1 v1.5 case of `decrypt` on the bytes written for a ciphertext
integer that the primitive turns back into the message. -/
theorem decrypt_body_pkcs1 (E : Env) (algo : gnutls_pk_algorithm_t)
    (p0 : gnutls_datum_t) (pk_params : gnutls_pk_params_st)
    (ep : gnutls_x509_spki_st) (w : World) (c : Nat) (m : List Nat)
    (ha : algo = GNUTLS_PK_RSA) (hk : ep.pk ≠ GNUTLS_PK_RSA_OAEP)
    (hallowed : E.rsa_pkcs1_encrypt_allowed = true)
    (hpub : ¬ (_rsa_params_to_pubkey E pk_params).1 < 0)
    (hw : HAVE_LIB_ERROR w = false)
    (hc0 : c ≠ 0) (hfit : nettle_mpz_sizeinbase_256_u c ≤ (_rsa_params_to_pubkey E pk_params).2.size)
    (hinv : E.rsa_decrypt_tr w.tick pk_params (select_nonce_func w)
      (_rsa_params_to_pubkey E pk_params).2.size c = ⟨1, m, RndUse.ok⟩) :
    (decrypt_body E algo p0
      { data := some ((_gnutls_mpi_bprint_size c (_rsa_params_to_pubkey E pk_params).2.size).getD
          (E.gnutls_malloc (_rsa_params_to_pubkey E pk_params).2.size)),
        size := (_rsa_params_to_pubkey E pk_params).2.size } pk_params ep w)
      = ⟨0, true, _gnutls_set_datum m,
          w.after Prim.rsa_decrypt_tr (select_nonce_func w) RndUse.ok⟩ := by
  subst ha
  have hk2 : (ep.pk == GNUTLS_PK_RSA_OAEP) = false := by simpa using hk
  have hlt := lt_of_sizeinbase_256 c _ hfit
  have hscan : _gnutls_mpi_init_scan_nz
      (nettle_mpz_get_str_256 (_rsa_params_to_pubkey E pk_params).2.size c)
      (_rsa_params_to_pubkey E pk_params).2.size = (0, some c) := by
    unfold _gnutls_mpi_init_scan_nz
    rw [List.take_of_length_le (le_of_eq (get_str_256_length _ _)), mpi_scan_get_str_256,
      Nat.mod_eq_of_lt hlt]
    simp [hc0]
  have hl := have_lib_error_after_ok w Prim.rsa_decrypt_tr hw
  unfold decrypt_body
  simp only [hk2, Bool.and_false, Bool.false_eq_true, if_false, hallowed, hpub,
    _gnutls_mpi_bprint_size, hfit, if_true, Option.getD_some, _rsa_decrypt_tr, hscan, TOMPZ,
    hinv, hl]
  simp [hl]

/-- The OAEP case of `decrypt` on a ciphertext that the primitive turns back
into the message. -/
theorem decrypt_body_oaep (E : Env) (algo : gnutls_pk_algorithm_t)
    (p0 : gnutls_datum_t) (pk_params : gnutls_pk_params_st)
    (ep : gnutls_x509_spki_st) (w : World) (c m : List Nat)
    (ha : algo = GNUTLS_PK_RSA_OAEP ∨ (algo = GNUTLS_PK_RSA ∧ ep.pk = GNUTLS_PK_RSA_OAEP))
    (hpub : ¬ (_rsa_params_to_pubkey E pk_params).1 < 0)
    (hd : ep.rsa_oaep_dig = GNUTLS_DIG_SHA256 ∨ ep.rsa_oaep_dig = GNUTLS_DIG_SHA384 ∨
        ep.rsa_oaep_dig = GNUTLS_DIG_SHA512)
    (hw : HAVE_LIB_ERROR w = false)
    (hinv : E.rsa_oaep_decrypt w.tick ep.rsa_oaep_dig pk_params (select_nonce_func w)
      ep.rsa_oaep_label.bytes (_rsa_params_to_pubkey E pk_params).2.size c
        = ⟨1, m, RndUse.ok⟩) :
    (decrypt_body E algo p0
      { data := some c, size := (_rsa_params_to_pubkey E pk_params).2.size } pk_params ep w)
      = ⟨0, false, _gnutls_set_datum m,
          w.after Prim.rsa_oaep_decrypt (select_nonce_func w) RndUse.ok⟩ := by
  have hal : (if (algo == GNUTLS_PK_RSA && ep.pk == GNUTLS_PK_RSA_OAEP) = true
      then GNUTLS_PK_RSA_OAEP else algo) = GNUTLS_PK_RSA_OAEP := by
    rcases ha with ha | ⟨ha, hk⟩
    · subst ha
      simp
    · subst ha
      simp [hk]
  have hl := have_lib_error_after_ok w Prim.rsa_oaep_decrypt hw
  unfold decrypt_body
  simp only [hal]
  rcases hd with hd | hd | hd <;> rw [hd] at hinv <;>
    simp [hpub, _rsa_oaep_decrypt, hd, hinv, hl]

/-- C23 (the claim as stated fails): with algorithm RSA, a key whose own
`spki` names RSA-OAEP and encryption parameters that name no algorithm,
`encrypt` takes the OAEP path and succeeds with a two-byte ciphertext that the
OAEP primitive turns back into the message, while `decrypt` under the same
algorithm, key and encryption parameters takes the PKCS#1 v1.5 path and
fails. -/
theorem encrypt_decrypt_scheme_mismatch :
    (_wrap_nettle_pk_encrypt paddingEnv GNUTLS_PK_RSA {} sampleMessage oaepMarkedKey
        sampleOaepParams {}).1 = 0 ∧
      (_wrap_nettle_pk_encrypt paddingEnv GNUTLS_PK_RSA {} sampleMessage oaepMarkedKey
        sampleOaepParams {}).2.1 = { data := some [1, 7], size := 2 } ∧
      (paddingEnv.rsa_oaep_decrypt 1 GNUTLS_DIG_SHA256 oaepMarkedKey RndFunc.rnd_nonce_func []
        2 [1, 7]).ret = 1 ∧
      (paddingEnv.rsa_oaep_decrypt 1 GNUTLS_DIG_SHA256 oaepMarkedKey RndFunc.rnd_nonce_func []
        2 [1, 7]).out = sampleMessage.bytes ∧
      (paddingEnv.rsa_decrypt_tr 1 sampleRsaKey RndFunc.rnd_nonce_func 2
        (paddingEnv.rsa_encrypt 0 ⟨3233, 17, 2⟩ RndFunc.rnd_nonce_func sampleMessage.bytes).out).out
          = sampleMessage.bytes ∧
      (_wrap_nettle_pk_decrypt paddingEnv GNUTLS_PK_RSA {}
        (_wrap_nettle_pk_encrypt paddingEnv GNUTLS_PK_RSA {} sampleMessage oaepMarkedKey
          sampleOaepParams {}).2.1 oaepMarkedKey sampleOaepParams
        (_wrap_nettle_pk_encrypt paddingEnv GNUTLS_PK_RSA {} sampleMessage oaepMarkedKey
          sampleOaepParams {}).2.2).1 = GNUTLS_E_DECRYPTION_FAILED := by
  decide

/-- C23 (amended): for algorithm RSA or RSA-OAEP, when with algorithm RSA the
key's `spki` and the encryption parameters agree on whether they name
RSA-OAEP, a successful `encrypt` gives a ciphertext of exactly the modulus
size in bytes and leaves the library out of the error state; and if the
primitive decryption of the scheme taken, run from a world where the library
is not in the error state, turns the ciphertext the primitive encryption
produced (for PKCS#1 v1.5 a nonzero integer that fits the modulus size) back
into the message, then `decrypt` of that ciphertext under the same algorithm,
key and encryption parameters returns `0` and a datum holding the message. -/
theorem encrypt_decrypt_round_trip (E : Env) (algo : gnutls_pk_algorithm_t)
    (c0 p0 plaintext : gnutls_datum_t) (pk_params : gnutls_pk_params_st)
    (ep : gnutls_x509_spki_st) (w w2 : World)
    (halgo : algo = GNUTLS_PK_RSA ∨ algo = GNUTLS_PK_RSA_OAEP)
    (hsel : algo = GNUTLS_PK_RSA →
      (pk_params.spki.pk = GNUTLS_PK_RSA_OAEP ↔ ep.pk = GNUTLS_PK_RSA_OAEP))
    (henc : (_wrap_nettle_pk_encrypt E algo c0 plaintext pk_params ep w).1 = 0)
    (hw2 : HAVE_LIB_ERROR w2 = false)
    (hpkcs1 : algo = GNUTLS_PK_RSA → pk_params.spki.pk ≠ GNUTLS_PK_RSA_OAEP →
      (E.rsa_encrypt w.tick (_rsa_params_to_pubkey E pk_params).2 (select_nonce_func w)
        plaintext.bytes).out ≠ 0 ∧
      nettle_mpz_sizeinbase_256_u
        (E.rsa_encrypt w.tick (_rsa_params_to_pubkey E pk_params).2 (select_nonce_func w)
          plaintext.bytes).out ≤ (_rsa_params_to_pubkey E pk_params).2.size ∧
      E.rsa_decrypt_tr w2.tick pk_params (select_nonce_func w2)
        (_rsa_params_to_pubkey E pk_params).2.size
        (E.rsa_encrypt w.tick (_rsa_params_to_pubkey E pk_params).2 (select_nonce_func w)
          plaintext.bytes).out = ⟨1, plaintext.bytes, RndUse.ok⟩)
    (hoaep : (algo = GNUTLS_PK_RSA_OAEP ∨ pk_params.spki.pk = GNUTLS_PK_RSA_OAEP) →
      E.rsa_oaep_decrypt w2.tick ep.rsa_oaep_dig pk_params (select_nonce_func w2)
        ep.rsa_oaep_label.bytes (_rsa_params_to_pubkey E pk_params).2.size
        (E.rsa_oaep_encrypt w.tick ep.rsa_oaep_dig (_rsa_params_to_pubkey E pk_params).2
          (select_nonce_func w) ep.rsa_oaep_label.bytes plaintext.bytes).out
        = ⟨1, plaintext.bytes, RndUse.ok⟩) :
    (_wrap_nettle_pk_encrypt E algo c0 plaintext pk_params ep w).2.1.size
        = (_rsa_params_to_pubkey E pk_params).2.size ∧
      HAVE_LIB_ERROR (_wrap_nettle_pk_encrypt E algo c0 plaintext pk_params ep w).2.2 = false ∧
      (_wrap_nettle_pk_decrypt E algo p0
        (_wrap_nettle_pk_encrypt E algo c0 plaintext pk_params ep w).2.1 pk_params ep w2).1 = 0 ∧
      (_wrap_nettle_pk_decrypt E algo p0
        (_wrap_nettle_pk_encrypt E algo c0 plaintext pk_params ep w).2.1 pk_params ep w2).2.1
          = _gnutls_set_datum plaintext.bytes := by
  unfold _wrap_nettle_pk_encrypt at henc ⊢
  by_cases hw : HAVE_LIB_ERROR w = true
  · rw [if_pos hw] at henc
    change GNUTLS_E_LIB_IN_ERROR_STATE = 0 at henc
    exact absurd henc (by decide)
  rw [if_neg hw] at henc ⊢
  have hz := (cleanup_and_return_zero _ henc).1
  have hle : HAVE_LIB_ERROR (cleanup_and_return
      (encrypt_body E algo c0 plaintext pk_params ep w)).2.2
        = HAVE_LIB_ERROR (encrypt_body E algo c0 plaintext pk_params ep w).world := by
    simp [cleanup_and_return, have_lib_error_cleanup]
  have hout : (cleanup_and_return (encrypt_body E algo c0 plaintext pk_params ep w)).2.1
      = (encrypt_body E algo c0 plaintext pk_params ep w).out := rfl
  rw [hle, hout]
  unfold _wrap_nettle_pk_decrypt
  rw [if_neg (by simp [hw2])]
  by_cases hoa : algo = GNUTLS_PK_RSA ∧ pk_params.spki.pk ≠ GNUTLS_PK_RSA_OAEP
  · obtain ⟨ha, hk⟩ := hoa
    obtain ⟨h1, h2, h3, h4⟩ := encrypt_body_pkcs1 E algo c0 plaintext pk_params ep w ha hk hz
    obtain ⟨h5, h6, h7⟩ := hpkcs1 ha hk
    have hk2 : ep.pk ≠ GNUTLS_PK_RSA_OAEP := fun h => hk ((hsel ha).2 h)
    rw [h3, decrypt_body_pkcs1 E algo p0 pk_params ep w2 _ plaintext.bytes ha hk2 h1 h2 hw2
      h5 h6 h7]
    have hl := have_lib_error_after_ok w2 Prim.rsa_decrypt_tr hw2
    refine ⟨rfl, h4, ?_, rfl⟩
    simp [cleanup_and_return, have_lib_error_cleanup, hl]
  · have ha : algo = GNUTLS_PK_RSA_OAEP ∨
        (algo = GNUTLS_PK_RSA ∧ pk_params.spki.pk = GNUTLS_PK_RSA_OAEP) := by
      rcases halgo with h | h
      · right
        exact ⟨h, by_contra fun hn => hoa ⟨h, hn⟩⟩
      · left
        exact h
    have ha2 : algo = GNUTLS_PK_RSA_OAEP ∨
        (algo = GNUTLS_PK_RSA ∧ ep.pk = GNUTLS_PK_RSA_OAEP) := by
      rcases ha with h | ⟨h, hk⟩
      · left
        exact h
      · right
        exact ⟨h, (hsel h).1 hk⟩
    obtain ⟨h2, hd, h3, h4⟩ := encrypt_body_oaep E algo c0 plaintext pk_params ep w ha hz
    have h7 := hoaep (by
      rcases ha with h | ⟨_, hk⟩
      · left
        exact h
      · right
        exact hk)
    rw [h3, decrypt_body_oaep E algo p0 pk_params ep w2 _ plaintext.bytes ha2 h2 hd hw2 h7]
    have hl := have_lib_error_after_ok w2 Prim.rsa_oaep_decrypt hw2
    refine ⟨rfl, h4, ?_, rfl⟩
    simp [cleanup_and_return, have_lib_error_cleanup, hl]

/-- C23 at the one-byte message under the small RSA key with the toy PKCS#1
v1.5 padding: the ciphertext has two bytes and decrypts to the message. -/
theorem encrypt_decrypt_round_trip_witness :
    (_wrap_nettle_pk_encrypt paddingEnv GNUTLS_PK_RSA {} sampleMessage sampleRsaKey {} {}).1 = 0 ∧
      ((_wrap_nettle_pk_encrypt paddingEnv GNUTLS_PK_RSA {} sampleMessage sampleRsaKey {}
          {}).2.1.size = (_rsa_params_to_pubkey paddingEnv sampleRsaKey).2.size ∧
        HAVE_LIB_ERROR (_wrap_nettle_pk_encrypt paddingEnv GNUTLS_PK_RSA {} sampleMessage
          sampleRsaKey {} {}).2.2 = false ∧
        (_wrap_nettle_pk_decrypt paddingEnv GNUTLS_PK_RSA {}
          (_wrap_nettle_pk_encrypt paddingEnv GNUTLS_PK_RSA {} sampleMessage sampleRsaKey {}
            {}).2.1 sampleRsaKey {}
          (_wrap_nettle_pk_encrypt paddingEnv GNUTLS_PK_RSA {} sampleMessage sampleRsaKey {}
            {}).2.2).1 = 0 ∧
        (_wrap_nettle_pk_decrypt paddingEnv GNUTLS_PK_RSA {}
          (_wrap_nettle_pk_encrypt paddingEnv GNUTLS_PK_RSA {} sampleMessage sampleRsaKey {}
            {}).2.1 sampleRsaKey {}
          (_wrap_nettle_pk_encrypt paddingEnv GNUTLS_PK_RSA {} sampleMessage sampleRsaKey {}
            {}).2.2).2.1 = _gnutls_set_datum sampleMessage.bytes) :=
  ⟨by decide,
    encrypt_decrypt_round_trip paddingEnv GNUTLS_PK_RSA {} {} sampleMessage sampleRsaKey {} {}
      (_wrap_nettle_pk_encrypt paddingEnv GNUTLS_PK_RSA {} sampleMessage sampleRsaKey {} {}).2.2
      (Or.inl rfl) (fun _ => by decide) (by decide) (by decide)
      (fun _ _ => ⟨by decide, by decide, rfl⟩) (fun h => absurd h (by decide))⟩

/-! ### C21: completing an imported RSA private key -/

/-- When `mpz_invert` returns nonzero, the value it stored is in `[0, m)` and
is an inverse of `a` modulo `m`. -/
theorem mpz_invert_ret_ne_zero (E : Env) (rop a m : Nat)
    (h : ¬ (mpz_invert_ret a m == 0) = true) :
    mpz_invert E rop a m < m ∧ a * mpz_invert E rop a m % m = 1 % m := by
  unfold mpz_invert_ret at h
  unfold mpz_invert
  cases hf : (List.range m).find? (fun t => a * t % m == 1 % m) with
  | none => simp [hf] at h
  | some t =>
    have hp := List.find?_some hf
    have hmem := List.mem_range.1 (List.mem_of_find?_eq_some hf)
    rw [beq_iff_eq] at hp
    exact ⟨hmem, hp⟩

/-- Writing a slot leaves `params_nr` as it was. -/
theorem put_params_nr (p : gnutls_pk_params_st) (i : Nat) (v : bigint_t) :
    (p.put i v).params_nr = p.params_nr := rfl

/-- Setting `params_nr` leaves the slots as they were. -/
theorem get_with_params_nr (p : gnutls_pk_params_st) (n i : Nat) :
    ({ p with params_nr := n } : gnutls_pk_params_st).get i = p.get i := rfl

/-- The function `calc_rsa_exp` on a set of six parameters with `d`, `p ≠ 0`
and `q` present, when it does not fail: `p > 1`, `q ≠ 1`, and the slots it
leaves. -/
theorem calc_rsa_exp_ok (params : gnutls_pk_params_st) (d p q : Nat)
    (hnr : params.params_nr = RSA_PRIVATE_PARAMS - 2)
    (hd : params.get RSA_PRIV = some d) (hp : params.get RSA_PRIME1 = some p)
    (hq : params.get RSA_PRIME2 = some q) (hp0 : p ≠ 0)
    (h : ¬ (calc_rsa_exp params).1 < 0) :
    1 < p ∧ q ≠ 1 ∧ (calc_rsa_exp params).2.params_nr = params.params_nr ∧
      ∀ i, (calc_rsa_exp params).2.get i =
        if i = RSA_E2 then some (d % ((q : Int) - 1).natAbs)
        else if i = RSA_E1 then some (d % (p - 1)) else params.get i := by
  have hnr2 : ¬ params.params_nr < RSA_PRIVATE_PARAMS - 2 := by omega
  have g1 : (((params.put RSA_E1 (some 0)).put RSA_E2 (some 0)).get RSA_PRIV) = some d := by
    rw [get_put, get_put, hd]
    rfl
  have g2 : (((params.put RSA_E1 (some 0)).put RSA_E2 (some 0)).get RSA_PRIME1) = some p := by
    rw [get_put, get_put, hp]
    rfl
  have g3 : ∀ v, ((((params.put RSA_E1 (some 0)).put RSA_E2 (some 0)).put RSA_E1 v).get
      RSA_PRIV) = some d := by
    intro v
    rw [get_put, get_put, get_put, hd]
    rfl
  have g4 : ∀ v, ((((params.put RSA_E1 (some 0)).put RSA_E2 (some 0)).put RSA_E1 v).get
      RSA_PRIME2) = some q := by
    intro v
    rw [get_put, get_put, get_put, hq]
    rfl
  generalize hr : calc_rsa_exp params = r at h ⊢
  unfold calc_rsa_exp at hr
  simp only [hnr2, if_false, g1, g2, g3, g4, TOMPZ, Option.getD_some] at hr
  by_cases hp1 : p = 1
  · subst hp1
    exfalso
    apply h
    rw [← hr]
    simp [_gnutls_mpi_modm]
  have hp2 : 1 < p := by omega
  rw [modm_pred d p hp2] at hr
  simp only [lt_self_iff_false, if_false] at hr
  by_cases hq1 : q = 1
  · subst hq1
    exfalso
    apply h
    rw [← hr]
    simp [_gnutls_mpi_modm]
  have hm : _gnutls_mpi_modm d ((q : Int) - 1) = (0, d % ((q : Int) - 1).natAbs) := by
    unfold _gnutls_mpi_modm
    have : ¬ ((q : Int) - 1 = 0) := by omega
    simp [this]
  rw [hm] at hr
  simp only [lt_self_iff_false, if_false] at hr
  subst hr
  refine ⟨hp2, hq1, rfl, ?_⟩
  intro i
  dsimp only
  rw [get_put, get_put, get_put, get_put]
  by_cases h7 : i = RSA_E2
  · subst h7
    simp
  · by_cases h6 : i = RSA_E1
    · subst h6
      simp
    · have h7b : ¬ RSA_E2 = i := fun hh => h7 hh.symm
      have h6b : ¬ RSA_E1 = i := fun hh => h6 hh.symm
      simp [h7, h6, h7b, h6b]

/-- C21: for a parameter set with the private exponent `d` and the primes `p`
and `q` present, whatever the slots of the coefficient and the two CRT
exponents hold, when `fixup` for algorithm RSA on import returns `0` the set
it leaves has `params_nr = 8`; its modulus, public exponent, private exponent
and primes are those it was given; its coefficient is the `c < p` with
`q * c mod p = 1`; its first exponent is `d mod (p - 1)` and its second is
`d mod (q - 1)`; and `p, q > 1`. -/
theorem fixup_rsa_completes (E : Env) (params : gnutls_pk_params_st) (d p q : Nat)
    (hd : params.get RSA_PRIV = some d) (hp : params.get RSA_PRIME1 = some p)
    (hq : params.get RSA_PRIME2 = some q)
    (h : (wrap_nettle_pk_fixup E GNUTLS_PK_RSA GNUTLS_IMPORT params).1 = 0) :
    (wrap_nettle_pk_fixup E GNUTLS_PK_RSA GNUTLS_IMPORT params).2.params_nr
        = RSA_PRIVATE_PARAMS ∧
      (wrap_nettle_pk_fixup E GNUTLS_PK_RSA GNUTLS_IMPORT params).2.get RSA_MODULUS
        = params.get RSA_MODULUS ∧
      (wrap_nettle_pk_fixup E GNUTLS_PK_RSA GNUTLS_IMPORT params).2.get RSA_PUB
        = params.get RSA_PUB ∧
      (wrap_nettle_pk_fixup E GNUTLS_PK_RSA GNUTLS_IMPORT params).2.get RSA_PRIV = some d ∧
      (wrap_nettle_pk_fixup E GNUTLS_PK_RSA GNUTLS_IMPORT params).2.get RSA_PRIME1 = some p ∧
      (wrap_nettle_pk_fixup E GNUTLS_PK_RSA GNUTLS_IMPORT params).2.get RSA_PRIME2 = some q ∧
      (∃ c, (wrap_nettle_pk_fixup E GNUTLS_PK_RSA GNUTLS_IMPORT params).2.get RSA_COEF = some c ∧
        c < p ∧ q * c % p = 1) ∧
      (wrap_nettle_pk_fixup E GNUTLS_PK_RSA GNUTLS_IMPORT params).2.get RSA_E1
        = some (d % (p - 1)) ∧
      (wrap_nettle_pk_fixup E GNUTLS_PK_RSA GNUTLS_IMPORT params).2.get RSA_E2
        = some (d % (q - 1)) ∧
      1 < p ∧ 1 < q := by
  have hw : wrap_nettle_pk_fixup E GNUTLS_PK_RSA GNUTLS_IMPORT params = fixup_rsa E params := by
    simp [wrap_nettle_pk_fixup]
  rw [hw] at h ⊢
  have hdn : (params.get RSA_PRIV == none) = false := by simp [hd]
  -- the set after the coefficient slot was initialised
  obtain ⟨params2, hp2⟩ : ∃ x, (if params.get RSA_COEF == none then
    params.put RSA_COEF (some 0) else params) = x := ⟨_, rfl⟩
  have k2 : ∀ i, i ≠ RSA_COEF → params2.get i = params.get i := by
    intro i hi
    rw [← hp2]
    split_ifs
    · rw [get_put, if_neg (fun hh => hi hh.symm)]
    · rfl
  have kp : params2.get RSA_PRIME1 = some p := by rw [k2 _ (by decide), hp]
  have kq : params2.get RSA_PRIME2 = some q := by rw [k2 _ (by decide), hq]
  have tp : TOMPZ (params2.get RSA_PRIME1) = p := by rw [kp]; rfl
  have tq : TOMPZ (params2.get RSA_PRIME2) = q := by rw [kq]; rfl
  obtain ⟨coef, hcf⟩ : ∃ c, mpz_invert E (TOMPZ (params2.get RSA_COEF)) q p = c := ⟨_, rfl⟩
  generalize hr : fixup_rsa E params = r at h ⊢
  unfold fixup_rsa at hr
  simp only [hdn, Bool.false_eq_true, if_false, lt_self_iff_false, hp2, tp, tq, hcf] at hr
  split_ifs at hr with h1 h2 h3 h4 h5
  all_goals subst hr
  all_goals try dsimp only at h
  all_goals first
    | omega
    | exact absurd h (by decide)
    | skip
  have hp0 : p ≠ 0 := by simpa using h2
  have hinv := mpz_invert_ret_ne_zero E (TOMPZ (params2.get RSA_COEF)) q p h3
  rw [hcf] at hinv
  have e1 : ((({ ((params2.put RSA_COEF (some coef)).put RSA_E1 none).put RSA_E2 none with
      params_nr := RSA_PRIVATE_PARAMS - 2 } : gnutls_pk_params_st)).get RSA_PRIV) = some d := by
    rw [get_with_params_nr, get_put, get_put, get_put, k2 _ (by decide), hd]
    rfl
  have e2 : ((({ ((params2.put RSA_COEF (some coef)).put RSA_E1 none).put RSA_E2 none with
      params_nr := RSA_PRIVATE_PARAMS - 2 } : gnutls_pk_params_st)).get RSA_PRIME1) = some p := by
    rw [get_with_params_nr, get_put, get_put, get_put, kp]
    rfl
  have e3 : ((({ ((params2.put RSA_COEF (some coef)).put RSA_E1 none).put RSA_E2 none with
      params_nr := RSA_PRIVATE_PARAMS - 2 } : gnutls_pk_params_st)).get RSA_PRIME2) = some q := by
    rw [get_with_params_nr, get_put, get_put, get_put, kq]
    rfl
  obtain ⟨hp1, hq1, _, hget⟩ := calc_rsa_exp_ok _ d p q rfl e1 e2 e3 hp0 h4
  have hq0 : q ≠ 0 := by
    intro hq0
    subst hq0
    have := hinv.2
    rw [Nat.mod_eq_of_lt hp1] at this
    simp at this
  have hq2 : 1 < q := by omega
  have hnat : ((q : Int) - 1).natAbs = q - 1 := by omega
  rw [hnat] at hget
  refine ⟨rfl, ?_, ?_, ?_, ?_, ?_, ⟨coef, ?_, hinv.1, ?_⟩, ?_, ?_, hp1, hq2⟩
  · rw [get_with_params_nr, hget, get_with_params_nr, get_put, get_put, get_put,
      k2 _ (by decide)]
    rfl
  · rw [get_with_params_nr, hget, get_with_params_nr, get_put, get_put, get_put,
      k2 _ (by decide)]
    rfl
  · rw [get_with_params_nr, hget, e1]
    rfl
  · rw [get_with_params_nr, hget, e2]
    rfl
  · rw [get_with_params_nr, hget, e3]
    rfl
  · rw [get_with_params_nr, hget, get_with_params_nr, get_put, get_put, get_put]
    rfl
  · rw [hinv.2, Nat.mod_eq_of_lt hp1]
  · rw [get_with_params_nr, hget]
    rfl
  · rw [get_with_params_nr, hget]
    rfl

/-- C21 at the small RSA key imported without its CRT values: the completed
set is the full key. -/
theorem fixup_rsa_completes_witness :
    (wrap_nettle_pk_fixup sampleEnv GNUTLS_PK_RSA GNUTLS_IMPORT importedRsaKey).1 = 0 ∧
      (wrap_nettle_pk_fixup sampleEnv GNUTLS_PK_RSA GNUTLS_IMPORT importedRsaKey).2
        = sampleRsaKey ∧
      ((wrap_nettle_pk_fixup sampleEnv GNUTLS_PK_RSA GNUTLS_IMPORT importedRsaKey).2.params_nr
          = RSA_PRIVATE_PARAMS ∧
        (wrap_nettle_pk_fixup sampleEnv GNUTLS_PK_RSA GNUTLS_IMPORT importedRsaKey).2.get
          RSA_MODULUS = importedRsaKey.get RSA_MODULUS ∧
        (wrap_nettle_pk_fixup sampleEnv GNUTLS_PK_RSA GNUTLS_IMPORT importedRsaKey).2.get
          RSA_PUB = importedRsaKey.get RSA_PUB ∧
        (wrap_nettle_pk_fixup sampleEnv GNUTLS_PK_RSA GNUTLS_IMPORT importedRsaKey).2.get
          RSA_PRIV = some 413 ∧
        (wrap_nettle_pk_fixup sampleEnv GNUTLS_PK_RSA GNUTLS_IMPORT importedRsaKey).2.get
          RSA_PRIME1 = some 61 ∧
        (wrap_nettle_pk_fixup sampleEnv GNUTLS_PK_RSA GNUTLS_IMPORT importedRsaKey).2.get
          RSA_PRIME2 = some 53 ∧
        (∃ c, (wrap_nettle_pk_fixup sampleEnv GNUTLS_PK_RSA GNUTLS_IMPORT importedRsaKey).2.get
          RSA_COEF = some c ∧ c < 61 ∧ 53 * c % 61 = 1) ∧
        (wrap_nettle_pk_fixup sampleEnv GNUTLS_PK_RSA GNUTLS_IMPORT importedRsaKey).2.get
          RSA_E1 = some (413 % (61 - 1)) ∧
        (wrap_nettle_pk_fixup sampleEnv GNUTLS_PK_RSA GNUTLS_IMPORT importedRsaKey).2.get
          RSA_E2 = some (413 % (53 - 1)) ∧
        1 < 61 ∧ 1 < 53) :=
  ⟨by decide, by decide,
    fixup_rsa_completes sampleEnv importedRsaKey 413 61 53 rfl rfl rfl (by decide)⟩

/-! ### C17: RSA keys with a modulus below 2048 bits -/

/-- Recording the algorithm leaves the slots as they are. -/
theorem get_with_algo (p : gnutls_pk_params_st) (a : gnutls_pk_algorithm_t) (i : Nat) :
    ({ p with algo := a } : gnutls_pk_params_st).get i = p.get i := rfl

/-- Reading the three slots of an elliptic-curve key after writing them. -/
theorem get_put3 (p : gnutls_pk_params_st) (x y k : bigint_t) :
    (((p.put 0 x).put 1 y).put 2 k).get 0 = x ∧ (((p.put 0 x).put 1 y).put 2 k).get 1 = y ∧
      (((p.put 0 x).put 1 y).put 2 k).get 2 = k := by
  simp [get_put]

/-- The key pair the retry loop of provable RSA generation hands back with
return value `1` is one that `rsa_generate_fips186_4_keypair` returned with
`1`: it has every property `P` such key pairs have. -/
theorem rsa_provable_retry_key (E : Env) (rnd_func : RndFunc) (level : Nat)
    (P : rsa_keypair → Prop)
    (hgen : ∀ t e rf ss bits, (E.rsa_generate_fips186_4_keypair t e rf ss bits).ret = 1 →
      P (E.rsa_generate_fips186_4_keypair t e rf ss bits).out.1) :
    ∀ (n : Nat) (params : gnutls_pk_params_st) (w : World),
      (rsa_provable_retry E rnd_func level n params w).1 = 1 →
      P (rsa_provable_retry E rnd_func level n params w).2.1 := by
  intro n
  induction n with
  | zero =>
    intro params w h
    change (0 : Int) = 1 at h
    omega
  | succ k ih =>
    intro params w h
    rw [rsa_provable_retry_succ] at h ⊢
    split_ifs at h ⊢
    · exact ih _ _ h
    · exact hgen _ _ _ _ _ h

/-- What the RSA case of `generate_keys` stores when it succeeds: the eight
fields of a key pair that one of nettle's three generators returned with `1`,
which has every property `P` such key pairs have. -/
theorem generate_keys_rsa_key (E : Env) (level : Nat) (params : gnutls_pk_params_st)
    (rnd_func : RndFunc) (w : World) (P : rsa_keypair → Prop)
    (hstd : ∀ t e rf bits, (E.rsa_generate_keypair t e rf bits).ret = 1 →
      P (E.rsa_generate_keypair t e rf bits).out)
    (hgen : ∀ t e rf ss bits, (E.rsa_generate_fips186_4_keypair t e rf ss bits).ret = 1 →
      P (E.rsa_generate_fips186_4_keypair t e rf ss bits).out.1)
    (hseed : ∀ e seed bits, (E._rsa_generate_fips186_4_keypair e seed bits).1 = 1 →
      P (E._rsa_generate_fips186_4_keypair e seed bits).2)
    (h : 0 ≤ (generate_keys_rsa E level params rnd_func w).ret) :
    ∃ k, P k ∧
      (generate_keys_rsa E level params rnd_func w).out.params_nr = RSA_PRIVATE_PARAMS ∧
      (generate_keys_rsa E level params rnd_func w).out.get RSA_MODULUS = some k.n ∧
      (generate_keys_rsa E level params rnd_func w).out.get RSA_PRIV = some k.d ∧
      (generate_keys_rsa E level params rnd_func w).out.get RSA_PRIME1 = some k.p ∧
      (generate_keys_rsa E level params rnd_func w).out.get RSA_PRIME2 = some k.q ∧
      (generate_keys_rsa E level params rnd_func w).out.get RSA_COEF = some k.c ∧
      (generate_keys_rsa E level params rnd_func w).out.get RSA_E1 = some k.a ∧
      (generate_keys_rsa E level params rnd_func w).out.get RSA_E2 = some k.b := by
  have hretry := rsa_provable_retry_key E rnd_func level P hgen
  generalize hr : generate_keys_rsa E level params rnd_func w = r at h ⊢
  unfold generate_keys_rsa at hr
  simp only at hr
  split_ifs at hr
  all_goals subst hr
  all_goals try dsimp only at h
  all_goals first
    | omega
    | exact absurd h (by decide)
    | skip
  all_goals rename_i hlast
  all_goals simp only [Bool.or_eq_true, not_or, bne_iff_ne, ne_eq, not_not] at hlast
  · exact ⟨_, hseed _ _ _ hlast.1, rfl, rfl, rfl, rfl, rfl, rfl, rfl, rfl⟩
  · exact ⟨_, hretry _ _ _ hlast.1, rfl, rfl, rfl, rfl, rfl, rfl, rfl, rfl⟩
  · exact ⟨_, hstd _ _ _ _ hlast.1, rfl, rfl, rfl, rfl, rfl, rfl, rfl, rfl⟩

/-- An RSA parameter set of eight fields with `n = p * q`, `c = q^-1 mod p`,
`e1 = d mod (p - 1)` and `e2 = d mod (q - 1)` passes the RSA case of
`verify_priv_params`. -/
theorem verify_priv_params_rsa_consistent (E : Env) (params : gnutls_pk_params_st)
    (k : rsa_keypair)
    (hnr : params.params_nr = RSA_PRIVATE_PARAMS)
    (hn : params.get RSA_MODULUS = some k.n) (hd : params.get RSA_PRIV = some k.d)
    (hp : params.get RSA_PRIME1 = some k.p) (hq : params.get RSA_PRIME2 = some k.q)
    (hc : params.get RSA_COEF = some k.c) (he1 : params.get RSA_E1 = some k.a)
    (he2 : params.get RSA_E2 = some k.b)
    (hk : 1 < k.p ∧ 1 < k.q ∧ k.n = k.p * k.q ∧ k.c < k.p ∧ k.q * k.c % k.p = 1 ∧
      k.a = k.d % (k.p - 1) ∧ k.b = k.d % (k.q - 1)) :
    verify_priv_params_rsa E params = 0 := by
  obtain ⟨hp1, hq1, hpq, hcp, hinv, ha, hb⟩ := hk
  rw [verify_priv_params_rsa_eq E params k.n k.d k.p k.q k.c k.a k.b hnr hn hd hp hq hc he1 he2
    hp1 hq1]
  have hcop : Nat.Coprime k.q k.p := by
    apply Nat.coprime_of_mul_modEq_one k.c
    show k.q * k.c % k.p = 1 % k.p
    rw [hinv, Nat.mod_eq_of_lt hp1]
  have hci := (mpz_invert_spec E (k.p * k.q % k.n) k.q k.p k.c hp1 hcop).1 ⟨hcp, hinv⟩
  have hmod : k.p * k.q % k.n = 0 := by rw [hpq, Nat.mod_self]
  simp [hmod, ← hci, ha, hb]
  rw [hmod] at hci
  exact hci.symm

/-- A key generated by the RSA case of `generate_keys` passes
`verify_priv_params` when each key pair that nettle's generators return with
`1` has `n = p * q`, `c = q^-1 mod p`, `a = d mod (p - 1)` and
`b = d mod (q - 1)`. -/
theorem generate_keys_rsa_valid (E : Env) (algo : gnutls_pk_algorithm_t) (level : Nat)
    (params : gnutls_pk_params_st) (rnd_func : RndFunc) (w : World)
    (halgo : algo = GNUTLS_PK_RSA ∨ algo = GNUTLS_PK_RSA_PSS ∨ algo = GNUTLS_PK_RSA_OAEP)
    (hstd : ∀ t e rf bits, (E.rsa_generate_keypair t e rf bits).ret = 1 →
      (fun k : rsa_keypair => 1 < k.p ∧ 1 < k.q ∧ k.n = k.p * k.q ∧ k.c < k.p ∧
        k.q * k.c % k.p = 1 ∧ k.a = k.d % (k.p - 1) ∧ k.b = k.d % (k.q - 1))
        (E.rsa_generate_keypair t e rf bits).out)
    (hgen : ∀ t e rf ss bits, (E.rsa_generate_fips186_4_keypair t e rf ss bits).ret = 1 →
      (fun k : rsa_keypair => 1 < k.p ∧ 1 < k.q ∧ k.n = k.p * k.q ∧ k.c < k.p ∧
        k.q * k.c % k.p = 1 ∧ k.a = k.d % (k.p - 1) ∧ k.b = k.d % (k.q - 1))
        (E.rsa_generate_fips186_4_keypair t e rf ss bits).out.1)
    (hseed : ∀ e seed bits, (E._rsa_generate_fips186_4_keypair e seed bits).1 = 1 →
      (fun k : rsa_keypair => 1 < k.p ∧ 1 < k.q ∧ k.n = k.p * k.q ∧ k.c < k.p ∧
        k.q * k.c % k.p = 1 ∧ k.a = k.d % (k.p - 1) ∧ k.b = k.d % (k.q - 1))
        (E._rsa_generate_fips186_4_keypair e seed bits).2)
    (hb : 0 ≤ (generate_keys_rsa E level params rnd_func w).ret) :
    wrap_nettle_pk_verify_priv_params E algo
      { (generate_keys_rsa E level params rnd_func w).out with algo := algo } = 0 := by
  obtain ⟨k, hk, hnr, hn, hd, hp, hq, hc, he1, he2⟩ :=
    generate_keys_rsa_key E level params rnd_func w
      (fun k : rsa_keypair => 1 < k.p ∧ 1 < k.q ∧ k.n = k.p * k.q ∧ k.c < k.p ∧
        k.q * k.c % k.p = 1 ∧ k.a = k.d % (k.p - 1) ∧ k.b = k.d % (k.q - 1))
      hstd hgen hseed hb
  have h := verify_priv_params_rsa_consistent E
    { (generate_keys_rsa E level params rnd_func w).out with algo := algo } k hnr
    (by rw [get_with_algo]; exact hn) (by rw [get_with_algo]; exact hd)
    (by rw [get_with_algo]; exact hp) (by rw [get_with_algo]; exact hq)
    (by rw [get_with_algo]; exact hc) (by rw [get_with_algo]; exact he1)
    (by rw [get_with_algo]; exact he2) hk
  rcases halgo with rfl | rfl | rfl <;> exact h

/-- What the ECDSA case of `generate_keys` stores when it succeeds: the curve
of the level, and the point and the scalar of one `ecdsa_generate_keypair`
call on that curve. -/
theorem generate_keys_ecdsa_out (E : Env) (level : Nat) (params : gnutls_pk_params_st)
    (rnd_func : RndFunc) (w : World) (b : Branch gnutls_pk_params_st)
    (h : generate_keys_ecdsa E level params rnd_func w = Flow.cleanup b) (hb : 0 ≤ b.ret) :
    ∃ curve t rf, get_supported_nist_curve b.out.curve = some curve ∧
      b.out.params_nr = ECC_PRIVATE_PARAMS ∧
      b.out.get ECC_X = some (E.ecdsa_generate_keypair t curve rf).out.1.1 ∧
      b.out.get ECC_Y = some (E.ecdsa_generate_keypair t curve rf).out.1.2 ∧
      b.out.get ECC_K = some (E.ecdsa_generate_keypair t curve rf).out.2 := by
  unfold generate_keys_ecdsa at h
  cases hc : get_supported_nist_curve (E.curve_of_level level) with
  | none =>
    simp only [hc] at h
    split_ifs at h
    all_goals first
      | exact Flow.noConfusion h
      | (injection h with h1; subst h1; dsimp only at hb; exact absurd hb (by decide))
  | some curve =>
    simp only [hc] at h
    split_ifs at h
    all_goals injection h with h1
    all_goals subst h1
    all_goals dsimp only at hb
    all_goals first
      | omega
      | exact absurd hb (by decide)
      | skip
    all_goals
      exact ⟨curve, w.tick, rnd_func, hc, rfl, (get_put3 _ _ _ _).1, (get_put3 _ _ _ _).2.1,
        (get_put3 _ _ _ _).2.2⟩

/-- What the GOST case of `generate_keys` stores when it succeeds: the curve
of the level, and the point and the scalar of one `gostdsa_generate_keypair`
call on that curve. -/
theorem generate_keys_gost_out (E : Env) (algo : gnutls_pk_algorithm_t) (level : Nat)
    (params : gnutls_pk_params_st) (w : World) (b : Branch gnutls_pk_params_st)
    (h : generate_keys_gost E algo level params w = Flow.cleanup b) (hb : 0 ≤ b.ret) :
    ∃ curve t rf, get_supported_gost_curve b.out.curve = some curve ∧
      b.out.params_nr = GOST_PRIVATE_PARAMS ∧
      b.out.get GOST_X = some (E.gostdsa_generate_keypair t curve rf).out.1.1 ∧
      b.out.get GOST_Y = some (E.gostdsa_generate_keypair t curve rf).out.1.2 ∧
      b.out.get GOST_K = some (E.gostdsa_generate_keypair t curve rf).out.2 := by
  unfold generate_keys_gost at h
  cases hc : get_supported_gost_curve (E.curve_of_level level) with
  | none =>
    simp only [hc] at h
    split_ifs at h
    all_goals first
      | exact Flow.noConfusion h
      | (injection h with h1; subst h1; dsimp only at hb; exact absurd hb (by decide))
  | some curve =>
    simp only [hc] at h
    split_ifs at h
    all_goals injection h with h1
    all_goals subst h1
    all_goals dsimp only at hb
    all_goals first
      | omega
      | exact absurd hb (by decide)
      | skip
    all_goals
      exact ⟨curve, w.tick, RndFunc.rnd_key_func, hc, rfl, (get_put3 params _ _ _).1,
        (get_put3 params _ _ _).2.1, (get_put3 params _ _ _).2.2⟩

/-- An ECDSA parameter set of three fields whose point and scalar nettle
accepts and whose point is the scalar's multiple of the generator passes the
ECDSA case of `verify_priv_params`. -/
theorem verify_priv_params_ecdsa_consistent (E : Env) (params : gnutls_pk_params_st)
    (curve : ecc_curve) (x y k : Nat)
    (hnr : params.params_nr = ECC_PRIVATE_PARAMS)
    (hcurve : get_supported_nist_curve params.curve = some curve)
    (hx : params.get ECC_X = some x) (hy : params.get ECC_Y = some y)
    (hk : params.get ECC_K = some k)
    (hset : E.ecc_point_set curve x y = true) (hsc : E.ecc_scalar_set curve k = true)
    (hmul : E.ecc_point_mul_g curve k = (x, y)) :
    verify_priv_params_ecdsa E params = 0 := by
  unfold verify_priv_params_ecdsa _ecc_params_to_pubkey _ecc_params_to_privkey
  simp [hnr, hcurve, hx, hy, hk, TOMPZ, hset, hsc, hmul]

/-- A GOST parameter set of three fields whose point and scalar nettle accepts
and whose point is the scalar's multiple of the generator passes the GOST case
of `verify_priv_params`. -/
theorem verify_priv_params_gost_consistent (E : Env) (params : gnutls_pk_params_st)
    (curve : ecc_curve) (x y k : Nat)
    (hnr : params.params_nr = GOST_PRIVATE_PARAMS)
    (hcurve : get_supported_gost_curve params.curve = some curve)
    (hx : params.get GOST_X = some x) (hy : params.get GOST_Y = some y)
    (hk : params.get GOST_K = some k)
    (hset : E.gost_point_set curve x y = true) (hsc : E.ecc_scalar_set curve k = true)
    (hmul : E.gost_point_mul_g curve k = (x, y)) :
    verify_priv_params_gost E params = 0 := by
  unfold verify_priv_params_gost _gost_params_to_pubkey _gost_params_to_privkey
  simp [hnr, hcurve, hx, hy, hk, TOMPZ, hset, hsc, hmul]

/-- What the DSA case of `generate_keys` stores in FIPS mode when it
succeeds: the pair `(y, x)` that one `dsa_generate_dss_keypair` call on the
domain parameters of the set returned with `1`, in two further slots. -/
theorem generate_keys_dsa_fips_out (E : Env) (params : gnutls_pk_params_st)
    (rnd_func : RndFunc) (w : World)
    (hb : 0 ≤ (generate_keys_dsa_fips E params rnd_func w).ret) :
    ∃ t pub rf, pub.g = TOMPZ (params.get DSA_G) ∧ pub.p = TOMPZ (params.get DSA_P) ∧
      (E.dsa_generate_dss_keypair t pub rf).ret = 1 ∧
      (generate_keys_dsa_fips E params rnd_func w).out.params
        = ((params.put DSA_Y (some (E.dsa_generate_dss_keypair t pub rf).out.1)).put DSA_X
            (some (E.dsa_generate_dss_keypair t pub rf).out.2)).params ∧
      (generate_keys_dsa_fips E params rnd_func w).out.params_nr = params.params_nr + 2 := by
  generalize hr : generate_keys_dsa_fips E params rnd_func w = r at hb ⊢
  unfold generate_keys_dsa_fips at hr
  simp only at hr
  split_ifs at hr with h1 h2
  all_goals subst hr
  all_goals try dsimp only at hb
  all_goals first
    | omega
    | exact absurd hb (by decide)
    | skip
  refine ⟨w.tick, _, rnd_func, rfl, rfl, ?_, rfl, rfl⟩
  simp only [Bool.or_eq_true, not_or, bne_iff_ne, ne_eq, not_not] at h2
  exact h2.1

/-- A DSA key generated in FIPS mode from a parameter set of three slots passes
`verify_priv_params` when each pair `(y, x)` that `dsa_generate_dss_keypair`
returns with `1` has `y = g^x mod p`. -/
theorem generate_keys_dsa_fips_valid (E : Env) (params : gnutls_pk_params_st)
    (rnd_func : RndFunc) (w : World) (hnr : params.params_nr = 3)
    (hdsa : ∀ t pub rf, (E.dsa_generate_dss_keypair t pub rf).ret = 1 →
      (E.dsa_generate_dss_keypair t pub rf).out.1
        = mpz_powm pub.g (E.dsa_generate_dss_keypair t pub rf).out.2 pub.p)
    (hb : 0 ≤ (generate_keys_dsa_fips E params rnd_func w).ret) :
    wrap_nettle_pk_verify_priv_params E GNUTLS_PK_DSA
      { (generate_keys_dsa_fips E params rnd_func w).out with algo := GNUTLS_PK_DSA } = 0 := by
  obtain ⟨t, pub, rf, hg, hp, hret, hpar, hn⟩ :=
    generate_keys_dsa_fips_out E params rnd_func w hb
  have hy := hdsa t pub rf hret
  rw [hg, hp] at hy
  exact dh_store_valid E GNUTLS_PK_DSA params _ _ _ (Or.inr rfl) hnr hy hpar hn

/-- C18 (amended): for the parameter set of a `generate_keys` call that
returned `0`, (1) `verify_pub_params` returns `0` for RSA, RSA-PSS, RSA-OAEP,
DSA, Ed25519 and Ed448 and `GNUTLS_E_INVALID_REQUEST` for every other
algorithm (DH, X25519, X448, ML-KEM and ML-DSA have no case there; generated
ECDSA and GOST sets carry three parameters where two are demanded).
`verify_priv_params` returns `0` (2) for ML-KEM and ML-DSA; (3) for DH, and for
DSA outside FIPS mode, when the call was given a set of three domain-parameter
slots; (4) for Ed25519, Ed448, X25519 and X448 when the curve table has the
entry of the algorithm with the size key generation used; (5) for RSA, RSA-PSS
and RSA-OAEP when each key pair that nettle's three RSA generators return with
`1` has primes `p, q > 1`, `n = p * q`, `c = q^-1 mod p`, `a = d mod (p - 1)`
and `b = d mod (q - 1)`; (6) for ECDSA when `ecdsa_generate_keypair` hands back
a point `ecc_point_set` accepts and a scalar `ecc_scalar_set` accepts whose
multiple of the generator is that point; (7) for GOST under the same condition
on `gostdsa_generate_keypair`; (8) for DSA in FIPS mode when the call was given
a set of three domain-parameter slots and each pair `(y, x)` that
`dsa_generate_dss_keypair` returns with `1` has `y = g^x mod p`. -/
theorem generate_keys_then_verify (E : Env) (algo : gnutls_pk_algorithm_t) (level : Nat)
    (params : gnutls_pk_params_st) (ephemeral : Bool) (w : World)
    (hret : (wrap_nettle_pk_generate_keys E algo level params ephemeral w).1 = 0) :
    (wrap_nettle_pk_verify_pub_params E algo
        (wrap_nettle_pk_generate_keys E algo level params ephemeral w).2.1
      = if algo = GNUTLS_PK_RSA ∨ algo = GNUTLS_PK_RSA_PSS ∨ algo = GNUTLS_PK_RSA_OAEP ∨
            algo = GNUTLS_PK_DSA ∨ algo = GNUTLS_PK_EDDSA_ED25519 ∨
            algo = GNUTLS_PK_EDDSA_ED448
        then 0 else GNUTLS_E_INVALID_REQUEST) ∧
    (algo = GNUTLS_PK_MLKEM768 ∨ algo = GNUTLS_PK_MLKEM1024 ∨ algo = GNUTLS_PK_MLDSA44 ∨
        algo = GNUTLS_PK_MLDSA65 ∨ algo = GNUTLS_PK_MLDSA87 →
      wrap_nettle_pk_verify_priv_params E algo
        (wrap_nettle_pk_generate_keys E algo level params ephemeral w).2.1 = 0) ∧
    (algo = GNUTLS_PK_DH ∨ (algo = GNUTLS_PK_DSA ∧ E.fips_mode_enabled = false) →
      params.params_nr = 3 →
      wrap_nettle_pk_verify_priv_params E algo
        (wrap_nettle_pk_generate_keys E algo level params ephemeral w).2.1 = 0) ∧
    (algo = GNUTLS_PK_EDDSA_ED25519 ∨ algo = GNUTLS_PK_EDDSA_ED448 ∨
        algo = GNUTLS_PK_ECDH_X25519 ∨ algo = GNUTLS_PK_ECDH_X448 →
      (∃ e, E._gnutls_ecc_curve_get_params
            (if algo = GNUTLS_PK_EDDSA_ED25519 ∨ algo = GNUTLS_PK_EDDSA_ED448
              then get_eddsa_curve algo else get_ecdh_curve algo) = some e ∧
          e.1 = E.gnutls_ecc_curve_get_size (E.curve_of_level level)) →
      wrap_nettle_pk_verify_priv_params E algo
        (wrap_nettle_pk_generate_keys E algo level params ephemeral w).2.1 = 0) ∧
    (algo = GNUTLS_PK_RSA ∨ algo = GNUTLS_PK_RSA_PSS ∨ algo = GNUTLS_PK_RSA_OAEP →
      (∀ t e rf bits k, (E.rsa_generate_keypair t e rf bits).ret = 1 →
        k = (E.rsa_generate_keypair t e rf bits).out →
        1 < k.p ∧ 1 < k.q ∧ k.n = k.p * k.q ∧ k.c < k.p ∧ k.q * k.c % k.p = 1 ∧
          k.a = k.d % (k.p - 1) ∧ k.b = k.d % (k.q - 1)) →
      (∀ t e rf ss bits k, (E.rsa_generate_fips186_4_keypair t e rf ss bits).ret = 1 →
        k = (E.rsa_generate_fips186_4_keypair t e rf ss bits).out.1 →
        1 < k.p ∧ 1 < k.q ∧ k.n = k.p * k.q ∧ k.c < k.p ∧ k.q * k.c % k.p = 1 ∧
          k.a = k.d % (k.p - 1) ∧ k.b = k.d % (k.q - 1)) →
      (∀ e seed bits k, (E._rsa_generate_fips186_4_keypair e seed bits).1 = 1 →
        k = (E._rsa_generate_fips186_4_keypair e seed bits).2 →
        1 < k.p ∧ 1 < k.q ∧ k.n = k.p * k.q ∧ k.c < k.p ∧ k.q * k.c % k.p = 1 ∧
          k.a = k.d % (k.p - 1) ∧ k.b = k.d % (k.q - 1)) →
      wrap_nettle_pk_verify_priv_params E algo
        (wrap_nettle_pk_generate_keys E algo level params ephemeral w).2.1 = 0) ∧
    (algo = GNUTLS_PK_ECDSA →
      (∀ t c rf,
        E.ecc_point_set c (E.ecdsa_generate_keypair t c rf).out.1.1
            (E.ecdsa_generate_keypair t c rf).out.1.2 = true ∧
          E.ecc_scalar_set c (E.ecdsa_generate_keypair t c rf).out.2 = true ∧
          E.ecc_point_mul_g c (E.ecdsa_generate_keypair t c rf).out.2
            = (E.ecdsa_generate_keypair t c rf).out.1) →
      wrap_nettle_pk_verify_priv_params E algo
        (wrap_nettle_pk_generate_keys E algo level params ephemeral w).2.1 = 0) ∧
    (algo = GNUTLS_PK_GOST_01 ∨ algo = GNUTLS_PK_GOST_12_256 ∨ algo = GNUTLS_PK_GOST_12_512 →
      (∀ t c rf,
        E.gost_point_set c (E.gostdsa_generate_keypair t c rf).out.1.1
            (E.gostdsa_generate_keypair t c rf).out.1.2 = true ∧
          E.ecc_scalar_set c (E.gostdsa_generate_keypair t c rf).out.2 = true ∧
          E.gost_point_mul_g c (E.gostdsa_generate_keypair t c rf).out.2
            = (E.gostdsa_generate_keypair t c rf).out.1) →
      wrap_nettle_pk_verify_priv_params E algo
        (wrap_nettle_pk_generate_keys E algo level params ephemeral w).2.1 = 0) ∧
    (algo = GNUTLS_PK_DSA ∧ E.fips_mode_enabled = true →
      params.params_nr = 3 →
      (∀ t pub rf, (E.dsa_generate_dss_keypair t pub rf).ret = 1 →
        (E.dsa_generate_dss_keypair t pub rf).out.1
          = mpz_powm pub.g (E.dsa_generate_dss_keypair t pub rf).out.2 pub.p) →
      wrap_nettle_pk_verify_priv_params E algo
        (wrap_nettle_pk_generate_keys E algo level params ephemeral w).2.1 = 0) := by
  obtain ⟨b, hsw, hb, hout⟩ := generate_keys_success E algo level params ephemeral w hret
  rw [hout]
  refine ⟨?_, ?_, ?_, ?_, ?_, ?_, ?_, ?_⟩
  · cases algo
    case GNUTLS_PK_ECDSA =>
      have hc := generate_keys_ecdsa_count E level params _ w b hsw hb
      simp [wrap_nettle_pk_verify_pub_params, hc]
    case GNUTLS_PK_GOST_01 =>
      have hc := generate_keys_gost_count E _ level params w b hsw hb
      simp [wrap_nettle_pk_verify_pub_params, hc]
    case GNUTLS_PK_GOST_12_256 =>
      have hc := generate_keys_gost_count E _ level params w b hsw hb
      simp [wrap_nettle_pk_verify_pub_params, hc]
    case GNUTLS_PK_GOST_12_512 =>
      have hc := generate_keys_gost_count E _ level params w b hsw hb
      simp [wrap_nettle_pk_verify_pub_params, hc]
    all_goals simp [wrap_nettle_pk_verify_pub_params]
  · intro halgo
    rcases halgo with rfl | rfl | rfl | rfl | rfl
    · have h2 : generate_keys_switch E GNUTLS_PK_MLKEM768 level params ephemeral w
          = Flow.cleanup _ := rfl
      rw [hsw] at h2
      injection h2 with h3
      subst h3
      have := ml_kem_generate_keypair_exists E _ _ _ _ hb
      simp [wrap_nettle_pk_verify_priv_params, this]
    · have h2 : generate_keys_switch E GNUTLS_PK_MLKEM1024 level params ephemeral w
          = Flow.cleanup _ := rfl
      rw [hsw] at h2
      injection h2 with h3
      subst h3
      have := ml_kem_generate_keypair_exists E _ _ _ _ hb
      simp [wrap_nettle_pk_verify_priv_params, this]
    · have := generate_keys_mldsa_exists E _ params w b hsw hb
      simp [wrap_nettle_pk_verify_priv_params, this]
    · have := generate_keys_mldsa_exists E _ params w b hsw hb
      simp [wrap_nettle_pk_verify_priv_params, this]
    · have := generate_keys_mldsa_exists E _ params w b hsw hb
      simp [wrap_nettle_pk_verify_priv_params, this]
  · intro halgo hnr
    rcases halgo with rfl | ⟨rfl, hf⟩
    · have h2 : generate_keys_switch E GNUTLS_PK_DH level params ephemeral w
          = Flow.cleanup _ := rfl
      rw [hsw] at h2
      injection h2 with h3
      subst h3
      exact generate_keys_dh_valid E _ level params _ false w (Or.inl rfl) hnr hb
    · have h2 : generate_keys_switch E GNUTLS_PK_DSA level params ephemeral w
          = Flow.cleanup (generate_keys_dh E GNUTLS_PK_DSA level params
              (if ephemeral then RndFunc.rnd_tmpkey_func else RndFunc.rnd_key_func)
              false w) := by
        unfold generate_keys_switch
        simp [hf]
      rw [hsw] at h2
      injection h2 with h3
      subst h3
      exact generate_keys_dh_valid E _ level params _ false w (Or.inr rfl) hnr hb
  · intro halgo htab
    obtain ⟨e, he, hsz⟩ := htab
    rcases halgo with rfl | rfl | rfl | rfl
    · have h2 : generate_keys_switch E GNUTLS_PK_EDDSA_ED25519 level params ephemeral w
          = Flow.cleanup _ := rfl
      rw [hsw] at h2
      injection h2 with h3
      subst h3
      exact generate_keys_eddsa_valid E _ level params _ w e (by simpa using he) hsz hb
    · have h2 : generate_keys_switch E GNUTLS_PK_EDDSA_ED448 level params ephemeral w
          = Flow.cleanup _ := rfl
      rw [hsw] at h2
      injection h2 with h3
      subst h3
      exact generate_keys_eddsa_valid E _ level params _ w e (by simpa using he) hsz hb
    · have h2 : generate_keys_switch E GNUTLS_PK_ECDH_X25519 level params ephemeral w
          = Flow.cleanup _ := rfl
      rw [hsw] at h2
      injection h2 with h3
      subst h3
      exact generate_keys_ecdh_x_valid E _ level params _ w e (by simpa using he) hsz hb
    · have h2 : generate_keys_switch E GNUTLS_PK_ECDH_X448 level params ephemeral w
          = Flow.cleanup _ := rfl
      rw [hsw] at h2
      injection h2 with h3
      subst h3
      exact generate_keys_ecdh_x_valid E _ level params _ w e (by simpa using he) hsz hb
  · intro halgo hstd hgen hseed
    have h2 : generate_keys_switch E algo level params ephemeral w
        = Flow.cleanup (generate_keys_rsa E level params
            (if ephemeral then RndFunc.rnd_tmpkey_func else RndFunc.rnd_key_func) w) := by
      rcases halgo with rfl | rfl | rfl <;> rfl
    rw [hsw] at h2
    injection h2 with h3
    subst h3
    exact generate_keys_rsa_valid E algo level params _ w halgo
      (fun t e rf bits h => hstd t e rf bits _ h rfl)
      (fun t e rf ss bits h => hgen t e rf ss bits _ h rfl)
      (fun e seed bits h => hseed e seed bits _ h rfl) hb
  · intro halgo hec
    subst halgo
    obtain ⟨curve, t, rf, hc, hnr, hx, hy, hk⟩ :=
      generate_keys_ecdsa_out E level params _ w b hsw hb
    obtain ⟨q1, q2, q3⟩ := hec t curve rf
    exact verify_priv_params_ecdsa_consistent E { b.out with algo := GNUTLS_PK_ECDSA } curve
      _ _ _ hnr hc (by rw [get_with_algo]; exact hx) (by rw [get_with_algo]; exact hy)
      (by rw [get_with_algo]; exact hk) q1 q2 q3
  · intro halgo hgost
    have hg : ∃ a, generate_keys_switch E algo level params ephemeral w
        = generate_keys_gost E a level params w := by
      rcases halgo with rfl | rfl | rfl <;> exact ⟨_, rfl⟩
    obtain ⟨a, hg⟩ := hg
    rw [hsw] at hg
    obtain ⟨curve, t, rf, hc, hnr, hx, hy, hk⟩ :=
      generate_keys_gost_out E a level params w b hg.symm hb
    obtain ⟨q1, q2, q3⟩ := hgost t curve rf
    have h := verify_priv_params_gost_consistent E { b.out with algo := algo } curve
      _ _ _ hnr hc (by rw [get_with_algo]; exact hx) (by rw [get_with_algo]; exact hy)
      (by rw [get_with_algo]; exact hk) q1 q2 q3
    rcases halgo with rfl | rfl | rfl <;> exact h
  · rintro ⟨rfl, hf⟩ hnr hdsa
    have h2 : generate_keys_switch E GNUTLS_PK_DSA level params ephemeral w
        = Flow.cleanup (generate_keys_dsa_fips E params
            (if ephemeral then RndFunc.rnd_tmpkey_func else RndFunc.rnd_key_func) w) := by
      unfold generate_keys_switch
      simp [hf]
    rw [hsw] at h2
    injection h2 with h3
    subst h3
    exact generate_keys_dsa_fips_valid E params _ w hnr hdsa hb

/-- C18 (witness): an Ed25519 key and an RSA key generated in the sample
environment pass `verify_pub_params` and `verify_priv_params`. -/
theorem generate_keys_then_verify_witness :
    (wrap_nettle_pk_verify_pub_params sampleEnv GNUTLS_PK_EDDSA_ED25519
        (wrap_nettle_pk_generate_keys sampleEnv GNUTLS_PK_EDDSA_ED25519 7 {} false {}).2.1
        = 0 ∧
      wrap_nettle_pk_verify_priv_params sampleEnv GNUTLS_PK_EDDSA_ED25519
        (wrap_nettle_pk_generate_keys sampleEnv GNUTLS_PK_EDDSA_ED25519 7 {} false {}).2.1
        = 0) ∧
    (wrap_nettle_pk_verify_pub_params sampleEnv GNUTLS_PK_RSA
        (wrap_nettle_pk_generate_keys sampleEnv GNUTLS_PK_RSA 2048 {} false {}).2.1 = 0 ∧
      wrap_nettle_pk_verify_priv_params sampleEnv GNUTLS_PK_RSA
        (wrap_nettle_pk_generate_keys sampleEnv GNUTLS_PK_RSA 2048 {} false {}).2.1 = 0) :=
  ⟨⟨(generate_keys_then_verify sampleEnv GNUTLS_PK_EDDSA_ED25519 7 {} false {}
        (by decide)).1,
      (generate_keys_then_verify sampleEnv GNUTLS_PK_EDDSA_ED25519 7 {} false {}
        (by decide)).2.2.2.1 (Or.inl rfl) ⟨(32, 64), by decide, by decide⟩⟩,
    ⟨(generate_keys_then_verify sampleEnv GNUTLS_PK_RSA 2048 {} false {} (by decide)).1,
      (generate_keys_then_verify sampleEnv GNUTLS_PK_RSA 2048 {} false {}
        (by decide)).2.2.2.2.1 (Or.inl rfl)
        (by
          intro _ _ _ _ k _ hk
          subst hk
          exact (by decide : 1 < 61 ∧ 1 < 53 ∧ 3233 = 61 * 53 ∧ 38 < 61 ∧
            53 * 38 % 61 = 1 ∧ 53 = 413 % (61 - 1) ∧ 49 = 413 % (53 - 1)))
        (by
          intro _ _ _ _ _ k _ hk
          subst hk
          exact (by decide : 1 < 61 ∧ 1 < 53 ∧ 3233 = 61 * 53 ∧ 38 < 61 ∧
            53 * 38 % 61 = 1 ∧ 53 = 413 % (61 - 1) ∧ 49 = 413 % (53 - 1)))
        (by
          intro _ _ _ k _ hk
          subst hk
          exact (by decide : 1 < 61 ∧ 1 < 53 ∧ 3233 = 61 * 53 ∧ 38 < 61 ∧
            53 * 38 % 61 = 1 ∧ 53 = 413 % (61 - 1) ∧ 49 = 413 % (53 - 1)))⟩⟩

end GnutlsPk
